import Mathlib

/-! DART tasking scheduler (dart_tasking_pthreads.c): a sequential model

The scheduler state of one worker thread is an explicit record `Sched`.
Task records live in a heap `tasks : TaskPtr → dart_task_t`; the recycle list
and the allocation free-list are intrusive stacks threaded through the `next`
field, exactly as in the source.  Collaborators whose code is not part of the
translation unit (dependency subsystem, phase module, cancellation module,
remote progress) are taken as a parameter `Collab`.  Task bodies are the
parameter `FnTable`.  The scheduler is modelled in the build without
USE_UCONTEXT; of the build with USE_UCONTEXT only `requeue_task` and
`dart__tasking__yield` are modelled, with the context engine as a parameter.
The last part of the definitions models `SizeSpec` of Dimensional.h.
-/

namespace Dart

/-- Address of a `dart_task_t` record; a C pointer that may be NULL is `Option TaskPtr`. -/
abbrev TaskPtr := Nat

/-- Index of a task function `void (*fn)(void *)`. -/
abbrev FnPtr := Nat

/-- The element type of a dependency list (`dart_task_dep_t`), kept abstract. -/
abbrev dart_task_dep_t := Nat

/-- The type `dart_taskphase_t`, a C integer. -/
abbrev dart_taskphase_t := Int

/-- Return codes used by the tasking code and by mutex.h. -/
inductive dart_ret_t where
  | DART_OK
  | DART_PENDING
  | DART_ERR_INVAL
  | DART_ERR_OTHER
deriving DecidableEq, Repr

/-- The task states named in dart_tasking_pthreads.c. -/
inductive dart_task_state_t where
  | DART_TASK_ROOT
  | DART_TASK_NASCENT
  | DART_TASK_CREATED
  | DART_TASK_RUNNING
  | DART_TASK_SUSPENDED
  | DART_TASK_FINISHED
  | DART_TASK_DESTROYED
  | DART_TASK_CANCELLED
deriving DecidableEq, Repr

open dart_ret_t dart_task_state_t

/-- The fields of `dart_task_t` that dart_tasking_pthreads.c reads or writes.
`num_children` is the atomic `int32_t` counter (an `Int`; the counter is
bounded by the number of live records and stays inside the 32 bit range). -/
structure dart_task_t where
  next : Option TaskPtr
  prev : Option TaskPtr
  fn : Option FnPtr
  data : Option Nat
  data_size : Nat
  unresolved_deps : Int
  unresolved_remote_deps : Int
  successor : Option Nat
  parent : Option TaskPtr
  remote_successor : Option Nat
  local_deps : Option Nat
  num_children : Int
  state : dart_task_state_t
  phase : dart_taskphase_t
  has_ref : Bool
  prio : Int
  taskctx : Option Nat
  delay : Int
deriving DecidableEq, Repr

/-- Observable calls, recorded in program order (newest last).  The log is a
ghost field: no branch of the model reads it. -/
inductive Event where
  | alloc (t : TaskPtr)
  | reuse (t : TaskPtr)
  | inc_children (p : TaskPtr)
  | dec_children (p : TaskPtr)
  | attach (t : TaskPtr)
  | set_state (t : TaskPtr) (st : dart_task_state_t)
  | invoke (t : TaskPtr)
  | release_local (t : TaskPtr)
  | context_release (t : TaskPtr)
  | destroy (t : TaskPtr)
  | push_ready (t : TaskPtr)
  | push_deferred (t : TaskPtr)
  | pop_ready (t : TaskPtr)
  | cancel_task (t : TaskPtr)
  | pushback_ready (t : TaskPtr)
  | insert_ready (t : TaskPtr) (delay : Int)
  | set_runnable_phase (p : Int)
  | release_deferred
deriving DecidableEq, Repr

/-- Ways in which a run of the model stops without a result. -/
inductive Fault where
  | out_of_fuel
  | null_deref
  | assertion
deriving DecidableEq, Repr

/-- The file-scope variables of dart_tasking_pthreads.c together with the
thread-private data of the executing thread.  `D` is the private state of the
dependency subsystem. -/
structure Sched (D : Type) where
  tasks : TaskPtr → dart_task_t
  brk : Nat
  task_recycle_list : Option TaskPtr
  task_free_list : Option TaskPtr
  global_queue : List TaskPtr
  local_deferred_tasks : List TaskPtr
  current_task : TaskPtr
  thread_id : Int
  taskcntr : Nat
  num_threads : Int
  parallel : Bool
  initialized : Bool
  worker_poll_remote : Bool
  cancel_requested : Bool
  phase_current : dart_taskphase_t
  runnable_phase : dart_taskphase_t
  deps : D
  log : List Event

/-- Address of the static `root_task`. -/
def root_task : TaskPtr := 0

/-- The static initialiser of `root_task` (lines 55-67). -/
def root_task_init : dart_task_t :=
  { next := none, prev := none, fn := none, data := none, data_size := 0,
    unresolved_deps := 0, unresolved_remote_deps := 0, successor := none,
    parent := none, remote_successor := none, local_deps := none,
    num_children := 0, state := DART_TASK_ROOT, phase := 0, has_ref := false,
    prio := 0, taskctx := none, delay := 0 }

/-- Collaborators declared in headers whose code is outside the translation
unit.  The dependency subsystem works on its own state `D` and hands back the
tasks it wants released; the phase constants and the runnable test come from
the phase module; `cancel_task` and `check_cancellation` come from the
cancellation module. -/
structure Collab (D : Type) where
  DART_PHASE_ANY : dart_taskphase_t
  DART_PHASE_FIRST : dart_taskphase_t
  phase_is_runnable : dart_taskphase_t → dart_taskphase_t → Bool
  datadeps_handle_task : TaskPtr → List dart_task_dep_t → D → D
  datadeps_is_runnable : TaskPtr → D → Bool
  datadeps_release_local_task : TaskPtr → D → D × List TaskPtr
  datadeps_reset : TaskPtr → D → D
  datadeps_handle_defered_remote : D → D × List TaskPtr
  remote_progress : D → D × List TaskPtr
  remote_progress_blocking : D → D × List TaskPtr
  cancel_task : TaskPtr → Sched D → Sched D
  check_cancellation : Sched D → Sched D

/-- Result of a run that may stop on a fault. -/
abbrev Res (α : Type) := Except Fault α

/-- The type of `handle_task` as seen by code that calls it. -/
abbrev Handler (D : Type) := Option TaskPtr → Sched D → Res (Sched D)

/-- A task function: it receives the scheduler entry point it may call back
into and the `data` pointer, and ends either by returning (`false`) or through
`longjmp(task->cancel_return)` (`true`). -/
abbrev TaskFn (D : Type) := Handler D → Option Nat → Sched D → Res (Sched D × Bool)

/-- The task functions installed by the application. -/
abbrev FnTable (D : Type) := FnPtr → TaskFn D

variable {D : Type}

/-- Append an event to the log. -/
def Sched.emit (s : Sched D) (e : Event) : Sched D :=
  { s with log := s.log ++ [e] }

/-- Store one record in the heap. -/
def Sched.store (s : Sched D) (t : TaskPtr) (r : dart_task_t) : Sched D :=
  { s with tasks := Function.update s.tasks t r }

/-- The assignment `task->state = st`. -/
def Sched.set_state (s : Sched D) (t : TaskPtr) (st : dart_task_state_t) : Sched D :=
  (s.store t { s.tasks t with state := st }).emit (Event.set_state t st)

/-- Modelled from the spec: the process-wide cancellation flag read by
`dart__tasking__cancellation_requested`, whose code is not part of the file. -/
def dart__tasking__cancellation_requested (s : Sched D) : Bool :=
  s.cancel_requested

/-- Modelled from the spec: `dart__tasking__phase_current`, the phase in which
tasks are currently being created (code in the phase module). -/
def dart__tasking__phase_current (s : Sched D) : dart_taskphase_t :=
  s.phase_current

/-- Modelled from the spec: `DART_STACK_PUSH(head, elem)`, the intrusive push
used for the recycle list (macro defined in a header). -/
def DART_STACK_PUSH (tasks : TaskPtr → dart_task_t) (head : Option TaskPtr) (elem : TaskPtr) :
    (TaskPtr → dart_task_t) × Option TaskPtr :=
  (Function.update tasks elem { tasks elem with next := head }, some elem)

/-- Modelled from the spec: `DART_STACK_POP(head, elem)`, the intrusive pop
used for the free-list (macro defined in a header). -/
def DART_STACK_POP (tasks : TaskPtr → dart_task_t) (head : Option TaskPtr) :
    (TaskPtr → dart_task_t) × Option TaskPtr × Option TaskPtr :=
  match head with
  | none => (tasks, none, none)
  | some e => (Function.update tasks e { tasks e with next := none }, (tasks e).next, some e)

/-- Modelled from the spec: the Ready/Deferred Queue is a FIFO;
`dart_tasking_taskqueue_push` (code in dart_tasking_taskqueue.c) enqueues. -/
def dart_tasking_taskqueue_push (q : List TaskPtr) (t : TaskPtr) : List TaskPtr :=
  q ++ [t]

/-- Modelled from the spec: `dart_tasking_taskqueue_pop` dequeues in FIFO
order and yields no task on an empty queue. -/
def dart_tasking_taskqueue_pop (q : List TaskPtr) : Option TaskPtr × List TaskPtr :=
  match q with
  | [] => (none, [])
  | t :: rest => (some t, rest)

/-- Function `allocate_task` (lines 311-318): `malloc` hands out the next unused
address; the record content is whatever the heap holds there. -/
def allocate_task (s : Sched D) : TaskPtr × Sched D :=
  (s.brk, { s with brk := s.brk + 1, log := s.log ++ [Event.alloc s.brk] })

/-- Function `create_task` (lines 320-364). -/
def create_task (E : Collab D) (fn : Option FnPtr) (data : Option Nat) (data_size : Nat)
    (prio : Int) (s : Sched D) : TaskPtr × Sched D :=
  -- lines 327-336: in a sequential run the outer and the inner test of
  -- task_free_list agree, so the pop yields a record exactly when the list is
  -- non-empty
  let r0 : TaskPtr × Sched D :=
    match DART_STACK_POP s.tasks s.task_free_list with
    | (tasks1, head1, some e) =>
      (e, { s with tasks := tasks1, task_free_list := head1, log := s.log ++ [Event.reuse e] })
    | (_, _, none) => allocate_task s
  let task := r0.1
  let s1 := r0.2
  -- lines 338-349; the payload copy made for data_size > 0 has the content of
  -- `data` and is identified with it
  let rec1 : dart_task_t :=
    { s1.tasks task with
      data_size := (if data_size ≠ 0 then data_size else 0),
      data := data,
      fn := fn,
      num_children := 0,
      parent := some s1.current_task,
      state := DART_TASK_NASCENT }
  let tasks2 := Function.update s1.tasks task rec1
  -- lines 350-352: task->parent->state is read after the writes above
  let pstate := (tasks2 s1.current_task).state
  let rec2 : dart_task_t :=
    { rec1 with
      phase := (if pstate = DART_TASK_ROOT then dart__tasking__phase_current s1
                else E.DART_PHASE_ANY),
      has_ref := false,
      remote_successor := none,
      local_deps := none,
      prev := none,
      successor := none,
      prio := prio,
      taskctx := none,
      unresolved_deps := 0,
      unresolved_remote_deps := 0 }
  (task, { s1 with tasks := Function.update s1.tasks task rec2 })

/-- Function `dart__tasking__destroy_task` (lines 366-388). -/
def dart__tasking__destroy_task (E : Collab D) (task : TaskPtr) (s : Sched D) : Sched D :=
  let rec1 : dart_task_t :=
    { s.tasks task with
      data := none,
      data_size := 0,
      fn := none,
      parent := none,
      prev := none,
      remote_successor := none,
      successor := none,
      state := DART_TASK_DESTROYED,
      phase := E.DART_PHASE_ANY,
      has_ref := false }
  let tasks1 := Function.update s.tasks task rec1
  let deps1 := E.datadeps_reset task s.deps
  let pushed := DART_STACK_PUSH tasks1 s.task_recycle_list task
  { s with tasks := pushed.1, task_recycle_list := pushed.2, deps := deps1,
           log := s.log ++ [Event.destroy task] }

/-- The call `dart__tasking__cancel_task(task)`: the effect on the scheduler is
the collaborator's; the log only records that the call was made. -/
def dart__tasking__cancel_task (E : Collab D) (task : TaskPtr) (s : Sched D) : Sched D :=
  { E.cancel_task task s with log := s.log ++ [Event.cancel_task task] }

/-- The call `dart__tasking__check_cancellation(thread)`: the effect on the
scheduler is the collaborator's; the log is left as it was. -/
def dart__tasking__check_cancellation (E : Collab D) (s : Sched D) : Sched D :=
  { E.check_cancellation s with log := s.log }

/-- Function `dart__tasking__enqueue_runnable` (lines 620-643). -/
def dart__tasking__enqueue_runnable (E : Collab D) (task : TaskPtr) (s : Sched D) : Sched D :=
  if dart__tasking__cancellation_requested s then
    dart__tasking__cancel_task E task s
  else
    -- lines 628-638
    let r : Sched D × Bool :=
      if ¬ E.phase_is_runnable s.runnable_phase (s.tasks task).phase then
        if ¬ E.phase_is_runnable s.runnable_phase (s.tasks task).phase then
          ({ s with local_deferred_tasks := dart_tasking_taskqueue_push s.local_deferred_tasks task,
                    log := s.log ++ [Event.push_deferred task] }, true)
        else (s, false)
      else (s, false)
    -- lines 639-642
    if ¬ r.2 then
      { r.1 with global_queue := dart_tasking_taskqueue_push r.1.global_queue task,
                 log := r.1.log ++ [Event.push_ready task] }
    else r.1

/-- Lines 661-669 and 692-700, shared by both creation entry points: count the
child, attach the dependencies, mark the task CREATED, enqueue it when runnable. -/
def register_created_task (E : Collab D) (task : TaskPtr) (deps : List dart_task_dep_t)
    (s : Sched D) : Res (Sched D) :=
  match (s.tasks task).parent with
  | none => throw Fault.null_deref
  | some p =>
    let s1 := (s.store p { s.tasks p with num_children := (s.tasks p).num_children + 1 }).emit
      (Event.inc_children p)
    let s2 := { s1 with deps := E.datadeps_handle_task task deps s1.deps,
                        log := s1.log ++ [Event.attach task] }
    let s3 := s2.set_state task DART_TASK_CREATED
    if E.datadeps_is_runnable task s3.deps then
      pure (dart__tasking__enqueue_runnable E task s3)
    else pure s3

/-- Function `dart__tasking__create_task` (lines 645-672). -/
def dart__tasking__create_task (E : Collab D) (fn : Option FnPtr) (data : Option Nat)
    (data_size : Nat) (deps : List dart_task_dep_t) (prio : Int) (s : Sched D) :
    Res (dart_ret_t × Sched D) :=
  if dart__tasking__cancellation_requested s then
    pure (DART_OK, s)
  else do
    let c := create_task E fn data data_size prio s
    let s1 ← register_created_task E c.1 deps c.2
    pure (DART_OK, s1)

/-- Function `dart__tasking__create_task_handle` (lines 674-705).  The cell
`*ref` is passed in and handed back with the result. -/
def dart__tasking__create_task_handle (E : Collab D) (fn : Option FnPtr) (data : Option Nat)
    (data_size : Nat) (deps : List dart_task_dep_t) (prio : Int) (ref : Option TaskPtr)
    (s : Sched D) : Res (dart_ret_t × Option TaskPtr × Sched D) :=
  if dart__tasking__cancellation_requested s then
    pure (DART_OK, ref, s)
  else do
    let c := create_task E fn data data_size prio s
    let s0 := c.2.store c.1 { c.2.tasks c.1 with has_ref := true }
    let s1 ← register_created_task E c.1 deps s0
    pure (DART_OK, some c.1, s1)

/-- Release every task of a list through `dart__tasking__enqueue_runnable`, in order. -/
def enqueue_all (E : Collab D) (ts : List TaskPtr) (s : Sched D) : Sched D :=
  ts.foldl (fun acc t => dart__tasking__enqueue_runnable E t acc) s

/-- Modelled from the spec: `dart_tasking_remote_progress`, an opaque service
that advances the dependency subsystem and may release tasks. -/
def dart_tasking_remote_progress (E : Collab D) (s : Sched D) : Sched D :=
  let r := E.remote_progress s.deps
  enqueue_all E r.2 { s with deps := r.1 }

/-- Modelled from the spec: `dart_tasking_remote_progress_blocking`. -/
def dart_tasking_remote_progress_blocking (E : Collab D) (s : Sched D) : Sched D :=
  let r := E.remote_progress_blocking s.deps
  enqueue_all E r.2 { s with deps := r.1 }

/-- Modelled from the spec: `dart_tasking_datadeps_handle_defered_remote`. -/
def dart_tasking_datadeps_handle_defered_remote (E : Collab D) (s : Sched D) : Sched D :=
  let r := E.datadeps_handle_defered_remote s.deps
  enqueue_all E r.2 { s with deps := r.1 }

/-- Modelled from the spec: `dart_tasking_datadeps_handle_defered_local`
drains the Deferred Queue into the Ready Queue.  The call is recorded in the
log. -/
def dart_tasking_datadeps_handle_defered_local (s : Sched D) : Sched D :=
  { s with global_queue := s.global_queue ++ s.local_deferred_tasks,
           local_deferred_tasks := [],
           log := s.log ++ [Event.release_deferred] }

/-- Modelled from the spec: `dart_tasking_datadeps_release_local_task` asks the
dependency subsystem for the local successors that became runnable and
enqueues them. -/
def dart_tasking_datadeps_release_local_task (E : Collab D) (task : TaskPtr) (s : Sched D) :
    Sched D :=
  let r := E.datadeps_release_local_task task s.deps
  enqueue_all E r.2 ({ s with deps := r.1 }.emit (Event.release_local task))

/-- Modelled from the spec: `dart__tasking__phase_set_runnable` moves the
runnable-phase cursor.  The call is recorded in the log. -/
def dart__tasking__phase_set_runnable (p : dart_taskphase_t) (s : Sched D) : Sched D :=
  { s with runnable_phase := p, log := s.log ++ [Event.set_runnable_phase p] }

/-- Function `next_task` (lines 282-309; the stealing code is compiled out). -/
def next_task (s : Sched D) : Option TaskPtr × Sched D :=
  if dart__tasking__cancellation_requested s then (none, s)
  else
    match dart_tasking_taskqueue_pop s.global_queue with
    | (some t, rest) => (some t, { s with global_queue := rest, log := s.log ++ [Event.pop_ready t] })
    | (none, _) => (none, s)

/-- Function `invoke_taskfn` (lines 87-100). -/
def invoke_taskfn (F : FnTable D) (ht : Handler D) (task : TaskPtr) (s : Sched D) :
    Res (Sched D) :=
  match (s.tasks task).fn with
  | none => throw Fault.assertion
  | some f => do
    let r ← F f ht (s.tasks task).data (s.emit (Event.invoke task))
    if r.2 then
      -- we got here through longjmp, the task is cancelled
      pure (r.1.set_state task DART_TASK_CANCELLED)
    else pure r.1

/-- Function `invoke_task` (lines 219-227, the build without USE_UCONTEXT). -/
def invoke_task (F : FnTable D) (ht : Handler D) (task : TaskPtr) (s : Sched D) :
    Res (Sched D) :=
  invoke_taskfn F ht task { s with current_task := task }

/-- Function `dart__tasking__perform_matching` (lines 708-722). -/
def dart__tasking__perform_matching (E : Collab D) (phase : dart_taskphase_t) (s : Sched D) :
    Sched D :=
  let s1 := dart_tasking_remote_progress_blocking E s
  let s2 := dart_tasking_datadeps_handle_defered_remote E s1
  let s3 := dart__tasking__phase_set_runnable phase s2
  let s4 := dart_tasking_datadeps_handle_defered_local s3
  { s4 with worker_poll_remote := true }

/-- The loop of `dart__tasking__task_complete` (lines 751-759), with the
number of iterations bounded by the first argument. -/
def task_complete_wait (E : Collab D) (ht : Handler D) : Nat → TaskPtr → Sched D → Res (Sched D)
  | 0, task, s =>
    if 0 < (s.tasks task).num_children then throw Fault.out_of_fuel else pure s
  | n + 1, task, s =>
    if 0 < (s.tasks task).num_children then do
      let s1 := dart_tasking_remote_progress E s
      let s2 := dart__tasking__check_cancellation E s1
      let nt := next_task s2
      let s3 ← ht nt.1 nt.2
      task_complete_wait E ht n task s3
    else pure s

/-- Lines 766-782 of `dart__tasking__task_complete`: the clean-up after the
wait loop. -/
def task_complete_cleanup (E : Collab D) (s : Sched D) : Sched D :=
  let s1 : Sched D :=
    if s.current_task = root_task then
      -- recycled tasks can now be used again
      let s2 : Sched D :=
        match s.task_free_list with
        | none => { s with task_free_list := s.task_recycle_list }
        | some h => s.store h { s.tasks h with next := s.task_recycle_list }
      let s3 : Sched D := { s2 with task_recycle_list := none }
      let s4 := dart__tasking__phase_set_runnable E.DART_PHASE_FIRST s3
      { s4 with worker_poll_remote := false }
    else s
  { s1 with deps := E.datadeps_reset s1.current_task s1.deps }

/-- Function `dart__tasking__task_complete` (lines 725-786). -/
def dart__tasking__task_complete (E : Collab D) (ht : Handler D) (n : Nat) (s : Sched D) :
    Res (dart_ret_t × Sched D) :=
  if ¬ (s.current_task ≠ root_task ∨ s.thread_id = 0) then throw Fault.assertion
  else do
    let s1 := if s.current_task = root_task then
                dart__tasking__perform_matching E E.DART_PHASE_ANY s
              else s
    let task := s1.current_task
    let s2 ← task_complete_wait E ht n task s1
    let s3 := dart__tasking__check_cancellation E s2
    pure (DART_OK, task_complete_cleanup E s3)

/-- Lines 400-414 of `handle_task`: mark the task RUNNING, invoke it, wait for
its children. -/
def handle_task_run (E : Collab D) (F : FnTable D) (ht : Handler D) (n : Nat) (task : TaskPtr)
    (s : Sched D) : Res (Sched D) := do
  let s1 := s.set_state task DART_TASK_RUNNING
  let s2 ← invoke_task F ht task s1
  if ¬ dart__tasking__cancellation_requested s2 then
    let r ← dart__tasking__task_complete E ht n s2
    pure r.2
  else pure s2

/-- Lines 417-419 of `handle_task`: re-read the current task and release its
local successors. -/
def handle_task_release (E : Collab D) (s : Sched D) : TaskPtr × Sched D :=
  (s.current_task, dart_tasking_datadeps_release_local_task E s.current_task s)

/-- Line 422 of `handle_task`: let the parent know that we are done. -/
def handle_task_notify_parent (task : TaskPtr) (s : Sched D) : Res (Sched D) :=
  match (s.tasks task).parent with
  | none => throw Fault.null_deref
  | some p =>
    pure ((s.store p { s.tasks p with num_children := (s.tasks p).num_children - 1 }).emit
      (Event.dec_children p))

/-- Lines 425-447 of `handle_task`: release the context, mark the task
FINISHED, destroy it unless it is referenced, return to the previous task. -/
def handle_task_retire (E : Collab D) (current_task task : TaskPtr) (s : Sched D) : Sched D :=
  let s1 := (s.store task { s.tasks task with taskctx := none }).emit (Event.context_release task)
  let has_ref := (s1.tasks task).has_ref
  let s2 := s1.set_state task DART_TASK_FINISHED
  let s3 := if ¬ has_ref then dart__tasking__destroy_task E task s2 else s2
  { s3 with current_task := current_task, taskcntr := s3.taskcntr + 1 }

/-- Lines 417-447 of `handle_task`: everything after the implicit wait. -/
def handle_task_finish (E : Collab D) (current_task : TaskPtr) (s : Sched D) : Res (Sched D) := do
  let r := handle_task_release E s
  let s1 ← handle_task_notify_parent r.1 r.2
  pure (handle_task_retire E current_task r.1 s1)

/-- Function `handle_task` (lines 393-449).  The first argument bounds the
nesting depth of task execution and the length of each wait loop. -/
def handle_task (E : Collab D) (F : FnTable D) : Nat → Handler D
  | _, none, s => pure s
  | 0, some _, _ => throw Fault.out_of_fuel
  | n + 1, some task, s => do
    let current_task := s.current_task
    let s1 ← handle_task_run E F (handle_task E F n) n task s
    handle_task_finish E current_task s1

/-! ## A concrete configuration used to evaluate the model -/

/-- A dependency subsystem in which every task is runnable at once and nothing
is ever released later; the phase test is the one of the phase module
(any-phase tasks and phases up to the cursor are runnable). -/
def demoCollab : Collab Unit :=
  { DART_PHASE_ANY := -1,
    DART_PHASE_FIRST := 0,
    phase_is_runnable := fun cursor p => decide (p = -1 ∨ cursor = -1 ∨ p ≤ cursor),
    datadeps_handle_task := fun _ _ d => d,
    datadeps_is_runnable := fun _ _ => true,
    datadeps_release_local_task := fun _ d => (d, []),
    datadeps_reset := fun _ d => d,
    datadeps_handle_defered_remote := fun d => (d, []),
    remote_progress := fun d => (d, []),
    remote_progress_blocking := fun d => (d, []),
    cancel_task := fun t s => s.store t { s.tasks t with state := DART_TASK_CANCELLED },
    check_cancellation := fun s => s }

/-- A record as `malloc` may return it before `create_task` fills it in. -/
def blank_task : dart_task_t :=
  { root_task_init with state := DART_TASK_DESTROYED }

/-- A record as the worker leaves it when a referenced task has finished. -/
def finished_task : dart_task_t :=
  { root_task_init with state := DART_TASK_FINISHED, has_ref := true }

/-- The scheduler right after `dart__tasking__init` on a pool of `n` threads:
only the root task exists and it is the current task. -/
def initial_sched (n : Int) : Sched Unit :=
  { tasks := fun t => if t = root_task then root_task_init else blank_task,
    brk := 1,
    task_recycle_list := none,
    task_free_list := none,
    global_queue := [],
    local_deferred_tasks := [],
    current_task := root_task,
    thread_id := 0,
    taskcntr := 0,
    num_threads := n,
    parallel := true,
    initialized := true,
    worker_poll_remote := false,
    cancel_requested := false,
    phase_current := 0,
    runnable_phase := 0,
    deps := (),
    log := [] }

/-- Task functions of the demo application: function 0 returns at once,
function 1 is left through the cancellation `longjmp`, function 2 creates one
child running function 0 and returns. -/
def demoFns : FnTable Unit := fun f _ _ s =>
  match f with
  | 0 => pure (s, false)
  | 1 => pure ({ s with cancel_requested := true }, true)
  | _ =>
    match dart__tasking__create_task demoCollab (some 0) none 0 [] 0 s with
    | Except.ok r => pure (r.2, false)
    | Except.error e => throw e

/-- Project the final state out of a result, falling back to the given state. -/
def Res.state (r : Res (Sched D)) (dflt : Sched D) : Sched D :=
  match r with
  | Except.ok s => s
  | Except.error _ => dflt

/-- The scheduler of `initial_sched` after cancellation has been requested. -/
def cancelled_sched : Sched Unit :=
  { initial_sched 2 with cancel_requested := true }

/-- The records reached from `head` along `next`, at most `k` of them: the
content of an intrusive stack (recycle list, free-list). -/
def stack_members (tasks : TaskPtr → dart_task_t) : Nat → Option TaskPtr → List TaskPtr
  | 0, _ => []
  | _ + 1, none => []
  | k + 1, some h => h :: stack_members tasks k (tasks h).next

/-- Events that releasing successors can add to the log. -/
def Event.is_release_effect : Event → Bool
  | Event.push_ready _ => true
  | Event.push_deferred _ => true
  | Event.cancel_task _ => true
  | _ => false

/-- The state in which `invoke_taskfn` is entered by `handle_task`: the task is
RUNNING (line 405) and is the current task (line 223). -/
def running_entry (task : TaskPtr) (s : Sched D) : Sched D :=
  { s.set_state task DART_TASK_RUNNING with current_task := task }

/-- The state right after line 422 of `handle_task` for a task whose parent is `p`. -/
def notified (p : TaskPtr) (r : Sched D) : Sched D :=
  (r.store p { r.tasks p with num_children := (r.tasks p).num_children - 1 }).emit
    (Event.dec_children p)

/-- The initial scheduler after the root task has created one task running
function `f` (with a handle when `ref` is set) and a worker has popped it. -/
def demo_popped (f : FnPtr) (ref : Bool) : Sched Unit :=
  let created : Res (Sched Unit) :=
    if ref then
      (dart__tasking__create_task_handle demoCollab (some f) none 0 [] 0 none
        (initial_sched 2)).map (fun r => r.2.2)
    else
      (dart__tasking__create_task demoCollab (some f) none 0 [] 0 (initial_sched 2)).map
        (fun r => r.2)
  (next_task (Res.state created (initial_sched 2))).2

/-- The demo scheduler when control is back at line 417 of `handle_task` for task 1. -/
def demo_ran (f : FnPtr) (ref : Bool) : Sched Unit :=
  Res.state (handle_task_run demoCollab demoFns (handle_task demoCollab demoFns 2) 2 1
    (demo_popped f ref)) (demo_popped f ref)

/-- The demo scheduler at the moment task 1, running function 1, is unwound by
the cancellation `longjmp`. -/
def demo_unwound : Sched Unit :=
  { (running_entry 1 (demo_popped 1 true)).emit (Event.invoke 1) with cancel_requested := true }

/-- One step of the scheduler's own code outside `dart__tasking__task_wait`,
`dart__tasking__task_test` and `dart__tasking__taskref_free` (and outside the
collaborators): task creation, enqueueing, popping, and the steps of
`handle_task` and `dart__tasking__task_complete` that follow the task body. -/
inductive worker_step (E : Collab D) : Sched D → Sched D → Prop where
  | create (fn : Option FnPtr) (data : Option Nat) (data_size : Nat)
      (deps : List dart_task_dep_t) (prio : Int) (s s' : Sched D) :
      dart__tasking__create_task E fn data data_size deps prio s = Except.ok (DART_OK, s') →
      worker_step E s s'
  | create_handle (fn : Option FnPtr) (data : Option Nat) (data_size : Nat)
      (deps : List dart_task_dep_t) (prio : Int) (ref ref' : Option TaskPtr) (s s' : Sched D) :
      dart__tasking__create_task_handle E fn data data_size deps prio ref s
        = Except.ok (DART_OK, ref', s') →
      worker_step E s s'
  | enqueue (task : TaskPtr) (s : Sched D) :
      s.cancel_requested = false →
      worker_step E s (dart__tasking__enqueue_runnable E task s)
  | pop (s : Sched D) : worker_step E s (next_task s).2
  | mark_running (task : TaskPtr) (s : Sched D) :
      worker_step E s (s.set_state task DART_TASK_RUNNING)
  | notify (task : TaskPtr) (s s' : Sched D) :
      handle_task_notify_parent task s = Except.ok s' → worker_step E s s'
  | retire (cur task : TaskPtr) (s : Sched D) :
      worker_step E s (handle_task_retire E cur task s)
  | cleanup (s : Sched D) : worker_step E s (task_complete_cleanup E s)

/-- The root task of the demo application creates `k` tasks running function 0. -/
def demo_spawn : Nat → Sched Unit → Res (Sched Unit)
  | 0, s => pure s
  | k + 1, s => do
    let r ← dart__tasking__create_task demoCollab (some 0) none 0 [] 0 s
    demo_spawn k r.2

/-- One parallel phase of the demo application: the root task creates `k`
tasks and calls `dart__tasking__task_complete`. -/
def demo_phase (k : Nat) (s : Sched Unit) : Res (Sched Unit) := do
  let s1 ← demo_spawn k s
  let r ← dart__tasking__task_complete demoCollab (handle_task demoCollab demoFns 3) 5 s1
  pure r.2

/-- The demo scheduler after a first phase with three tasks. -/
def demo_after_phase1 : Sched Unit :=
  Res.state (demo_phase 3 (initial_sched 1)) (initial_sched 1)

/-- The demo scheduler in the second phase after the root task has created one task. -/
def demo_phase2_spawned : Sched Unit :=
  Res.state (demo_spawn 1 demo_after_phase1) demo_after_phase1

/-- The demo scheduler in the second phase when the wait loop of
`dart__tasking__task_complete` has ended (line 764 done, line 766 next). -/
def demo_phase2_waited : Sched Unit :=
  dart__tasking__check_cancellation demoCollab
    (Res.state
      (task_complete_wait demoCollab (handle_task demoCollab demoFns 3) 5 root_task
        (dart__tasking__perform_matching demoCollab demoCollab.DART_PHASE_ANY
          demo_phase2_spawned))
      demo_phase2_spawned)

/-- The list `l` is the content of the intrusive stack that starts at `head`. -/
def is_stack (tasks : TaskPtr → dart_task_t) : Option TaskPtr → List TaskPtr → Prop
  | none, [] => True
  | some h, x :: l => h = x ∧ is_stack tasks (tasks x).next l
  | none, _ :: _ => False
  | some _, [] => False

/-- The free-list is well formed: a duplicate-free stack of allocated records
in state DESTROYED. -/
def pool_wf (s : Sched D) : Prop :=
  ∃ F : List TaskPtr, is_stack s.tasks s.task_free_list F ∧ F.Nodup
    ∧ ∀ x ∈ F, (s.tasks x).state = DART_TASK_DESTROYED ∧ x < s.brk

/-- The operations that can touch the record pool, other than
`dart__tasking__task_complete` on the root task: the two creation entry
points, `dart__tasking__destroy_task` (whoever calls it), the clean-up of
`dart__tasking__task_complete` (lines 766-782) on a non-root task, and any
other assignment to the fields of a live record (state changes of
`handle_task`, counters, `has_ref`, queue links). -/
inductive PoolOp where
  | create (fn : Option FnPtr) (data : Option Nat) (data_size : Nat)
      (deps : List dart_task_dep_t) (prio : Int)
  | create_handle (fn : Option FnPtr) (data : Option Nat) (data_size : Nat)
      (deps : List dart_task_dep_t) (prio : Int)
  | destroy (t : TaskPtr)
  | cleanup
  | write (t : TaskPtr) (r : dart_task_t)

/-- Run one pool operation; the second component is the record a creation
call handed out (none when the call created nothing). -/
def pool_step (E : Collab D) (op : PoolOp) (s : Sched D) : Res (Sched D × Option TaskPtr) :=
  match op with
  | PoolOp.create fn data data_size deps prio => do
    let r ← dart__tasking__create_task E fn data data_size deps prio s
    pure (r.2, if dart__tasking__cancellation_requested s then none
               else some (create_task E fn data data_size prio s).1)
  | PoolOp.create_handle fn data data_size deps prio => do
    let r ← dart__tasking__create_task_handle E fn data data_size deps prio none s
    pure (r.2.2, r.2.1)
  | PoolOp.destroy t => pure (dart__tasking__destroy_task E t s, none)
  | PoolOp.cleanup => pure (task_complete_cleanup E s, none)
  | PoolOp.write t r => pure (s.store t r, none)

/-- The record an operation destroys. -/
def PoolOp.destroyed : PoolOp → List TaskPtr
  | PoolOp.destroy t => [t]
  | _ => []

/-- What each operation needs from the state it runs in: a record is destroyed
only while allocated and not yet DESTROYED, the clean-up runs on a non-root
current task, and the other assignments go to a record that is not DESTROYED
and do not assign DESTROYED (only `dart__tasking__destroy_task` does). -/
def PoolOp.pre (op : PoolOp) (s : Sched D) : Prop :=
  match op with
  | PoolOp.destroy t => (s.tasks t).state ≠ DART_TASK_DESTROYED ∧ t < s.brk
  | PoolOp.cleanup => s.current_task ≠ root_task
  | PoolOp.write t r => (s.tasks t).state ≠ DART_TASK_DESTROYED ∧ r.state ≠ DART_TASK_DESTROYED
  | _ => True

/-- Every operation of the sequence runs in a state that meets its needs. -/
def pool_admissible (E : Collab D) : List PoolOp → Sched D → Prop
  | [], _ => True
  | op :: ops, s =>
    op.pre s ∧
      match pool_step E op s with
      | Except.ok r => pool_admissible E ops r.1
      | Except.error _ => True

/-- Every operation of the sequence returns, and no creation call hands out a
record of `dead` or a record destroyed earlier in the sequence. -/
def pool_safe (E : Collab D) : List PoolOp → Sched D → List TaskPtr → Prop
  | [], _, _ => True
  | op :: ops, s, dead =>
    match pool_step E op s with
    | Except.ok r => (∀ t, r.2 = some t → t ∉ dead) ∧ pool_safe E ops r.1 (dead ++ op.destroyed)
    | Except.error _ => False

/-- The invariant kept by the pool operations: the free-list is well formed
and disjoint from the records destroyed so far, all of which are allocated. -/
def pool_inv (s : Sched D) (dead : List TaskPtr) : Prop :=
  ∃ F : List TaskPtr, is_stack s.tasks s.task_free_list F ∧ F.Nodup
    ∧ (∀ x ∈ F, (s.tasks x).state = DART_TASK_DESTROYED ∧ x < s.brk)
    ∧ (∀ d ∈ dead, d ∉ F ∧ d < s.brk)

/-! ## Explicit wait, test and free-reference calls

A parameter `tr : Option (Option TaskPtr)` stands for the C argument
`dart_taskref_t *tr`: `none` is a null pointer, `some h` a pointer to a cell
that holds the handle `h` (`none` for DART_TASK_NULL).  The functions hand back
the content of that cell.  In the same way `flag : Option Int` stands for
`int *flag`. -/

/-- The loop of `dart__tasking__task_wait` (lines 827-838), with the number of
iterations bounded by the first argument. -/
def task_wait_loop (E : Collab D) (ht : Handler D) : Nat → TaskPtr → Sched D → Res (Sched D)
  | 0, reftask, s =>
    if (s.tasks reftask).state ≠ DART_TASK_FINISHED then throw Fault.out_of_fuel else pure s
  | n + 1, reftask, s =>
    if (s.tasks reftask).state ≠ DART_TASK_FINISHED then do
      let s1 := dart_tasking_remote_progress E s
      let nt := next_task s1
      let s2 ← ht nt.1 nt.2
      task_wait_loop E ht n reftask s2
    else pure s

/-- Function `dart__tasking__task_wait` (lines 813-848). -/
def dart__tasking__task_wait (E : Collab D) (ht : Handler D) (n : Nat)
    (tr : Option (Option TaskPtr)) (s : Sched D) :
    Res (dart_ret_t × Option (Option TaskPtr) × Sched D) :=
  match tr with
  | none => pure (DART_ERR_INVAL, none, s)
  | some none => pure (DART_ERR_INVAL, some none, s)
  | some (some reftask) =>
    if (s.tasks reftask).state = DART_TASK_DESTROYED then
      pure (DART_ERR_INVAL, some (some reftask), s)
    else do
      let s1 ← task_wait_loop E ht n reftask s
      -- finally we have to destroy the task
      let s2 := s1.store reftask { s1.tasks reftask with has_ref := false }
      let s3 := dart__tasking__destroy_task E reftask s2
      pure (DART_OK, some none, s3)

/-- Function `dart__tasking__task_test` (lines 850-886). -/
def dart__tasking__task_test (E : Collab D) (ht : Handler D) (tr : Option (Option TaskPtr))
    (flag : Option Int) (s : Sched D) :
    Res (dart_ret_t × Option (Option TaskPtr) × Option Int × Sched D) :=
  match flag with
  | none => pure (DART_ERR_INVAL, tr, none, s)
  | some _ =>
    -- line 856: *flag = 0
    match tr with
    | none => pure (DART_ERR_INVAL, none, some 0, s)
    | some none => pure (DART_ERR_INVAL, some none, some 0, s)
    | some (some reftask) =>
      if (s.tasks reftask).state = DART_TASK_DESTROYED then
        pure (DART_ERR_INVAL, some (some reftask), some 0, s)
      else do
        let state := (s.tasks reftask).state
        -- if this is the only available thread we have to execute at least one task
        let r : dart_task_state_t × Sched D ←
          if s.num_threads = 1 ∧ state ≠ DART_TASK_FINISHED then do
            let s1 := dart_tasking_remote_progress E s
            let nt := next_task s1
            let s2 ← ht nt.1 nt.2
            -- check if this was our task
            pure ((s2.tasks reftask).state, s2)
          else pure (state, s)
        if r.1 = DART_TASK_FINISHED then
          pure (DART_OK, some none, some 1, dart__tasking__destroy_task E reftask r.2)
        else pure (DART_OK, some (some reftask), some 0, r.2)

/-- Function `dart__tasking__taskref_free` (lines 788-811). -/
def dart__tasking__taskref_free (E : Collab D) (tr : Option (Option TaskPtr)) (s : Sched D) :
    dart_ret_t × Option (Option TaskPtr) × Sched D :=
  match tr with
  | none => (DART_ERR_INVAL, none, s)
  | some none => (DART_ERR_INVAL, some none, s)
  | some (some t) =>
    if (s.tasks t).state = DART_TASK_FINISHED ∧ (s.tasks t).has_ref = true then
      (DART_OK, some none, dart__tasking__destroy_task E t s)
    else
      -- the task is unfinished, just mark it as free'able
      (DART_OK, some (some t), s.store t { s.tasks t with has_ref := false })

/-- The demo scheduler on a pool of `threads` threads after the root task has
created one task running function `f` with a handle; the first component is
the handle written to `*ref`. -/
def demo_handle (threads : Int) (f : FnPtr) : Option TaskPtr × Sched Unit :=
  match dart__tasking__create_task_handle demoCollab (some f) none 0 [] 0 none
      (initial_sched threads) with
  | Except.ok r => (r.2.1, r.2.2)
  | Except.error _ => (none, initial_sched threads)

/-- Task functions of a second demo application: function 3 creates one child
running function 0, then requests cancellation and is unwound by the
cancellation `longjmp`; every other function is the one of `demoFns`. -/
def cancelFns : FnTable Unit := fun f ht data s =>
  match f with
  | 3 =>
    match dart__tasking__create_task demoCollab (some 0) none 0 [] 0 s with
    | Except.ok r => pure ({ r.2 with cancel_requested := true }, true)
    | Except.error e => throw e
  | _ => demoFns f ht data s

/-- The demo scheduler after a worker has run task 1, created with a handle:
the task is FINISHED and still referenced. -/
def demo_finished : Sched Unit :=
  Res.state (handle_task demoCollab demoFns 3 (some 1) (demo_popped 0 true)) (demo_popped 0 true)

/-- The final state of a wait, test or free-reference call, falling back to
the given state when the call stopped on a fault. -/
def Res.final {α β : Type} (r : Res (α × β × Sched D)) (dflt : Sched D) : Sched D :=
  match r with
  | Except.ok x => x.2.2
  | Except.error _ => dflt

/-- The demo scheduler after `dart__tasking__task_wait` on the handle of task 1,
whose function (function 2) creates one child. -/
def demo_waited : Sched Unit :=
  Res.final (dart__tasking__task_wait demoCollab (handle_task demoCollab demoFns 3) 3
    (some (demo_handle 2 2).1) (demo_handle 2 2).2) (demo_handle 2 2).2

/-- The second demo application after `dart__tasking__task_wait` on the handle
of task 1, whose function (function 3) creates one child and is then
cancelled. -/
def demo_waited_cancelled : Sched Unit :=
  Res.final (dart__tasking__task_wait demoCollab (handle_task demoCollab cancelFns 3) 3
    (some (demo_handle 2 3).1) (demo_handle 2 3).2) (demo_handle 2 3).2

/-- The demo scheduler on a single-thread pool after the phase has been
advanced to 1 and the root task has created one task with a handle: the task
belongs to phase 1, which is not runnable, and sits in the Deferred Queue. -/
def demo_deferred : Option TaskPtr × Sched Unit :=
  match dart__tasking__create_task_handle demoCollab (some 0) none 0 [] 0 none
      { initial_sched 1 with phase_current := 1 } with
  | Except.ok r => (r.2.1, r.2.2)
  | Except.error _ => (none, initial_sched 1)

/-- The event is the invocation of a task function. -/
def Event.is_invoke : Event → Bool
  | Event.invoke _ => true
  | _ => false

/-- The event is a pop from the Ready Queue. -/
def Event.is_pop : Event → Bool
  | Event.pop_ready _ => true
  | _ => false

/-- The demo scheduler on a single-thread pool after `dart__tasking__task_test`
on the handle of the task that was just created. -/
def demo_tested : Sched Unit :=
  match dart__tasking__task_test demoCollab (handle_task demoCollab demoFns 3)
      (some (demo_handle 1 0).1) (some 7) (demo_handle 1 0).2 with
  | Except.ok r => r.2.2.2
  | Except.error _ => (demo_handle 1 0).2

/-- The single-thread demo scheduler when the run phase of `handle_task` for
the tested task 1 has returned (line 417). -/
def demo_test_ran : Sched Unit :=
  Res.state
    (handle_task_run demoCollab demoFns (handle_task demoCollab demoFns 2) 2 1
      (next_task (dart_tasking_remote_progress demoCollab (demo_handle 1 0).2)).2)
    (demo_handle 1 0).2

/-! ## Start-up, shutdown and cooperative yield -/

/-- What `dart__tasking__init` reads from outside the scheduler: the result of
`dart__base__env__number(DART_NUMTHREADS_ENVSTR)` (-1 when no thread count is
configured), the fields `num_cores` and `max_threads` filled in by
`dart_hwinfo`, and the result of `dart__base__env__bool` for the affinity
switch. -/
structure Platform where
  env_numthreads : Int
  hw_num_cores : Int
  hw_max_threads : Int
  env_thread_affinity : Bool

/-- The value of a C `int` expression: the mathematical result reduced to the
32 bit two's complement range. -/
def wrap_int32 (x : Int) : Int :=
  (x + 2147483648) % 4294967296 - 2147483648

/-- Function `determine_num_threads` (lines 240-262). -/
def determine_num_threads (P : Platform) : Int :=
  let n0 : Int := P.env_numthreads
  let n1 : Int :=
    if n0 = -1 then
      -- query hwinfo
      if P.hw_num_cores > 0 then
        let n := wrap_int32 (P.hw_num_cores * (if P.hw_max_threads > 0 then P.hw_max_threads else 1))
        if n ≤ 0 then -1 else n
      else n0
    else n0
  if n1 = -1 then 2 else n1

/-- Modelled from the spec: `dart_tasking_taskqueue_init` sets up an empty queue. -/
def dart_tasking_taskqueue_init : List TaskPtr := []

/-- Modelled from the spec: `dart_tasking_taskqueue_finalize` tears the queue
down; no task remains queued. -/
def dart_tasking_taskqueue_finalize (_q : List TaskPtr) : List TaskPtr := []

/-- Function `dart__tasking__init` (lines 564-605).  `datadeps_init` is the
effect of `dart_tasking_datadeps_init` on the dependency subsystem.  The
worker threads started by `init_threadpool` and the affinity switch are
outside the state of the executing thread; the calling thread becomes thread 0
(`dart_thread_init`, lines 451-467) with the root task as its current task. -/
def dart__tasking__init (P : Platform) (datadeps_init : D → D) (s : Sched D) :
    dart_ret_t × Sched D :=
  if s.initialized then
    (DART_ERR_INVAL, s)
  else
    (DART_OK,
      { s with
        num_threads := determine_num_threads P,
        global_queue := dart_tasking_taskqueue_init,
        parallel := true,
        deps := datadeps_init s.deps,
        thread_id := 0,
        taskcntr := 0,
        current_task := root_task,
        initialized := true })

/-- Function `free_tasklist` (lines 950-960), with the number of iterations
bounded by the first argument: every record of the list gets `next = NULL`
before it is freed. -/
def free_tasklist : Nat → (TaskPtr → dart_task_t) → Option TaskPtr → Res (TaskPtr → dart_task_t)
  | _, tasks, none => pure tasks
  | 0, _, some _ => throw Fault.out_of_fuel
  | n + 1, tasks, some t =>
    free_tasklist n (Function.update tasks t { tasks t with next := none }) (tasks t).next

/-- Function `dart__tasking__fini` (lines 962-990).  `datadeps_fini` is the
effect of `dart_tasking_datadeps_fini`; `n` bounds the loops of
`free_tasklist`. -/
def dart__tasking__fini (datadeps_fini : D → D) (n : Nat) (s : Sched D) :
    Res (dart_ret_t × Sched D) :=
  if ¬ s.initialized then
    pure (DART_ERR_INVAL, s)
  else do
    let tasks1 ← free_tasklist n s.tasks s.task_recycle_list
    let tasks2 ← free_tasklist n tasks1 s.task_free_list
    pure (DART_OK,
      { s with
        tasks := tasks2,
        task_recycle_list := none,
        task_free_list := none,
        -- stop_threads
        parallel := false,
        deps := datadeps_fini s.deps,
        global_queue := dart_tasking_taskqueue_finalize s.global_queue,
        initialized := false })

/-- Modelled from the spec: `dart_tasking_taskqueue_pushback` re-enqueues at
the tail (lowest priority). -/
def dart_tasking_taskqueue_pushback (q : List TaskPtr) (t : TaskPtr) : List TaskPtr :=
  q ++ [t]

/-- Modelled from the spec: `dart_tasking_taskqueue_insert` inserts the task
behind the first `pos` entries of the queue (at the tail of a shorter queue). -/
def dart_tasking_taskqueue_insert (q : List TaskPtr) (t : TaskPtr) (pos : Int) : List TaskPtr :=
  q.take pos.toNat ++ t :: q.drop pos.toNat

/-- Function `requeue_task` (lines 104-116, the build with USE_UCONTEXT). -/
def requeue_task (task : TaskPtr) (s : Sched D) : Sched D :=
  let delay := (s.tasks task).delay
  if delay = 0 then
    { s with global_queue := dart_tasking_taskqueue_push s.global_queue task,
             log := s.log ++ [Event.push_ready task] }
  else if delay > 0 then
    { s with global_queue := dart_tasking_taskqueue_insert s.global_queue task delay,
             log := s.log ++ [Event.insert_ready task delay] }
  else
    { s with global_queue := dart_tasking_taskqueue_pushback s.global_queue task,
             log := s.log ++ [Event.pushback_ready task] }

/-- Function `dart__tasking__yield` (lines 203-216, the build without
USE_UCONTEXT).  The first component is the value returned; it is `none` when
the call is left through `dart__tasking__abort_current_task`, the cancellation
`longjmp`, and so returns nothing. -/
def dart__tasking__yield (E : Collab D) (_delay : Int) (s : Sched D) :
    Option dart_ret_t × Sched D :=
  -- progress
  let s1 := dart_tasking_remote_progress E s
  -- check for abort
  if dart__tasking__cancellation_requested s1 then (none, s1)
  else (some DART_OK, s1)

/-- A platform with four cores of two hardware threads and no configured
thread count. -/
def demoPlatform : Platform :=
  { env_numthreads := -1, hw_num_cores := 4, hw_max_threads := 2, env_thread_affinity := false }

/-- The demo scheduler with tasks 4 and 5 queued and task 1 suspended with the
given delay. -/
def demo_suspended (delay : Int) : Sched Unit :=
  { (initial_sched 2).store 1
      { blank_task with state := DART_TASK_SUSPENDED, delay := delay } with
    global_queue := [4, 5] }

/-- The demo collaborators with a remote-progress service that releases task 1
on every poll. -/
def pollCollab : Collab Unit :=
  { demoCollab with remote_progress := fun d => (d, [1]) }

/-- The part of one iteration of the work loop of `thread_main` (lines 503-509)
that precedes `next_task`: check for cancellation, poll for remote messages
when polling is enabled. -/
def thread_main_poll (E : Collab D) (s : Sched D) : Sched D :=
  let s1 := dart__tasking__check_cancellation E s
  if s1.worker_poll_remote then dart_tasking_remote_progress E s1 else s1

/-- One iteration of the work loop of `thread_main` (lines 503-511). -/
def thread_main_iteration (E : Collab D) (ht : Handler D) (s : Sched D) : Res (Sched D) :=
  let s2 := thread_main_poll E s
  -- process the next task
  let nt := next_task s2
  ht nt.1 nt.2

/-- The demo scheduler with cancellation requested while tasks 4 and 5 are queued. -/
def demo_cancelled_queue : Sched Unit :=
  { demo_suspended 0 with cancel_requested := true }

/-- The state of `dart__tasking__create_task` and
`dart__tasking__create_task_handle` right after `task->state = DART_TASK_CREATED`
(lines 667 and 696) for a task whose parent is `p`: the child is counted and
the dependency list is attached. -/
def created_entry (E : Collab D) (task p : TaskPtr) (deps : List dart_task_dep_t)
    (s : Sched D) : Sched D :=
  let s1 := (s.store p { s.tasks p with num_children := (s.tasks p).num_children + 1 }).emit
    (Event.inc_children p)
  let s2 := { s1 with deps := E.datadeps_handle_task task deps s1.deps,
                      log := s1.log ++ [Event.attach task] }
  s2.set_state task DART_TASK_CREATED

/-- The event is a push onto the Ready Queue or the Deferred Queue. -/
def Event.is_push : Event → Bool
  | Event.push_ready _ => true
  | Event.push_deferred _ => true
  | _ => false

/-- A dependency subsystem that holds every task back: no task is runnable at
creation. -/
def holdCollab : Collab Unit :=
  { demoCollab with datadeps_is_runnable := fun _ _ => false }

/-- The demo scheduler with task 1 FINISHED and task 2 the head of the recycle
list. -/
def demo_recycled : Sched Unit :=
  { ((initial_sched 2).store 1
      { finished_task with
        fn := some 0,
        data := some 9,
        data_size := 4,
        parent := some 0,
        prev := some 3,
        successor := some 3,
        remote_successor := some 3,
        phase := 5 }) with
    brk := 3,
    task_recycle_list := some 2 }

/-! ## Dimensional.h: `Dimensional` and `SizeSpec`

The classes are templates over the number of dimensions; the element type of
`SizeSpec` is `long long` and its `_size` member is a `size_t` (64 bit). -/

/-- Exceptions raised through DASH_THROW in Dimensional.h. -/
inductive DashException where
  | OutOfBounds
  | InvalidArgument
deriving DecidableEq, Repr

/-- The value of a conversion to `long long`: the mathematical value reduced
to the 64 bit two's complement range. -/
def to_long_long (x : Int) : Int :=
  (x + 9223372036854775808) % 18446744073709551616 - 9223372036854775808

/-- The value of a `size_t` expression: the mathematical value reduced modulo
2^64. -/
def to_size_t (x : Int) : Nat :=
  (x % 18446744073709551616).toNat

/-- Class `Dimensional<long long, NumDimensions>` (lines 21-102): the member
array `_values`.  The field `arity` is the `static_assert` of the constructor:
one value for every dimension. -/
structure Dimensional (NumDimensions : Nat) where
  _values : List Int
  arity : _values.length = NumDimensions

/-- The constructor `Dimensional(Values ... values)` (lines 36-42):
`_values { T(values)... }`. -/
def Dimensional.construct (NumDimensions : Nat) (values : List Int)
    (h : values.length = NumDimensions) : Dimensional NumDimensions :=
  { _values := values.map to_long_long, arity := by simp [h] }

/-- Method `Dimensional::dim` (lines 59-67). -/
def Dimensional.dim {NumDimensions : Nat} (self : Dimensional NumDimensions) (dimension : Nat) :
    Except DashException Int :=
  if dimension ≥ NumDimensions then throw DashException.OutOfBounds
  else pure (self._values.getD dimension 0)

/-- Class `SizeSpec<NumDimensions>` (lines 169-228): the base object and the
member `_size`. -/
structure SizeSpec (NumDimensions : Nat) where
  base : Dimensional NumDimensions
  _size : Nat

/-- The loop of the `SizeSpec` constructor (lines 184-186), entered with
counter `d` and `k` iterations to go: `_size *= this->dim(d)` in `size_t`
arithmetic. -/
def SizeSpec.size_loop {NumDimensions : Nat} (self : Dimensional NumDimensions) :
    Nat → Nat → Nat → Except DashException Nat
  | 0, _, size => pure size
  | k + 1, d, size => do
    let v ← self.dim d
    SizeSpec.size_loop self k (d + 1) (to_size_t ((size : Int) * v))

/-- The constructor `SizeSpec(Values ... values)` (lines 181-193). -/
def SizeSpec.construct (NumDimensions : Nat) (values : List Int)
    (h : values.length = NumDimensions) : Except DashException (SizeSpec NumDimensions) := do
  let self : Dimensional NumDimensions := Dimensional.construct NumDimensions values h
  let size ← SizeSpec.size_loop self NumDimensions 0 1
  if size = 0 then throw DashException.InvalidArgument
  else pure { base := self, _size := size }

/-- Method `SizeSpec::extent` (lines 201-203). -/
def SizeSpec.extent {NumDimensions : Nat} (self : SizeSpec NumDimensions) (dimension : Nat) :
    Except DashException Int :=
  self.base.dim dimension

/-- Method `SizeSpec::size` (lines 215-217). -/
def SizeSpec.size {NumDimensions : Nat} (self : SizeSpec NumDimensions) : Nat :=
  self._size

/-- The outcome of constructing a `SizeSpec` and asking for its size. -/
def SizeSpec.constructed_size (NumDimensions : Nat) (values : List Int)
    (h : values.length = NumDimensions) : Except DashException Nat :=
  (SizeSpec.construct NumDimensions values h).map SizeSpec.size

/-- The event is a decrement of a `num_children` counter. -/
def Event.is_dec : Event → Bool
  | Event.dec_children _ => true
  | _ => false

/-- The state in which the wait loop of `dart__tasking__task_complete` is
entered (line 751): after the matching round when the current task is the root
task (lines 735-737). -/
def task_complete_entry (E : Collab D) (s : Sched D) : Sched D :=
  if s.current_task = root_task then dart__tasking__perform_matching E E.DART_PHASE_ANY s else s

/-- The record holds no live task: it is DESTROYED and has neither a function
nor a parent (as `dart__tasking__destroy_task` leaves it). -/
def dart_task_t.is_dead (r : dart_task_t) : Prop :=
  r.state = DART_TASK_DESTROYED ∧ r.fn = none ∧ r.parent = none

/-- The invariant of the record pool and of the root task: the recycle list
and the free-list are intrusive stacks that share no record and repeat none,
their records are allocated, every record on them and every address not yet
handed out by `malloc` holds no live task, the root task is in state ROOT with
the null function and parent of its initialiser, and the root task was never
passed to `dart__tasking__destroy_task`. -/
def sched_inv (s : Sched D) : Prop :=
  ∃ R Fl : List TaskPtr,
    is_stack s.tasks s.task_recycle_list R
    ∧ is_stack s.tasks s.task_free_list Fl
    ∧ (R ++ Fl).Nodup
    ∧ (∀ x ∈ R ++ Fl, x < s.brk)
    ∧ (∀ x, (x ∈ R ++ Fl ∨ s.brk ≤ x) → (s.tasks x).is_dead)
    ∧ (s.tasks root_task).state = DART_TASK_ROOT
    ∧ (s.tasks root_task).fn = none
    ∧ (s.tasks root_task).parent = none
    ∧ Event.destroy root_task ∉ s.log

/-- What the invariant needs from the task handler passed to a function. -/
def handler_ok (ht : Handler D) : Prop :=
  ∀ t (q q' : Sched D), sched_inv q → ht t q = Except.ok q' → sched_inv q'

/-- What the invariant needs from the cancellation module: its two entry
points keep the invariant. -/
def collab_ok (E : Collab D) : Prop :=
  (∀ t (q : Sched D), sched_inv q → sched_inv (E.cancel_task t q))
  ∧ (∀ q : Sched D, sched_inv q → sched_inv (E.check_cancellation q))

/-- What the invariant needs from the task functions: run with a handler that
keeps the invariant, a function keeps it, and a function that is unwound by
the cancellation `longjmp` has not had its own record destroyed. -/
def fn_ok (F : FnTable D) : Prop :=
  ∀ f (ht : Handler D) data (q qb : Sched D) (j : Bool),
    handler_ok ht → sched_inv q → F f ht data q = Except.ok (qb, j) →
    sched_inv qb
    ∧ (j = true → ¬ (q.tasks q.current_task).is_dead → ¬ (qb.tasks q.current_task).is_dead)

/-- One public operation of the scheduler, or one step of a worker: task
creation, the barrier, wait, test and free on any handle, yield, an iteration
of the work loop of `thread_main`, and `handle_task` on any task. -/
inductive public_step (E : Collab D) (F : FnTable D) : Sched D → Sched D → Prop where
  | create (fn : Option FnPtr) (data : Option Nat) (data_size : Nat)
      (deps : List dart_task_dep_t) (prio : Int) (r : dart_ret_t) (s s' : Sched D) :
      dart__tasking__create_task E fn data data_size deps prio s = Except.ok (r, s') →
      public_step E F s s'
  | create_handle (fn : Option FnPtr) (data : Option Nat) (data_size : Nat)
      (deps : List dart_task_dep_t) (prio : Int) (ref ref' : Option TaskPtr) (r : dart_ret_t)
      (s s' : Sched D) :
      dart__tasking__create_task_handle E fn data data_size deps prio ref s
        = Except.ok (r, ref', s') →
      public_step E F s s'
  | complete (n k : Nat) (r : dart_ret_t) (s s' : Sched D) :
      dart__tasking__task_complete E (handle_task E F n) k s = Except.ok (r, s') →
      public_step E F s s'
  | wait (n k : Nat) (tr tr' : Option (Option TaskPtr)) (r : dart_ret_t) (s s' : Sched D) :
      dart__tasking__task_wait E (handle_task E F n) k tr s = Except.ok (r, tr', s') →
      public_step E F s s'
  | test (n : Nat) (tr tr' : Option (Option TaskPtr)) (fl fl' : Option Int) (r : dart_ret_t)
      (s s' : Sched D) :
      dart__tasking__task_test E (handle_task E F n) tr fl s = Except.ok (r, tr', fl', s') →
      public_step E F s s'
  | free (tr : Option (Option TaskPtr)) (s : Sched D) :
      public_step E F s (dart__tasking__taskref_free E tr s).2.2
  | yield (delay : Int) (s : Sched D) :
      public_step E F s (dart__tasking__yield E delay s).2
  | work (n : Nat) (s s' : Sched D) :
      thread_main_iteration E (handle_task E F n) s = Except.ok s' →
      public_step E F s s'
  | handle (n : Nat) (t : Option TaskPtr) (s s' : Sched D) :
      handle_task E F n t s = Except.ok s' →
      public_step E F s s'

/-- The demo collaborators with a cancellation module that leaves the
scheduler state alone. -/
def quietCollab : Collab Unit :=
  { demoCollab with cancel_task := fun _ s => s }

/-- Function `dart__tasking__current_task` (lines 888-892): the handle of the
task the calling thread is executing. -/
def dart__tasking__current_task (s : Sched D) : TaskPtr :=
  s.current_task

/-- The demo scheduler after a worker iteration has executed task 1, created
with a handle. -/
def demo_worked : Sched Unit :=
  Res.state (thread_main_iteration quietCollab (handle_task quietCollab demoFns 3)
    (demo_handle 2 0).2) (demo_handle 2 0).2

/-- The demo scheduler after the root task has then waited on the handle of
task 1. -/
def demo_worked_waited : Sched Unit :=
  Res.final (dart__tasking__task_wait quietCollab (handle_task quietCollab demoFns 3) 3
    (some (some 1)) demo_worked) demo_worked

/-- The state in which `dart__tasking__yield` of the build with USE_UCONTEXT
calls `invoke_task(next, thread)` (line 184): the delay is stored in the
current task, the current task is marked SUSPENDED and the replacement task
RUNNING (lines 172-181). -/
def yield_switch_state (next : TaskPtr) (delay : Int) (s : Sched D) : Sched D :=
  let current_task := s.current_task
  let s2 := s.store current_task { s.tasks current_task with delay := delay }
  let s3 := s2.set_state current_task DART_TASK_SUSPENDED
  s3.set_state next DART_TASK_RUNNING

/-- Lines 186-195 of `dart__tasking__yield` of the build with USE_UCONTEXT:
control is back in the yielding task `current_task`; the previous task is
requeued if it is SUSPENDED, the yielding task is marked RUNNING and made the
current task again. -/
def yield_resume (current_task : TaskPtr) (s : Sched D) : Sched D :=
  let prev_task := s.current_task
  let s6 := if (s.tasks prev_task).state = DART_TASK_SUSPENDED then requeue_task prev_task s
            else s
  let s7 := s6.set_state current_task DART_TASK_RUNNING
  { s7 with current_task := current_task }

/-- Function `dart__tasking__yield` (lines 158-200, the build with
USE_UCONTEXT).  The parameter `invoke` stands for the call
`invoke_task(next, thread)` of line 184, which leaves the yielding task through
the context engine: its result is the scheduler state at the moment control is
back in the yielding task.  The first component of the result is `none` when
the call is left through `dart__tasking__abort_current_task`. -/
def dart__tasking__yield_ucontext (E : Collab D) (invoke : TaskPtr → Sched D → Res (Sched D))
    (delay : Int) (s : Sched D) : Res (Option dart_ret_t × Sched D) :=
  -- progress
  let s1 := dart_tasking_remote_progress E s
  if dart__tasking__cancellation_requested s1 then pure (none, s1)
  else
    -- first get a replacement task
    let nt := next_task s1
    match nt.1 with
    | none => pure (some DART_OK, nt.2)
    | some next => do
      -- save the current task
      let current_task := nt.2.current_task
      -- here we leave this task
      let s5 ← invoke next (yield_switch_state next delay nt.2)
      pure (some DART_OK, yield_resume current_task s5)

/-- The state of `handle_task` right after line 435: the context of the task
is released (line 425) and the task is marked FINISHED. -/
def finished_entry (task : TaskPtr) (s : Sched D) : Sched D :=
  ((s.store task { s.tasks task with taskctx := none }).emit
    (Event.context_release task)).set_state task DART_TASK_FINISHED

/-- The demo scheduler after `handle_task` has processed task 1, created with a
handle, whose function 1 is left through the cancellation `longjmp`. -/
def demo_unwound_finished : Sched Unit :=
  Res.state (handle_task demoCollab demoFns 3 (some 1) (demo_popped 1 true)) (demo_popped 1 true)

/-! ## Task creation -/

/-- The record that `create_task` hands out: the head of the free-list, or a
fresh allocation when the free-list is empty. -/
theorem create_task_fst (E : Collab D) (fn : Option FnPtr) (data : Option Nat) (data_size : Nat)
    (prio : Int) (s : Sched D) :
    (create_task E fn data data_size prio s).1 = s.task_free_list.getD s.brk := by
  unfold create_task DART_STACK_POP allocate_task
  cases h : s.task_free_list <;> simp

/-- Fields of the scheduler that `create_task` leaves alone. -/
theorem create_task_frame (E : Collab D) (fn : Option FnPtr) (data : Option Nat) (data_size : Nat)
    (prio : Int) (s : Sched D) :
    (create_task E fn data data_size prio s).2.current_task = s.current_task
    ∧ (create_task E fn data data_size prio s).2.cancel_requested = s.cancel_requested
    ∧ (create_task E fn data data_size prio s).2.global_queue = s.global_queue
    ∧ (create_task E fn data data_size prio s).2.local_deferred_tasks = s.local_deferred_tasks
    ∧ (create_task E fn data data_size prio s).2.task_recycle_list = s.task_recycle_list
    ∧ (create_task E fn data data_size prio s).2.phase_current = s.phase_current := by
  unfold create_task DART_STACK_POP allocate_task
  cases h : s.task_free_list <;> simp

/-- Only the record handed out is written by `create_task`. -/
theorem create_task_other (E : Collab D) (fn : Option FnPtr) (data : Option Nat) (data_size : Nat)
    (prio : Int) (s : Sched D) (x : TaskPtr) (hx : x ≠ (create_task E fn data data_size prio s).1) :
    (create_task E fn data data_size prio s).2.tasks x = s.tasks x := by
  rw [create_task_fst] at hx
  unfold create_task DART_STACK_POP allocate_task
  cases h : s.task_free_list <;> simp [h] at hx ⊢
  · simp [Function.update, hx]
  · simp [Function.update, hx]

/-- The fields of the new record after `create_task`. -/
theorem create_task_new (E : Collab D) (fn : Option FnPtr) (data : Option Nat) (data_size : Nat)
    (prio : Int) (s : Sched D) :
    ((create_task E fn data data_size prio s).2.tasks
        (create_task E fn data data_size prio s).1).parent = some s.current_task
    ∧ ((create_task E fn data data_size prio s).2.tasks
        (create_task E fn data data_size prio s).1).num_children = 0
    ∧ ((create_task E fn data data_size prio s).2.tasks
        (create_task E fn data data_size prio s).1).state = DART_TASK_NASCENT
    ∧ ((create_task E fn data data_size prio s).2.tasks
        (create_task E fn data data_size prio s).1).has_ref = false
    ∧ ((create_task E fn data data_size prio s).2.tasks
        (create_task E fn data data_size prio s).1).phase =
        (if (create_task E fn data data_size prio s).1 ≠ s.current_task
            ∧ (s.tasks s.current_task).state = DART_TASK_ROOT
         then s.phase_current else E.DART_PHASE_ANY) := by
  unfold create_task DART_STACK_POP allocate_task
  cases h : s.task_free_list with
  | none =>
    by_cases hc : s.current_task = s.brk
    · simp [Function.update, hc, dart__tasking__phase_current]
    · have hc2 : ¬ s.brk = s.current_task := fun h2 => hc h2.symm
      simp [Function.update, hc, hc2, dart__tasking__phase_current]
  | some e =>
    by_cases hc : s.current_task = e
    · simp [Function.update, hc, dart__tasking__phase_current]
    · have hc2 : ¬ e = s.current_task := fun h2 => hc h2.symm
      simp [Function.update, hc, hc2, dart__tasking__phase_current]

/-- Effect of the registration step when cancellation is not requested. -/
theorem register_created_task_ok (E : Collab D) (task p : TaskPtr) (deps : List dart_task_dep_t)
    (s : Sched D) (hc : s.cancel_requested = false) (hp : (s.tasks task).parent = some p) :
    ∃ s2, register_created_task E task deps s = Except.ok s2
      ∧ s2.tasks = Function.update
          (Function.update s.tasks p { s.tasks p with num_children := (s.tasks p).num_children + 1 })
          task { (Function.update s.tasks p
                    { s.tasks p with num_children := (s.tasks p).num_children + 1 }) task with
                 state := DART_TASK_CREATED }
      ∧ s2.current_task = s.current_task ∧ s2.brk = s.brk
      ∧ s2.task_free_list = s.task_free_list ∧ s2.task_recycle_list = s.task_recycle_list
      ∧ s2.cancel_requested = s.cancel_requested := by
  unfold register_created_task
  simp only [hp]
  by_cases hr : E.datadeps_is_runnable task
      (E.datadeps_handle_task task deps s.deps) = true
  · simp [Sched.set_state, Sched.store, Sched.emit, hr, dart__tasking__enqueue_runnable,
      dart__tasking__cancellation_requested, hc, pure, Except.pure]
    split <;> simp
  · simp [Sched.set_state, Sched.store, Sched.emit, hr, pure, Except.pure]


/-- Effect of the registration step, field by field. -/
theorem register_created_task_fields (E : Collab D) (task p : TaskPtr)
    (deps : List dart_task_dep_t) (s : Sched D) (hc : s.cancel_requested = false)
    (hp : (s.tasks task).parent = some p) :
    ∃ s2, register_created_task E task deps s = Except.ok s2
      ∧ (∀ x, s2.tasks x = { s.tasks x with
            num_children := (if x = p then (s.tasks x).num_children + 1
                             else (s.tasks x).num_children),
            state := (if x = task then DART_TASK_CREATED else (s.tasks x).state) })
      ∧ s2.current_task = s.current_task ∧ s2.brk = s.brk
      ∧ s2.task_free_list = s.task_free_list ∧ s2.task_recycle_list = s.task_recycle_list
      ∧ s2.cancel_requested = s.cancel_requested := by
  obtain ⟨s2, h, ht, hrest⟩ := register_created_task_ok E task p deps s hc hp
  refine ⟨s2, h, ?_, hrest⟩
  intro x
  rw [ht]
  by_cases h1 : x = task <;> by_cases h2 : x = p
  · subst h1; subst h2; simp [Function.update]
  · subst h1; simp [Function.update, h2]
  · subst h2; simp [Function.update, h1]
  · simp [Function.update, h1, h2]

/-- Under cancellation both creation entry points hand back what they received. -/
theorem create_cancelled (E : Collab D) (s : Sched D)
    (hc : s.cancel_requested = true) (fn : Option FnPtr) (data : Option Nat) (data_size : Nat)
    (deps : List dart_task_dep_t) (prio : Int) (ref : Option TaskPtr) :
    dart__tasking__create_task E fn data data_size deps prio s = Except.ok (DART_OK, s)
    ∧ dart__tasking__create_task_handle E fn data data_size deps prio ref s
        = Except.ok (DART_OK, ref, s) := by
  simp [dart__tasking__create_task, dart__tasking__create_task_handle,
    dart__tasking__cancellation_requested, hc, pure, Except.pure]

/-- Both creation entry points, field by field, when cancellation is not
requested: the heap after the call is the heap after `create_task` (with
`has_ref` set for the handle variant) with the parent counted and the new
task marked CREATED. -/
theorem create_public_fields (E : Collab D) (fn : Option FnPtr) (data : Option Nat)
    (data_size : Nat) (deps : List dart_task_dep_t) (prio : Int) (ref : Option TaskPtr)
    (s : Sched D) (hc : s.cancel_requested = false) :
    ∃ s1 s2,
      dart__tasking__create_task E fn data data_size deps prio s = Except.ok (DART_OK, s1)
      ∧ dart__tasking__create_task_handle E fn data data_size deps prio ref s
          = Except.ok (DART_OK, some (create_task E fn data data_size prio s).1, s2)
      ∧ (∀ x, s1.tasks x = { (create_task E fn data data_size prio s).2.tasks x with
            num_children := (if x = s.current_task
              then ((create_task E fn data data_size prio s).2.tasks x).num_children + 1
              else ((create_task E fn data data_size prio s).2.tasks x).num_children),
            state := (if x = (create_task E fn data data_size prio s).1 then DART_TASK_CREATED
              else ((create_task E fn data data_size prio s).2.tasks x).state) })
      ∧ (∀ x, s2.tasks x = { (create_task E fn data data_size prio s).2.tasks x with
            num_children := (if x = s.current_task
              then ((create_task E fn data data_size prio s).2.tasks x).num_children + 1
              else ((create_task E fn data data_size prio s).2.tasks x).num_children),
            state := (if x = (create_task E fn data data_size prio s).1 then DART_TASK_CREATED
              else ((create_task E fn data data_size prio s).2.tasks x).state),
            has_ref := (if x = (create_task E fn data data_size prio s).1 then true
              else ((create_task E fn data data_size prio s).2.tasks x).has_ref) })
      ∧ s1.task_free_list = (create_task E fn data data_size prio s).2.task_free_list
      ∧ s2.task_free_list = (create_task E fn data data_size prio s).2.task_free_list
      ∧ s1.task_recycle_list = s.task_recycle_list
      ∧ s2.task_recycle_list = s.task_recycle_list
      ∧ s1.brk = (create_task E fn data data_size prio s).2.brk
      ∧ s2.brk = (create_task E fn data data_size prio s).2.brk
      ∧ s1.current_task = s.current_task ∧ s2.current_task = s.current_task
      ∧ s1.cancel_requested = false ∧ s2.cancel_requested = false := by
  obtain ⟨hpar, -⟩ := create_task_new E fn data data_size prio s
  obtain ⟨hcur, hcr, -, -, hrl, -⟩ := create_task_frame E fn data data_size prio s
  generalize hcdef : create_task E fn data data_size prio s = c at *
  obtain ⟨s1, h1, ht1, hc1, hb1, hf1, hr1, hx1⟩ :=
    register_created_task_fields E c.1 s.current_task deps c.2 (by rw [hcr]; exact hc) hpar
  obtain ⟨s2, h2, ht2, hc2, hb2, hf2, hr2, hx2⟩ :=
    register_created_task_fields E c.1 s.current_task deps
      (c.2.store c.1 { c.2.tasks c.1 with has_ref := true })
      (by simp [Sched.store]; rw [hcr]; exact hc) (by simp [Sched.store, hpar])
  refine ⟨s1, s2, ?_, ?_, ht1, ?_, hf1, hf2, by rw [hr1, hrl], ?_, hb1, hb2,
    by rw [hc1, hcur], ?_, by rw [hx1, hcr, hc], ?_⟩
  · simp [dart__tasking__create_task, dart__tasking__cancellation_requested, hc, hcdef, h1,
      bind, Except.bind, pure, Except.pure]
  · simp [dart__tasking__create_task_handle, dart__tasking__cancellation_requested, hc, hcdef, h2,
      bind, Except.bind, pure, Except.pure]
  · intro x
    rw [ht2 x]
    by_cases hx : x = c.1
    · subst hx; simp [Sched.store, Function.update]
    · simp [Sched.store, Function.update, hx]
  · rw [hr2]; simp [Sched.store, hrl]
  · rw [hc2]; simp [Sched.store, hcur]
  · rw [hx2]; simp [Sched.store, hcr, hc]

/-- A current task that is allocated and not on the free-list is never the
record handed out by `create_task`. -/
theorem new_ne_current (E : Collab D) (fn : Option FnPtr) (data : Option Nat) (data_size : Nat)
    (prio : Int) (s : Sched D) (hfree : s.task_free_list ≠ some s.current_task)
    (hbrk : s.current_task < s.brk) :
    (create_task E fn data data_size prio s).1 ≠ s.current_task := by
  rw [create_task_fst]
  cases h : s.task_free_list with
  | none =>
    simp only [Option.getD_none]
    exact fun h2 => absurd hbrk (by rw [h2]; exact lt_irrefl _)
  | some e =>
    simp
    intro h2
    exact hfree (by rw [h, h2])

/-- C1: once cancellation has been requested, `dart__tasking__create_task` and
`dart__tasking__create_task_handle` return DART_OK for every argument tuple and
hand back the scheduler state and the cell `*ref` exactly as they received
them: no record is allocated or popped, no counter changes, nothing is queued. -/
theorem C1_create_is_noop_when_cancelled (E : Collab D) (s : Sched D)
    (hc : s.cancel_requested = true) (fn : Option FnPtr) (data : Option Nat) (data_size : Nat)
    (deps : List dart_task_dep_t) (prio : Int) (ref : Option TaskPtr) :
    dart__tasking__create_task E fn data data_size deps prio s = Except.ok (DART_OK, s)
    ∧ dart__tasking__create_task_handle E fn data data_size deps prio ref s
        = Except.ok (DART_OK, ref, s) := by
  simp [dart__tasking__create_task, dart__tasking__create_task_handle,
    dart__tasking__cancellation_requested, hc, pure, Except.pure]

/-- C1 at a concrete scheduler with the cancellation flag set. -/
theorem C1_create_is_noop_when_cancelled_witness :
    cancelled_sched.cancel_requested = true
    ∧ dart__tasking__create_task demoCollab (some 0) (some 7) 4 [3] 1 cancelled_sched
        = Except.ok (DART_OK, cancelled_sched)
    ∧ dart__tasking__create_task_handle demoCollab (some 0) (some 7) 4 [3] 1 (some 5)
        cancelled_sched = Except.ok (DART_OK, some 5, cancelled_sched) :=
  ⟨rfl, C1_create_is_noop_when_cancelled demoCollab cancelled_sched rfl (some 0) (some 7) 4 [3] 1
    (some 5)⟩

/-- C2: when cancellation is not requested and the caller's current task is a
live record (allocated, not on the free-list), both creation entry points
succeed, the new task's parent is the caller's current task, that parent's
`num_children` grows by exactly one, and the new task's own `num_children` is 0. -/
theorem C2_create_counts_child (E : Collab D) (s : Sched D) (fn : Option FnPtr)
    (data : Option Nat) (data_size : Nat) (deps : List dart_task_dep_t) (prio : Int)
    (ref : Option TaskPtr)
    (hc : s.cancel_requested = false)
    (hfree : s.task_free_list ≠ some s.current_task)
    (hbrk : s.current_task < s.brk) :
    ∃ s1 s2,
      dart__tasking__create_task E fn data data_size deps prio s = Except.ok (DART_OK, s1)
      ∧ dart__tasking__create_task_handle E fn data data_size deps prio ref s
          = Except.ok (DART_OK, some (create_task E fn data data_size prio s).1, s2)
      ∧ (s1.tasks (create_task E fn data data_size prio s).1).parent = some s.current_task
      ∧ (s2.tasks (create_task E fn data data_size prio s).1).parent = some s.current_task
      ∧ (s1.tasks s.current_task).num_children = (s.tasks s.current_task).num_children + 1
      ∧ (s2.tasks s.current_task).num_children = (s.tasks s.current_task).num_children + 1
      ∧ (s1.tasks (create_task E fn data data_size prio s).1).num_children = 0
      ∧ (s2.tasks (create_task E fn data data_size prio s).1).num_children = 0 := by
  have hne := new_ne_current E fn data data_size prio s hfree hbrk
  obtain ⟨hpar, hnc, -, -, -⟩ := create_task_new E fn data data_size prio s
  obtain ⟨hcur, hcr, -⟩ := create_task_frame E fn data data_size prio s
  have hold := create_task_other E fn data data_size prio s s.current_task (Ne.symm hne)
  generalize hcdef : create_task E fn data data_size prio s = c at *
  obtain ⟨s1, h1, ht1, -⟩ := register_created_task_ok E c.1 s.current_task deps c.2
    (by rw [hcr]; exact hc) hpar
  obtain ⟨s2, h2, ht2, -⟩ := register_created_task_ok E c.1 s.current_task deps
    (c.2.store c.1 { c.2.tasks c.1 with has_ref := true })
    (by simp [Sched.store]; rw [hcr]; exact hc) (by simp [Sched.store, hpar])
  refine ⟨s1, s2, ?_, ?_, ?_, ?_, ?_, ?_, ?_, ?_⟩
  · simp [dart__tasking__create_task, dart__tasking__cancellation_requested, hc, hcdef, h1,
      bind, Except.bind, pure, Except.pure]
  · simp [dart__tasking__create_task_handle, dart__tasking__cancellation_requested, hc, hcdef, h2,
      bind, Except.bind, pure, Except.pure]
  · rw [ht1]; simp [Function.update, hne, hpar]
  · rw [ht2]; simp [Function.update, hne, hpar, Sched.store]
  · rw [ht1]; simp [Function.update, hne, Ne.symm hne, hold]
  · rw [ht2]; simp [Function.update, hne, Ne.symm hne, hold, Sched.store]
  · rw [ht1]; simp [Function.update, hne, hnc]
  · rw [ht2]; simp [Function.update, hne, hnc, Sched.store]

/-- C2 at the initial scheduler: the root task creates a task. -/
theorem C2_create_counts_child_witness :
    (initial_sched 2).cancel_requested = false
    ∧ (initial_sched 2).task_free_list ≠ some (initial_sched 2).current_task
    ∧ (initial_sched 2).current_task < (initial_sched 2).brk
    ∧ ∃ s1 s2,
      dart__tasking__create_task demoCollab (some 0) none 0 [] 0 (initial_sched 2)
        = Except.ok (DART_OK, s1)
      ∧ dart__tasking__create_task_handle demoCollab (some 0) none 0 [] 0 none (initial_sched 2)
          = Except.ok (DART_OK, some (create_task demoCollab (some 0) none 0 0 (initial_sched 2)).1,
              s2)
      ∧ (s1.tasks (create_task demoCollab (some 0) none 0 0 (initial_sched 2)).1).parent
          = some (initial_sched 2).current_task
      ∧ (s2.tasks (create_task demoCollab (some 0) none 0 0 (initial_sched 2)).1).parent
          = some (initial_sched 2).current_task
      ∧ (s1.tasks (initial_sched 2).current_task).num_children
          = ((initial_sched 2).tasks (initial_sched 2).current_task).num_children + 1
      ∧ (s2.tasks (initial_sched 2).current_task).num_children
          = ((initial_sched 2).tasks (initial_sched 2).current_task).num_children + 1
      ∧ (s1.tasks (create_task demoCollab (some 0) none 0 0 (initial_sched 2)).1).num_children = 0
      ∧ (s2.tasks (create_task demoCollab (some 0) none 0 0 (initial_sched 2)).1).num_children = 0 :=
  ⟨rfl, by decide, by decide,
    C2_create_counts_child demoCollab (initial_sched 2) (some 0) none 0 [] 0 none rfl
      (by decide) (by decide)⟩

/-- C10: for a task created (through either entry point) by a live current
task, the phase is the current phase when the parent is the root task (state
DART_TASK_ROOT) and DART_PHASE_ANY for every other parent; when the current
phase is a proper phase, distinct from the wildcard DART_PHASE_ANY, the phase
equals the current phase if and only if the parent is the root task. -/
theorem C10_phase_of_created_task (E : Collab D) (s : Sched D) (fn : Option FnPtr)
    (data : Option Nat) (data_size : Nat) (deps : List dart_task_dep_t) (prio : Int)
    (ref : Option TaskPtr)
    (hc : s.cancel_requested = false)
    (hfree : s.task_free_list ≠ some s.current_task)
    (hbrk : s.current_task < s.brk) :
    ∃ s1 s2,
      dart__tasking__create_task E fn data data_size deps prio s = Except.ok (DART_OK, s1)
      ∧ dart__tasking__create_task_handle E fn data data_size deps prio ref s
          = Except.ok (DART_OK, some (create_task E fn data data_size prio s).1, s2)
      ∧ (s1.tasks (create_task E fn data data_size prio s).1).phase
          = (s2.tasks (create_task E fn data data_size prio s).1).phase
      ∧ (s1.tasks (create_task E fn data data_size prio s).1).parent = some s.current_task
      ∧ ((s.tasks s.current_task).state = DART_TASK_ROOT →
          (s1.tasks (create_task E fn data data_size prio s).1).phase = s.phase_current)
      ∧ ((s.tasks s.current_task).state ≠ DART_TASK_ROOT →
          (s1.tasks (create_task E fn data data_size prio s).1).phase = E.DART_PHASE_ANY)
      ∧ (s.phase_current ≠ E.DART_PHASE_ANY →
          ((s1.tasks (create_task E fn data data_size prio s).1).phase = s.phase_current
            ↔ (s.tasks s.current_task).state = DART_TASK_ROOT)) := by
  have hne := new_ne_current E fn data data_size prio s hfree hbrk
  obtain ⟨hpar, -, -, -, hph⟩ := create_task_new E fn data data_size prio s
  obtain ⟨hcur, hcr, -⟩ := create_task_frame E fn data data_size prio s
  simp only [ne_eq, hne, not_false_eq_true, true_and] at hph
  generalize hcdef : create_task E fn data data_size prio s = c at *
  obtain ⟨s1, h1, ht1, -⟩ := register_created_task_ok E c.1 s.current_task deps c.2
    (by rw [hcr]; exact hc) hpar
  obtain ⟨s2, h2, ht2, -⟩ := register_created_task_ok E c.1 s.current_task deps
    (c.2.store c.1 { c.2.tasks c.1 with has_ref := true })
    (by simp [Sched.store]; rw [hcr]; exact hc) (by simp [Sched.store, hpar])
  have hp1 : (s1.tasks c.1).phase = (c.2.tasks c.1).phase := by
    rw [ht1]; simp [Function.update, hne]
  have hp2 : (s2.tasks c.1).phase = (c.2.tasks c.1).phase := by
    rw [ht2]; simp [Function.update, hne, Sched.store]
  refine ⟨s1, s2, ?_, ?_, ?_, ?_, ?_, ?_, ?_⟩
  · simp [dart__tasking__create_task, dart__tasking__cancellation_requested, hc, hcdef, h1,
      bind, Except.bind, pure, Except.pure]
  · simp [dart__tasking__create_task_handle, dart__tasking__cancellation_requested, hc, hcdef, h2,
      bind, Except.bind, pure, Except.pure]
  · rw [hp1, hp2]
  · rw [ht1]; simp [Function.update, hne, hpar]
  · intro hroot
    rw [hp1, hph, if_pos hroot]
  · intro hroot
    rw [hp1, hph, if_neg hroot]
  · intro hany
    rw [hp1, hph]
    by_cases hroot : (s.tasks s.current_task).state = DART_TASK_ROOT
    · simp [hroot]
    · simp only [hroot, if_false, iff_false]
      exact fun h => hany h.symm

/-- C10 at the initial scheduler: the root task creates a task in phase 0. -/
theorem C10_phase_of_created_task_witness :
    (initial_sched 2).cancel_requested = false
    ∧ (initial_sched 2).task_free_list ≠ some (initial_sched 2).current_task
    ∧ (initial_sched 2).current_task < (initial_sched 2).brk
    ∧ (initial_sched 2).phase_current ≠ demoCollab.DART_PHASE_ANY
    ∧ ∃ s1,
      dart__tasking__create_task demoCollab (some 0) none 0 [] 0 (initial_sched 2)
        = Except.ok (DART_OK, s1)
      ∧ ((s1.tasks (create_task demoCollab (some 0) none 0 0 (initial_sched 2)).1).phase
            = (initial_sched 2).phase_current
          ↔ ((initial_sched 2).tasks (initial_sched 2).current_task).state = DART_TASK_ROOT) := by
  refine ⟨rfl, by decide, by decide, by decide, ?_⟩
  obtain ⟨s1, _, h1, _, _, _, _, _, h7⟩ :=
    C10_phase_of_created_task demoCollab (initial_sched 2) (some 0) none 0 [] 0 none rfl
      (by decide) (by decide)
  exact ⟨s1, h1, h7 (by decide)⟩

/-! ## The finish sequence of `handle_task` -/

/-- Releasing one task adds exactly one release effect to the log. -/
theorem enqueue_runnable_log (E : Collab D) (t : TaskPtr) (s : Sched D) :
    ∃ e, (dart__tasking__enqueue_runnable E t s).log = s.log ++ [e]
      ∧ e.is_release_effect = true := by
  unfold dart__tasking__enqueue_runnable
  by_cases hc : dart__tasking__cancellation_requested s = true
  · exact ⟨Event.cancel_task t, by simp [hc, dart__tasking__cancel_task], rfl⟩
  · by_cases hr : E.phase_is_runnable s.runnable_phase (s.tasks t).phase = true
    · exact ⟨Event.push_ready t, by simp [hc, hr], rfl⟩
    · exact ⟨Event.push_deferred t, by simp [hc, hr], rfl⟩

/-- Releasing a list of tasks only appends release effects to the log. -/
theorem enqueue_all_log (E : Collab D) (ts : List TaskPtr) (s : Sched D) :
    ∃ L, (enqueue_all E ts s).log = s.log ++ L ∧ ∀ e ∈ L, e.is_release_effect = true := by
  induction ts generalizing s with
  | nil => exact ⟨[], by simp [enqueue_all], by simp⟩
  | cons t ts ih =>
    obtain ⟨e, he, hk⟩ := enqueue_runnable_log E t s
    obtain ⟨L, hL, hLk⟩ := ih (dart__tasking__enqueue_runnable E t s)
    refine ⟨e :: L, ?_, ?_⟩
    · simp only [enqueue_all, List.foldl_cons] at hL ⊢
      rw [hL, he]; simp
    · intro x hx
      rcases List.mem_cons.mp hx with h | h
      · rw [h]; exact hk
      · exact hLk x h

/-- Lines 417-419 log the release call followed by release effects only. -/
theorem handle_task_release_log (E : Collab D) (s : Sched D) :
    ∃ L, (handle_task_release E s).2.log = s.log ++ Event.release_local s.current_task :: L
      ∧ ∀ e ∈ L, e.is_release_effect = true := by
  obtain ⟨L, hL, hk⟩ := enqueue_all_log E
    (E.datadeps_release_local_task s.current_task s.deps).2
    ({ s with deps := (E.datadeps_release_local_task s.current_task s.deps).1 }.emit
      (Event.release_local s.current_task))
  refine ⟨L, ?_, hk⟩
  simp only [handle_task_release, dart_tasking_datadeps_release_local_task]
  rw [hL]; simp [Sched.emit]

/-- Once the run phase has returned, `handle_task` is its finish sequence. -/
theorem handle_task_succ (E : Collab D) (F : FnTable D) (n : Nat) (task : TaskPtr)
    (s s1 : Sched D)
    (hrun : handle_task_run E F (handle_task E F n) n task s = Except.ok s1) :
    handle_task E F (n + 1) (some task) s = handle_task_finish E s.current_task s1 := by
  simp [handle_task, hrun, bind, Except.bind]

/-- Line 422 succeeds when the parent pointer is set. -/
theorem notify_parent_ok (t p : TaskPtr) (r : Sched D) (hpar : (r.tasks t).parent = some p) :
    handle_task_notify_parent t r = Except.ok (notified p r) := by
  simp only [handle_task_notify_parent, hpar]
  rfl

/-- Line 422 writes the parent's counter and nothing else. -/
theorem notified_task (p x : TaskPtr) (r : Sched D) :
    (notified p r).tasks x =
      if x = p then { r.tasks p with num_children := (r.tasks p).num_children - 1 }
      else r.tasks x := by
  by_cases h : x = p <;> simp [notified, Sched.store, Sched.emit, Function.update, h]

/-- The finish sequence in terms of its three steps. -/
theorem handle_task_finish_ok (E : Collab D) (cur p : TaskPtr) (s1 : Sched D)
    (hpar : ((handle_task_release E s1).2.tasks s1.current_task).parent = some p) :
    handle_task_finish E cur s1 = Except.ok
      (handle_task_retire E cur s1.current_task (notified p (handle_task_release E s1).2)) := by
  have h1 : (handle_task_release E s1).1 = s1.current_task := rfl
  simp only [handle_task_finish, h1, notify_parent_ok _ p _ hpar, bind, Except.bind, pure,
    Except.pure]

/-- Lines 425-447 for a task without external reference. -/
theorem retire_unreferenced (E : Collab D) (cur t : TaskPtr) (q : Sched D)
    (href : (q.tasks t).has_ref = false) :
    (handle_task_retire E cur t q).log = q.log ++ [Event.context_release t,
          Event.set_state t DART_TASK_FINISHED, Event.destroy t]
      ∧ ((handle_task_retire E cur t q).tasks t).state = DART_TASK_DESTROYED
      ∧ (handle_task_retire E cur t q).task_recycle_list = some t
      ∧ ((handle_task_retire E cur t q).tasks t).next = q.task_recycle_list
      ∧ (handle_task_retire E cur t q).task_free_list = q.task_free_list
      ∧ (handle_task_retire E cur t q).current_task = cur
      ∧ (handle_task_retire E cur t q).taskcntr = q.taskcntr + 1 := by
  simp [handle_task_retire, Sched.set_state, Sched.store, Sched.emit,
    dart__tasking__destroy_task, DART_STACK_PUSH, Function.update, href]

/-- Lines 425-447 for a task that carries an external reference. -/
theorem retire_referenced (E : Collab D) (cur t : TaskPtr) (q : Sched D)
    (href : (q.tasks t).has_ref = true) :
    (handle_task_retire E cur t q).log = q.log ++ [Event.context_release t,
          Event.set_state t DART_TASK_FINISHED]
      ∧ (handle_task_retire E cur t q).tasks = Function.update q.tasks t
          { q.tasks t with taskctx := none, state := DART_TASK_FINISHED }
      ∧ (handle_task_retire E cur t q).task_recycle_list = q.task_recycle_list
      ∧ (handle_task_retire E cur t q).task_free_list = q.task_free_list
      ∧ (handle_task_retire E cur t q).current_task = cur
      ∧ (handle_task_retire E cur t q).taskcntr = q.taskcntr + 1 := by
  simp [handle_task_retire, Sched.set_state, Sched.store, Sched.emit, Function.update, href]

/-- A release effect is never a destruction. -/
theorem count_destroy_release_effects (L : List Event) (t : TaskPtr)
    (hL : ∀ e ∈ L, e.is_release_effect = true) : L.count (Event.destroy t) = 0 := by
  rw [List.count_eq_zero]
  intro hmem
  have := hL _ hmem
  simp [Event.is_release_effect] at this

/-- C3: when the run phase of `handle_task` on `task` (lines 400-414) has
returned with `task` still the current task (see `handle_task_run_leaf` and
`handle_task_run_current` for when that is the case), and the task carries no
external reference when line 429 reads `has_ref`, then `handle_task` returns
and the events it logs from line 417 on are: the release of the local
successors, the release effects, the parent decrement, the context release,
the assignment of FINISHED, and last the destruction.  So the task is destroyed exactly once,
after its release call and after FINISHED was set; afterwards its state is
DESTROYED and the record is the head of the recycle list. -/
theorem C3_unreferenced_task_destroyed_once (E : Collab D) (F : FnTable D) (n : Nat)
    (task p : TaskPtr) (s s1 : Sched D)
    (hrun : handle_task_run E F (handle_task E F n) n task s = Except.ok s1)
    (hcur : s1.current_task = task)
    (href : ((handle_task_release E s1).2.tasks task).has_ref = false)
    (hpar : ((handle_task_release E s1).2.tasks task).parent = some p) :
    ∃ s' L, handle_task E F (n + 1) (some task) s = Except.ok s'
      ∧ (∀ e ∈ L, e.is_release_effect = true)
      ∧ s'.log = s1.log ++ (Event.release_local task :: L ++
          [Event.dec_children p, Event.context_release task,
           Event.set_state task DART_TASK_FINISHED, Event.destroy task])
      ∧ (s'.log.drop s1.log.length).count (Event.destroy task) = 1
      ∧ (s'.tasks task).state = DART_TASK_DESTROYED
      ∧ s'.task_recycle_list = some task
      ∧ task ∈ stack_members s'.tasks 1 s'.task_recycle_list := by
  subst hcur
  obtain ⟨L, hL, hk⟩ := handle_task_release_log E s1
  have href2 : ((notified p (handle_task_release E s1).2).tasks s1.current_task).has_ref
      = false := by
    rw [notified_task]; split
    · rename_i h; rw [← h]; exact href
    · exact href
  obtain ⟨hlog, hst, hrec, -⟩ := retire_unreferenced E s.current_task s1.current_task _ href2
  have hlog2 : (handle_task_retire E s.current_task s1.current_task
      (notified p (handle_task_release E s1).2)).log
      = s1.log ++ (Event.release_local s1.current_task :: L ++
          [Event.dec_children p, Event.context_release s1.current_task,
           Event.set_state s1.current_task DART_TASK_FINISHED,
           Event.destroy s1.current_task]) := by
    rw [hlog]
    simp [notified, Sched.emit, Sched.store, hL]
  refine ⟨_, L, ?_, hk, hlog2, ?_, hst, hrec, ?_⟩
  · rw [handle_task_succ E F n _ s s1 hrun, handle_task_finish_ok E _ p s1 hpar]
  · rw [hlog2, List.drop_left]
    simp [List.count_cons, List.count_append, count_destroy_release_effects L _ hk]
  · rw [hrec]; simp [stack_members]

/-- C3 on the demo scheduler: the root task created task 1, a worker popped
and ran it, and the finish sequence destroys it. -/
theorem C3_unreferenced_task_destroyed_once_witness :
    handle_task_run demoCollab demoFns (handle_task demoCollab demoFns 2) 2 1
        (demo_popped 0 false) = Except.ok (demo_ran 0 false)
    ∧ (demo_ran 0 false).current_task = 1
    ∧ ((handle_task_release demoCollab (demo_ran 0 false)).2.tasks 1).has_ref = false
    ∧ ((handle_task_release demoCollab (demo_ran 0 false)).2.tasks 1).parent = some 0
    ∧ ∃ s' L, handle_task demoCollab demoFns (2 + 1) (some 1) (demo_popped 0 false)
          = Except.ok s'
      ∧ (∀ e ∈ L, e.is_release_effect = true)
      ∧ s'.log = (demo_ran 0 false).log ++ (Event.release_local 1 :: L ++
          [Event.dec_children 0, Event.context_release 1,
           Event.set_state 1 DART_TASK_FINISHED, Event.destroy 1])
      ∧ (s'.log.drop (demo_ran 0 false).log.length).count (Event.destroy 1) = 1
      ∧ (s'.tasks 1).state = DART_TASK_DESTROYED
      ∧ s'.task_recycle_list = some 1
      ∧ 1 ∈ stack_members s'.tasks 1 s'.task_recycle_list :=
  ⟨rfl, by decide, by decide, by decide,
    C3_unreferenced_task_destroyed_once demoCollab demoFns 2 1 0 (demo_popped 0 false)
      (demo_ran 0 false) rfl (by decide) (by decide) (by decide)⟩

/-- An intrusive stack only depends on the `next` fields. -/
theorem stack_members_congr (tasks tasks' : TaskPtr → dart_task_t)
    (h : ∀ x, (tasks' x).next = (tasks x).next) (k : Nat) (head : Option TaskPtr) :
    stack_members tasks' k head = stack_members tasks k head := by
  induction k generalizing head with
  | zero => simp [stack_members]
  | succ k ih =>
    cases head with
    | none => simp [stack_members]
    | some e => simp [stack_members, h e, ih]

/-- Neither creation entry point leaves a record in state DESTROYED that was
not in that state before. -/
theorem create_public_not_destroyed (E : Collab D) (fn : Option FnPtr) (data : Option Nat)
    (data_size : Nat) (deps : List dart_task_dep_t) (prio : Int) (ref ref' : Option TaskPtr)
    (s s' : Sched D)
    (h : dart__tasking__create_task E fn data data_size deps prio s = Except.ok (DART_OK, s')
      ∨ dart__tasking__create_task_handle E fn data data_size deps prio ref s
          = Except.ok (DART_OK, ref', s')) (x : TaskPtr)
    (hx : (s.tasks x).state ≠ DART_TASK_DESTROYED) :
    (s'.tasks x).state ≠ DART_TASK_DESTROYED := by
  by_cases hc : s.cancel_requested = true
  · have h1 := create_cancelled E s hc fn data data_size deps prio ref
    rcases h with h | h
    · rw [h1.1] at h
      simp only [Except.ok.injEq, Prod.mk.injEq, true_and] at h
      rw [← h]; exact hx
    · rw [h1.2] at h
      simp only [Except.ok.injEq, Prod.mk.injEq, true_and] at h
      rw [← h.2]; exact hx
  · simp only [Bool.not_eq_true] at hc
    obtain ⟨s1, s2, h1, h2, ht1, ht2, -⟩ :=
      create_public_fields E fn data data_size deps prio ref s hc
    have hoth := create_task_other E fn data data_size prio s x
    have key : (s'.tasks x).state =
        (if x = (create_task E fn data data_size prio s).1 then DART_TASK_CREATED
         else ((create_task E fn data data_size prio s).2.tasks x).state) := by
      rcases h with h | h
      · rw [h1] at h
        simp only [Except.ok.injEq, Prod.mk.injEq, true_and] at h
        rw [← h, ht1 x]
      · rw [h2] at h
        simp only [Except.ok.injEq, Prod.mk.injEq, true_and] at h
        rw [← h.2, ht2 x]
    rw [key]
    by_cases hxc : x = (create_task E fn data data_size prio s).1
    · rw [if_pos hxc]; decide
    · rw [if_neg hxc, hoth hxc]; exact hx

/-- No step of the worker's own code destroys a task that carries an external
reference. -/
theorem worker_step_keeps_referenced (E : Collab D) (q q' : Sched D) (t : TaskPtr)
    (hstep : worker_step E q q') (href : (q.tasks t).has_ref = true)
    (hst : (q.tasks t).state ≠ DART_TASK_DESTROYED) :
    (q'.tasks t).state ≠ DART_TASK_DESTROYED := by
  cases hstep with
  | create fn data data_size deps prio _ _ h =>
    exact create_public_not_destroyed E fn data data_size deps prio none none q q' (Or.inl h) t hst
  | create_handle fn data data_size deps prio ref ref' _ _ h =>
    exact create_public_not_destroyed E fn data data_size deps prio ref ref' q q' (Or.inr h) t hst
  | enqueue task _ hc =>
    have : (dart__tasking__enqueue_runnable E task q).tasks = q.tasks := by
      unfold dart__tasking__enqueue_runnable
      simp only [dart__tasking__cancellation_requested, hc]
      by_cases hr : E.phase_is_runnable q.runnable_phase (q.tasks task).phase = true <;>
        simp [hr]
    rw [this]; exact hst
  | pop =>
    have : (next_task q).2.tasks = q.tasks := by
      unfold next_task dart_tasking_taskqueue_pop
      by_cases hc : dart__tasking__cancellation_requested q = true
      · simp [hc]
      · cases hq : q.global_queue <;> simp [hc]
    rw [this]; exact hst
  | mark_running task =>
    by_cases h : t = task
    · simp [Sched.set_state, Sched.store, Sched.emit, Function.update, h]
    · simpa [Sched.set_state, Sched.store, Sched.emit, Function.update, h] using hst
  | notify task _ _ h =>
    cases hp : (q.tasks task).parent with
    | none => simp [handle_task_notify_parent, hp] at h
    | some p =>
      rw [notify_parent_ok task p q hp] at h
      simp only [Except.ok.injEq] at h
      rw [← h, notified_task]
      split
      · rename_i hh; rw [← hh]; exact hst
      · exact hst
  | retire cur task =>
    by_cases h : t = task
    · subst h
      obtain ⟨-, ht, -⟩ := retire_referenced E cur t q href
      rw [ht]
      simp [Function.update]
    · by_cases hr : (q.tasks task).has_ref = true
      · simpa [handle_task_retire, Sched.set_state, Sched.store, Sched.emit, Function.update,
          hr, h] using hst
      · simp only [Bool.not_eq_true] at hr
        simpa [handle_task_retire, Sched.set_state, Sched.store, Sched.emit, Function.update,
          hr, h, dart__tasking__destroy_task, DART_STACK_PUSH] using hst
  | cleanup =>
    have : ((task_complete_cleanup E q).tasks t).state = (q.tasks t).state := by
      unfold task_complete_cleanup
      by_cases hroot : q.current_task = root_task
      · cases hf : q.task_free_list with
        | none => simp [hroot, hf, dart__tasking__phase_set_runnable]
        | some e =>
          by_cases hte : t = e <;>
            simp [hroot, hf, dart__tasking__phase_set_runnable, Sched.store, Function.update, hte]
      · simp [hroot]
    rw [this]; exact hst

/-- C4: when the run phase of `handle_task` on `task` has returned with `task`
still the current task, the task carries an external reference when line 429
reads `has_ref`, and its record is on neither pool list, then `handle_task`
returns with the task in state FINISHED, still referenced, still on neither
the recycle list nor the free-list, and with no destruction logged from line
417 on.  Moreover no step of the worker's own code (`worker_step`: creation,
enqueueing, popping, the finish steps of `handle_task` for any task, the
clean-up of `task_complete`) moves a referenced task to DESTROYED, which
leaves that to the explicit wait, test and free-reference calls. -/
theorem C4_referenced_task_survives (E : Collab D) (F : FnTable D) (n : Nat)
    (task p : TaskPtr) (s s1 : Sched D)
    (hrun : handle_task_run E F (handle_task E F n) n task s = Except.ok s1)
    (hcur : s1.current_task = task)
    (href : ((handle_task_release E s1).2.tasks task).has_ref = true)
    (hpar : ((handle_task_release E s1).2.tasks task).parent = some p)
    (hrec : ∀ k, task ∉ stack_members (handle_task_release E s1).2.tasks k
      (handle_task_release E s1).2.task_recycle_list)
    (hfree : ∀ k, task ∉ stack_members (handle_task_release E s1).2.tasks k
      (handle_task_release E s1).2.task_free_list) :
    ∃ s', handle_task E F (n + 1) (some task) s = Except.ok s'
      ∧ (s'.tasks task).state = DART_TASK_FINISHED
      ∧ (s'.tasks task).has_ref = true
      ∧ (∀ k, task ∉ stack_members s'.tasks k s'.task_recycle_list)
      ∧ (∀ k, task ∉ stack_members s'.tasks k s'.task_free_list)
      ∧ (∀ x, Event.destroy x ∉ s'.log.drop s1.log.length)
      ∧ (∀ q q', worker_step E q q' → (q.tasks task).has_ref = true →
          (q.tasks task).state ≠ DART_TASK_DESTROYED →
          (q'.tasks task).state ≠ DART_TASK_DESTROYED) := by
  subst hcur
  obtain ⟨L, hL, hk⟩ := handle_task_release_log E s1
  have href2 : ((notified p (handle_task_release E s1).2).tasks s1.current_task).has_ref
      = true := by
    rw [notified_task]; split
    · rename_i h; rw [← h]; exact href
    · exact href
  obtain ⟨hlog, hts, hrl, hfl, -⟩ :=
    retire_referenced E s.current_task s1.current_task _ href2
  have hnext : ∀ x, ((handle_task_retire E s.current_task s1.current_task
      (notified p (handle_task_release E s1).2)).tasks x).next
      = ((handle_task_release E s1).2.tasks x).next := by
    intro x
    rw [hts]
    by_cases hx : x = s1.current_task
    · rw [hx]; simp only [Function.update_same]
      rw [notified_task]; split
      · rename_i h; rw [← h]
      · rfl
    · rw [Function.update_noteq hx, notified_task]; split
      · rename_i h; rw [← h]
      · rfl
  refine ⟨handle_task_retire E s.current_task s1.current_task
    (notified p (handle_task_release E s1).2), ?_, ?_, ?_, ?_, ?_, ?_, ?_⟩
  · rw [handle_task_succ E F n _ s s1 hrun, handle_task_finish_ok E _ p s1 hpar]
  · rw [hts]; simp [Function.update]
  · rw [hts]; simp only [Function.update_same]; exact href2
  · intro k
    rw [stack_members_congr _ _ hnext, hrl]
    exact hrec k
  · intro k
    rw [stack_members_congr _ _ hnext, hfl]
    exact hfree k
  · intro x hmem
    rw [hlog] at hmem
    have hlen : (notified p (handle_task_release E s1).2).log
        = s1.log ++ (Event.release_local s1.current_task :: L ++ [Event.dec_children p]) := by
      simp [notified, Sched.emit, Sched.store, hL]
    rw [hlen, List.append_assoc, List.drop_left] at hmem
    simp only [List.cons_append, List.mem_cons, List.mem_append, List.mem_singleton,
      List.not_mem_nil, or_false] at hmem
    rcases hmem with h | (h | h) | h | h
    · cases h
    · have := hk _ h; simp [Event.is_release_effect] at this
    · cases h
    · cases h
    · cases h
  · intro q q' hstep hr hs
    exact worker_step_keeps_referenced E q q' s1.current_task hstep hr hs

/-- C4 on the demo scheduler: task 1 was created with a handle, popped and run. -/
theorem C4_referenced_task_survives_witness :
    handle_task_run demoCollab demoFns (handle_task demoCollab demoFns 2) 2 1
        (demo_popped 0 true) = Except.ok (demo_ran 0 true)
    ∧ (demo_ran 0 true).current_task = 1
    ∧ ((handle_task_release demoCollab (demo_ran 0 true)).2.tasks 1).has_ref = true
    ∧ ((handle_task_release demoCollab (demo_ran 0 true)).2.tasks 1).parent = some 0
    ∧ (∀ k, 1 ∉ stack_members (handle_task_release demoCollab (demo_ran 0 true)).2.tasks k
        (handle_task_release demoCollab (demo_ran 0 true)).2.task_recycle_list)
    ∧ (∀ k, 1 ∉ stack_members (handle_task_release demoCollab (demo_ran 0 true)).2.tasks k
        (handle_task_release demoCollab (demo_ran 0 true)).2.task_free_list)
    ∧ ∃ s', handle_task demoCollab demoFns (2 + 1) (some 1) (demo_popped 0 true) = Except.ok s'
      ∧ (s'.tasks 1).state = DART_TASK_FINISHED
      ∧ (s'.tasks 1).has_ref = true
      ∧ (∀ k, 1 ∉ stack_members s'.tasks k s'.task_recycle_list)
      ∧ (∀ k, 1 ∉ stack_members s'.tasks k s'.task_free_list) := by
  have hrec : ∀ k, 1 ∉ stack_members (handle_task_release demoCollab (demo_ran 0 true)).2.tasks k
      (handle_task_release demoCollab (demo_ran 0 true)).2.task_recycle_list := by
    intro k
    cases k <;> simp [stack_members, handle_task_release,
      dart_tasking_datadeps_release_local_task, enqueue_all, demoCollab, Sched.emit,
      demo_ran, demo_popped, Res.state]
  have hfree : ∀ k, 1 ∉ stack_members (handle_task_release demoCollab (demo_ran 0 true)).2.tasks k
      (handle_task_release demoCollab (demo_ran 0 true)).2.task_free_list := by
    intro k
    cases k <;> simp [stack_members, handle_task_release,
      dart_tasking_datadeps_release_local_task, enqueue_all, demoCollab, Sched.emit,
      demo_ran, demo_popped, Res.state]
  refine ⟨rfl, by decide, by decide, by decide, hrec, hfree, ?_⟩
  obtain ⟨s', h1, h2, h3, h4, h5, -⟩ :=
    C4_referenced_task_survives demoCollab demoFns 2 1 0 (demo_popped 0 true)
      (demo_ran 0 true) rfl (by decide) (by decide) (by decide) hrec hfree
  exact ⟨s', h1, h2, h3, h4, h5⟩

/-- The record of the handled task when its function is entered. -/
theorem running_entry_task (task : TaskPtr) (s : Sched D) :
    (running_entry task s).tasks task = { s.tasks task with state := DART_TASK_RUNNING } := by
  simp [running_entry, Sched.set_state, Sched.store, Sched.emit, Function.update]

/-- The run phase of `handle_task` starts the task function in `running_entry`. -/
theorem handle_task_run_eq (E : Collab D) (F : FnTable D) (ht : Handler D) (n : Nat)
    (task : TaskPtr) (s : Sched D) :
    handle_task_run E F ht n task s =
      (invoke_taskfn F ht task (running_entry task s) >>= fun s2 =>
        if ¬ dart__tasking__cancellation_requested s2 then
          dart__tasking__task_complete E ht n s2 >>= fun r => pure r.2
        else pure s2) := rfl

/-- The `longjmp` branch of `invoke_taskfn`. -/
theorem invoke_taskfn_longjmp (F : FnTable D) (ht : Handler D) (task : TaskPtr) (f : FnPtr)
    (q sb : Sched D) (hfn : (q.tasks task).fn = some f)
    (hbody : F f ht (q.tasks task).data (q.emit (Event.invoke task)) = Except.ok (sb, true)) :
    invoke_taskfn F ht task q = Except.ok (sb.set_state task DART_TASK_CANCELLED) := by
  unfold invoke_taskfn
  rw [hfn]
  simp only [hbody, bind, Except.bind, pure, Except.pure, if_true]

/-- C5 (counterexample): on the demo scheduler task 1 was created with a handle
and its function is left through the cancellation `longjmp`.  `invoke_taskfn`
marks the task CANCELLED, but when `handle_task` has processed it the holder of
the handle observes FINISHED, not CANCELLED. -/
theorem C5_unwound_task_observed_finished :
    ((demo_popped 1 true).tasks 1).has_ref = true
    ∧ demoFns 1 (handle_task demoCollab demoFns 2) ((demo_popped 1 true).tasks 1).data
        ((running_entry 1 (demo_popped 1 true)).emit (Event.invoke 1))
        = Except.ok (demo_unwound, true)
    ∧ invoke_taskfn demoFns (handle_task demoCollab demoFns 2) 1
        (running_entry 1 (demo_popped 1 true))
        = Except.ok (demo_unwound.set_state 1 DART_TASK_CANCELLED)
    ∧ handle_task demoCollab demoFns 3 (some 1) (demo_popped 1 true)
        = Except.ok demo_unwound_finished
    ∧ (demo_unwound_finished.tasks 1).has_ref = true
    ∧ (demo_unwound_finished.tasks 1).state = DART_TASK_FINISHED
    ∧ (demo_unwound_finished.tasks 1).state ≠ DART_TASK_CANCELLED :=
  ⟨by decide, rfl, rfl, rfl, by decide, by decide, by decide⟩

/-- C5 (amended): a task function left through the cancellation `longjmp`
while cancellation is requested makes `invoke_taskfn` set the state CANCELLED,
and `handle_task` skips the implicit wait; the ordinary bookkeeping follows and
line 435 assigns FINISHED as for every other task.  So for a task that carries
an external reference the state a caller observes after `handle_task` is
FINISHED, not CANCELLED, with the reference still set, and a wait on that
reference returns DART_OK without running its loop and destroys the task. -/
theorem C5_cancelled_state_overwritten (E : Collab D) (F : FnTable D) (n : Nat)
    (task p : TaskPtr) (f : FnPtr) (s sb : Sched D)
    (hfn : (s.tasks task).fn = some f)
    (hbody : F f (handle_task E F n) (s.tasks task).data
      ((running_entry task s).emit (Event.invoke task)) = Except.ok (sb, true))
    (hcanc : sb.cancel_requested = true)
    (hcur : sb.current_task = task)
    (href : ((handle_task_release E (sb.set_state task DART_TASK_CANCELLED)).2.tasks task).has_ref
      = true)
    (hpar : ((handle_task_release E (sb.set_state task DART_TASK_CANCELLED)).2.tasks task).parent
      = some p) :
    handle_task_run E F (handle_task E F n) n task s
        = Except.ok (sb.set_state task DART_TASK_CANCELLED)
    ∧ ((sb.set_state task DART_TASK_CANCELLED).tasks task).state = DART_TASK_CANCELLED
    ∧ ∃ s', handle_task E F (n + 1) (some task) s = Except.ok s'
        ∧ (s'.tasks task).state = DART_TASK_FINISHED
        ∧ (s'.tasks task).state ≠ DART_TASK_CANCELLED
        ∧ (s'.tasks task).has_ref = true
        ∧ ∀ (ht : Handler D) (k : Nat),
            dart__tasking__task_wait E ht k (some (some task)) s'
              = Except.ok (DART_OK, some none,
                  dart__tasking__destroy_task E task
                    (s'.store task { s'.tasks task with has_ref := false })) := by
  have hrun : handle_task_run E F (handle_task E F n) n task s
      = Except.ok (sb.set_state task DART_TASK_CANCELLED) := by
    have hfn2 : ((running_entry task s).tasks task).fn = some f := by
      rw [running_entry_task]; exact hfn
    have hdata : ((running_entry task s).tasks task).data = (s.tasks task).data := by
      rw [running_entry_task]
    rw [handle_task_run_eq, invoke_taskfn_longjmp F _ task f _ sb hfn2 (by rw [hdata]; exact hbody)]
    simp [bind, Except.bind, pure, Except.pure, dart__tasking__cancellation_requested,
      Sched.set_state, Sched.store, Sched.emit, hcanc]
  have hcur2 : (sb.set_state task DART_TASK_CANCELLED).current_task = task := by
    simpa [Sched.set_state, Sched.store, Sched.emit] using hcur
  refine ⟨hrun, by simp [Sched.set_state, Sched.store, Sched.emit, Function.update], ?_⟩
  have href2 : ((notified p (handle_task_release E
      (sb.set_state task DART_TASK_CANCELLED)).2).tasks task).has_ref = true := by
    rw [notified_task]; split
    · rename_i h; rw [← h]; exact href
    · exact href
  obtain ⟨-, hts, -⟩ := retire_referenced E s.current_task task _ href2
  have hst : ((handle_task_retire E s.current_task task
      (notified p (handle_task_release E (sb.set_state task DART_TASK_CANCELLED)).2)).tasks
        task).state = DART_TASK_FINISHED := by
    rw [hts]; simp [Function.update]
  refine ⟨handle_task_retire E s.current_task task
    (notified p (handle_task_release E (sb.set_state task DART_TASK_CANCELLED)).2), ?_, hst, ?_, ?_,
    ?_⟩
  · rw [handle_task_succ E F n _ s _ hrun, handle_task_finish_ok E _ p _ (by rw [hcur2]; exact hpar),
      hcur2]
  · rw [hts]; simp [Function.update]
  · rw [hts]; simp only [Function.update_same]; exact href2
  · intro ht k
    have hnd : ¬ ((handle_task_retire E s.current_task task
        (notified p (handle_task_release E (sb.set_state task DART_TASK_CANCELLED)).2)).tasks
          task).state = DART_TASK_DESTROYED := by
      rw [hst]; decide
    unfold dart__tasking__task_wait
    simp only [hnd, if_false]
    cases k <;> simp [task_wait_loop, hst, bind, Except.bind, pure, Except.pure]

/-- C5 on the demo scheduler: task 1 was created with a handle and its function
is left through the cancellation `longjmp`. -/
theorem C5_cancelled_state_overwritten_witness :
    ((demo_popped 1 true).tasks 1).fn = some 1
    ∧ demoFns 1 (handle_task demoCollab demoFns 2) ((demo_popped 1 true).tasks 1).data
        ((running_entry 1 (demo_popped 1 true)).emit (Event.invoke 1))
        = Except.ok (demo_unwound, true)
    ∧ demo_unwound.cancel_requested = true
    ∧ demo_unwound.current_task = 1
    ∧ ((demo_unwound.set_state 1 DART_TASK_CANCELLED).tasks 1).state = DART_TASK_CANCELLED
    ∧ ∃ s', handle_task demoCollab demoFns (2 + 1) (some 1) (demo_popped 1 true) = Except.ok s'
        ∧ (s'.tasks 1).state = DART_TASK_FINISHED
        ∧ (s'.tasks 1).state ≠ DART_TASK_CANCELLED
        ∧ (s'.tasks 1).has_ref = true
        ∧ ∀ (ht : Handler Unit) (k : Nat),
            dart__tasking__task_wait demoCollab ht k (some (some 1)) s'
              = Except.ok (DART_OK, some none,
                  dart__tasking__destroy_task demoCollab 1
                    (s'.store 1 { s'.tasks 1 with has_ref := false })) :=
  ⟨by decide, rfl, rfl, by decide,
    (C5_cancelled_state_overwritten demoCollab demoFns 2 1 0 1 (demo_popped 1 true) demo_unwound
      (by decide) rfl rfl (by decide) (by decide) (by decide)).2⟩

/-- The wait loop of `dart__tasking__task_complete` is left only when the
counter of the task waited on is not positive. -/
theorem task_complete_wait_exit (E : Collab D) (ht : Handler D) (k : Nat) (t0 : TaskPtr)
    (q q' : Sched D) (h : task_complete_wait E ht k t0 q = Except.ok q') :
    (q'.tasks t0).num_children ≤ 0 := by
  induction k generalizing q with
  | zero =>
    unfold task_complete_wait at h
    by_cases hc : 0 < (q.tasks t0).num_children
    · simp [hc] at h
    · simp only [hc, if_false, pure, Except.pure, Except.ok.injEq] at h
      rw [← h]; exact not_lt.mp hc
  | succ k ih =>
    unfold task_complete_wait at h
    by_cases hc : 0 < (q.tasks t0).num_children
    · simp only [hc, if_true, bind, Except.bind] at h
      split at h
      · cases h
      · exact ih _ h
    · simp only [hc, if_false, pure, Except.pure, Except.ok.injEq] at h
      rw [← h]; exact not_lt.mp hc

/-- Lines 425-447 write no record other than the handled task's. -/
theorem retire_other (E : Collab D) (cur task x : TaskPtr) (q : Sched D) (hx : x ≠ task) :
    (handle_task_retire E cur task q).tasks x = q.tasks x := by
  by_cases href : (q.tasks task).has_ref = true
  · simp [handle_task_retire, Sched.set_state, Sched.store, Sched.emit, Function.update, href, hx]
  · simp only [Bool.not_eq_true] at href
    simp [handle_task_retire, Sched.set_state, Sched.store, Sched.emit,
      dart__tasking__destroy_task, DART_STACK_PUSH, Function.update, href, hx]

/-- C6 (counterexample): on the demo scheduler, right after line 422 of
`handle_task` for task 1 (a child of the root task), the root task's
`num_children` is 0 while task 1 is still RUNNING: the counter is decremented
for a child that has not reached FINISHED or CANCELLED. -/
theorem C6_counter_zero_while_child_running :
    handle_task_notify_parent 1 (handle_task_release demoCollab (demo_ran 0 false)).2
      = Except.ok (notified 0 (handle_task_release demoCollab (demo_ran 0 false)).2)
    ∧ ((notified 0 (handle_task_release demoCollab (demo_ran 0 false)).2).tasks 1).parent = some 0
    ∧ ((notified 0 (handle_task_release demoCollab (demo_ran 0 false)).2).tasks 0).num_children = 0
    ∧ ((notified 0 (handle_task_release demoCollab (demo_ran 0 false)).2).tasks 1).state
        = DART_TASK_RUNNING
    ∧ ¬ (((notified 0 (handle_task_release demoCollab (demo_ran 0 false)).2).tasks 0).num_children
          = 0 →
        ((notified 0 (handle_task_release demoCollab (demo_ran 0 false)).2).tasks 1).state
            = DART_TASK_FINISHED
          ∨ ((notified 0 (handle_task_release demoCollab (demo_ran 0 false)).2).tasks 1).state
            = DART_TASK_CANCELLED
          ∨ ((notified 0 (handle_task_release demoCollab (demo_ran 0 false)).2).tasks 1).state
            = DART_TASK_DESTROYED) :=
  ⟨rfl, by decide, by decide, by decide, by decide⟩

/-- C6 (amended): when the run phase of `handle_task` on `task` has returned
with `task` still the current task and its parent is another record `p`, line
422 decrements `p`'s counter by one without touching the task's state, and
only afterwards is the task marked FINISHED: the log from the release on reads
decrement, context release, FINISHED.  When `handle_task` returns, the task is
FINISHED or DESTROYED and `p`'s counter is one less than before the
decrement.  The wait loop of `dart__tasking__task_complete` is left only with
a counter that is not positive. -/
theorem C6_parent_notified_before_finished (E : Collab D) (F : FnTable D) (n : Nat)
    (task p : TaskPtr) (s s1 : Sched D)
    (hrun : handle_task_run E F (handle_task E F n) n task s = Except.ok s1)
    (hcur : s1.current_task = task)
    (hpar : ((handle_task_release E s1).2.tasks task).parent = some p)
    (hne : p ≠ task) :
    ∃ s' tail, handle_task E F (n + 1) (some task) s = Except.ok s'
      ∧ handle_task_notify_parent task (handle_task_release E s1).2
          = Except.ok (notified p (handle_task_release E s1).2)
      ∧ ((notified p (handle_task_release E s1).2).tasks p).num_children
          = ((handle_task_release E s1).2.tasks p).num_children - 1
      ∧ ((notified p (handle_task_release E s1).2).tasks task).state
          = ((handle_task_release E s1).2.tasks task).state
      ∧ s'.log = (handle_task_release E s1).2.log ++
          (Event.dec_children p :: Event.context_release task ::
            Event.set_state task DART_TASK_FINISHED :: tail)
      ∧ (s'.tasks p).num_children = ((handle_task_release E s1).2.tasks p).num_children - 1
      ∧ ((s'.tasks task).state = DART_TASK_FINISHED ∨ (s'.tasks task).state = DART_TASK_DESTROYED)
      ∧ (∀ (ht : Handler D) (k : Nat) (t0 : TaskPtr) (q q' : Sched D),
          task_complete_wait E ht k t0 q = Except.ok q' → (q'.tasks t0).num_children ≤ 0) := by
  subst hcur
  have hfin : handle_task E F (n + 1) (some s1.current_task) s = Except.ok
      (handle_task_retire E s.current_task s1.current_task
        (notified p (handle_task_release E s1).2)) := by
    rw [handle_task_succ E F n _ s s1 hrun, handle_task_finish_ok E _ p s1 hpar]
  have hnp : ((notified p (handle_task_release E s1).2).tasks p).num_children
      = ((handle_task_release E s1).2.tasks p).num_children - 1 := by
    rw [notified_task]; simp
  have hnt : (notified p (handle_task_release E s1).2).tasks s1.current_task
      = (handle_task_release E s1).2.tasks s1.current_task := by
    rw [notified_task, if_neg (Ne.symm hne)]
  have hnlog : (notified p (handle_task_release E s1).2).log
      = (handle_task_release E s1).2.log ++ [Event.dec_children p] := by
    simp [notified, Sched.emit, Sched.store]
  by_cases href : ((notified p (handle_task_release E s1).2).tasks s1.current_task).has_ref = true
  · obtain ⟨hlog, hts, -⟩ := retire_referenced E s.current_task s1.current_task _ href
    refine ⟨_, [], hfin, notify_parent_ok _ p _ hpar, hnp, by rw [hnt], ?_, ?_, ?_,
      fun ht k t0 q q' h => task_complete_wait_exit E ht k t0 q q' h⟩
    · rw [hlog, hnlog]; simp
    · rw [retire_other E _ _ p _ hne, hnp]
    · left; rw [hts]; simp [Function.update]
  · simp only [Bool.not_eq_true] at href
    obtain ⟨hlog, hst, -⟩ := retire_unreferenced E s.current_task s1.current_task _ href
    refine ⟨_, [Event.destroy s1.current_task], hfin, notify_parent_ok _ p _ hpar, hnp,
      by rw [hnt], ?_, ?_, Or.inr hst,
      fun ht k t0 q q' h => task_complete_wait_exit E ht k t0 q q' h⟩
    · rw [hlog, hnlog]; simp
    · rw [retire_other E _ _ p _ hne, hnp]

/-- C6 (amended) on the demo scheduler: task 1, a child of the root task. -/
theorem C6_parent_notified_before_finished_witness :
    handle_task_run demoCollab demoFns (handle_task demoCollab demoFns 2) 2 1
        (demo_popped 0 false) = Except.ok (demo_ran 0 false)
    ∧ (demo_ran 0 false).current_task = 1
    ∧ ((handle_task_release demoCollab (demo_ran 0 false)).2.tasks 1).parent = some 0
    ∧ (0 : TaskPtr) ≠ 1
    ∧ ∃ s', handle_task demoCollab demoFns (2 + 1) (some 1) (demo_popped 0 false) = Except.ok s'
      ∧ (s'.tasks 0).num_children
          = ((handle_task_release demoCollab (demo_ran 0 false)).2.tasks 0).num_children - 1
      ∧ ((s'.tasks 1).state = DART_TASK_FINISHED ∨ (s'.tasks 1).state = DART_TASK_DESTROYED) := by
  refine ⟨rfl, by decide, by decide, by decide, ?_⟩
  obtain ⟨s', _, h1, _, _, _, _, h6, h7, _⟩ :=
    C6_parent_notified_before_finished demoCollab demoFns 2 1 0 (demo_popped 0 false)
      (demo_ran 0 false) rfl (by decide) (by decide) (by decide)
  exact ⟨s', h1, h6, h7⟩

/-! ## The queues and the record pool -/

/-- C9: when cancellation is not requested, `dart__tasking__enqueue_runnable`
appends the task to the Deferred Queue and leaves the Ready Queue alone if the
task's phase is not runnable, and otherwise appends it to the Ready Queue and
leaves the Deferred Queue alone; either way the task gains exactly one queue
entry over the two queues.  When cancellation is requested the result is the
one of `dart__tasking__cancel_task`: the queues are as that call left them and
the only event logged is the cancel call, no push. -/
theorem C9_enqueue_runnable_one_queue (E : Collab D) (task : TaskPtr) (s : Sched D) :
    (s.cancel_requested = false →
      (E.phase_is_runnable s.runnable_phase (s.tasks task).phase = false →
        (dart__tasking__enqueue_runnable E task s).local_deferred_tasks
            = s.local_deferred_tasks ++ [task]
          ∧ (dart__tasking__enqueue_runnable E task s).global_queue = s.global_queue
          ∧ (dart__tasking__enqueue_runnable E task s).log
            = s.log ++ [Event.push_deferred task])
      ∧ (E.phase_is_runnable s.runnable_phase (s.tasks task).phase = true →
        (dart__tasking__enqueue_runnable E task s).global_queue = s.global_queue ++ [task]
          ∧ (dart__tasking__enqueue_runnable E task s).local_deferred_tasks
            = s.local_deferred_tasks
          ∧ (dart__tasking__enqueue_runnable E task s).log = s.log ++ [Event.push_ready task])
      ∧ ((dart__tasking__enqueue_runnable E task s).global_queue
            ++ (dart__tasking__enqueue_runnable E task s).local_deferred_tasks).count task
          = (s.global_queue ++ s.local_deferred_tasks).count task + 1
      ∧ (dart__tasking__enqueue_runnable E task s).tasks = s.tasks)
    ∧ (s.cancel_requested = true →
        dart__tasking__enqueue_runnable E task s = dart__tasking__cancel_task E task s
        ∧ (dart__tasking__enqueue_runnable E task s).global_queue
            = (E.cancel_task task s).global_queue
        ∧ (dart__tasking__enqueue_runnable E task s).local_deferred_tasks
            = (E.cancel_task task s).local_deferred_tasks
        ∧ (dart__tasking__enqueue_runnable E task s).log = s.log ++ [Event.cancel_task task]) := by
  constructor
  · intro hc
    by_cases hr : E.phase_is_runnable s.runnable_phase (s.tasks task).phase = true
    · simp [dart__tasking__enqueue_runnable, dart__tasking__cancellation_requested, hc, hr,
        dart_tasking_taskqueue_push, List.count_append]
      omega
    · simp only [Bool.not_eq_true] at hr
      simp [dart__tasking__enqueue_runnable, dart__tasking__cancellation_requested, hc, hr,
        dart_tasking_taskqueue_push, List.count_append]
      omega
  · intro hc
    simp [dart__tasking__enqueue_runnable, dart__tasking__cancellation_requested, hc,
      dart__tasking__cancel_task]

/-- C9 on the demo scheduler: a task of phase 5 is deferred while the runnable
phase is 0, and a cancelled scheduler queues nothing. -/
theorem C9_enqueue_runnable_one_queue_witness :
    (initial_sched 2).cancel_requested = false
    ∧ demoCollab.phase_is_runnable (initial_sched 2).runnable_phase
        (((initial_sched 2).store 1 { blank_task with phase := 5 }).tasks 1).phase = false
    ∧ cancelled_sched.cancel_requested = true
    ∧ (dart__tasking__enqueue_runnable demoCollab 1
          ((initial_sched 2).store 1 { blank_task with phase := 5 })).local_deferred_tasks = [1]
    ∧ (dart__tasking__enqueue_runnable demoCollab 1
          ((initial_sched 2).store 1 { blank_task with phase := 5 })).global_queue = []
    ∧ (dart__tasking__enqueue_runnable demoCollab 1 cancelled_sched).global_queue = []
    ∧ (dart__tasking__enqueue_runnable demoCollab 1 cancelled_sched).local_deferred_tasks
        = [] := by
  have h := C9_enqueue_runnable_one_queue demoCollab 1
    ((initial_sched 2).store 1 { blank_task with phase := 5 })
  have h2 := C9_enqueue_runnable_one_queue demoCollab 1 cancelled_sched
  obtain ⟨hd, hq, -⟩ := (h.1 rfl).1 (by decide)
  obtain ⟨-, hcq, hcd, -⟩ := h2.2 rfl
  exact ⟨rfl, by decide, rfl, hd, hq, hcq, hcd⟩

/-- C8 (the code at the failing input): in the second phase of the demo
application the wait loop of `dart__tasking__task_complete` on the root task
ends with free-list [2, 1] and recycle list [3].  The call returns DART_OK with
an empty recycle list and free-list [2, 3]: line 773 overwrote the `next` field
of the free-list head, and record 1, which was on the free-list, is on neither
list any more. -/
theorem C8_free_list_tail_dropped :
    demo_phase2_waited.current_task = root_task
    ∧ stack_members demo_phase2_waited.tasks 8 demo_phase2_waited.task_free_list = [2, 1]
    ∧ stack_members demo_phase2_waited.tasks 8 demo_phase2_waited.task_recycle_list = [3]
    ∧ dart__tasking__task_complete demoCollab (handle_task demoCollab demoFns 3) 5
          demo_phase2_spawned
        = Except.ok (DART_OK, task_complete_cleanup demoCollab demo_phase2_waited)
    ∧ (task_complete_cleanup demoCollab demo_phase2_waited).task_recycle_list = none
    ∧ stack_members (task_complete_cleanup demoCollab demo_phase2_waited).tasks 8
          (task_complete_cleanup demoCollab demo_phase2_waited).task_free_list = [2, 3]
    ∧ 1 ∉ stack_members (task_complete_cleanup demoCollab demo_phase2_waited).tasks 8
          (task_complete_cleanup demoCollab demo_phase2_waited).task_free_list :=
  ⟨by decide, by decide, by decide, rfl, by decide, by decide, by decide⟩

/-- A stack is unchanged by heap writes that keep the `next` fields of its members. -/
theorem is_stack_congr (tasks tasks' : TaskPtr → dart_task_t) (l : List TaskPtr)
    (head : Option TaskPtr) (h : ∀ x ∈ l, (tasks' x).next = (tasks x).next)
    (hs : is_stack tasks head l) : is_stack tasks' head l := by
  induction l generalizing head with
  | nil => cases head <;> simp [is_stack] at hs ⊢
  | cons a l ih =>
    cases head with
    | none => simp [is_stack] at hs
    | some e =>
      simp only [is_stack] at hs ⊢
      refine ⟨hs.1, ?_⟩
      rw [h a (List.mem_cons_self a l)]
      exact ih _ (fun x hx => h x (List.mem_cons_of_mem a hx)) hs.2

/-- The record handed out by `create_task` was not destroyed before, and the
rest of the free-list stays a well-formed stack. -/
theorem create_task_pool (E : Collab D) (fn : Option FnPtr) (data : Option Nat)
    (data_size : Nat) (prio : Int) (s : Sched D) (dead : List TaskPtr)
    (hinv : pool_inv s dead) :
    (create_task E fn data data_size prio s).1 ∉ dead
    ∧ ∃ F, is_stack s.tasks (create_task E fn data data_size prio s).2.task_free_list F
      ∧ F.Nodup
      ∧ (create_task E fn data data_size prio s).1 ∉ F
      ∧ (∀ x ∈ F, (s.tasks x).state = DART_TASK_DESTROYED ∧ x < s.brk)
      ∧ (∀ d ∈ dead, d ∉ F ∧ d < s.brk)
      ∧ s.brk ≤ (create_task E fn data data_size prio s).2.brk := by
  obtain ⟨F, hF, hnd, hst, hdead⟩ := hinv
  have hfst := create_task_fst E fn data data_size prio s
  cases hfl : s.task_free_list with
  | none =>
    rw [hfl] at hF hfst
    cases F with
    | cons a l => simp [is_stack] at hF
    | nil =>
      simp only [Option.getD_none] at hfst
      refine ⟨?_, [], ?_, List.nodup_nil, by simp, by simp, ?_, ?_⟩
      · rw [hfst]; intro hmem
        exact absurd (hdead _ hmem).2 (lt_irrefl _)
      · simp [create_task, DART_STACK_POP, allocate_task, hfl, is_stack]
      · intro d hd; exact ⟨by simp, (hdead d hd).2⟩
      · simp [create_task, DART_STACK_POP, allocate_task, hfl]
  | some e =>
    rw [hfl] at hF hfst
    cases F with
    | nil => simp [is_stack] at hF
    | cons a l =>
      simp only [is_stack] at hF
      obtain ⟨hea, hl⟩ := hF
      subst hea
      simp only [Option.getD_some] at hfst
      have hnd' := List.nodup_cons.mp hnd
      refine ⟨?_, l, ?_, hnd'.2, ?_, ?_, ?_, ?_⟩
      · rw [hfst]; intro hmem
        exact (hdead _ hmem).1 (List.mem_cons_self _ _)
      · simpa [create_task, DART_STACK_POP, allocate_task, hfl] using hl
      · rw [hfst]; exact hnd'.1
      · intro x hx; exact hst x (List.mem_cons_of_mem _ hx)
      · intro d hd
        exact ⟨fun h => (hdead d hd).1 (List.mem_cons_of_mem _ h), (hdead d hd).2⟩
      · simp [create_task, DART_STACK_POP, allocate_task, hfl]

/-- Both creation entry points keep the pool invariant and hand out a record
that was not destroyed before. -/
theorem create_public_pool (E : Collab D) (fn : Option FnPtr) (data : Option Nat)
    (data_size : Nat) (deps : List dart_task_dep_t) (prio : Int) (ref : Option TaskPtr)
    (s : Sched D) (dead : List TaskPtr) (hc : s.cancel_requested = false)
    (hinv : pool_inv s dead) :
    ∃ s1 s2,
      dart__tasking__create_task E fn data data_size deps prio s = Except.ok (DART_OK, s1)
      ∧ dart__tasking__create_task_handle E fn data data_size deps prio ref s
          = Except.ok (DART_OK, some (create_task E fn data data_size prio s).1, s2)
      ∧ (create_task E fn data data_size prio s).1 ∉ dead
      ∧ pool_inv s1 dead ∧ pool_inv s2 dead := by
  obtain ⟨s1, s2, h1, h2, ht1, ht2, hf1, hf2, -, -, hb1, hb2, -⟩ :=
    create_public_fields E fn data data_size deps prio ref s hc
  obtain ⟨hnd, F, hF, hFnd, hcF, hFst, hFdead, hbrk⟩ :=
    create_task_pool E fn data data_size prio s dead hinv
  have hoth := create_task_other E fn data data_size prio s
  refine ⟨s1, s2, h1, h2, hnd, ⟨F, ?_, hFnd, ?_, ?_⟩, ⟨F, ?_, hFnd, ?_, ?_⟩⟩
  · rw [hf1]
    refine is_stack_congr _ _ F _ ?_ hF
    intro x hx
    have hxc : x ≠ (create_task E fn data data_size prio s).1 := fun h => hcF (h ▸ hx)
    rw [ht1 x, ← hoth x hxc]
  · intro x hx
    have hxc : x ≠ (create_task E fn data data_size prio s).1 := fun h => hcF (h ▸ hx)
    rw [ht1 x, hb1]
    simp only [hxc, if_false]
    rw [hoth x hxc]
    exact ⟨(hFst x hx).1, lt_of_lt_of_le (hFst x hx).2 hbrk⟩
  · intro d hd
    rw [hb1]
    exact ⟨(hFdead d hd).1, lt_of_lt_of_le (hFdead d hd).2 hbrk⟩
  · rw [hf2]
    refine is_stack_congr _ _ F _ ?_ hF
    intro x hx
    have hxc : x ≠ (create_task E fn data data_size prio s).1 := fun h => hcF (h ▸ hx)
    rw [ht2 x, ← hoth x hxc]
  · intro x hx
    have hxc : x ≠ (create_task E fn data data_size prio s).1 := fun h => hcF (h ▸ hx)
    rw [ht2 x, hb2]
    simp only [hxc, if_false]
    rw [hoth x hxc]
    exact ⟨(hFst x hx).1, lt_of_lt_of_le (hFst x hx).2 hbrk⟩
  · intro d hd
    rw [hb2]
    exact ⟨(hFdead d hd).1, lt_of_lt_of_le (hFdead d hd).2 hbrk⟩

/-- Destroying a live record keeps the pool invariant, with the record added
to the destroyed ones. -/
theorem destroy_task_pool (E : Collab D) (t : TaskPtr) (s : Sched D) (dead : List TaskPtr)
    (hst : (s.tasks t).state ≠ DART_TASK_DESTROYED) (hbrk : t < s.brk)
    (hinv : pool_inv s dead) :
    pool_inv (dart__tasking__destroy_task E t s) (dead ++ [t]) := by
  obtain ⟨F, hF, hnd, hFst, hdead⟩ := hinv
  have htF : t ∉ F := fun h => hst (hFst t h).1
  have hoth : ∀ x, x ≠ t → (dart__tasking__destroy_task E t s).tasks x = s.tasks x := by
    intro x hx
    simp [dart__tasking__destroy_task, DART_STACK_PUSH, Function.update, hx]
  have hfl : (dart__tasking__destroy_task E t s).task_free_list = s.task_free_list := rfl
  have hb : (dart__tasking__destroy_task E t s).brk = s.brk := rfl
  refine ⟨F, ?_, hnd, ?_, ?_⟩
  · rw [hfl]
    refine is_stack_congr _ _ F _ ?_ hF
    intro x hx
    rw [hoth x (fun h => htF (h ▸ hx))]
  · intro x hx
    rw [hoth x (fun h => htF (h ▸ hx)), hb]
    exact hFst x hx
  · intro d hd
    rw [hb]
    rcases List.mem_append.mp hd with h | h
    · exact hdead d h
    · rw [List.mem_singleton.mp h]; exact ⟨htF, hbrk⟩

/-- On a non-root current task the clean-up of `dart__tasking__task_complete`
leaves the heap and both pool lists alone. -/
theorem cleanup_nonroot (E : Collab D) (s : Sched D) (h : s.current_task ≠ root_task) :
    (task_complete_cleanup E s).tasks = s.tasks
    ∧ (task_complete_cleanup E s).task_free_list = s.task_free_list
    ∧ (task_complete_cleanup E s).task_recycle_list = s.task_recycle_list
    ∧ (task_complete_cleanup E s).brk = s.brk := by
  simp [task_complete_cleanup, h]

/-- One admissible pool operation returns, hands out no destroyed record and
keeps the pool invariant. -/
theorem pool_step_inv (E : Collab D) (op : PoolOp) (s : Sched D) (dead : List TaskPtr)
    (hpre : op.pre s) (hinv : pool_inv s dead) :
    ∃ r, pool_step E op s = Except.ok r ∧ (∀ t, r.2 = some t → t ∉ dead)
      ∧ pool_inv r.1 (dead ++ op.destroyed) := by
  cases op with
  | create fn data data_size deps prio =>
    by_cases hc : s.cancel_requested = true
    · refine ⟨(s, none), ?_, by simp, by simpa [PoolOp.destroyed] using hinv⟩
      simp [pool_step, (create_cancelled E s hc fn data data_size deps prio none).1, bind,
        Except.bind, pure, Except.pure, dart__tasking__cancellation_requested, hc]
    · simp only [Bool.not_eq_true] at hc
      obtain ⟨s1, s2, h1, -, hnd, hi1, -⟩ :=
        create_public_pool E fn data data_size deps prio none s dead hc hinv
      refine ⟨(s1, some (create_task E fn data data_size prio s).1), ?_, ?_,
        by simpa [PoolOp.destroyed] using hi1⟩
      · simp [pool_step, h1, bind, Except.bind, pure, Except.pure,
          dart__tasking__cancellation_requested, hc]
      · intro t ht
        simp only [Option.some.injEq] at ht
        rw [← ht]; exact hnd
  | create_handle fn data data_size deps prio =>
    by_cases hc : s.cancel_requested = true
    · refine ⟨(s, none), ?_, by simp, by simpa [PoolOp.destroyed] using hinv⟩
      simp [pool_step, (create_cancelled E s hc fn data data_size deps prio none).2, bind,
        Except.bind, pure, Except.pure]
    · simp only [Bool.not_eq_true] at hc
      obtain ⟨s1, s2, -, h2, hnd, -, hi2⟩ :=
        create_public_pool E fn data data_size deps prio none s dead hc hinv
      refine ⟨(s2, some (create_task E fn data data_size prio s).1), ?_, ?_,
        by simpa [PoolOp.destroyed] using hi2⟩
      · simp [pool_step, h2, bind, Except.bind, pure, Except.pure]
      · intro t ht
        simp only [Option.some.injEq] at ht
        rw [← ht]; exact hnd
  | destroy t =>
    refine ⟨(dart__tasking__destroy_task E t s, none), rfl, by simp, ?_⟩
    exact destroy_task_pool E t s dead hpre.1 hpre.2 hinv
  | cleanup =>
    refine ⟨(task_complete_cleanup E s, none), rfl, by simp, ?_⟩
    obtain ⟨ht, hf, -, hb⟩ := cleanup_nonroot E s hpre
    obtain ⟨F, hF, hnd, hFst, hdead⟩ := hinv
    refine ⟨F, ?_, hnd, ?_, ?_⟩
    · rw [ht, hf]; exact hF
    · rw [ht, hb]; exact hFst
    · rw [hb]; simpa [PoolOp.destroyed] using hdead
  | write t r =>
    refine ⟨(s.store t r, none), rfl, by simp, ?_⟩
    obtain ⟨F, hF, hnd, hFst, hdead⟩ := hinv
    have htF : t ∉ F := fun h => hpre.1 (hFst t h).1
    have hoth : ∀ x, x ≠ t → (s.store t r).tasks x = s.tasks x := by
      intro x hx
      simp [Sched.store, Function.update, hx]
    refine ⟨F, ?_, hnd, ?_, ?_⟩
    · refine is_stack_congr _ _ F _ ?_ hF
      intro x hx
      rw [hoth x (fun h => htF (h ▸ hx))]
    · intro x hx
      rw [hoth x (fun h => htF (h ▸ hx))]
      exact hFst x hx
    · simpa [PoolOp.destroyed] using hdead

/-- Along an admissible sequence of pool operations every call returns and no
creation call hands out a record destroyed before. -/
theorem pool_safe_of_inv (E : Collab D) (ops : List PoolOp) (s : Sched D) (dead : List TaskPtr)
    (hadm : pool_admissible E ops s) (hinv : pool_inv s dead) : pool_safe E ops s dead := by
  induction ops generalizing s dead with
  | nil => simp [pool_safe]
  | cons op ops ih =>
    obtain ⟨hpre, hrest⟩ := hadm
    obtain ⟨r, hr, hout, hinv'⟩ := pool_step_inv E op s dead hpre hinv
    rw [hr] at hrest
    simp only [pool_safe, hr]
    exact ⟨hout, ih r.1 _ hrest hinv'⟩

/-- C7: `create_task` hands out the head of the free-list or, when that list
is empty, a fresh allocation; `dart__tasking__destroy_task` pushes the record
onto the recycle list and leaves the free-list head alone; the clean-up of
`dart__tasking__task_complete` on a non-root task moves nothing.  Hence, from
a well-formed pool, along every sequence of creation calls, destructions of
live records, non-root clean-ups and other assignments to live records (no
`task_complete` on the root task), every call returns and no creation call
hands out a record destroyed earlier in the sequence. -/
theorem C7_no_reuse_before_barrier (E : Collab D) (ops : List PoolOp) (s : Sched D)
    (hwf : pool_wf s) (hadm : pool_admissible E ops s) :
    pool_safe E ops s []
    ∧ (∀ fn data data_size prio (q : Sched D),
        (create_task E fn data data_size prio q).1 = q.task_free_list.getD q.brk)
    ∧ (∀ t (q : Sched D),
        (dart__tasking__destroy_task E t q).task_free_list = q.task_free_list
        ∧ (dart__tasking__destroy_task E t q).task_recycle_list = some t)
    ∧ (∀ q : Sched D, q.current_task ≠ root_task →
        (task_complete_cleanup E q).task_free_list = q.task_free_list
        ∧ (task_complete_cleanup E q).task_recycle_list = q.task_recycle_list) := by
  refine ⟨?_, ?_, ?_, ?_⟩
  · obtain ⟨F, hF, hnd, hst⟩ := hwf
    exact pool_safe_of_inv E ops s [] hadm ⟨F, hF, hnd, hst, by simp⟩
  · intro fn data data_size prio q
    exact create_task_fst E fn data data_size prio q
  · intro t q
    exact ⟨rfl, rfl⟩
  · intro q hq
    obtain ⟨-, hf, hr, -⟩ := cleanup_nonroot E q hq
    exact ⟨hf, hr⟩

/-- C7 on the demo scheduler after its first phase (free-list 3, 2, 1): a task
is created with a handle (record 3), the record is overwritten and then
destroyed, and two more tasks are created. -/
theorem C7_no_reuse_before_barrier_witness :
    pool_wf demo_after_phase1
    ∧ pool_admissible demoCollab
        [PoolOp.create_handle (some 0) none 0 [] 0, PoolOp.write 3 finished_task,
         PoolOp.destroy 3, PoolOp.create (some 0) none 0 [] 0,
         PoolOp.create (some 0) none 0 [] 0]
        demo_after_phase1
    ∧ pool_safe demoCollab
        [PoolOp.create_handle (some 0) none 0 [] 0, PoolOp.write 3 finished_task,
         PoolOp.destroy 3, PoolOp.create (some 0) none 0 [] 0,
         PoolOp.create (some 0) none 0 [] 0]
        demo_after_phase1 [] := by
  have hwf : pool_wf demo_after_phase1 :=
    ⟨[3, 2, 1], ⟨rfl, rfl, rfl, trivial⟩, by decide, by decide⟩
  have hadm : pool_admissible demoCollab
      [PoolOp.create_handle (some 0) none 0 [] 0, PoolOp.write 3 finished_task,
       PoolOp.destroy 3, PoolOp.create (some 0) none 0 [] 0,
       PoolOp.create (some 0) none 0 [] 0]
      demo_after_phase1 :=
    ⟨trivial, ⟨by decide, by decide⟩, ⟨by decide, by decide⟩, trivial, trivial, trivial⟩
  exact ⟨hwf, hadm,
    (C7_no_reuse_before_barrier demoCollab _ demo_after_phase1 hwf hadm).1⟩

/-! ## The worker's current task -/

/-- Whatever the task does, `handle_task` returns with the current task it was
entered with (line 446). -/
theorem handle_task_restores_current (E : Collab D) (F : FnTable D) (n : Nat)
    (task : Option TaskPtr) (s s' : Sched D) (h : handle_task E F n task s = Except.ok s') :
    s'.current_task = s.current_task := by
  cases task with
  | none =>
    cases n <;> simp only [handle_task, pure, Except.pure, Except.ok.injEq] at h <;> rw [← h]
  | some t =>
    cases n with
    | zero => simp [handle_task, throw, throwThe, MonadExceptOf.throw] at h
    | succ n =>
      simp only [handle_task, bind, Except.bind] at h
      split at h
      · cases h
      · rename_i s1 _
        simp only [handle_task_finish, bind, Except.bind] at h
        split at h
        · cases h
        · simp only [pure, Except.pure, Except.ok.injEq] at h
          rw [← h]; rfl

/-- Enqueueing leaves the current task alone when the cancellation module does. -/
theorem enqueue_runnable_current (E : Collab D)
    (hE : ∀ t (q : Sched D), (E.cancel_task t q).current_task = q.current_task)
    (t : TaskPtr) (s : Sched D) :
    (dart__tasking__enqueue_runnable E t s).current_task = s.current_task := by
  unfold dart__tasking__enqueue_runnable
  by_cases hc : dart__tasking__cancellation_requested s = true
  · simp [hc, dart__tasking__cancel_task, hE]
  · by_cases hr : E.phase_is_runnable s.runnable_phase (s.tasks t).phase = true <;>
      simp [hc, hr]

/-- Releasing a list of tasks leaves the current task alone. -/
theorem enqueue_all_current (E : Collab D)
    (hE : ∀ t (q : Sched D), (E.cancel_task t q).current_task = q.current_task)
    (ts : List TaskPtr) (s : Sched D) :
    (enqueue_all E ts s).current_task = s.current_task := by
  induction ts generalizing s with
  | nil => rfl
  | cons t ts ih =>
    simp only [enqueue_all, List.foldl_cons] at ih ⊢
    rw [ih, enqueue_runnable_current E hE]

/-- The wait loop keeps the current task when the handler it runs does. -/
theorem task_complete_wait_current (E : Collab D) (ht : Handler D)
    (hE : ∀ t (q : Sched D), (E.cancel_task t q).current_task = q.current_task)
    (hC : ∀ q : Sched D, (E.check_cancellation q).current_task = q.current_task)
    (hht : ∀ t (q q' : Sched D), ht t q = Except.ok q' → q'.current_task = q.current_task)
    (k : Nat) (t0 : TaskPtr) (s s' : Sched D)
    (h : task_complete_wait E ht k t0 s = Except.ok s') :
    s'.current_task = s.current_task := by
  induction k generalizing s with
  | zero =>
    unfold task_complete_wait at h
    by_cases hc : 0 < (s.tasks t0).num_children
    · simp [hc] at h
    · simp only [hc, if_false, pure, Except.pure, Except.ok.injEq] at h
      rw [← h]
  | succ k ih =>
    unfold task_complete_wait at h
    by_cases hc : 0 < (s.tasks t0).num_children
    · simp only [hc, if_true, bind, Except.bind] at h
      split at h
      · cases h
      · rename_i s3 hs3
        rw [ih _ h, hht _ _ _ hs3]
        have hn : ∀ q : Sched D, (next_task q).2.current_task = q.current_task := by
          intro q
          unfold next_task dart_tasking_taskqueue_pop
          by_cases hq : dart__tasking__cancellation_requested q = true
          · simp [hq]
          · cases hg : q.global_queue <;> simp [hq]
        rw [hn]
        simp only [dart__tasking__check_cancellation, hC, dart_tasking_remote_progress]
        rw [enqueue_all_current E hE]
    · simp only [hc, if_false, pure, Except.pure, Except.ok.injEq] at h
      rw [← h]

/-- `dart__tasking__task_complete` keeps the current task when the handler it
runs and the cancellation module do. -/
theorem task_complete_current (E : Collab D) (ht : Handler D)
    (hE : ∀ t (q : Sched D), (E.cancel_task t q).current_task = q.current_task)
    (hC : ∀ q : Sched D, (E.check_cancellation q).current_task = q.current_task)
    (hht : ∀ t (q q' : Sched D), ht t q = Except.ok q' → q'.current_task = q.current_task)
    (n : Nat) (s : Sched D) (r : dart_ret_t × Sched D)
    (h : dart__tasking__task_complete E ht n s = Except.ok r) :
    r.2.current_task = s.current_task := by
  unfold dart__tasking__task_complete at h
  by_cases ha : s.current_task ≠ root_task ∨ s.thread_id = 0
  · simp only [ha, not_true_eq_false, if_false, bind, Except.bind] at h
    cases hw : task_complete_wait E ht n
        (if s.current_task = root_task then
            dart__tasking__perform_matching E E.DART_PHASE_ANY s else s).current_task
        (if s.current_task = root_task then
            dart__tasking__perform_matching E E.DART_PHASE_ANY s else s) with
    | error e => rw [hw] at h; cases h
    | ok s4 =>
      rw [hw] at h
      simp only [pure, Except.pure, Except.ok.injEq] at h
      rw [← h]
      have hcl : ∀ q : Sched D, (task_complete_cleanup E q).current_task = q.current_task := by
        intro q
        unfold task_complete_cleanup
        by_cases hroot : q.current_task = root_task
        · cases hf : q.task_free_list <;>
            simp [hroot, dart__tasking__phase_set_runnable, Sched.store]
        · simp [hroot]
      rw [hcl]
      simp only [dart__tasking__check_cancellation, hC]
      rw [task_complete_wait_current E ht hE hC hht n _ _ _ hw]
      by_cases hroot : s.current_task = root_task
      · simp only [hroot, if_true]
        simp only [dart__tasking__perform_matching, dart__tasking__phase_set_runnable,
          dart_tasking_datadeps_handle_defered_local,
          dart_tasking_datadeps_handle_defered_remote,
          dart_tasking_remote_progress_blocking]
        rw [enqueue_all_current E hE, enqueue_all_current E hE]
        exact hroot
      · simp only [hroot, if_false]
  · simp only [ha, not_false_eq_true, if_true] at h
    cases h

/-- When the task function and the cancellation module leave the worker's
current task alone, control is back at line 417 of `handle_task` with the
handled task as the current task. -/
theorem handle_task_run_current (E : Collab D) (F : FnTable D) (n : Nat) (task : TaskPtr)
    (s s1 : Sched D)
    (hE : ∀ t (q : Sched D), (E.cancel_task t q).current_task = q.current_task)
    (hC : ∀ q : Sched D, (E.check_cancellation q).current_task = q.current_task)
    (hF : ∀ f ht data (q qb : Sched D) (j : Bool),
      F f ht data q = Except.ok (qb, j) → qb.current_task = q.current_task)
    (hrun : handle_task_run E F (handle_task E F n) n task s = Except.ok s1) :
    s1.current_task = task := by
  rw [handle_task_run_eq] at hrun
  cases hinv : invoke_taskfn F (handle_task E F n) task (running_entry task s) with
  | error e => rw [hinv] at hrun; cases hrun
  | ok s2 =>
    rw [hinv] at hrun
    simp only [bind, Except.bind] at hrun
    have h2 : s2.current_task = task := by
      unfold invoke_taskfn at hinv
      cases hfn : ((running_entry task s).tasks task).fn with
      | none => rw [hfn] at hinv; cases hinv
      | some f =>
        rw [hfn] at hinv
        simp only [bind, Except.bind] at hinv
        cases hb : F f (handle_task E F n) ((running_entry task s).tasks task).data
            ((running_entry task s).emit (Event.invoke task)) with
        | error e => rw [hb] at hinv; cases hinv
        | ok r =>
          rw [hb] at hinv
          have hrc := hF _ _ _ _ r.1 r.2 hb
          simp only [] at hinv
          cases hj : r.2 with
          | true =>
            rw [hj] at hinv
            simp only [if_true, pure, Except.pure, Except.ok.injEq] at hinv
            rw [← hinv]
            simp only [Sched.set_state, Sched.store, Sched.emit]
            rw [hrc]; rfl
          | false =>
            rw [hj] at hinv
            simp only [pure, Except.pure, Bool.false_eq_true, if_false, Except.ok.injEq] at hinv
            rw [← hinv, hrc]; rfl
    cases hc : dart__tasking__cancellation_requested s2 with
    | true =>
      rw [hc] at hrun
      simp only [not_true_eq_false, if_false, pure, Except.pure, Except.ok.injEq] at hrun
      rw [← hrun]; exact h2
    | false =>
      rw [hc] at hrun
      simp only [Bool.false_eq_true, not_false_eq_true, if_true] at hrun
      cases htc : dart__tasking__task_complete E (handle_task E F n) n s2 with
      | error e => rw [htc] at hrun; cases hrun
      | ok r =>
        rw [htc] at hrun
        simp only [pure, Except.pure, Except.ok.injEq] at hrun
        rw [← hrun, task_complete_current E (handle_task E F n) hE hC
          (fun t q q' h => handle_task_restores_current E F n t q q' h) n s2 r htc]
        exact h2

/-- The normal-return branch of `invoke_taskfn`. -/
theorem invoke_taskfn_return (F : FnTable D) (ht : Handler D) (task : TaskPtr) (f : FnPtr)
    (q sb : Sched D) (hfn : (q.tasks task).fn = some f)
    (hbody : F f ht (q.tasks task).data (q.emit (Event.invoke task)) = Except.ok (sb, false)) :
    invoke_taskfn F ht task q = Except.ok sb := by
  unfold invoke_taskfn
  rw [hfn]
  simp [hbody, bind, Except.bind, pure, Except.pure]

/-- A task whose function returns without leaving children behind needs no
fuel for the implicit wait: for every bound `n` the run phase of `handle_task`
returns, in the state the clean-up of `dart__tasking__task_complete` produces
from the one the function returned in. -/
theorem handle_task_run_leaf (E : Collab D) (F : FnTable D) (n : Nat) (task : TaskPtr)
    (f : FnPtr) (s sb : Sched D)
    (hfn : (s.tasks task).fn = some f)
    (hbody : F f (handle_task E F n) (s.tasks task).data
      ((running_entry task s).emit (Event.invoke task)) = Except.ok (sb, false))
    (hc : sb.cancel_requested = false)
    (hcur : sb.current_task = task)
    (hroot : task ≠ root_task)
    (hkids : (sb.tasks task).num_children ≤ 0) :
    handle_task_run E F (handle_task E F n) n task s
      = Except.ok (task_complete_cleanup E (dart__tasking__check_cancellation E sb)) := by
  have hfn2 : ((running_entry task s).tasks task).fn = some f := by
    rw [running_entry_task]; exact hfn
  have hdata : ((running_entry task s).tasks task).data = (s.tasks task).data := by
    rw [running_entry_task]
  rw [handle_task_run_eq, invoke_taskfn_return F _ task f _ sb hfn2 (by rw [hdata]; exact hbody)]
  have hnr : sb.current_task ≠ root_task := by rw [hcur]; exact hroot
  have hw : task_complete_wait E (handle_task E F n) n sb.current_task sb = Except.ok sb := by
    have hk : ¬ 0 < (sb.tasks sb.current_task).num_children := by
      rw [hcur]; exact not_lt.mpr hkids
    cases n <;> simp [task_complete_wait, hk, pure, Except.pure]
  simp [bind, Except.bind, pure, Except.pure, dart__tasking__cancellation_requested, hc,
    dart__tasking__task_complete, hnr, hw]

/-! ## Explicit wait, test and free-reference calls -/

/-- C11: `dart__tasking__task_wait` and `dart__tasking__task_test` return
DART_ERR_INVAL for a null reference pointer, a null handle and a handle to a
task in state DESTROYED, and `dart__tasking__task_test` also for a null flag
pointer.  In each case the scheduler state and the handle come back unchanged
(so no task was executed or destroyed), and `*flag` is 0 whenever the flag
pointer is not null. -/
theorem C11_wait_test_invalid_argument (E : Collab D) (ht : Handler D) (n : Nat) (s : Sched D) :
    dart__tasking__task_wait E ht n none s = Except.ok (DART_ERR_INVAL, none, s)
    ∧ dart__tasking__task_wait E ht n (some none) s = Except.ok (DART_ERR_INVAL, some none, s)
    ∧ (∀ t, (s.tasks t).state = DART_TASK_DESTROYED →
        dart__tasking__task_wait E ht n (some (some t)) s
          = Except.ok (DART_ERR_INVAL, some (some t), s))
    ∧ (∀ tr, dart__tasking__task_test E ht tr none s = Except.ok (DART_ERR_INVAL, tr, none, s))
    ∧ (∀ f, dart__tasking__task_test E ht none (some f) s
        = Except.ok (DART_ERR_INVAL, none, some 0, s))
    ∧ (∀ f, dart__tasking__task_test E ht (some none) (some f) s
        = Except.ok (DART_ERR_INVAL, some none, some 0, s))
    ∧ (∀ f t, (s.tasks t).state = DART_TASK_DESTROYED →
        dart__tasking__task_test E ht (some (some t)) (some f) s
          = Except.ok (DART_ERR_INVAL, some (some t), some 0, s)) := by
  refine ⟨rfl, rfl, ?_, fun _ => rfl, fun _ => rfl, fun _ => rfl, ?_⟩
  · intro t h
    simp [dart__tasking__task_wait, h, pure, Except.pure]
  · intro f t h
    simp [dart__tasking__task_test, h, pure, Except.pure]

/-- C11 on the initial demo scheduler, where record 1 is in state DESTROYED. -/
theorem C11_wait_test_invalid_argument_witness :
    ((initial_sched 2).tasks 1).state = DART_TASK_DESTROYED
    ∧ dart__tasking__task_wait demoCollab (handle_task demoCollab demoFns 2) 2 (some (some 1))
        (initial_sched 2) = Except.ok (DART_ERR_INVAL, some (some 1), initial_sched 2)
    ∧ dart__tasking__task_test demoCollab (handle_task demoCollab demoFns 2) (some (some 1))
        (some 7) (initial_sched 2)
        = Except.ok (DART_ERR_INVAL, some (some 1), some 0, initial_sched 2) :=
  ⟨by decide,
    (C11_wait_test_invalid_argument demoCollab (handle_task demoCollab demoFns 2) 2
      (initial_sched 2)).2.2.1 1 (by decide),
    (C11_wait_test_invalid_argument demoCollab (handle_task demoCollab demoFns 2) 2
      (initial_sched 2)).2.2.2.2.2.2 7 1 (by decide)⟩

/-- Fields of the scheduler after `dart__tasking__destroy_task`. -/
theorem destroy_task_fields (E : Collab D) (t : TaskPtr) (s : Sched D) :
    ((dart__tasking__destroy_task E t s).tasks t).state = DART_TASK_DESTROYED
    ∧ ((dart__tasking__destroy_task E t s).tasks t).has_ref = false
    ∧ ((dart__tasking__destroy_task E t s).tasks t).next = s.task_recycle_list
    ∧ (dart__tasking__destroy_task E t s).task_recycle_list = some t
    ∧ (dart__tasking__destroy_task E t s).task_free_list = s.task_free_list
    ∧ (dart__tasking__destroy_task E t s).global_queue = s.global_queue
    ∧ (dart__tasking__destroy_task E t s).local_deferred_tasks = s.local_deferred_tasks
    ∧ (dart__tasking__destroy_task E t s).current_task = s.current_task
    ∧ (dart__tasking__destroy_task E t s).log = s.log ++ [Event.destroy t] := by
  simp [dart__tasking__destroy_task, DART_STACK_PUSH, Function.update]

/-- C13: for a valid reference (non-null pointers, task not DESTROYED),
`dart__tasking__task_test` returns DART_OK without calling the task handler in
two cases: a FINISHED task is destroyed, `*flag` becomes 1 and `*tr` becomes
DART_TASK_NULL; a task that is not FINISHED on a pool whose thread count is
not 1 leaves the scheduler state (tasks, Ready Queue, log) and `*tr` exactly
as they were and sets `*flag` to 0. -/
theorem C13_task_test_poll (E : Collab D) (ht : Handler D) (s : Sched D) (t : TaskPtr) (f : Int)
    (hlive : (s.tasks t).state ≠ DART_TASK_DESTROYED) :
    ((s.tasks t).state = DART_TASK_FINISHED →
      dart__tasking__task_test E ht (some (some t)) (some f) s
        = Except.ok (DART_OK, some none, some 1, dart__tasking__destroy_task E t s)
      ∧ ((dart__tasking__destroy_task E t s).tasks t).state = DART_TASK_DESTROYED
      ∧ (dart__tasking__destroy_task E t s).task_recycle_list = some t
      ∧ (dart__tasking__destroy_task E t s).global_queue = s.global_queue
      ∧ (dart__tasking__destroy_task E t s).log = s.log ++ [Event.destroy t])
    ∧ ((s.tasks t).state ≠ DART_TASK_FINISHED → s.num_threads ≠ 1 →
      dart__tasking__task_test E ht (some (some t)) (some f) s
        = Except.ok (DART_OK, some (some t), some 0, s)) := by
  constructor
  · intro hfin
    obtain ⟨h1, -, -, h4, -, h6, -, -, h9⟩ := destroy_task_fields E t s
    refine ⟨?_, h1, h4, h6, h9⟩
    simp [dart__tasking__task_test, hfin, pure, Except.pure, bind, Except.bind]
  · intro hnf hn
    simp [dart__tasking__task_test, hlive, hnf, hn, pure, Except.pure, bind, Except.bind]

/-- C13 on the demo scheduler: task 1 FINISHED, and task 1 just created on a
pool of two threads. -/
theorem C13_task_test_poll_witness :
    (demo_finished.tasks 1).state ≠ DART_TASK_DESTROYED
    ∧ (demo_finished.tasks 1).state = DART_TASK_FINISHED
    ∧ dart__tasking__task_test demoCollab (handle_task demoCollab demoFns 2) (some (some 1))
        (some 7) demo_finished
        = Except.ok (DART_OK, some none, some 1, dart__tasking__destroy_task demoCollab 1
            demo_finished)
    ∧ ((demo_handle 2 0).2.tasks 1).state ≠ DART_TASK_DESTROYED
    ∧ ((demo_handle 2 0).2.tasks 1).state ≠ DART_TASK_FINISHED
    ∧ (demo_handle 2 0).2.num_threads ≠ 1
    ∧ dart__tasking__task_test demoCollab (handle_task demoCollab demoFns 2) (some (some 1))
        (some 7) (demo_handle 2 0).2
        = Except.ok (DART_OK, some (some 1), some 0, (demo_handle 2 0).2) :=
  ⟨by decide, by decide,
    ((C13_task_test_poll demoCollab (handle_task demoCollab demoFns 2) demo_finished 1 7
      (by decide)).1 (by decide)).1,
    by decide, by decide, by decide,
    (C13_task_test_poll demoCollab (handle_task demoCollab demoFns 2) (demo_handle 2 0).2 1 7
      (by decide)).2 (by decide) (by decide)⟩

/-- C15: for a non-null reference `dart__tasking__taskref_free` returns DART_OK
and calls no task handler.  If the task is FINISHED with `has_ref` set, it is
destroyed (state DESTROYED, head of the recycle list) and `*tr` becomes
DART_TASK_NULL.  Otherwise only `has_ref` is cleared: the task's state, every
other record, the queues, the pool lists, the log and `*tr` are unchanged, and
any later finish sequence of the worker that finds `has_ref` cleared destroys
the task. -/
theorem C15_taskref_free_detaches (E : Collab D) (s : Sched D) (t : TaskPtr) :
    (dart__tasking__taskref_free E (some (some t)) s).1 = DART_OK
    ∧ ((s.tasks t).state = DART_TASK_FINISHED ∧ (s.tasks t).has_ref = true →
        dart__tasking__taskref_free E (some (some t)) s
          = (DART_OK, some none, dart__tasking__destroy_task E t s)
        ∧ ((dart__tasking__destroy_task E t s).tasks t).state = DART_TASK_DESTROYED
        ∧ (dart__tasking__destroy_task E t s).task_recycle_list = some t
        ∧ (dart__tasking__destroy_task E t s).log = s.log ++ [Event.destroy t])
    ∧ (¬ ((s.tasks t).state = DART_TASK_FINISHED ∧ (s.tasks t).has_ref = true) →
        dart__tasking__taskref_free E (some (some t)) s
          = (DART_OK, some (some t), s.store t { s.tasks t with has_ref := false })
        ∧ (dart__tasking__taskref_free E (some (some t)) s).2.2.tasks t
            = { s.tasks t with has_ref := false }
        ∧ (∀ x, x ≠ t → (dart__tasking__taskref_free E (some (some t)) s).2.2.tasks x = s.tasks x)
        ∧ (dart__tasking__taskref_free E (some (some t)) s).2.2.global_queue = s.global_queue
        ∧ (dart__tasking__taskref_free E (some (some t)) s).2.2.local_deferred_tasks
            = s.local_deferred_tasks
        ∧ (dart__tasking__taskref_free E (some (some t)) s).2.2.task_recycle_list
            = s.task_recycle_list
        ∧ (dart__tasking__taskref_free E (some (some t)) s).2.2.task_free_list = s.task_free_list
        ∧ (dart__tasking__taskref_free E (some (some t)) s).2.2.log = s.log)
    ∧ (∀ (cur : TaskPtr) (q : Sched D), (q.tasks t).has_ref = false →
        ((handle_task_retire E cur t q).tasks t).state = DART_TASK_DESTROYED
        ∧ (handle_task_retire E cur t q).task_recycle_list = some t) := by
  refine ⟨?_, ?_, ?_, ?_⟩
  · unfold dart__tasking__taskref_free
    simp only []
    split <;> rfl
  · intro h
    obtain ⟨h1, -, -, h4, -, -, -, -, h9⟩ := destroy_task_fields E t s
    refine ⟨?_, h1, h4, h9⟩
    simp [dart__tasking__taskref_free, h]
  · intro h
    have hres : dart__tasking__taskref_free E (some (some t)) s
        = (DART_OK, some (some t), s.store t { s.tasks t with has_ref := false }) := by
      unfold dart__tasking__taskref_free
      simp only []
      rw [if_neg h]
    rw [hres]
    refine ⟨rfl, ?_, ?_, rfl, rfl, rfl, rfl, rfl⟩
    · simp [Sched.store, Function.update]
    · intro x hx
      simp [Sched.store, Function.update, hx]
  · intro cur q hq
    obtain ⟨-, h2, h3, -⟩ := retire_unreferenced E cur t q hq
    exact ⟨h2, h3⟩

/-- C15 on the demo scheduler: the handle of the FINISHED task 1 is freed, and
the handle of the task 1 that was just created is freed. -/
theorem C15_taskref_free_detaches_witness :
    ((demo_finished.tasks 1).state = DART_TASK_FINISHED ∧ (demo_finished.tasks 1).has_ref = true)
    ∧ dart__tasking__taskref_free demoCollab (some (some 1)) demo_finished
        = (DART_OK, some none, dart__tasking__destroy_task demoCollab 1 demo_finished)
    ∧ ¬ (((demo_handle 2 0).2.tasks 1).state = DART_TASK_FINISHED
          ∧ ((demo_handle 2 0).2.tasks 1).has_ref = true)
    ∧ dart__tasking__taskref_free demoCollab (some (some 1)) (demo_handle 2 0).2
        = (DART_OK, some (some 1),
            (demo_handle 2 0).2.store 1 { (demo_handle 2 0).2.tasks 1 with has_ref := false })
    ∧ (((demo_handle 2 0).2.store 1
          { (demo_handle 2 0).2.tasks 1 with has_ref := false }).tasks 1).has_ref = false
    ∧ ((handle_task_retire demoCollab 0 1 ((demo_handle 2 0).2.store 1
          { (demo_handle 2 0).2.tasks 1 with has_ref := false })).tasks 1).state
        = DART_TASK_DESTROYED :=
  ⟨by decide,
    ((C15_taskref_free_detaches demoCollab demo_finished 1).2.1 (by decide)).1,
    by decide,
    ((C15_taskref_free_detaches demoCollab (demo_handle 2 0).2 1).2.2.1 (by decide)).1,
    by decide,
    ((C15_taskref_free_detaches demoCollab (demo_handle 2 0).2 1).2.2.2 0 _ (by decide)).1⟩

/-- C16 (the code at the failing input): for a reference to a task whose state
is DESTROYED `dart__tasking__taskref_free` returns DART_OK, not
DART_ERR_INVAL: lines 791-793 test only for null, unlike the entry tests of
`dart__tasking__task_wait` and `dart__tasking__task_test`.  The handle is left
as it was and the only assignment is `has_ref = false`.  For a null reference
pointer and for a null handle the result is DART_ERR_INVAL with nothing
modified. -/
theorem C16_taskref_free_accepts_destroyed (E : Collab D) (s : Sched D) (t : TaskPtr)
    (hd : (s.tasks t).state = DART_TASK_DESTROYED) :
    dart__tasking__taskref_free E (some (some t)) s
        = (DART_OK, some (some t), s.store t { s.tasks t with has_ref := false })
    ∧ (dart__tasking__taskref_free E (some (some t)) s).1 ≠ DART_ERR_INVAL
    ∧ dart__tasking__taskref_free E none s = (DART_ERR_INVAL, none, s)
    ∧ dart__tasking__taskref_free E (some none) s = (DART_ERR_INVAL, some none, s) := by
  have hres : dart__tasking__taskref_free E (some (some t)) s
      = (DART_OK, some (some t), s.store t { s.tasks t with has_ref := false }) := by
    unfold dart__tasking__taskref_free
    simp [hd]
  refine ⟨hres, ?_, rfl, rfl⟩
  rw [hres]
  show DART_OK ≠ DART_ERR_INVAL
  decide

/-- C16 on the initial demo scheduler, where record 1 is in state DESTROYED. -/
theorem C16_taskref_free_accepts_destroyed_witness :
    ((initial_sched 2).tasks 1).state = DART_TASK_DESTROYED
    ∧ (dart__tasking__taskref_free demoCollab (some (some 1)) (initial_sched 2)).1 = DART_OK
    ∧ (dart__tasking__taskref_free demoCollab (some (some 1)) (initial_sched 2)).1
        ≠ DART_ERR_INVAL :=
  ⟨by decide, by decide,
    (C16_taskref_free_accepts_destroyed demoCollab (initial_sched 2) 1 (by decide)).2.1⟩

/-- The wait loop of `dart__tasking__task_wait` is left only with the task
FINISHED. -/
theorem task_wait_loop_exit (E : Collab D) (ht : Handler D) (n : Nat) (t : TaskPtr)
    (s s1 : Sched D) (h : task_wait_loop E ht n t s = Except.ok s1) :
    (s1.tasks t).state = DART_TASK_FINISHED := by
  induction n generalizing s with
  | zero =>
    unfold task_wait_loop at h
    by_cases hc : (s.tasks t).state = DART_TASK_FINISHED
    · simp only [hc, ne_eq, not_true_eq_false, if_false, pure, Except.pure,
        Except.ok.injEq] at h
      rw [← h]; exact hc
    · simp [hc] at h
  | succ n ih =>
    unfold task_wait_loop at h
    by_cases hc : (s.tasks t).state = DART_TASK_FINISHED
    · simp only [hc, ne_eq, not_true_eq_false, if_false, pure, Except.pure,
        Except.ok.injEq] at h
      rw [← h]; exact hc
    · simp only [ne_eq, hc, not_false_eq_true, if_true, bind, Except.bind] at h
      split at h
      · cases h
      · exact ih _ h

/-- On a task that is already FINISHED the wait loop ends at once, whatever
the bound. -/
theorem task_wait_loop_finished (E : Collab D) (ht : Handler D) (n : Nat) (t : TaskPtr)
    (s : Sched D) (h : (s.tasks t).state = DART_TASK_FINISHED) :
    task_wait_loop E ht n t s = Except.ok s := by
  cases n <;> simp [task_wait_loop, h, pure, Except.pure]

/-- What a DART_OK result of `dart__tasking__task_wait` was computed from. -/
theorem task_wait_ok (E : Collab D) (ht : Handler D) (n : Nat) (tr tr' : Option (Option TaskPtr))
    (s s' : Sched D)
    (h : dart__tasking__task_wait E ht n tr s = Except.ok (DART_OK, tr', s')) :
    ∃ t s1, tr = some (some t) ∧ (s.tasks t).state ≠ DART_TASK_DESTROYED
      ∧ task_wait_loop E ht n t s = Except.ok s1
      ∧ tr' = some none
      ∧ s' = dart__tasking__destroy_task E t
          (s1.store t { s1.tasks t with has_ref := false }) := by
  unfold dart__tasking__task_wait at h
  cases tr with
  | none => simp [pure, Except.pure] at h
  | some hd =>
    cases hd with
    | none => simp [pure, Except.pure] at h
    | some t =>
      simp only [] at h
      by_cases hdes : (s.tasks t).state = DART_TASK_DESTROYED
      · simp [hdes, pure, Except.pure] at h
      · simp only [hdes, if_false, bind, Except.bind] at h
        cases hl : task_wait_loop E ht n t s with
        | error e => rw [hl] at h; cases h
        | ok s1 =>
          rw [hl] at h
          simp only [pure, Except.pure, Except.ok.injEq, Prod.mk.injEq, true_and] at h
          exact ⟨t, s1, rfl, hdes, hl, h.1.symm, h.2.symm⟩

/-- C12 (counterexample): in the second demo application task 1 creates child
task 2 and is then cancelled.  `dart__tasking__task_wait` on the handle of
task 1 returns DART_OK with task 1 destroyed, although the child was never
invoked and never FINISHED: it is still CREATED and still in the Ready Queue. -/
theorem C12_wait_returns_with_child_not_run :
    dart__tasking__task_wait demoCollab (handle_task demoCollab cancelFns 3) 3
        (some (demo_handle 2 3).1) (demo_handle 2 3).2
      = Except.ok (DART_OK, some none, demo_waited_cancelled)
    ∧ Event.inc_children 1 ∈ demo_waited_cancelled.log
    ∧ (demo_waited_cancelled.tasks 2).parent = some 1
    ∧ (demo_waited_cancelled.tasks 1).state = DART_TASK_DESTROYED
    ∧ (demo_waited_cancelled.tasks 2).state = DART_TASK_CREATED
    ∧ Event.invoke 2 ∉ demo_waited_cancelled.log
    ∧ Event.set_state 2 DART_TASK_FINISHED ∉ demo_waited_cancelled.log
    ∧ demo_waited_cancelled.global_queue = [2] :=
  ⟨rfl, by decide, by decide, by decide, by decide, by decide, by decide, by decide⟩

/-- C12 (amended): whenever `dart__tasking__task_wait` returns DART_OK, the
reference was valid, the wait loop ended with the task observed FINISHED, the
task was then destroyed (state DESTROYED, `has_ref` false, head of the recycle
list, one destruction logged after the loop) and `*tr` is DART_TASK_NULL; on a
task that is already FINISHED the call returns for every bound.  A task is
marked FINISHED by `handle_task` only after its implicit wait, and that wait,
which is executed when cancellation is not requested at line 411, ends only
with `num_children` not positive. -/
theorem C12_task_wait_destroys_finished (E : Collab D) (ht : Handler D) (n : Nat)
    (tr tr' : Option (Option TaskPtr)) (s s' : Sched D)
    (h : dart__tasking__task_wait E ht n tr s = Except.ok (DART_OK, tr', s')) :
    (∃ t s1, tr = some (some t) ∧ (s.tasks t).state ≠ DART_TASK_DESTROYED
      ∧ task_wait_loop E ht n t s = Except.ok s1
      ∧ (s1.tasks t).state = DART_TASK_FINISHED
      ∧ tr' = some none
      ∧ (s'.tasks t).state = DART_TASK_DESTROYED
      ∧ (s'.tasks t).has_ref = false
      ∧ s'.task_recycle_list = some t
      ∧ t ∈ stack_members s'.tasks 1 s'.task_recycle_list
      ∧ s'.log = s1.log ++ [Event.destroy t])
    ∧ (∀ (t : TaskPtr) (q : Sched D) (k : Nat), (q.tasks t).state = DART_TASK_FINISHED →
        dart__tasking__task_wait E ht k (some (some t)) q
          = Except.ok (DART_OK, some none,
              dart__tasking__destroy_task E t (q.store t { q.tasks t with has_ref := false })))
    ∧ (∀ (F : FnTable D) (k : Nat) (task : TaskPtr) (q q2 q1 : Sched D),
        invoke_taskfn F (handle_task E F k) task (running_entry task q) = Except.ok q2 →
        q2.cancel_requested = false →
        handle_task_run E F (handle_task E F k) k task q = Except.ok q1 →
        ∃ qm qw, dart__tasking__task_complete E (handle_task E F k) k q2
            = Except.ok (DART_OK, q1)
          ∧ qm = (if q2.current_task = root_task then
                    dart__tasking__perform_matching E E.DART_PHASE_ANY q2 else q2)
          ∧ task_complete_wait E (handle_task E F k) k qm.current_task qm = Except.ok qw
          ∧ (qw.tasks qm.current_task).num_children ≤ 0) := by
  refine ⟨?_, ?_, ?_⟩
  · obtain ⟨t, s1, htr, hlive, hloop, htr', hs'⟩ := task_wait_ok E ht n tr tr' s s' h
    obtain ⟨h1, h2, -, h4, -, -, -, -, h9⟩ :=
      destroy_task_fields E t (s1.store t { s1.tasks t with has_ref := false })
    refine ⟨t, s1, htr, hlive, hloop, task_wait_loop_exit E ht n t s s1 hloop, htr', ?_, ?_, ?_,
      ?_, ?_⟩
    · rw [hs']; exact h1
    · rw [hs']; exact h2
    · rw [hs']; exact h4
    · rw [hs', h4]; simp [stack_members]
    · rw [hs', h9]; rfl
  · intro t q k hfin
    have hlive : (q.tasks t).state ≠ DART_TASK_DESTROYED := by rw [hfin]; decide
    simp [dart__tasking__task_wait, hlive, task_wait_loop_finished E ht k t q hfin, bind,
      Except.bind, pure, Except.pure]
  · intro F k task q q2 q1 hinv hc hrun
    rw [handle_task_run_eq, hinv] at hrun
    simp only [bind, Except.bind, dart__tasking__cancellation_requested, hc,
      Bool.false_eq_true, not_false_eq_true, if_true] at hrun
    cases htc : dart__tasking__task_complete E (handle_task E F k) k q2 with
    | error e => rw [htc] at hrun; cases hrun
    | ok r =>
      rw [htc] at hrun
      simp only [pure, Except.pure, Except.ok.injEq] at hrun
      have htc2 := htc
      unfold dart__tasking__task_complete at htc2
      by_cases ha : q2.current_task ≠ root_task ∨ q2.thread_id = 0
      · simp only [ha, not_true_eq_false, if_false, bind, Except.bind] at htc2
        cases hw : task_complete_wait E (handle_task E F k) k
            (if q2.current_task = root_task then
                dart__tasking__perform_matching E E.DART_PHASE_ANY q2 else q2).current_task
            (if q2.current_task = root_task then
                dart__tasking__perform_matching E E.DART_PHASE_ANY q2 else q2) with
        | error e => rw [hw] at htc2; cases htc2
        | ok qw =>
          rw [hw] at htc2
          simp only [pure, Except.pure, Except.ok.injEq] at htc2
          refine ⟨_, qw, ?_, rfl, hw, task_complete_wait_exit E _ k _ _ qw hw⟩
          rw [← hrun, ← htc2]
      · simp only [ha, not_false_eq_true, if_true] at htc2
        cases htc2

/-- C12 (amended) on the demo scheduler: task 1 creates child task 2; the wait
on the handle of task 1 returns DART_OK after task 2 was marked FINISHED and
before task 1 was. -/
theorem C12_task_wait_destroys_finished_witness :
    dart__tasking__task_wait demoCollab (handle_task demoCollab demoFns 3) 3
        (some (demo_handle 2 2).1) (demo_handle 2 2).2
      = Except.ok (DART_OK, some none, demo_waited)
    ∧ (demo_waited.tasks 1).state = DART_TASK_DESTROYED
    ∧ (demo_waited.tasks 1).has_ref = false
    ∧ demo_waited.task_recycle_list = some 1
    ∧ Event.inc_children 1 ∈ demo_waited.log
    ∧ demo_waited.log.indexOf (Event.set_state 2 DART_TASK_FINISHED)
        < demo_waited.log.indexOf (Event.set_state 1 DART_TASK_FINISHED)
    ∧ demo_waited.log.indexOf (Event.set_state 1 DART_TASK_FINISHED)
        < demo_waited.log.indexOf (Event.destroy 1)
    ∧ demo_waited.log.indexOf (Event.destroy 1) < demo_waited.log.length := by
  have h : dart__tasking__task_wait demoCollab (handle_task demoCollab demoFns 3) 3
      (some (demo_handle 2 2).1) (demo_handle 2 2).2
      = Except.ok (DART_OK, some none, demo_waited) := rfl
  obtain ⟨⟨t, s1, htr, -, -, -, -, h1, h2, h3, -⟩, -, -⟩ :=
    C12_task_wait_destroys_finished demoCollab (handle_task demoCollab demoFns 3) 3 _ _ _ _ h
  have ht : t = 1 := by
    have : (demo_handle 2 2).1 = some 1 := by decide
    rw [this] at htr
    simp only [Option.some.injEq] at htr
    exact htr.symm
  subst ht
  exact ⟨h, h1, h2, h3, by decide, by decide, by decide, by decide⟩

/-- C14 (counterexample): on a single-thread pool the task just created sits
in the Deferred Queue (its phase is not runnable) and the Ready Queue is empty.
`dart__tasking__task_test` on its handle returns DART_OK with `*flag` 0 and the
scheduler state unchanged: no task was popped and none was executed. -/
theorem C14_test_pops_nothing_on_empty_queue :
    demo_deferred.2.num_threads = 1
    ∧ demo_deferred.1 = some 1
    ∧ (demo_deferred.2.tasks 1).state = DART_TASK_CREATED
    ∧ demo_deferred.2.global_queue = []
    ∧ demo_deferred.2.local_deferred_tasks = [1]
    ∧ dart__tasking__task_test demoCollab (handle_task demoCollab demoFns 3)
          (some demo_deferred.1) (some 7) demo_deferred.2
        = Except.ok (DART_OK, some (some 1), some 0, demo_deferred.2)
    ∧ demo_deferred.2.log.countP Event.is_pop = 0
    ∧ demo_deferred.2.log.countP Event.is_invoke = 0 :=
  ⟨by decide, by decide, by decide, by decide, by decide, rfl, by decide, by decide⟩

/-- The single-thread branch of `dart__tasking__task_test`: remote progress,
one `next_task`, one call of the task handler on what it returned. -/
theorem task_test_single (E : Collab D) (ht : Handler D) (s : Sched D) (t : TaskPtr) (f : Int)
    (hn : s.num_threads = 1)
    (hlive : (s.tasks t).state ≠ DART_TASK_DESTROYED)
    (hnf : (s.tasks t).state ≠ DART_TASK_FINISHED) :
    dart__tasking__task_test E ht (some (some t)) (some f) s
      = (ht (next_task (dart_tasking_remote_progress E s)).1
            (next_task (dart_tasking_remote_progress E s)).2 >>= fun s2 =>
          if (s2.tasks t).state = DART_TASK_FINISHED then
            pure (DART_OK, some none, some 1, dart__tasking__destroy_task E t s2)
          else pure (DART_OK, some (some t), some 0, s2)) := by
  unfold dart__tasking__task_test
  simp only [hlive, if_false, hn, hnf, ne_eq, not_false_eq_true, and_self, if_true, bind,
    Except.bind]
  cases ht (next_task (dart_tasking_remote_progress E s)).1
      (next_task (dart_tasking_remote_progress E s)).2 with
  | error e => rfl
  | ok s2 => rfl

/-- Remote progress only appends release effects to the log. -/
theorem remote_progress_log (E : Collab D) (s : Sched D) :
    ∃ L, (dart_tasking_remote_progress E s).log = s.log ++ L
      ∧ ∀ e ∈ L, e.is_release_effect = true := by
  obtain ⟨L, hL, hk⟩ := enqueue_all_log E (E.remote_progress s.deps).2
    { s with deps := (E.remote_progress s.deps).1 }
  exact ⟨L, by simpa [dart_tasking_remote_progress] using hL, hk⟩

/-- `next_task` on a scheduler without cancellation pops the head of the Ready Queue. -/
theorem next_task_pop (s : Sched D) (t : TaskPtr) (rest : List TaskPtr)
    (hc : s.cancel_requested = false) (hq : s.global_queue = t :: rest) :
    next_task s = (some t, { s with global_queue := rest, log := s.log ++ [Event.pop_ready t] }) := by
  simp [next_task, dart__tasking__cancellation_requested, hc, hq, dart_tasking_taskqueue_pop]

/-- Release effects are neither pops nor invocations. -/
theorem release_effects_count (L : List Event) (hL : ∀ e ∈ L, e.is_release_effect = true) :
    L.countP Event.is_pop = 0 ∧ L.countP Event.is_invoke = 0 := by
  constructor <;>
  · rw [List.countP_eq_zero]
    intro e he
    have := hL e he
    cases e <;> simp_all [Event.is_release_effect, Event.is_pop, Event.is_invoke]

/-- C14 (amended): on a single-thread pool `dart__tasking__task_test` on a
valid reference to a task that is not FINISHED advances remote progress, calls
`next_task` once and hands what it returned (no task when the Ready Queue is
empty or cancellation is requested) to the task handler once.  When the tested
task is at the head of the Ready Queue, its run phase executes only its own
function, and it still carries its reference when it finishes, then the call
returns DART_OK with `*flag` 1 and `*tr` DART_TASK_NULL, the task is
destroyed, and from the call on the log holds exactly one pop and exactly one
invocation. -/
theorem C14_single_thread_test_runs_head (E : Collab D) (F : FnTable D) (n : Nat)
    (s : Sched D) (t : TaskPtr) (f : Int)
    (hn : s.num_threads = 1)
    (hlive : (s.tasks t).state ≠ DART_TASK_DESTROYED)
    (hnf : (s.tasks t).state ≠ DART_TASK_FINISHED) :
    (∀ ht : Handler D,
      dart__tasking__task_test E ht (some (some t)) (some f) s
        = (ht (next_task (dart_tasking_remote_progress E s)).1
              (next_task (dart_tasking_remote_progress E s)).2 >>= fun s2 =>
            if (s2.tasks t).state = DART_TASK_FINISHED then
              pure (DART_OK, some none, some 1, dart__tasking__destroy_task E t s2)
            else pure (DART_OK, some (some t), some 0, s2)))
    ∧ (∀ (p : TaskPtr) (rest : List TaskPtr) (s1 : Sched D),
        (dart_tasking_remote_progress E s).cancel_requested = false →
        (dart_tasking_remote_progress E s).global_queue = t :: rest →
        handle_task_run E F (handle_task E F n) n t
          (next_task (dart_tasking_remote_progress E s)).2 = Except.ok s1 →
        s1.log = (next_task (dart_tasking_remote_progress E s)).2.log
          ++ [Event.set_state t DART_TASK_RUNNING, Event.invoke t] →
        s1.current_task = t →
        ((handle_task_release E s1).2.tasks t).has_ref = true →
        ((handle_task_release E s1).2.tasks t).parent = some p →
        ∃ s' L0 L, dart__tasking__task_test E (handle_task E F (n + 1)) (some (some t)) (some f) s
            = Except.ok (DART_OK, some none, some 1, s')
          ∧ (∀ e ∈ L0, e.is_release_effect = true) ∧ (∀ e ∈ L, e.is_release_effect = true)
          ∧ s'.log = s.log ++ (L0 ++ [Event.pop_ready t, Event.set_state t DART_TASK_RUNNING,
              Event.invoke t] ++ (Event.release_local t :: L) ++
              [Event.dec_children p, Event.context_release t,
               Event.set_state t DART_TASK_FINISHED, Event.destroy t])
          ∧ (s'.log.drop s.log.length).countP Event.is_pop = 1
          ∧ (s'.log.drop s.log.length).countP Event.is_invoke = 1
          ∧ (s'.tasks t).state = DART_TASK_DESTROYED) := by
  refine ⟨fun ht => task_test_single E ht s t f hn hlive hnf, ?_⟩
  intro p rest s1 hc hq hrun hlog hcur href hpar
  obtain ⟨L0, hL0, hk0⟩ := remote_progress_log E s
  have hnt := next_task_pop (dart_tasking_remote_progress E s) t rest hc hq
  subst hcur
  obtain ⟨L, hL, hk⟩ := handle_task_release_log E s1
  have href2 : ((notified p (handle_task_release E s1).2).tasks s1.current_task).has_ref
      = true := by
    rw [notified_task]; split
    · rename_i h; rw [← h]; exact href
    · exact href
  obtain ⟨hrlog, hts, -⟩ := retire_referenced E
    (next_task (dart_tasking_remote_progress E s)).2.current_task s1.current_task _ href2
  have hht : handle_task E F (n + 1) (next_task (dart_tasking_remote_progress E s)).1
      (next_task (dart_tasking_remote_progress E s)).2
      = Except.ok (handle_task_retire E
          (next_task (dart_tasking_remote_progress E s)).2.current_task s1.current_task
          (notified p (handle_task_release E s1).2)) := by
    have h1 : (next_task (dart_tasking_remote_progress E s)).1 = some s1.current_task := by
      rw [hnt]
    rw [h1, handle_task_succ E F n _ _ s1 hrun, handle_task_finish_ok E _ p s1 hpar]
  have hfin : ((handle_task_retire E
      (next_task (dart_tasking_remote_progress E s)).2.current_task s1.current_task
      (notified p (handle_task_release E s1).2)).tasks s1.current_task).state
      = DART_TASK_FINISHED := by
    rw [hts]; simp [Function.update]
  obtain ⟨hd1, -, -, -, -, -, -, -, hd9⟩ := destroy_task_fields E s1.current_task
    (handle_task_retire E (next_task (dart_tasking_remote_progress E s)).2.current_task
      s1.current_task (notified p (handle_task_release E s1).2))
  have hp0 : (next_task (dart_tasking_remote_progress E s)).2.log
      = s.log ++ L0 ++ [Event.pop_ready s1.current_task] := by
    rw [hnt]; simp [hL0]
  have hfinal : (dart__tasking__destroy_task E s1.current_task
      (handle_task_retire E (next_task (dart_tasking_remote_progress E s)).2.current_task
        s1.current_task (notified p (handle_task_release E s1).2))).log
      = s.log ++ (L0 ++ [Event.pop_ready s1.current_task,
          Event.set_state s1.current_task DART_TASK_RUNNING, Event.invoke s1.current_task]
          ++ (Event.release_local s1.current_task :: L) ++
          [Event.dec_children p, Event.context_release s1.current_task,
           Event.set_state s1.current_task DART_TASK_FINISHED,
           Event.destroy s1.current_task]) := by
    rw [hd9, hrlog]
    have hnl : (notified p (handle_task_release E s1).2).log
        = (handle_task_release E s1).2.log ++ [Event.dec_children p] := by
      simp [notified, Sched.emit, Sched.store]
    rw [hnl, hL, hlog, hp0]
    simp
  refine ⟨_, L0, L, ?_, hk0, hk, hfinal, ?_, ?_, hd1⟩
  · rw [task_test_single E _ s _ f hn hlive hnf, hht]
    simp only [bind, Except.bind, hfin, if_true, pure, Except.pure]
  · rw [hfinal, List.drop_left]
    obtain ⟨h0, -⟩ := release_effects_count L0 hk0
    obtain ⟨h1, -⟩ := release_effects_count L hk
    simp [List.countP_append, List.countP_cons, Event.is_pop, h0, h1]
  · rw [hfinal, List.drop_left]
    obtain ⟨-, h0⟩ := release_effects_count L0 hk0
    obtain ⟨-, h1⟩ := release_effects_count L hk
    simp [List.countP_append, List.countP_cons, Event.is_invoke, h0, h1]

/-- C14 (amended) on the single-thread demo scheduler: the root task creates
task 1 with a handle and tests it at once. -/
theorem C14_single_thread_test_runs_head_witness :
    (demo_handle 1 0).2.num_threads = 1
    ∧ ((demo_handle 1 0).2.tasks 1).state ≠ DART_TASK_DESTROYED
    ∧ ((demo_handle 1 0).2.tasks 1).state ≠ DART_TASK_FINISHED
    ∧ (dart_tasking_remote_progress demoCollab (demo_handle 1 0).2).global_queue = [1]
    ∧ handle_task_run demoCollab demoFns (handle_task demoCollab demoFns 2) 2 1
        (next_task (dart_tasking_remote_progress demoCollab (demo_handle 1 0).2)).2
        = Except.ok demo_test_ran
    ∧ dart__tasking__task_test demoCollab (handle_task demoCollab demoFns 3) (some (some 1))
        (some 7) (demo_handle 1 0).2 = Except.ok (DART_OK, some none, some 1, demo_tested)
    ∧ (demo_tested.log.drop (demo_handle 1 0).2.log.length).countP Event.is_pop = 1
    ∧ (demo_tested.log.drop (demo_handle 1 0).2.log.length).countP Event.is_invoke = 1
    ∧ (demo_tested.tasks 1).state = DART_TASK_DESTROYED := by
  obtain ⟨s', L0, L, h, -, -, -, hpop, hinv, hst⟩ :=
    (C14_single_thread_test_runs_head demoCollab demoFns 2 (demo_handle 1 0).2 1 7
      (by decide) (by decide) (by decide)).2 0 [] demo_test_ran (by decide) (by decide) rfl
      (by decide) (by decide) (by decide) (by decide)
  have h2 : dart__tasking__task_test demoCollab (handle_task demoCollab demoFns 3)
      (some (some 1)) (some 7) (demo_handle 1 0).2
      = Except.ok (DART_OK, some none, some 1, demo_tested) := rfl
  have hs : s' = demo_tested := by
    rw [h2] at h
    simp only [Except.ok.injEq, Prod.mk.injEq, true_and] at h
    exact h.symm
  subst hs
  exact ⟨by decide, by decide, by decide, by decide, rfl, h2, hpop, hinv, hst⟩

/-! ## Start-up, shutdown and cooperative yield -/

/-- On a duplicate-free stack of at most `n` records `free_tasklist` returns,
and it writes only records of that stack. -/
theorem free_tasklist_ok (l : List TaskPtr) (tasks : TaskPtr → dart_task_t)
    (head : Option TaskPtr) (n : Nat) (hs : is_stack tasks head l) (hnd : l.Nodup)
    (hn : l.length ≤ n) :
    ∃ tasks', free_tasklist n tasks head = Except.ok tasks'
      ∧ ∀ x, x ∉ l → tasks' x = tasks x := by
  induction l generalizing tasks head n with
  | nil =>
    cases head with
    | none => exact ⟨tasks, by cases n <;> rfl, fun _ _ => rfl⟩
    | some e => simp [is_stack] at hs
  | cons a l ih =>
    cases head with
    | none => simp [is_stack] at hs
    | some e =>
      simp only [is_stack] at hs
      obtain ⟨hea, hl⟩ := hs
      subst hea
      have hnd' := List.nodup_cons.mp hnd
      cases n with
      | zero => simp at hn
      | succ m =>
        have hl' : is_stack (Function.update tasks e { tasks e with next := none })
            (tasks e).next l := by
          refine is_stack_congr _ _ l _ ?_ hl
          intro x hx
          have hxe : x ≠ e := fun h => hnd'.1 (h ▸ hx)
          rw [Function.update_noteq hxe]
        obtain ⟨tasks', h1, h2⟩ := ih _ _ m hl' hnd'.2 (by simpa using hn)
        refine ⟨tasks', by simpa [free_tasklist] using h1, ?_⟩
        intro x hx
        have hxe : x ≠ e := fun h => hx (h ▸ List.mem_cons_self _ _)
        rw [h2 x (fun h => hx (List.mem_cons_of_mem _ h)), Function.update_noteq hxe]

/-- C17: `dart__tasking__init` returns DART_ERR_INVAL exactly when the
scheduler is already initialized, and then hands the scheduler state back
unchanged; otherwise it returns DART_OK with the scheduler marked initialized
(thread count from `determine_num_threads`, `parallel` set, root task
current).  `dart__tasking__fini` on an uninitialized scheduler returns
DART_ERR_INVAL with the state unchanged; whenever it returns DART_OK the
scheduler was initialized and is marked uninitialized afterwards, and it does
return DART_OK on an initialized scheduler whose recycle list and free-list are
disjoint duplicate-free stacks no longer than the loop bound. -/
theorem C17_init_fini_guard (P : Platform) (di df : D → D) (n : Nat) (s : Sched D) :
    ((dart__tasking__init P di s).1 = DART_ERR_INVAL ↔ s.initialized = true)
    ∧ (s.initialized = true → dart__tasking__init P di s = (DART_ERR_INVAL, s))
    ∧ (s.initialized = false →
        (dart__tasking__init P di s).1 = DART_OK
        ∧ (dart__tasking__init P di s).2.initialized = true
        ∧ (dart__tasking__init P di s).2.num_threads = determine_num_threads P
        ∧ (dart__tasking__init P di s).2.parallel = true
        ∧ (dart__tasking__init P di s).2.current_task = root_task
        ∧ (dart__tasking__init P di (dart__tasking__init P di s).2).1 = DART_ERR_INVAL)
    ∧ (s.initialized = false → dart__tasking__fini df n s = Except.ok (DART_ERR_INVAL, s))
    ∧ (∀ s', dart__tasking__fini df n s = Except.ok (DART_OK, s') →
        s.initialized = true ∧ s'.initialized = false ∧ s'.parallel = false
        ∧ s'.task_recycle_list = none ∧ s'.task_free_list = none)
    ∧ (∀ R Fl : List TaskPtr, s.initialized = true →
        is_stack s.tasks s.task_recycle_list R → is_stack s.tasks s.task_free_list Fl →
        R.Nodup → Fl.Nodup → (∀ x ∈ Fl, x ∉ R) → R.length ≤ n → Fl.length ≤ n →
        ∃ s', dart__tasking__fini df n s = Except.ok (DART_OK, s')
          ∧ s'.initialized = false
          ∧ (dart__tasking__fini df n s').map Prod.fst = Except.ok DART_ERR_INVAL) := by
  refine ⟨?_, ?_, ?_, ?_, ?_, ?_⟩
  · cases hi : s.initialized <;> simp [dart__tasking__init, hi]
  · intro hi
    simp [dart__tasking__init, hi]
  · intro hi
    simp [dart__tasking__init, hi]
  · intro hi
    simp [dart__tasking__fini, hi, pure, Except.pure]
  · intro s' h
    cases hi : s.initialized with
    | false =>
      simp [dart__tasking__fini, hi, pure, Except.pure] at h
    | true =>
      simp only [dart__tasking__fini, hi, not_true_eq_false, if_false, bind, Except.bind] at h
      cases h1 : free_tasklist n s.tasks s.task_recycle_list with
      | error e => rw [h1] at h; cases h
      | ok t1 =>
        rw [h1] at h
        simp only [] at h
        cases h2 : free_tasklist n t1 s.task_free_list with
        | error e => rw [h2] at h; cases h
        | ok t2 =>
          rw [h2] at h
          simp only [pure, Except.pure, Except.ok.injEq, Prod.mk.injEq, true_and] at h
          rw [← h]
          exact ⟨rfl, rfl, rfl, rfl, rfl⟩
  · intro R Fl hi hR hF hRn hFn hdis hRl hFl
    obtain ⟨t1, h1, h1o⟩ := free_tasklist_ok R s.tasks s.task_recycle_list n hR hRn hRl
    have hF1 : is_stack t1 s.task_free_list Fl := by
      refine is_stack_congr _ _ Fl _ ?_ hF
      intro x hx
      rw [h1o x (hdis x hx)]
    obtain ⟨t2, h2, -⟩ := free_tasklist_ok Fl t1 s.task_free_list n hF1 hFn hFl
    refine ⟨{ s with
        tasks := t2, task_recycle_list := none, task_free_list := none, parallel := false,
        deps := df s.deps, global_queue := dart_tasking_taskqueue_finalize s.global_queue,
        initialized := false }, ?_, rfl, ?_⟩
    · simp only [dart__tasking__fini, hi, not_true_eq_false, if_false, bind, Except.bind, h1, h2]
      rfl
    · simp [dart__tasking__fini, pure, Except.pure, Except.map]

/-- C17 on the demo scheduler: start-up of a fresh scheduler, a second
start-up, and shutdown after the first phase. -/
theorem C17_init_fini_guard_witness :
    ({ initial_sched 2 with initialized := false } : Sched Unit).initialized = false
    ∧ (dart__tasking__init demoPlatform id
        ({ initial_sched 2 with initialized := false } : Sched Unit)).1 = DART_OK
    ∧ (dart__tasking__init demoPlatform id
        ({ initial_sched 2 with initialized := false } : Sched Unit)).2.num_threads = 8
    ∧ (initial_sched 2).initialized = true
    ∧ dart__tasking__init demoPlatform id (initial_sched 2)
        = (DART_ERR_INVAL, initial_sched 2)
    ∧ demo_after_phase1.initialized = true
    ∧ is_stack demo_after_phase1.tasks demo_after_phase1.task_recycle_list []
    ∧ is_stack demo_after_phase1.tasks demo_after_phase1.task_free_list [3, 2, 1]
    ∧ ∃ s', dart__tasking__fini id 3 demo_after_phase1 = Except.ok (DART_OK, s')
        ∧ s'.initialized = false
        ∧ (dart__tasking__fini id 3 s').map Prod.fst = Except.ok DART_ERR_INVAL := by
  have hR : is_stack demo_after_phase1.tasks demo_after_phase1.task_recycle_list [] := trivial
  have hF : is_stack demo_after_phase1.tasks demo_after_phase1.task_free_list [3, 2, 1] :=
    ⟨rfl, rfl, rfl, trivial⟩
  have h := C17_init_fini_guard demoPlatform id id 3
    ({ initial_sched 2 with initialized := false } : Sched Unit)
  have h2 := C17_init_fini_guard demoPlatform id id 3 (initial_sched 2)
  have h3 := C17_init_fini_guard demoPlatform id id 3 demo_after_phase1
  exact ⟨rfl, (h.2.2.1 rfl).1, by decide, rfl, h2.2.1 rfl, by decide, hR, hF,
    h3.2.2.2.2.2 [] [3, 2, 1] (by decide) hR hF (by decide) (by decide) (by decide)
      (by decide) (by decide)⟩

/-- A value inside the 32 bit range is its own `int` value. -/
theorem wrap_int32_id (x : Int) (h1 : -2147483648 ≤ x) (h2 : x < 2147483648) :
    wrap_int32 x = x := by
  unfold wrap_int32
  omega

/-- C18: `determine_num_threads` returns the configured thread count whenever
one is set (a value other than -1).  Otherwise, if the hardware query reports
`num_cores > 0`, it returns the `int` product of `num_cores` and `max_threads`
(of `num_cores` and 1 when `max_threads <= 0`) provided that product is
positive; the `int` product is the mathematical product whenever that fits
into 32 bits.  In every remaining case it returns 2.  With no configured
count the result is at least 1. -/
theorem C18_determine_num_threads (P : Platform) :
    (P.env_numthreads ≠ -1 → determine_num_threads P = P.env_numthreads)
    ∧ (P.env_numthreads = -1 → P.hw_num_cores > 0 →
        0 < wrap_int32 (P.hw_num_cores * (if P.hw_max_threads > 0 then P.hw_max_threads else 1)) →
        determine_num_threads P
          = wrap_int32 (P.hw_num_cores * (if P.hw_max_threads > 0 then P.hw_max_threads else 1)))
    ∧ (P.env_numthreads = -1 → P.hw_num_cores > 0 → P.hw_max_threads > 0 →
        P.hw_num_cores * P.hw_max_threads < 2147483648 →
        determine_num_threads P = P.hw_num_cores * P.hw_max_threads)
    ∧ (P.env_numthreads = -1 → P.hw_num_cores > 0 → P.hw_max_threads ≤ 0 →
        P.hw_num_cores < 2147483648 →
        determine_num_threads P = P.hw_num_cores)
    ∧ (P.env_numthreads = -1 →
        (P.hw_num_cores ≤ 0 ∨
          wrap_int32 (P.hw_num_cores * (if P.hw_max_threads > 0 then P.hw_max_threads else 1)) ≤ 0) →
        determine_num_threads P = 2)
    ∧ (P.env_numthreads = -1 → 1 ≤ determine_num_threads P) := by
  refine ⟨?_, ?_, ?_, ?_, ?_, ?_⟩
  · intro h
    simp [determine_num_threads, h]
  · intro h hc hp
    have hp' : ¬ wrap_int32 (P.hw_num_cores *
        (if P.hw_max_threads > 0 then P.hw_max_threads else 1)) ≤ 0 := not_le.mpr hp
    have hne : wrap_int32 (P.hw_num_cores *
        (if P.hw_max_threads > 0 then P.hw_max_threads else 1)) ≠ -1 := by omega
    simp only [determine_num_threads, h, if_true, hc, hp', if_false, hne]
  · intro h hc hm hlt
    have hpos : 0 < P.hw_num_cores * P.hw_max_threads := Int.mul_pos hc hm
    have hw : wrap_int32 (P.hw_num_cores * P.hw_max_threads)
        = P.hw_num_cores * P.hw_max_threads := wrap_int32_id _ (by omega) hlt
    have hp' : ¬ P.hw_num_cores * P.hw_max_threads ≤ 0 := not_le.mpr hpos
    have hne : P.hw_num_cores * P.hw_max_threads ≠ -1 := by omega
    simp only [determine_num_threads, h, if_true, hc, hm, hw, hp', if_false, hne]
  · intro h hc hm hlt
    have hm' : ¬ P.hw_max_threads > 0 := not_lt.mpr hm
    have hw : wrap_int32 (P.hw_num_cores * 1) = P.hw_num_cores := by
      rw [mul_one]; exact wrap_int32_id _ (by omega) hlt
    have hp' : ¬ P.hw_num_cores ≤ 0 := not_le.mpr hc
    have hne : P.hw_num_cores ≠ -1 := by omega
    simp only [determine_num_threads, h, if_true, hc, hm', if_false, hw, hp', hne]
  · intro h hcase
    rcases hcase with hc | hp
    · have hc' : ¬ P.hw_num_cores > 0 := not_lt.mpr hc
      simp [determine_num_threads, h, hc']
    · by_cases hc : P.hw_num_cores > 0
      · simp only [determine_num_threads, h, hc, hp, if_true]
      · simp [determine_num_threads, h, hc]
  · intro h
    by_cases hc : P.hw_num_cores > 0
    · by_cases hp : wrap_int32 (P.hw_num_cores *
          (if P.hw_max_threads > 0 then P.hw_max_threads else 1)) ≤ 0
      · simp only [determine_num_threads, h, hc, hp, if_true]
        decide
      · have hne : wrap_int32 (P.hw_num_cores *
            (if P.hw_max_threads > 0 then P.hw_max_threads else 1)) ≠ -1 := by omega
        simp only [determine_num_threads, h, if_true, hc, hp, if_false, hne]
        omega
    · simp [determine_num_threads, h, hc]

/-- C18 on the demo platform (four cores, two hardware threads each) and on a
platform with a configured thread count. -/
theorem C18_determine_num_threads_witness :
    demoPlatform.env_numthreads = -1
    ∧ demoPlatform.hw_num_cores > 0
    ∧ demoPlatform.hw_max_threads > 0
    ∧ demoPlatform.hw_num_cores * demoPlatform.hw_max_threads < 2147483648
    ∧ determine_num_threads demoPlatform = demoPlatform.hw_num_cores * demoPlatform.hw_max_threads
    ∧ ({ demoPlatform with env_numthreads := 3 } : Platform).env_numthreads ≠ -1
    ∧ determine_num_threads { demoPlatform with env_numthreads := 3 } = 3 :=
  ⟨by decide, by decide, by decide, by decide,
    (C18_determine_num_threads demoPlatform).2.2.1 (by decide) (by decide) (by decide)
      (by decide),
    by decide,
    (C18_determine_num_threads { demoPlatform with env_numthreads := 3 }).1 (by decide)⟩

/-- C19: `requeue_task` reinserts the task according to the sign of its delay:
for delay 0 through `dart_tasking_taskqueue_push`, for a negative delay through
`dart_tasking_taskqueue_pushback`, for a positive delay through
`dart_tasking_taskqueue_insert` with that delay.  For every delay exactly one
insertion is logged, the Ready Queue gains exactly one entry, which is the
task, and nothing else changes. -/
theorem C19_requeue_by_delay (task : TaskPtr) (s : Sched D) :
    ((s.tasks task).delay = 0 →
      (requeue_task task s).global_queue = dart_tasking_taskqueue_push s.global_queue task
      ∧ (requeue_task task s).log = s.log ++ [Event.push_ready task])
    ∧ ((s.tasks task).delay < 0 →
      (requeue_task task s).global_queue = dart_tasking_taskqueue_pushback s.global_queue task
      ∧ (requeue_task task s).log = s.log ++ [Event.pushback_ready task])
    ∧ ((s.tasks task).delay > 0 →
      (requeue_task task s).global_queue
        = dart_tasking_taskqueue_insert s.global_queue task (s.tasks task).delay
      ∧ (requeue_task task s).log = s.log ++ [Event.insert_ready task (s.tasks task).delay])
    ∧ (∃ e, (requeue_task task s).log = s.log ++ [e])
    ∧ (requeue_task task s).global_queue.count task = s.global_queue.count task + 1
    ∧ (requeue_task task s).global_queue.length = s.global_queue.length + 1
    ∧ (∀ x, x ≠ task → (requeue_task task s).global_queue.count x = s.global_queue.count x)
    ∧ (requeue_task task s).tasks = s.tasks
    ∧ (requeue_task task s).local_deferred_tasks = s.local_deferred_tasks
    ∧ (requeue_task task s).current_task = s.current_task := by
  have hins : ∀ (q : List TaskPtr) (d : Int) (x : TaskPtr),
      (dart_tasking_taskqueue_insert q task d).count x
        = q.count x + (if x = task then 1 else 0) := by
    intro q d x
    unfold dart_tasking_taskqueue_insert
    have hq : q.count x = (q.take d.toNat).count x + (q.drop d.toNat).count x := by
      conv_lhs => rw [← List.take_append_drop d.toNat q]
      rw [List.count_append]
    by_cases hx : x = task
    · subst hx
      rw [List.count_append, List.count_cons_self, hq, if_pos rfl]
      omega
    · rw [List.count_append, List.count_cons_of_ne hx, hq, if_neg hx]
      omega
  have hlen : ∀ (q : List TaskPtr) (d : Int),
      (dart_tasking_taskqueue_insert q task d).length = q.length + 1 := by
    intro q d
    unfold dart_tasking_taskqueue_insert
    have hq : q.length = (q.take d.toNat).length + (q.drop d.toNat).length := by
      conv_lhs => rw [← List.take_append_drop d.toNat q]
      rw [List.length_append]
    rw [List.length_append, List.length_cons, hq]
    omega
  rcases lt_trichotomy (s.tasks task).delay 0 with hneg | hzero | hpos
  · have h0 : ¬ (s.tasks task).delay = 0 := by omega
    have h1 : ¬ (s.tasks task).delay > 0 := by omega
    refine ⟨fun h => absurd h h0, fun _ => ?_, fun h => absurd h h1, ?_, ?_, ?_, ?_, ?_, ?_, ?_⟩
    all_goals
      simp [requeue_task, h0, h1, dart_tasking_taskqueue_pushback, List.count_append]
    intro x hx
    simp [List.count_singleton, hx, Ne.symm hx]
  · have h1 : ¬ (s.tasks task).delay > 0 := by omega
    have h2 : ¬ (s.tasks task).delay < 0 := by omega
    refine ⟨fun _ => ?_, fun h => absurd h h2, fun h => absurd h h1, ?_, ?_, ?_, ?_, ?_, ?_, ?_⟩
    all_goals
      simp [requeue_task, hzero, dart_tasking_taskqueue_push, List.count_append]
    intro x hx
    simp [List.count_singleton, hx, Ne.symm hx]
  · have h0 : ¬ (s.tasks task).delay = 0 := by omega
    have h2 : ¬ (s.tasks task).delay < 0 := by omega
    have hp : (s.tasks task).delay > 0 := hpos
    refine ⟨fun h => absurd h h0, fun h => absurd h h2, fun _ => ?_, ?_, ?_, ?_, ?_, ?_, ?_, ?_⟩
    · simp [requeue_task, h0, hp]
    · exact ⟨Event.insert_ready task (s.tasks task).delay, by simp [requeue_task, h0, hp]⟩
    · simp only [requeue_task, h0, hp, if_false, if_true]
      rw [hins]; simp
    · simp only [requeue_task, h0, hp, if_false, if_true]
      rw [hlen]
    · intro x hx
      simp only [requeue_task, h0, hp, if_false, if_true]
      rw [hins]; simp [hx]
    · simp [requeue_task, h0, hp]
    · simp [requeue_task, h0, hp]
    · simp [requeue_task, h0, hp]

/-- C19 on the demo scheduler: task 1 suspended with delay 0, -1 and 1 while
tasks 4 and 5 are queued. -/
theorem C19_requeue_by_delay_witness :
    ((demo_suspended 0).tasks 1).delay = 0
    ∧ ((demo_suspended (-1)).tasks 1).delay < 0
    ∧ ((demo_suspended 1).tasks 1).delay > 0
    ∧ (requeue_task 1 (demo_suspended 0)).global_queue = [4, 5, 1]
    ∧ (requeue_task 1 (demo_suspended 0)).log = [Event.push_ready 1]
    ∧ (requeue_task 1 (demo_suspended (-1))).global_queue = [4, 5, 1]
    ∧ (requeue_task 1 (demo_suspended (-1))).log = [Event.pushback_ready 1]
    ∧ (requeue_task 1 (demo_suspended 1)).global_queue = [4, 1, 5]
    ∧ (requeue_task 1 (demo_suspended 1)).log = [Event.insert_ready 1 1] := by
  obtain ⟨h0q, h0l⟩ := (C19_requeue_by_delay 1 (demo_suspended 0)).1 (by decide)
  obtain ⟨h1q, h1l⟩ := (C19_requeue_by_delay 1 (demo_suspended (-1))).2.1 (by decide)
  obtain ⟨h2q, h2l⟩ := (C19_requeue_by_delay 1 (demo_suspended 1)).2.2.1 (by decide)
  refine ⟨by decide, by decide, by decide, ?_, ?_, ?_, ?_, ?_, ?_⟩
  · rw [h0q]; decide
  · rw [h0l]; decide
  · rw [h1q]; decide
  · rw [h1l]; decide
  · rw [h2q]; decide
  · rw [h2l]; decide

/-- Releasing a list of tasks while no cancellation is requested touches no
task record and no scheduler cursor; it appends the tasks of a runnable phase
to the Ready Queue and logs release effects only. -/
theorem enqueue_all_frame (E : Collab D) (ts : List TaskPtr) (s : Sched D)
    (h : s.cancel_requested = false) :
    (enqueue_all E ts s).tasks = s.tasks
    ∧ (enqueue_all E ts s).current_task = s.current_task
    ∧ (enqueue_all E ts s).cancel_requested = false
    ∧ (enqueue_all E ts s).runnable_phase = s.runnable_phase
    ∧ (enqueue_all E ts s).deps = s.deps
    ∧ (enqueue_all E ts s).global_queue
        = s.global_queue
          ++ ts.filter (fun t => E.phase_is_runnable s.runnable_phase (s.tasks t).phase)
    ∧ (enqueue_all E ts s).local_deferred_tasks
        = s.local_deferred_tasks
          ++ ts.filter (fun t => ! E.phase_is_runnable s.runnable_phase (s.tasks t).phase) := by
  induction ts generalizing s with
  | nil => simp [enqueue_all, h]
  | cons t ts ih =>
    have hstep : enqueue_all E (t :: ts) s
        = enqueue_all E ts (dart__tasking__enqueue_runnable E t s) := by
      simp [enqueue_all]
    rw [hstep]
    by_cases hr : E.phase_is_runnable s.runnable_phase (s.tasks t).phase = true
    · have he : dart__tasking__enqueue_runnable E t s
          = { s with global_queue := dart_tasking_taskqueue_push s.global_queue t,
                     log := s.log ++ [Event.push_ready t] } := by
        simp [dart__tasking__enqueue_runnable, dart__tasking__cancellation_requested, h, hr]
      rw [he]
      obtain ⟨h1, h2, h3, h4, h5, h6, h7⟩ := ih
        { s with global_queue := dart_tasking_taskqueue_push s.global_queue t,
                 log := s.log ++ [Event.push_ready t] } h
      refine ⟨h1, h2, h3, h4, h5, ?_, ?_⟩
      · rw [h6]; simp [dart_tasking_taskqueue_push, List.filter_cons, hr]
      · rw [h7]; simp [List.filter_cons, hr]
    · have he : dart__tasking__enqueue_runnable E t s
          = { s with local_deferred_tasks := dart_tasking_taskqueue_push s.local_deferred_tasks t,
                     log := s.log ++ [Event.push_deferred t] } := by
        simp [dart__tasking__enqueue_runnable, dart__tasking__cancellation_requested, h, hr]
      rw [he]
      obtain ⟨h1, h2, h3, h4, h5, h6, h7⟩ := ih
        { s with local_deferred_tasks := dart_tasking_taskqueue_push s.local_deferred_tasks t,
                 log := s.log ++ [Event.push_deferred t] } h
      refine ⟨h1, h2, h3, h4, h5, ?_, ?_⟩
      · rw [h6]; simp [List.filter_cons, hr]
      · rw [h7]; simp [dart_tasking_taskqueue_push, List.filter_cons, hr]

/-- C20 (counterexample): on the demo scheduler with tasks 4 and 5 in the Ready
Queue and a remote-progress service that releases task 1, a yield made while no
cancellation is requested returns DART_OK and leaves the Ready Queue
`[4, 5, 1]`: the Ready Queue is not left unchanged. -/
theorem C20_yield_appends_released_task :
    dart__tasking__cancellation_requested (demo_suspended 0) = false
    ∧ (demo_suspended 0).global_queue = [4, 5]
    ∧ (pollCollab.remote_progress (demo_suspended 0).deps).2 = [1]
    ∧ (dart__tasking__yield pollCollab 7 (demo_suspended 0)).1 = some DART_OK
    ∧ (dart__tasking__yield pollCollab 7 (demo_suspended 0)).2.global_queue = [4, 5, 1]
    ∧ (dart__tasking__yield pollCollab 7 (demo_suspended 0)).2.global_queue
        ≠ (demo_suspended 0).global_queue :=
  ⟨rfl, rfl, rfl, rfl, by decide, by decide⟩

/-- C20 (amended): in the build without USE_UCONTEXT `dart__tasking__yield`
does no scheduling of its own.  For every delay, when no cancellation is
requested, it returns DART_OK and leaves exactly the state that its call of
`dart_tasking_remote_progress` leaves: the current task and every task record
(state and delay included) are unchanged, no pop and no invocation is logged,
and the Ready Queue keeps its entries in place, with the tasks of a runnable
phase that the remote-progress poll releases appended behind them.  The Ready
Queue, the Deferred Queue and the log are unchanged whenever the poll releases
no task. -/
theorem C20_yield_does_no_scheduling (E : Collab D) (delay : Int) (s : Sched D)
    (h : dart__tasking__cancellation_requested s = false) :
    (dart__tasking__yield E delay s).1 = some DART_OK
    ∧ (dart__tasking__yield E delay s).2 = dart_tasking_remote_progress E s
    ∧ (dart__tasking__yield E delay s).2.current_task = s.current_task
    ∧ (dart__tasking__yield E delay s).2.tasks = s.tasks
    ∧ ((dart__tasking__yield E delay s).2.tasks s.current_task).state
        = (s.tasks s.current_task).state
    ∧ ((dart__tasking__yield E delay s).2.tasks s.current_task).delay
        = (s.tasks s.current_task).delay
    ∧ (∃ L, (dart__tasking__yield E delay s).2.log = s.log ++ L
        ∧ ∀ e ∈ L, e.is_pop = false ∧ e.is_invoke = false)
    ∧ (dart__tasking__yield E delay s).2.global_queue
        = s.global_queue ++ (E.remote_progress s.deps).2.filter
            (fun t => E.phase_is_runnable s.runnable_phase (s.tasks t).phase)
    ∧ ((E.remote_progress s.deps).2 = [] →
        (dart__tasking__yield E delay s).2.global_queue = s.global_queue
        ∧ (dart__tasking__yield E delay s).2.local_deferred_tasks = s.local_deferred_tasks
        ∧ (dart__tasking__yield E delay s).2.log = s.log) := by
  have hc : s.cancel_requested = false := h
  have hf := enqueue_all_frame E (E.remote_progress s.deps).2
    { s with deps := (E.remote_progress s.deps).1 } hc
  have h1 : (dart_tasking_remote_progress E s).tasks = s.tasks := hf.1
  have h2 : (dart_tasking_remote_progress E s).current_task = s.current_task := hf.2.1
  have h3 : (dart_tasking_remote_progress E s).cancel_requested = false := hf.2.2.1
  have h6 : (dart_tasking_remote_progress E s).global_queue
      = s.global_queue ++ (E.remote_progress s.deps).2.filter
          (fun t => E.phase_is_runnable s.runnable_phase (s.tasks t).phase) := hf.2.2.2.2.2.1
  have h7 : (dart_tasking_remote_progress E s).local_deferred_tasks
      = s.local_deferred_tasks ++ (E.remote_progress s.deps).2.filter
          (fun t => ! E.phase_is_runnable s.runnable_phase (s.tasks t).phase) := hf.2.2.2.2.2.2
  have hy : dart__tasking__yield E delay s = (some DART_OK, dart_tasking_remote_progress E s) := by
    simp [dart__tasking__yield, dart__tasking__cancellation_requested, h3]
  obtain ⟨L, hL, hk⟩ := remote_progress_log E s
  rw [hy]
  refine ⟨rfl, rfl, h2, h1, ?_, ?_, ⟨L, hL, ?_⟩, h6, ?_⟩
  · show ((dart_tasking_remote_progress E s).tasks s.current_task).state = _
    rw [h1]
  · show ((dart_tasking_remote_progress E s).tasks s.current_task).delay = _
    rw [h1]
  · intro e he
    have hr := hk e he
    cases e <;> simp_all [Event.is_release_effect, Event.is_pop, Event.is_invoke]
  · intro hnil
    refine ⟨?_, ?_, ?_⟩
    · show (dart_tasking_remote_progress E s).global_queue = _
      rw [h6, hnil]; simp
    · show (dart_tasking_remote_progress E s).local_deferred_tasks = _
      rw [h7, hnil]; simp
    · show (dart_tasking_remote_progress E s).log = _
      simp [dart_tasking_remote_progress, hnil, enqueue_all]

/-- C20 on the demo scheduler with tasks 4 and 5 queued: a yield with delay 7
returns DART_OK and leaves the queue and the log as they were; with a poll that
releases task 1 that task is appended, nothing is popped. -/
theorem C20_yield_does_no_scheduling_witness :
    dart__tasking__cancellation_requested (demo_suspended 0) = false
    ∧ (dart__tasking__yield demoCollab 7 (demo_suspended 0)).1 = some DART_OK
    ∧ (dart__tasking__yield demoCollab 7 (demo_suspended 0)).2.global_queue = [4, 5]
    ∧ (dart__tasking__yield demoCollab 7 (demo_suspended 0)).2.log = []
    ∧ (dart__tasking__yield pollCollab 7 (demo_suspended 0)).2.global_queue = [4, 5, 1] := by
  have hA := C20_yield_does_no_scheduling demoCollab 7 (demo_suspended 0) rfl
  have hB := C20_yield_does_no_scheduling pollCollab 7 (demo_suspended 0) rfl
  obtain ⟨hq, _, hl⟩ := hA.2.2.2.2.2.2.2.2 rfl
  refine ⟨rfl, hA.1, ?_, ?_, ?_⟩
  · rw [hq]; decide
  · rw [hl]; decide
  · rw [hB.2.2.2.2.2.2.2.1]; decide

/-! ## Cancellation stops the hand-out of tasks -/

/-- C21: once cancellation is requested `next_task` returns no task and leaves
the scheduler state, the Ready Queue included, as it was, and `handle_task` on
what it returned is a no-op for every bound.  Hence an iteration of the worker
loop, of the wait loop of `dart__tasking__task_complete` and of the loop of
`dart__tasking__task_wait`, and the single-thread step of
`dart__tasking__task_test`, executes no task when the flag is set at its call
of `next_task`. -/
theorem C21_next_task_stops_when_cancelled (E : Collab D) (F : FnTable D) (s : Sched D)
    (h : dart__tasking__cancellation_requested s = true) :
    next_task s = (none, s)
    ∧ (next_task s).2.global_queue = s.global_queue
    ∧ (next_task s).2.log = s.log
    ∧ (∀ n, handle_task E F n (next_task s).1 (next_task s).2 = Except.ok s)
    ∧ (∀ n (q : Sched D), thread_main_poll E q = s →
        thread_main_iteration E (handle_task E F n) q = Except.ok s)
    ∧ (∀ n k t (q : Sched D), 0 < (q.tasks t).num_children →
        dart__tasking__check_cancellation E (dart_tasking_remote_progress E q) = s →
        task_complete_wait E (handle_task E F n) (k + 1) t q
          = task_complete_wait E (handle_task E F n) k t s)
    ∧ (∀ n k t (q : Sched D), (q.tasks t).state ≠ DART_TASK_FINISHED →
        dart_tasking_remote_progress E q = s →
        task_wait_loop E (handle_task E F n) (k + 1) t q
          = task_wait_loop E (handle_task E F n) k t s)
    ∧ (∀ n t f (q : Sched D), q.num_threads = 1 →
        (q.tasks t).state ≠ DART_TASK_DESTROYED → (q.tasks t).state ≠ DART_TASK_FINISHED →
        dart_tasking_remote_progress E q = s → (s.tasks t).state ≠ DART_TASK_FINISHED →
        dart__tasking__task_test E (handle_task E F n) (some (some t)) (some f) q
          = Except.ok (DART_OK, some (some t), some 0, s)) := by
  have hc : s.cancel_requested = true := h
  have hnt : next_task s = (none, s) := by
    simp [next_task, dart__tasking__cancellation_requested, hc]
  have hht : ∀ n, handle_task E F n (next_task s).1 (next_task s).2 = Except.ok s := by
    intro n
    rw [hnt]
    cases n <;> rfl
  refine ⟨hnt, by rw [hnt], by rw [hnt], hht, ?_, ?_, ?_, ?_⟩
  · intro n q hq
    simp only [thread_main_iteration, hq]
    exact hht n
  · intro n k t q hkids hq
    have h1 : task_complete_wait E (handle_task E F n) (k + 1) t q
        = (handle_task E F n (next_task s).1 (next_task s).2 >>= fun s3 =>
            task_complete_wait E (handle_task E F n) k t s3) := by
      rw [← hq]
      simp [task_complete_wait, hkids]
    rw [h1, hht n]; rfl
  · intro n k t q hnf hq
    have h1 : task_wait_loop E (handle_task E F n) (k + 1) t q
        = (handle_task E F n (next_task s).1 (next_task s).2 >>= fun s3 =>
            task_wait_loop E (handle_task E F n) k t s3) := by
      rw [← hq]
      simp [task_wait_loop, hnf]
    rw [h1, hht n]; rfl
  · intro n t f q hn hlive hnf hq hnf2
    have h1 := task_test_single E (handle_task E F n) q t f hn hlive hnf
    rw [h1, hq, hht n]
    simp [bind, Except.bind, pure, Except.pure, hnf2]

/-- C21 on the demo scheduler with tasks 4 and 5 queued and cancellation
requested: nothing is popped and nothing is run. -/
theorem C21_next_task_stops_when_cancelled_witness :
    dart__tasking__cancellation_requested demo_cancelled_queue = true
    ∧ next_task demo_cancelled_queue = (none, demo_cancelled_queue)
    ∧ demo_cancelled_queue.global_queue = [4, 5]
    ∧ handle_task demoCollab demoFns 3 (next_task demo_cancelled_queue).1
        (next_task demo_cancelled_queue).2 = Except.ok demo_cancelled_queue
    ∧ thread_main_iteration demoCollab (handle_task demoCollab demoFns 3) demo_cancelled_queue
        = Except.ok demo_cancelled_queue :=
  ⟨rfl, (C21_next_task_stops_when_cancelled demoCollab demoFns demo_cancelled_queue rfl).1,
    by decide,
    (C21_next_task_stops_when_cancelled demoCollab demoFns demo_cancelled_queue rfl).2.2.2.1 3,
    (C21_next_task_stops_when_cancelled demoCollab demoFns demo_cancelled_queue rfl).2.2.2.2.1 3
      demo_cancelled_queue rfl⟩

/-! ## Destruction and registration of a task -/

/-- C23: `dart__tasking__destroy_task` resets the record and pools it.  For
every task, afterwards its state is DESTROYED, `data` is null and `data_size`
0, `fn`, `parent`, `prev`, `successor` and `remote_successor` are null, the
phase is DART_PHASE_ANY, `has_ref` is false, the dependency subsystem has been
reset for the task, and the record is the head of the recycle list with the
old head as its `next`.  No `num_children` counter changes, no other record
changes, and the free-list is unchanged. -/
theorem C23_destroy_task_resets_record (E : Collab D) (task : TaskPtr) (s : Sched D) :
    ((dart__tasking__destroy_task E task s).tasks task).state = DART_TASK_DESTROYED
    ∧ ((dart__tasking__destroy_task E task s).tasks task).data = none
    ∧ ((dart__tasking__destroy_task E task s).tasks task).data_size = 0
    ∧ ((dart__tasking__destroy_task E task s).tasks task).fn = none
    ∧ ((dart__tasking__destroy_task E task s).tasks task).parent = none
    ∧ ((dart__tasking__destroy_task E task s).tasks task).prev = none
    ∧ ((dart__tasking__destroy_task E task s).tasks task).successor = none
    ∧ ((dart__tasking__destroy_task E task s).tasks task).remote_successor = none
    ∧ ((dart__tasking__destroy_task E task s).tasks task).phase = E.DART_PHASE_ANY
    ∧ ((dart__tasking__destroy_task E task s).tasks task).has_ref = false
    ∧ (dart__tasking__destroy_task E task s).deps = E.datadeps_reset task s.deps
    ∧ (dart__tasking__destroy_task E task s).task_recycle_list = some task
    ∧ ((dart__tasking__destroy_task E task s).tasks task).next = s.task_recycle_list
    ∧ (∀ R, task ∉ R → is_stack s.tasks s.task_recycle_list R →
        is_stack (dart__tasking__destroy_task E task s).tasks
          (dart__tasking__destroy_task E task s).task_recycle_list (task :: R))
    ∧ (∀ x, ((dart__tasking__destroy_task E task s).tasks x).num_children
        = (s.tasks x).num_children)
    ∧ (∀ x, x ≠ task → (dart__tasking__destroy_task E task s).tasks x = s.tasks x)
    ∧ (dart__tasking__destroy_task E task s).task_free_list = s.task_free_list
    ∧ (∀ Fl, task ∉ Fl → is_stack s.tasks s.task_free_list Fl →
        is_stack (dart__tasking__destroy_task E task s).tasks
          (dart__tasking__destroy_task E task s).task_free_list Fl)
    ∧ (dart__tasking__destroy_task E task s).global_queue = s.global_queue
    ∧ (dart__tasking__destroy_task E task s).local_deferred_tasks = s.local_deferred_tasks
    ∧ (dart__tasking__destroy_task E task s).log = s.log ++ [Event.destroy task] := by
  have hother : ∀ x, x ≠ task → (dart__tasking__destroy_task E task s).tasks x = s.tasks x := by
    intro x hx
    simp [dart__tasking__destroy_task, DART_STACK_PUSH, Function.update, hx]
  have hst : ∀ (head : Option TaskPtr) (l : List TaskPtr), task ∉ l →
      is_stack s.tasks head l → is_stack (dart__tasking__destroy_task E task s).tasks head l := by
    intro head l hl hs
    refine is_stack_congr s.tasks _ l head ?_ hs
    intro x hx
    have hne : x ≠ task := fun h => hl (h ▸ hx)
    rw [hother x hne]
  refine ⟨?_, ?_, ?_, ?_, ?_, ?_, ?_, ?_, ?_, ?_, rfl, rfl, ?_, ?_, ?_, hother, rfl, ?_, rfl, rfl,
    rfl⟩
  any_goals (simp [dart__tasking__destroy_task, DART_STACK_PUSH, Function.update]; done)
  · intro R hR hs
    show is_stack (dart__tasking__destroy_task E task s).tasks (some task) (task :: R)
    refine ⟨rfl, ?_⟩
    have hn : ((dart__tasking__destroy_task E task s).tasks task).next = s.task_recycle_list := by
      simp [dart__tasking__destroy_task, DART_STACK_PUSH, Function.update]
    rw [hn]
    exact hst _ R hR hs
  · intro x
    by_cases hx : x = task
    · subst hx
      simp [dart__tasking__destroy_task, DART_STACK_PUSH, Function.update]
    · rw [hother x hx]
  · intro Fl hF hs
    exact hst _ Fl hF hs

/-- C23 on the demo scheduler: the FINISHED task 1, with function, payload,
parent and links set, is destroyed while record 2 heads the recycle list. -/
theorem C23_destroy_task_resets_record_witness :
    (demo_recycled.tasks 1).state = DART_TASK_FINISHED
    ∧ (demo_recycled.tasks 1).data = some 9
    ∧ (demo_recycled.tasks 1).parent = some 0
    ∧ ((dart__tasking__destroy_task demoCollab 1 demo_recycled).tasks 1).state
        = DART_TASK_DESTROYED
    ∧ ((dart__tasking__destroy_task demoCollab 1 demo_recycled).tasks 1).data = none
    ∧ ((dart__tasking__destroy_task demoCollab 1 demo_recycled).tasks 1).parent = none
    ∧ (dart__tasking__destroy_task demoCollab 1 demo_recycled).task_recycle_list = some 1
    ∧ is_stack (dart__tasking__destroy_task demoCollab 1 demo_recycled).tasks
        (dart__tasking__destroy_task demoCollab 1 demo_recycled).task_recycle_list [1, 2] :=
  ⟨by decide, by decide, by decide,
    (C23_destroy_task_resets_record demoCollab 1 demo_recycled).1,
    (C23_destroy_task_resets_record demoCollab 1 demo_recycled).2.1,
    (C23_destroy_task_resets_record demoCollab 1 demo_recycled).2.2.2.2.1,
    (C23_destroy_task_resets_record demoCollab 1 demo_recycled).2.2.2.2.2.2.2.2.2.2.2.1,
    (C23_destroy_task_resets_record demoCollab 1 demo_recycled).2.2.2.2.2.2.2.2.2.2.2.2.2.1
      [2] (by decide) (by
        show (2 : TaskPtr) = 2 ∧ is_stack demo_recycled.tasks (demo_recycled.tasks 2).next []
        have h : (demo_recycled.tasks 2).next = none := by decide
        rw [h]
        exact ⟨rfl, trivial⟩)⟩

/-- With the parent known, registration is the marked state followed by the
runnable test of lines 668 and 697. -/
theorem register_created_task_eq (E : Collab D) (task p : TaskPtr) (deps : List dart_task_dep_t)
    (s : Sched D) (hp : (s.tasks task).parent = some p) :
    register_created_task E task deps s
      = Except.ok (if E.datadeps_is_runnable task (created_entry E task p deps s).deps = true
          then dart__tasking__enqueue_runnable E task (created_entry E task p deps s)
          else created_entry E task p deps s) := by
  unfold register_created_task
  simp only [hp]
  by_cases hr : E.datadeps_is_runnable task (created_entry E task p deps s).deps = true
  · rw [if_pos hr]
    have hr2 := hr
    simp only [created_entry, Sched.set_state, Sched.emit, Sched.store] at hr2
    simp only [Sched.set_state, Sched.emit, Sched.store, hr2, if_true]
    rfl
  · rw [if_neg hr]
    have hr2 := hr
    simp only [created_entry, Sched.set_state, Sched.emit, Sched.store] at hr2
    simp only [Sched.set_state, Sched.emit, Sched.store, hr2]
    rfl

/-- Fields of the marked state. -/
theorem created_entry_fields (E : Collab D) (task p : TaskPtr) (deps : List dart_task_dep_t)
    (s : Sched D) :
    ((created_entry E task p deps s).tasks task).state = DART_TASK_CREATED
    ∧ ((created_entry E task p deps s).tasks task).has_ref = (s.tasks task).has_ref
    ∧ (created_entry E task p deps s).deps = E.datadeps_handle_task task deps s.deps
    ∧ (created_entry E task p deps s).log
        = s.log ++ [Event.inc_children p, Event.attach task,
            Event.set_state task DART_TASK_CREATED]
    ∧ (created_entry E task p deps s).global_queue = s.global_queue
    ∧ (created_entry E task p deps s).local_deferred_tasks = s.local_deferred_tasks
    ∧ (created_entry E task p deps s).cancel_requested = s.cancel_requested := by
  refine ⟨?_, ?_, rfl, ?_, rfl, rfl, rfl⟩
  · simp [created_entry, Sched.set_state, Sched.emit, Sched.store]
  · by_cases h : task = p
    · subst h
      simp [created_entry, Sched.set_state, Sched.emit, Sched.store]
    · simp [created_entry, Sched.set_state, Sched.emit, Sched.store, Function.update, h]
  · simp [created_entry, Sched.set_state, Sched.emit, Sched.store]

/-- Enqueueing one task while no cancellation is requested: the heap is
untouched, exactly one push is logged and the task gains one queue entry. -/
theorem enqueue_runnable_push (E : Collab D) (t : TaskPtr) (s : Sched D)
    (h : s.cancel_requested = false) :
    (dart__tasking__enqueue_runnable E t s).tasks = s.tasks
    ∧ (dart__tasking__enqueue_runnable E t s).deps = s.deps
    ∧ (∃ e, (dart__tasking__enqueue_runnable E t s).log = s.log ++ [e]
        ∧ (e = Event.push_ready t ∨ e = Event.push_deferred t))
    ∧ ((dart__tasking__enqueue_runnable E t s).global_queue
          ++ (dart__tasking__enqueue_runnable E t s).local_deferred_tasks).count t
        = (s.global_queue ++ s.local_deferred_tasks).count t + 1 := by
  by_cases hr : E.phase_is_runnable s.runnable_phase (s.tasks t).phase = true
  · have he : dart__tasking__enqueue_runnable E t s
        = { s with global_queue := dart_tasking_taskqueue_push s.global_queue t,
                   log := s.log ++ [Event.push_ready t] } := by
      simp [dart__tasking__enqueue_runnable, dart__tasking__cancellation_requested, h, hr]
    rw [he]
    refine ⟨rfl, rfl, ⟨_, rfl, Or.inl rfl⟩, ?_⟩
    simp only [dart_tasking_taskqueue_push, List.count_append, List.count_singleton, beq_self_eq_true,
      if_true]
    omega
  · have he : dart__tasking__enqueue_runnable E t s
        = { s with local_deferred_tasks := dart_tasking_taskqueue_push s.local_deferred_tasks t,
                   log := s.log ++ [Event.push_deferred t] } := by
      simp [dart__tasking__enqueue_runnable, dart__tasking__cancellation_requested, h, hr]
    rw [he]
    refine ⟨rfl, rfl, ⟨_, rfl, Or.inr rfl⟩, ?_⟩
    simp only [dart_tasking_taskqueue_push, List.count_append, List.count_singleton, beq_self_eq_true,
      if_true]
    omega

/-- What registration does to a new task whose parent is `p` while no
cancellation is requested. -/
theorem register_outcome (E : Collab D) (task p : TaskPtr) (deps : List dart_task_dep_t)
    (c : Sched D) (hc : c.cancel_requested = false) (hp : (c.tasks task).parent = some p) :
    ∃ (s1 : Sched D) (L : List Event),
      register_created_task E task deps c = Except.ok s1
      ∧ (s1.tasks task).state = DART_TASK_CREATED
      ∧ (s1.tasks task).has_ref = (c.tasks task).has_ref
      ∧ s1.deps = E.datadeps_handle_task task deps c.deps
      ∧ s1.log = c.log ++ [Event.inc_children p, Event.attach task,
          Event.set_state task DART_TASK_CREATED] ++ L
      ∧ (E.datadeps_is_runnable task (created_entry E task p deps c).deps = true →
          s1 = dart__tasking__enqueue_runnable E task (created_entry E task p deps c)
          ∧ (L = [Event.push_ready task] ∨ L = [Event.push_deferred task])
          ∧ (s1.global_queue ++ s1.local_deferred_tasks).count task
              = (c.global_queue ++ c.local_deferred_tasks).count task + 1)
      ∧ (E.datadeps_is_runnable task (created_entry E task p deps c).deps = false →
          s1 = created_entry E task p deps c ∧ L = []
          ∧ s1.global_queue = c.global_queue
          ∧ s1.local_deferred_tasks = c.local_deferred_tasks)
      ∧ (L.any Event.is_push = true ↔
          E.datadeps_is_runnable task (created_entry E task p deps c).deps = true) := by
  obtain ⟨f1, f2, f3, f4, f5, f6, f7⟩ := created_entry_fields E task p deps c
  have heq := register_created_task_eq E task p deps c hp
  by_cases hr : E.datadeps_is_runnable task (created_entry E task p deps c).deps = true
  · rw [if_pos hr] at heq
    obtain ⟨g1, g2, ⟨e, g3, g4⟩, g5⟩ :=
      enqueue_runnable_push E task (created_entry E task p deps c) (f7.trans hc)
    refine ⟨_, [e], heq, ?_, ?_, ?_, ?_, ?_, ?_, ?_⟩
    · rw [g1]; exact f1
    · rw [g1]; exact f2
    · rw [g2]; exact f3
    · rw [g3, f4]
    · intro _
      refine ⟨rfl, ?_, ?_⟩
      · rcases g4 with h | h
        · exact Or.inl (by rw [h])
        · exact Or.inr (by rw [h])
      · rw [g5, f5, f6]
    · intro h
      rw [hr] at h
      exact absurd h (by decide)
    · constructor
      · intro _; exact hr
      · intro _
        rcases g4 with h | h <;> simp [h, Event.is_push]
  · have hr2 : E.datadeps_is_runnable task (created_entry E task p deps c).deps = false := by
      simpa using hr
    rw [if_neg hr] at heq
    refine ⟨_, [], heq, f1, f2, f3, ?_, ?_, ?_, ?_⟩
    · rw [f4]; simp
    · intro h
      exact absurd h hr
    · intro _
      exact ⟨rfl, rfl, f5, f6⟩
    · constructor
      · intro h
        simp at h
      · intro h
        exact absurd h hr

/-- C24: a creation call made while no cancellation is requested returns
DART_OK with the dependency list attached and the new task in state CREATED.
The task is passed to `dart__tasking__enqueue_runnable` exactly when
`dart_tasking_datadeps_is_runnable` holds for it (one push is then logged and
the task gains one queue entry); otherwise nothing is pushed and both queues
are as before the call.  `dart__tasking__create_task_handle` sets `has_ref`
and stores the task in `*ref`; `dart__tasking__create_task` leaves `has_ref`
false. -/
theorem C24_created_task_registered (E : Collab D) (s : Sched D) (fn : Option FnPtr)
    (data : Option Nat) (data_size : Nat) (deps : List dart_task_dep_t) (prio : Int)
    (ref : Option TaskPtr) (hc : s.cancel_requested = false) :
    ∃ (m1 m2 s1 s2 : Sched D) (L1 L2 : List Event),
      m1 = created_entry E (create_task E fn data data_size prio s).1 s.current_task deps
            (create_task E fn data data_size prio s).2
      ∧ m2 = created_entry E (create_task E fn data data_size prio s).1 s.current_task deps
            ((create_task E fn data data_size prio s).2.store
              (create_task E fn data data_size prio s).1
              { (create_task E fn data data_size prio s).2.tasks
                  (create_task E fn data data_size prio s).1 with has_ref := true })
      ∧ dart__tasking__create_task E fn data data_size deps prio s = Except.ok (DART_OK, s1)
      ∧ dart__tasking__create_task_handle E fn data data_size deps prio ref s
          = Except.ok (DART_OK, some (create_task E fn data data_size prio s).1, s2)
      ∧ (s1.tasks (create_task E fn data data_size prio s).1).state = DART_TASK_CREATED
      ∧ (s2.tasks (create_task E fn data data_size prio s).1).state = DART_TASK_CREATED
      ∧ (s1.tasks (create_task E fn data data_size prio s).1).has_ref = false
      ∧ (s2.tasks (create_task E fn data data_size prio s).1).has_ref = true
      ∧ s1.deps = E.datadeps_handle_task (create_task E fn data data_size prio s).1 deps s.deps
      ∧ s2.deps = E.datadeps_handle_task (create_task E fn data data_size prio s).1 deps s.deps
      ∧ s1.log = (create_task E fn data data_size prio s).2.log
          ++ [Event.inc_children s.current_task,
              Event.attach (create_task E fn data data_size prio s).1,
              Event.set_state (create_task E fn data data_size prio s).1 DART_TASK_CREATED] ++ L1
      ∧ s2.log = (create_task E fn data data_size prio s).2.log
          ++ [Event.inc_children s.current_task,
              Event.attach (create_task E fn data data_size prio s).1,
              Event.set_state (create_task E fn data data_size prio s).1 DART_TASK_CREATED] ++ L2
      ∧ (E.datadeps_is_runnable (create_task E fn data data_size prio s).1 m1.deps = true →
          s1 = dart__tasking__enqueue_runnable E (create_task E fn data data_size prio s).1 m1
          ∧ (L1 = [Event.push_ready (create_task E fn data data_size prio s).1]
              ∨ L1 = [Event.push_deferred (create_task E fn data data_size prio s).1])
          ∧ (s1.global_queue ++ s1.local_deferred_tasks).count
                (create_task E fn data data_size prio s).1
              = (s.global_queue ++ s.local_deferred_tasks).count
                  (create_task E fn data data_size prio s).1 + 1)
      ∧ (E.datadeps_is_runnable (create_task E fn data data_size prio s).1 m1.deps = false →
          s1 = m1 ∧ L1 = []
          ∧ s1.global_queue = s.global_queue
          ∧ s1.local_deferred_tasks = s.local_deferred_tasks)
      ∧ (E.datadeps_is_runnable (create_task E fn data data_size prio s).1 m2.deps = true →
          s2 = dart__tasking__enqueue_runnable E (create_task E fn data data_size prio s).1 m2
          ∧ (L2 = [Event.push_ready (create_task E fn data data_size prio s).1]
              ∨ L2 = [Event.push_deferred (create_task E fn data data_size prio s).1])
          ∧ (s2.global_queue ++ s2.local_deferred_tasks).count
                (create_task E fn data data_size prio s).1
              = (s.global_queue ++ s.local_deferred_tasks).count
                  (create_task E fn data data_size prio s).1 + 1)
      ∧ (E.datadeps_is_runnable (create_task E fn data data_size prio s).1 m2.deps = false →
          s2 = m2 ∧ L2 = []
          ∧ s2.global_queue = s.global_queue
          ∧ s2.local_deferred_tasks = s.local_deferred_tasks)
      ∧ (L1.any Event.is_push = true ↔
          E.datadeps_is_runnable (create_task E fn data data_size prio s).1 m1.deps = true)
      ∧ (L2.any Event.is_push = true ↔
          E.datadeps_is_runnable (create_task E fn data data_size prio s).1 m2.deps = true) := by
  obtain ⟨hcur, hcanc, hgq, hdq, -, -⟩ := create_task_frame E fn data data_size prio s
  obtain ⟨hpar, -, -, href, -⟩ := create_task_new E fn data data_size prio s
  have hc1 : (create_task E fn data data_size prio s).2.cancel_requested = false := by
    rw [hcanc]; exact hc
  have hpar2 : (((create_task E fn data data_size prio s).2.store
      (create_task E fn data data_size prio s).1
      { (create_task E fn data data_size prio s).2.tasks
          (create_task E fn data data_size prio s).1 with has_ref := true }).tasks
      (create_task E fn data data_size prio s).1).parent = some s.current_task := by
    simp [Sched.store, hpar]
  obtain ⟨s1, L1, a1, a2, a3, a4, a5, a6, a7, a8⟩ :=
    register_outcome E (create_task E fn data data_size prio s).1 s.current_task deps
      (create_task E fn data data_size prio s).2 hc1 hpar
  obtain ⟨s2, L2, b1, b2, b3, b4, b5, b6, b7, b8⟩ :=
    register_outcome E (create_task E fn data data_size prio s).1 s.current_task deps
      ((create_task E fn data data_size prio s).2.store
        (create_task E fn data data_size prio s).1
        { (create_task E fn data data_size prio s).2.tasks
            (create_task E fn data data_size prio s).1 with has_ref := true }) hc1 hpar2
  have hdeps : (create_task E fn data data_size prio s).2.deps = s.deps := by
    unfold create_task DART_STACK_POP allocate_task
    cases s.task_free_list <;> rfl
  refine ⟨_, _, s1, s2, L1, L2, rfl, rfl, ?_, ?_, a2, b2, ?_, ?_, a4.trans (by rw [hdeps]),
    b4.trans (by rw [← hdeps]; rfl), a5, b5, ?_, ?_, ?_, ?_, a8, b8⟩
  · simp [dart__tasking__create_task, dart__tasking__cancellation_requested, hc, a1, bind,
      Except.bind, pure, Except.pure]
  · simp [dart__tasking__create_task_handle, dart__tasking__cancellation_requested, hc, b1, bind,
      Except.bind, pure, Except.pure]
  · rw [a3]; exact href
  · rw [b3]; simp [Sched.store]
  · intro h
    obtain ⟨h1, h2, h3⟩ := a6 h
    refine ⟨h1, h2, ?_⟩
    rw [h3, hgq, hdq]
  · intro h
    obtain ⟨h1, h2, h3, h4⟩ := a7 h
    exact ⟨h1, h2, h3.trans hgq, h4.trans hdq⟩
  · intro h
    obtain ⟨h1, h2, h3⟩ := b6 h
    refine ⟨h1, h2, ?_⟩
    rw [h3]
    show ((create_task E fn data data_size prio s).2.global_queue
      ++ (create_task E fn data data_size prio s).2.local_deferred_tasks).count _ + 1 = _
    rw [hgq, hdq]
  · intro h
    obtain ⟨h1, h2, h3, h4⟩ := b7 h
    exact ⟨h1, h2, h3.trans hgq, h4.trans hdq⟩

/-- C24 on the demo scheduler: with every task runnable the new task 1 is
pushed onto the Ready Queue; with a dependency subsystem that holds every task
back it is CREATED and in no queue. -/
theorem C24_created_task_registered_witness :
    (initial_sched 2).cancel_requested = false
    ∧ (∃ s1, dart__tasking__create_task demoCollab (some 0) none 0 [] 0 (initial_sched 2)
          = Except.ok (DART_OK, s1)
        ∧ (s1.tasks 1).state = DART_TASK_CREATED ∧ (s1.tasks 1).has_ref = false
        ∧ s1.global_queue = [1])
    ∧ (∃ s2, dart__tasking__create_task_handle holdCollab (some 0) none 0 [] 0 none
            (initial_sched 2) = Except.ok (DART_OK, some 1, s2)
        ∧ (s2.tasks 1).state = DART_TASK_CREATED ∧ (s2.tasks 1).has_ref = true
        ∧ s2.global_queue = [] ∧ s2.local_deferred_tasks = []) := by
  obtain ⟨m1, -, s1, -, L1, -, hm1, -, h1, -, h5, -, h7, -, -, -, -, -, hr1, -⟩ :=
    C24_created_task_registered demoCollab (initial_sched 2) (some 0) none 0 [] 0 none rfl
  obtain ⟨-, m2, -, s2, -, L2, -, hm2, -, h2, -, h6, -, h8, -, -, -, -, -, -, -, hn2, -⟩ :=
    C24_created_task_registered holdCollab (initial_sched 2) (some 0) none 0 [] 0 none rfl
  refine ⟨rfl, ⟨s1, h1, h5, h7, ?_⟩, ⟨s2, h2, h6, h8, ?_, ?_⟩⟩
  · have h := (hr1 rfl).1
    rw [h, hm1]; decide
  · exact (hn2 rfl).2.2.1
  · exact (hn2 rfl).2.2.2

/-! ## The recycling round trip -/

/-- Releasing a list of tasks while no cancellation is requested changes the
two queues and the log, and nothing else. -/
theorem enqueue_all_eq (E : Collab D) (ts : List TaskPtr) (s : Sched D)
    (h : s.cancel_requested = false) :
    ∃ (G Q : List TaskPtr) (L : List Event),
      enqueue_all E ts s = { s with global_queue := G, local_deferred_tasks := Q, log := L } := by
  induction ts generalizing s with
  | nil => exact ⟨s.global_queue, s.local_deferred_tasks, s.log, rfl⟩
  | cons t ts ih =>
    have hstep : enqueue_all E (t :: ts) s
        = enqueue_all E ts (dart__tasking__enqueue_runnable E t s) := by
      simp [enqueue_all]
    rw [hstep]
    by_cases hr : E.phase_is_runnable s.runnable_phase (s.tasks t).phase = true
    · have he : dart__tasking__enqueue_runnable E t s
          = { s with global_queue := dart_tasking_taskqueue_push s.global_queue t,
                     log := s.log ++ [Event.push_ready t] } := by
        simp [dart__tasking__enqueue_runnable, dart__tasking__cancellation_requested, h, hr]
      rw [he]
      obtain ⟨G, Q, L, hq⟩ := ih
        { s with global_queue := dart_tasking_taskqueue_push s.global_queue t,
                 log := s.log ++ [Event.push_ready t] } h
      exact ⟨G, Q, L, hq⟩
    · have he : dart__tasking__enqueue_runnable E t s
          = { s with local_deferred_tasks := dart_tasking_taskqueue_push s.local_deferred_tasks t,
                     log := s.log ++ [Event.push_deferred t] } := by
        simp [dart__tasking__enqueue_runnable, dart__tasking__cancellation_requested, h, hr]
      rw [he]
      obtain ⟨G, Q, L, hq⟩ := ih
        { s with local_deferred_tasks := dart_tasking_taskqueue_push s.local_deferred_tasks t,
                 log := s.log ++ [Event.push_deferred t] } h
      exact ⟨G, Q, L, hq⟩

/-- While no cancellation is requested `dart__tasking__perform_matching`
changes the dependency state, the runnable phase, the queues, the polling flag
and the log, and nothing else. -/
theorem perform_matching_eq (E : Collab D) (phase : dart_taskphase_t) (s : Sched D)
    (h : s.cancel_requested = false) :
    ∃ (d : D) (G Q : List TaskPtr) (L : List Event),
      dart__tasking__perform_matching E phase s
        = { s with deps := d, runnable_phase := phase, global_queue := G,
                   local_deferred_tasks := Q, worker_poll_remote := true, log := L } := by
  obtain ⟨G1, Q1, L1, h1⟩ := enqueue_all_eq E (E.remote_progress_blocking s.deps).2
    { s with deps := (E.remote_progress_blocking s.deps).1 } h
  have e1 : dart_tasking_remote_progress_blocking E s
      = { s with deps := (E.remote_progress_blocking s.deps).1, global_queue := G1,
                 local_deferred_tasks := Q1, log := L1 } := h1
  obtain ⟨G2, Q2, L2, h2⟩ := enqueue_all_eq E
    (E.datadeps_handle_defered_remote (E.remote_progress_blocking s.deps).1).2
    { s with deps := (E.datadeps_handle_defered_remote (E.remote_progress_blocking s.deps).1).1,
             global_queue := G1, local_deferred_tasks := Q1, log := L1 } h
  refine ⟨(E.datadeps_handle_defered_remote (E.remote_progress_blocking s.deps).1).1,
    G2 ++ Q2, [], L2 ++ [Event.set_runnable_phase phase] ++ [Event.release_deferred], ?_⟩
  unfold dart__tasking__perform_matching
  simp only [e1]
  have e2 : dart_tasking_datadeps_handle_defered_remote E
      { s with deps := (E.remote_progress_blocking s.deps).1, global_queue := G1,
               local_deferred_tasks := Q1, log := L1 }
      = { s with deps := (E.datadeps_handle_defered_remote (E.remote_progress_blocking s.deps).1).1,
                 global_queue := G2, local_deferred_tasks := Q2, log := L2 } := h2
  rw [e2]
  rfl

/-- With a non-empty free-list `create_task` hands out its head, allocates
nothing, and fills the record from the request. -/
theorem create_task_reuse (E : Collab D) (fn : Option FnPtr) (data : Option Nat)
    (data_size : Nat) (prio : Int) (q : Sched D) (t : TaskPtr) (h : q.task_free_list = some t) :
    (create_task E fn data data_size prio q).1 = t
    ∧ (create_task E fn data data_size prio q).2.brk = q.brk
    ∧ (create_task E fn data data_size prio q).2.log = q.log ++ [Event.reuse t]
    ∧ (create_task E fn data data_size prio q).2.task_free_list = (q.tasks t).next
    ∧ ((create_task E fn data data_size prio q).2.tasks t).fn = fn
    ∧ ((create_task E fn data data_size prio q).2.tasks t).data = data
    ∧ ((create_task E fn data data_size prio q).2.tasks t).data_size = data_size
    ∧ ((create_task E fn data data_size prio q).2.tasks t).prio = prio
    ∧ ((create_task E fn data data_size prio q).2.tasks t).parent = some q.current_task
    ∧ ((create_task E fn data data_size prio q).2.tasks t).state = DART_TASK_NASCENT
    ∧ ((create_task E fn data data_size prio q).2.tasks t).has_ref = false
    ∧ ((create_task E fn data data_size prio q).2.tasks t).num_children = 0
    ∧ ((create_task E fn data data_size prio q).2.tasks t).taskctx = none
    ∧ ((create_task E fn data data_size prio q).2.tasks t).successor = none
    ∧ ((create_task E fn data data_size prio q).2.tasks t).remote_successor = none
    ∧ ((create_task E fn data data_size prio q).2.tasks t).local_deps = none
    ∧ ((create_task E fn data data_size prio q).2.tasks t).prev = none
    ∧ ((create_task E fn data data_size prio q).2.tasks t).next = none
    ∧ ((create_task E fn data data_size prio q).2.tasks t).unresolved_deps = 0
    ∧ ((create_task E fn data data_size prio q).2.tasks t).unresolved_remote_deps = 0 := by
  unfold create_task DART_STACK_POP allocate_task
  cases hq : q.task_free_list with
  | none =>
    rw [hq] at h
    exact absurd h (by simp)
  | some e =>
    rw [hq] at h
    have he : e = t := Option.some.inj h
    subst he
    simp [Function.update]
    intro h0
    exact h0.symm

/-- C30: the recycling round trip.  Starting from empty free and recycle
lists, after record `t` is destroyed and `dart__tasking__task_complete` has
run on the root task with no outstanding children (it returns DART_OK for
every bound), the free-list is `t` alone and the next `create_task` hands out
`t` without allocating: `fn`, payload, priority and parent are those of the
new request, the state is NASCENT, `has_ref` is false, `num_children` is 0,
and context, successor and dependency fields are null.  Whenever the free-list
is empty `create_task` allocates a fresh record. -/
theorem C30_recycling_round_trip (E : Collab D) (ht : Handler D) (n : Nat) (s : Sched D)
    (t : TaskPtr) (fn : Option FnPtr) (data : Option Nat) (data_size : Nat) (prio : Int)
    (hfree : s.task_free_list = none) (hrec : s.task_recycle_list = none)
    (hcur : s.current_task = root_task) (htid : s.thread_id = 0)
    (hkids : (s.tasks root_task).num_children ≤ 0)
    (hc : s.cancel_requested = false)
    (hC : ∀ q : Sched D, q.cancel_requested = false → E.check_cancellation q = q) :
    (∃ s2, dart__tasking__task_complete E ht n (dart__tasking__destroy_task E t s)
          = Except.ok (DART_OK, s2)
      ∧ s2.task_free_list = some t
      ∧ s2.task_recycle_list = none
      ∧ s2.brk = s.brk
      ∧ (create_task E fn data data_size prio s2).1 = t
      ∧ (create_task E fn data data_size prio s2).2.brk = s.brk
      ∧ (create_task E fn data data_size prio s2).2.log = s2.log ++ [Event.reuse t]
      ∧ (create_task E fn data data_size prio s2).2.task_free_list = none
      ∧ ((create_task E fn data data_size prio s2).2.tasks t).fn = fn
      ∧ ((create_task E fn data data_size prio s2).2.tasks t).data = data
      ∧ ((create_task E fn data data_size prio s2).2.tasks t).data_size = data_size
      ∧ ((create_task E fn data data_size prio s2).2.tasks t).prio = prio
      ∧ ((create_task E fn data data_size prio s2).2.tasks t).parent = some root_task
      ∧ ((create_task E fn data data_size prio s2).2.tasks t).state = DART_TASK_NASCENT
      ∧ ((create_task E fn data data_size prio s2).2.tasks t).has_ref = false
      ∧ ((create_task E fn data data_size prio s2).2.tasks t).num_children = 0
      ∧ ((create_task E fn data data_size prio s2).2.tasks t).taskctx = none
      ∧ ((create_task E fn data data_size prio s2).2.tasks t).successor = none
      ∧ ((create_task E fn data data_size prio s2).2.tasks t).remote_successor = none
      ∧ ((create_task E fn data data_size prio s2).2.tasks t).local_deps = none
      ∧ ((create_task E fn data data_size prio s2).2.tasks t).prev = none
      ∧ ((create_task E fn data data_size prio s2).2.tasks t).next = none
      ∧ ((create_task E fn data data_size prio s2).2.tasks t).unresolved_deps = 0
      ∧ ((create_task E fn data data_size prio s2).2.tasks t).unresolved_remote_deps = 0)
    ∧ (∀ q : Sched D, q.task_free_list = none →
        (create_task E fn data data_size prio q).1 = q.brk
        ∧ (create_task E fn data data_size prio q).2.brk = q.brk + 1
        ∧ (create_task E fn data data_size prio q).2.log = q.log ++ [Event.alloc q.brk]
        ∧ (create_task E fn data data_size prio q).2.task_free_list = none) := by
  constructor
  · obtain ⟨d, G, Q, L, hpm⟩ := perform_matching_eq E E.DART_PHASE_ANY
      (dart__tasking__destroy_task E t s) hc
    have hnc : ((dart__tasking__destroy_task E t s).tasks root_task).num_children
        = (s.tasks root_task).num_children := by
      by_cases hx : root_task = t
      · rw [← hx]
        simp [dart__tasking__destroy_task, DART_STACK_PUSH, Function.update]
      · simp [dart__tasking__destroy_task, DART_STACK_PUSH, Function.update, hx]
    have hcur1 : (dart__tasking__destroy_task E t s).current_task = root_task := hcur
    have htid1 : (dart__tasking__destroy_task E t s).thread_id = 0 := htid
    have hwait : ∀ q : Sched D, q.tasks = (dart__tasking__destroy_task E t s).tasks →
        task_complete_wait E ht n root_task q = Except.ok q := by
      intro q hq
      have hk : ¬ 0 < (q.tasks root_task).num_children := by
        rw [hq, hnc]; exact not_lt.mpr hkids
      cases n <;> simp [task_complete_wait, hk, pure, Except.pure]
    have htc : dart__tasking__task_complete E ht n (dart__tasking__destroy_task E t s)
        = Except.ok (DART_OK, task_complete_cleanup E
            (dart__tasking__perform_matching E E.DART_PHASE_ANY
              (dart__tasking__destroy_task E t s))) := by
      have hw := hwait (dart__tasking__perform_matching E E.DART_PHASE_ANY
        (dart__tasking__destroy_task E t s)) (by rw [hpm])
      have hpc : (dart__tasking__perform_matching E E.DART_PHASE_ANY
          (dart__tasking__destroy_task E t s)).current_task = root_task := by
        rw [hpm]; exact hcur
      have hcc : dart__tasking__check_cancellation E
          (dart__tasking__perform_matching E E.DART_PHASE_ANY (dart__tasking__destroy_task E t s))
          = dart__tasking__perform_matching E E.DART_PHASE_ANY
              (dart__tasking__destroy_task E t s) := by
        unfold dart__tasking__check_cancellation
        rw [hC _ (by rw [hpm]; exact hc)]
      unfold dart__tasking__task_complete
      simp only [hcur1, htid1, ne_eq, not_true_eq_false, or_true, not_false_eq_true, if_true,
        if_false, hpc, hw, bind, Except.bind, pure, Except.pure, hcc]
    have hfl : (task_complete_cleanup E (dart__tasking__perform_matching E E.DART_PHASE_ANY
        (dart__tasking__destroy_task E t s))).task_free_list = some t := by
      rw [hpm]
      simp [task_complete_cleanup, hcur, hfree, dart__tasking__destroy_task, DART_STACK_PUSH,
        dart__tasking__phase_set_runnable]
    have hrl : (task_complete_cleanup E (dart__tasking__perform_matching E E.DART_PHASE_ANY
        (dart__tasking__destroy_task E t s))).task_recycle_list = none := by
      rw [hpm]
      simp [task_complete_cleanup, hcur, hfree, dart__tasking__destroy_task, DART_STACK_PUSH,
        dart__tasking__phase_set_runnable]
    have hbrk : (task_complete_cleanup E (dart__tasking__perform_matching E E.DART_PHASE_ANY
        (dart__tasking__destroy_task E t s))).brk = s.brk := by
      rw [hpm]
      simp [task_complete_cleanup, hcur, hfree, dart__tasking__destroy_task, DART_STACK_PUSH,
        dart__tasking__phase_set_runnable]
    have hct : (task_complete_cleanup E (dart__tasking__perform_matching E E.DART_PHASE_ANY
        (dart__tasking__destroy_task E t s))).current_task = root_task := by
      rw [hpm]
      simp [task_complete_cleanup, hcur, hfree, dart__tasking__destroy_task, DART_STACK_PUSH,
        dart__tasking__phase_set_runnable]
    have hnx : ((task_complete_cleanup E (dart__tasking__perform_matching E E.DART_PHASE_ANY
        (dart__tasking__destroy_task E t s))).tasks t).next = none := by
      rw [hpm]
      simp [task_complete_cleanup, hcur, hfree, hrec, dart__tasking__destroy_task,
        DART_STACK_PUSH, dart__tasking__phase_set_runnable]
    obtain ⟨c1, c2, c3, c4, c5, c6, c7, c8, c9, c10, c11, c12, c13, c14, c15, c16, c17, c18, c19,
      c20⟩ := create_task_reuse E fn data data_size prio _ t hfl
    exact ⟨_, htc, hfl, hrl, hbrk, c1, c2.trans hbrk, c3, c4.trans hnx, c5, c6, c7, c8,
      c9.trans (by rw [hct]), c10, c11, c12, c13, c14, c15, c16, c17, c18, c19, c20⟩
  · intro q hq
    unfold create_task DART_STACK_POP allocate_task
    simp [hq]

/-- C30 on the demo scheduler: task 1 is destroyed on the initial scheduler,
the root task passes the barrier, and the next `create_task` reuses record 1. -/
theorem C30_recycling_round_trip_witness :
    (initial_sched 2).task_free_list = none
    ∧ (initial_sched 2).task_recycle_list = none
    ∧ (∃ s2, dart__tasking__task_complete demoCollab (handle_task demoCollab demoFns 3) 0
          (dart__tasking__destroy_task demoCollab 1 (initial_sched 2)) = Except.ok (DART_OK, s2)
        ∧ s2.task_free_list = some 1
        ∧ (create_task demoCollab (some 2) (some 9) 4 7 s2).1 = 1
        ∧ (create_task demoCollab (some 2) (some 9) 4 7 s2).2.brk = 1
        ∧ ((create_task demoCollab (some 2) (some 9) 4 7 s2).2.tasks 1).fn = some 2
        ∧ ((create_task demoCollab (some 2) (some 9) 4 7 s2).2.tasks 1).state
            = DART_TASK_NASCENT)
    ∧ (create_task demoCollab (some 2) (some 9) 4 7 (initial_sched 2)).1 = 1
    ∧ (create_task demoCollab (some 2) (some 9) 4 7 (initial_sched 2)).2.brk = 2 := by
  have h := C30_recycling_round_trip demoCollab (handle_task demoCollab demoFns 3) 0
    (initial_sched 2) 1 (some 2) (some 9) 4 7 rfl rfl rfl rfl (by decide) rfl (fun _ _ => rfl)
  obtain ⟨s2, h1, h2, -, -, h5, h6, -, -, h9, -, -, -, -, h14, -⟩ := h.1
  have q := h.2 (initial_sched 2) rfl
  exact ⟨rfl, rfl, ⟨s2, h1, h2, h5, h6, h9, h14⟩, q.1, q.2.1⟩

/-! ## Dimensional.h: the size of a `SizeSpec` -/

/-- Reduction modulo 2^64 absorbs an earlier reduction of a factor. -/
theorem to_size_t_mul (a b : Int) :
    to_size_t (((to_size_t a : Nat) : Int) * b) = to_size_t (a * b) := by
  unfold to_size_t
  have h0 : (0 : Int) ≤ a % 18446744073709551616 := Int.emod_nonneg _ (by decide)
  rw [Int.toNat_of_nonneg h0]
  congr 1
  rw [Int.mul_emod, Int.emod_emod_of_dvd _ (dvd_refl _), ← Int.mul_emod]

/-- A value below 2^64 is its own reduction. -/
theorem to_size_t_id (n : Nat) (h : n < 18446744073709551616) : to_size_t (n : Int) = n := by
  unfold to_size_t
  rw [Int.emod_eq_of_lt (by omega) (by omega)]
  simp

/-- A reduction modulo 2^64 is below 2^64. -/
theorem to_size_t_lt (x : Int) : to_size_t x < 18446744073709551616 := by
  unfold to_size_t
  have h0 : (0 : Int) ≤ x % 18446744073709551616 := Int.emod_nonneg _ (by decide)
  have h1 : x % 18446744073709551616 < 18446744073709551616 := Int.emod_lt_of_pos _ (by decide)
  omega

/-- The loop of the `SizeSpec` constructor multiplies `_size` by the remaining
values, modulo 2^64. -/
theorem size_loop_eq {N : Nat} (self : Dimensional N) (k d size : Nat) (hk : d + k = N)
    (hs : size < 18446744073709551616) :
    SizeSpec.size_loop self k d size
      = Except.ok (to_size_t ((size : Int) * (self._values.drop d).prod)) := by
  induction k generalizing d size with
  | zero =>
    have hd : self._values.drop d = [] := by
      apply List.drop_eq_nil_of_le
      rw [self.arity]; omega
    rw [hd]
    simp only [SizeSpec.size_loop, List.prod_nil, mul_one, pure, Except.pure]
    rw [to_size_t_id size hs]
  | succ k ih =>
    have hlt : d < self._values.length := by rw [self.arity]; omega
    have hdim : self.dim d = Except.ok (self._values.getD d 0) := by
      have hn : ¬ d ≥ N := by omega
      simp [Dimensional.dim, hn, pure, Except.pure]
    have hdrop : self._values.drop d = self._values.getD d 0 :: self._values.drop (d + 1) := by
      rw [List.getD_eq_getElem _ _ hlt]
      exact List.drop_eq_getElem_cons hlt
    simp only [SizeSpec.size_loop, hdim, bind, Except.bind]
    rw [ih (d + 1) _ (by omega) (to_size_t_lt _), hdrop, List.prod_cons, to_size_t_mul, mul_assoc]

/-- What the `SizeSpec` constructor does, in one equation. -/
theorem sizespec_construct_eq (N : Nat) (values : List Int) (h : values.length = N) :
    SizeSpec.construct N values h
      = if to_size_t ((values.map to_long_long).prod) = 0
        then Except.error DashException.InvalidArgument
        else Except.ok { base := Dimensional.construct N values h,
                         _size := to_size_t ((values.map to_long_long).prod) } := by
  have hl := size_loop_eq (Dimensional.construct N values h) N 0 1 (by omega) (by decide)
  unfold SizeSpec.construct
  simp only [hl, bind, Except.bind, pure, Except.pure]
  have hp : to_size_t (((1 : Nat) : Int) * (List.drop 0 (Dimensional.construct N values h)._values).prod)
      = to_size_t ((values.map to_long_long).prod) := by
    simp [Dimensional.construct]
  rw [hp]
  split <;> rfl

/-- A conversion to `long long` keeps a value of the `long long` range. -/
theorem to_long_long_id (x : Int) (h0 : -9223372036854775808 ≤ x) (h1 : x < 9223372036854775808) :
    to_long_long x = x := by
  unfold to_long_long
  rw [Int.emod_eq_of_lt (by omega) (by omega)]
  omega

/-- C27 (counterexample): `SizeSpec<2>(4294967296, 4294967296)` throws
InvalidArgument although the product of its extents, 2^64, is not zero; and
`SizeSpec<1>(-1)` is constructed with `size()` 2^64 - 1, not the product -1. -/
theorem C27_product_wraps_to_zero :
    ([4294967296, 4294967296] : List Int).prod ≠ 0
    ∧ SizeSpec.constructed_size 2 [4294967296, 4294967296] rfl
        = Except.error DashException.InvalidArgument
    ∧ ¬ ((∃ spec, SizeSpec.construct 2 [4294967296, 4294967296] rfl
            = Except.ok spec)
          ↔ ([4294967296, 4294967296] : List Int).prod ≠ 0)
    ∧ SizeSpec.constructed_size 1 [-1] rfl
        = Except.ok 18446744073709551615
    ∧ ((18446744073709551615 : Nat) : Int) ≠ ([-1] : List Int).prod := by
  have hc : SizeSpec.construct 2 [4294967296, 4294967296] rfl
      = Except.error DashException.InvalidArgument := by
    rw [sizespec_construct_eq]
    rfl
  refine ⟨by decide, ?_, ?_, ?_, by decide⟩
  · simp only [SizeSpec.constructed_size, hc]
    rfl
  · intro h
    obtain ⟨spec, hs⟩ := h.mpr (by decide)
    rw [hc] at hs
    cases hs
  · simp only [SizeSpec.constructed_size, sizespec_construct_eq]
    rfl

/-- C27 (amended): constructing `SizeSpec<N>` from N extents succeeds exactly
when the product of the extents, computed in `size_t` arithmetic (modulo
2^64), is not zero, and throws InvalidArgument otherwise.  For a constructed
object `size()` is that product, `extent(d)` is the d-th argument (as a
`long long`) for `d < N` and throws OutOfBounds for `d >= N`.  For
non-negative `long long` extents whose product is below 2^64 the product is
the mathematical one. -/
theorem C27_sizespec_size_is_wrapped_product (N : Nat) (values : List Int)
    (h : values.length = N) :
    ((∃ spec, SizeSpec.construct N values h = Except.ok spec)
        ↔ to_size_t ((values.map to_long_long).prod) ≠ 0)
    ∧ (to_size_t ((values.map to_long_long).prod) = 0 →
        SizeSpec.construct N values h = Except.error DashException.InvalidArgument)
    ∧ (∀ spec, SizeSpec.construct N values h = Except.ok spec →
        spec.size = to_size_t ((values.map to_long_long).prod)
        ∧ (∀ d, d < N → spec.extent d = Except.ok (to_long_long (values.getD d 0)))
        ∧ (∀ d, d ≥ N → spec.extent d = Except.error DashException.OutOfBounds))
    ∧ ((∀ v ∈ values, 0 ≤ v ∧ v < 9223372036854775808) →
        values.prod < 18446744073709551616 →
        ((∃ spec, SizeSpec.construct N values h = Except.ok spec) ↔ values.prod ≠ 0)
        ∧ (∀ spec, SizeSpec.construct N values h = Except.ok spec →
            (spec.size : Int) = values.prod
            ∧ (∀ d, d < N → spec.extent d = Except.ok (values.getD d 0)))) := by
  have heq := sizespec_construct_eq N values h
  have hspec : ∀ spec, SizeSpec.construct N values h = Except.ok spec →
      to_size_t ((values.map to_long_long).prod) ≠ 0
      ∧ spec = { base := Dimensional.construct N values h,
                 _size := to_size_t ((values.map to_long_long).prod) } := by
    intro spec hs
    rw [heq] at hs
    by_cases hz : to_size_t ((values.map to_long_long).prod) = 0
    · rw [if_pos hz] at hs
      cases hs
    · rw [if_neg hz] at hs
      exact ⟨hz, (Except.ok.inj hs).symm⟩
  have hext : ∀ spec, SizeSpec.construct N values h = Except.ok spec →
      (∀ d, d < N → spec.extent d = Except.ok (to_long_long (values.getD d 0)))
      ∧ (∀ d, d ≥ N → spec.extent d = Except.error DashException.OutOfBounds) := by
    intro spec hs
    obtain ⟨-, he⟩ := hspec spec hs
    subst he
    constructor
    · intro d hd
      have hn : ¬ d ≥ N := by omega
      have hd2 : d < values.length := by omega
      simp [SizeSpec.extent, Dimensional.dim, Dimensional.construct, hn, pure, Except.pure,
        List.getD_eq_getElem, hd2]
    · intro d hd
      simp [SizeSpec.extent, Dimensional.dim, hd, throw, throwThe, MonadExceptOf.throw]
  refine ⟨⟨?_, ?_⟩, ?_, ?_, ?_⟩
  · rintro ⟨spec, hs⟩
    exact (hspec spec hs).1
  · intro hz
    rw [heq, if_neg hz]
    exact ⟨_, rfl⟩
  · intro hz
    rw [heq, if_pos hz]
  · intro spec hs
    obtain ⟨-, he⟩ := hspec spec hs
    refine ⟨?_, hext spec hs⟩
    rw [he]; rfl
  · intro hrange hprod
    have hmap : values.map to_long_long = values := by
      conv_rhs => rw [← List.map_id values]
      apply List.map_congr_left
      intro v hv
      obtain ⟨h0, h1⟩ := hrange v hv
      rw [id]
      exact to_long_long_id v (by omega) h1
    have hnn : 0 ≤ values.prod := by
      apply List.prod_nonneg
      intro v hv
      exact (hrange v hv).1
    have hsz : ((to_size_t ((values.map to_long_long).prod) : Nat) : Int) = values.prod := by
      rw [hmap]
      unfold to_size_t
      rw [Int.emod_eq_of_lt hnn hprod, Int.toNat_of_nonneg hnn]
    constructor
    · constructor
      · rintro ⟨spec, hs⟩ hz
        have := (hspec spec hs).1
        apply this
        have h2 := hsz
        rw [hz] at h2
        exact_mod_cast h2
      · intro hz
        have hne : to_size_t ((values.map to_long_long).prod) ≠ 0 := by
          intro h0
          rw [h0] at hsz
          exact hz hsz.symm
        rw [heq, if_neg hne]
        exact ⟨_, rfl⟩
    · intro spec hs
      obtain ⟨-, he⟩ := hspec spec hs
      constructor
      · rw [he]; exact hsz
      · intro d hd
        rw [(hext spec hs).1 d hd]
        by_cases hd2 : d < values.length
        · have hv := hrange (values.getD d 0) (by
            rw [List.getD_eq_getElem _ _ hd2]; exact List.getElem_mem hd2)
          rw [to_long_long_id _ (by omega) hv.2]
        · omega

/-- C27 on `SizeSpec<3>(2, 3, 4)` and `SizeSpec<2>(5, 0)`. -/
theorem C27_sizespec_size_is_wrapped_product_witness :
    (∀ v ∈ ([2, 3, 4] : List Int), 0 ≤ v ∧ v < 9223372036854775808)
    ∧ ([2, 3, 4] : List Int).prod < 18446744073709551616
    ∧ (∃ spec, SizeSpec.construct 3 [2, 3, 4] rfl = Except.ok spec
        ∧ spec.size = 24
        ∧ spec.extent 1 = Except.ok 3
        ∧ spec.extent 3 = Except.error DashException.OutOfBounds)
    ∧ SizeSpec.construct 2 [5, 0] rfl
        = Except.error DashException.InvalidArgument := by
  have h := C27_sizespec_size_is_wrapped_product 3 [2, 3, 4] rfl
  have hr : ∀ v ∈ ([2, 3, 4] : List Int), 0 ≤ v ∧ v < 9223372036854775808 := by decide
  have hp : ([2, 3, 4] : List Int).prod < 18446744073709551616 := by decide
  obtain ⟨spec, hs⟩ := (h.2.2.2 hr hp).1.mpr (by decide)
  obtain ⟨h1, h2⟩ := (h.2.2.2 hr hp).2 spec hs
  refine ⟨hr, hp, ⟨spec, hs, ?_, h2 1 (by decide), (h.2.2.1 spec hs).2.2 3 (by decide)⟩, ?_⟩
  · have h3 : (spec.size : Int) = 24 := by rw [h1]; decide
    exact_mod_cast h3
  · exact (C27_sizespec_size_is_wrapped_product 2 [5, 0] rfl).2.1 (by decide)

/-! ## The steps of a returning `handle_task` -/

/-- A call of `handle_task` on a task that returns went through the run phase,
found the parent of the current task, and ended with the retire step. -/
theorem handle_task_ok_inv (E : Collab D) (F : FnTable D) (n : Nat) (task : TaskPtr)
    (s s' : Sched D) (h : handle_task E F (n + 1) (some task) s = Except.ok s') :
    ∃ s1 p, handle_task_run E F (handle_task E F n) n task s = Except.ok s1
      ∧ ((handle_task_release E s1).2.tasks s1.current_task).parent = some p
      ∧ s' = handle_task_retire E s.current_task s1.current_task
          (notified p (handle_task_release E s1).2) := by
  cases hrun : handle_task_run E F (handle_task E F n) n task s with
  | error e =>
    simp [handle_task, hrun, bind, Except.bind] at h
  | ok s1 =>
    rw [handle_task_succ E F n task s s1 hrun] at h
    cases hpar : ((handle_task_release E s1).2.tasks s1.current_task).parent with
    | none =>
      simp [handle_task_finish, handle_task_notify_parent, handle_task_release, hpar, bind,
        Except.bind, throw, throwThe, MonadExceptOf.throw] at h
      have hp2 := hpar
      simp only [handle_task_release] at hp2
      rw [hp2] at h
      simp at h
    | some p =>
      rw [handle_task_finish_ok E s.current_task p s1 hpar] at h
      exact ⟨s1, p, rfl, hpar, (Except.ok.inj h).symm⟩

/-- The retire step changes no `num_children` counter. -/
theorem retire_children (E : Collab D) (cur t x : TaskPtr) (q : Sched D) :
    ((handle_task_retire E cur t q).tasks x).num_children = (q.tasks x).num_children := by
  by_cases hx : x = t
  · subst hx
    by_cases href : (q.tasks x).has_ref = true
    · simp [handle_task_retire, Sched.set_state, Sched.emit, Sched.store, href, Function.update]
    · simp [handle_task_retire, Sched.set_state, Sched.emit, Sched.store, href, Function.update,
        dart__tasking__destroy_task, DART_STACK_PUSH]
  · rw [retire_other E cur t x q hx]

/-- What a result of `dart__tasking__task_test` was computed from: the handler
was called at most once, on what `next_task` returned after remote progress,
and then the task was destroyed if it was found FINISHED. -/
theorem task_test_ok (E : Collab D) (ht : Handler D) (tr tr' : Option (Option TaskPtr))
    (fl fl' : Option Int) (r : dart_ret_t) (q q' : Sched D)
    (h : dart__tasking__task_test E ht tr fl q = Except.ok (r, tr', fl', q')) :
    ∃ q1, (q1 = q ∨ ht (next_task (dart_tasking_remote_progress E q)).1
              (next_task (dart_tasking_remote_progress E q)).2 = Except.ok q1)
      ∧ ((q' = q1 ∧ tr' = tr)
          ∨ ∃ t, tr = some (some t) ∧ (q1.tasks t).state = DART_TASK_FINISHED
              ∧ q' = dart__tasking__destroy_task E t q1 ∧ tr' = some none ∧ r = DART_OK) := by
  unfold dart__tasking__task_test at h
  cases fl with
  | none =>
    simp only [pure, Except.pure, Except.ok.injEq, Prod.mk.injEq] at h
    exact ⟨q, Or.inl rfl, Or.inl ⟨h.2.2.2.symm, h.2.1.symm⟩⟩
  | some f =>
    cases tr with
    | none =>
      simp only [pure, Except.pure, Except.ok.injEq, Prod.mk.injEq] at h
      exact ⟨q, Or.inl rfl, Or.inl ⟨h.2.2.2.symm, h.2.1.symm⟩⟩
    | some hd =>
      cases hd with
      | none =>
        simp only [pure, Except.pure, Except.ok.injEq, Prod.mk.injEq] at h
        exact ⟨q, Or.inl rfl, Or.inl ⟨h.2.2.2.symm, h.2.1.symm⟩⟩
      | some t =>
        by_cases hd : (q.tasks t).state = DART_TASK_DESTROYED
        · simp only [hd, if_true, pure, Except.pure, Except.ok.injEq, Prod.mk.injEq] at h
          exact ⟨q, Or.inl rfl, Or.inl ⟨h.2.2.2.symm, h.2.1.symm⟩⟩
        · simp only [hd, if_false] at h
          by_cases hs : q.num_threads = 1 ∧ (q.tasks t).state ≠ DART_TASK_FINISHED
          · simp only [hs, ne_eq, not_false_eq_true, and_self, if_true, bind, Except.bind] at h
            cases hht : ht (next_task (dart_tasking_remote_progress E q)).1
                (next_task (dart_tasking_remote_progress E q)).2 with
            | error e => simp [hht] at h
            | ok q1 =>
              simp only [hht, pure, Except.pure] at h
              by_cases hf : (q1.tasks t).state = DART_TASK_FINISHED
              · simp only [hf, if_true, Except.ok.injEq, Prod.mk.injEq] at h
                exact ⟨q1, Or.inr rfl, Or.inr ⟨t, rfl, hf, h.2.2.2.symm, h.2.1.symm, h.1.symm⟩⟩
              · simp only [hf, if_false, Except.ok.injEq, Prod.mk.injEq] at h
                exact ⟨q1, Or.inr rfl, Or.inl ⟨h.2.2.2.symm, h.2.1.symm⟩⟩
          · simp only [hs, if_false, bind, Except.bind, pure, Except.pure] at h
            by_cases hf : (q.tasks t).state = DART_TASK_FINISHED
            · simp only [hf, if_true, Except.ok.injEq, Prod.mk.injEq] at h
              exact ⟨q, Or.inl rfl, Or.inr ⟨t, rfl, hf, h.2.2.2.symm, h.2.1.symm, h.1.symm⟩⟩
            · simp only [hf, if_false, Except.ok.injEq, Prod.mk.injEq] at h
              exact ⟨q, Or.inl rfl, Or.inl ⟨h.2.2.2.symm, h.2.1.symm⟩⟩

/-- C28: every returning call of `handle_task` on a non-null task performs
exactly one decrement, that of the `num_children` counter of the parent of the
task it finishes, after the run phase (body and implicit wait) has returned and
the local successors have been released.  A cancelled task differs only in
that its run phase skips the implicit wait.  `dart__tasking__destroy_task`,
`dart__tasking__taskref_free`, and the statements of `dart__tasking__task_wait`
and `dart__tasking__task_test` outside their calls of the task handler change
no counter and log no decrement. -/
theorem C28_one_decrement_per_handled_task (E : Collab D) (F : FnTable D) (n : Nat)
    (task : TaskPtr) (s s' : Sched D)
    (h : handle_task E F (n + 1) (some task) s = Except.ok s') :
    (∃ (s1 : Sched D) (p : TaskPtr) (L tail : List Event),
      handle_task_run E F (handle_task E F n) n task s = Except.ok s1
      ∧ ((handle_task_release E s1).2.tasks s1.current_task).parent = some p
      ∧ (∀ e ∈ L, e.is_release_effect = true)
      ∧ s'.log = s1.log ++ (Event.release_local s1.current_task :: L
          ++ [Event.dec_children p, Event.context_release s1.current_task,
              Event.set_state s1.current_task DART_TASK_FINISHED] ++ tail)
      ∧ (tail = [] ∨ tail = [Event.destroy s1.current_task])
      ∧ (s'.log.drop s1.log.length).countP Event.is_dec = 1
      ∧ (s'.tasks p).num_children = ((handle_task_release E s1).2.tasks p).num_children - 1
      ∧ (∀ x, x ≠ p →
          (s'.tasks x).num_children = ((handle_task_release E s1).2.tasks x).num_children))
    ∧ (∀ s2, invoke_taskfn F (handle_task E F n) task (running_entry task s) = Except.ok s2 →
        s2.cancel_requested = true →
        handle_task_run E F (handle_task E F n) n task s = Except.ok s2)
    ∧ (∀ (t x : TaskPtr) (q : Sched D),
        ((dart__tasking__destroy_task E t q).tasks x).num_children = (q.tasks x).num_children
        ∧ (dart__tasking__destroy_task E t q).log = q.log ++ [Event.destroy t])
    ∧ (∀ (tr : Option (Option TaskPtr)) (x : TaskPtr) (q : Sched D),
        ((dart__tasking__taskref_free E tr q).2.2.tasks x).num_children = (q.tasks x).num_children
        ∧ (dart__tasking__taskref_free E tr q).2.2.log.countP Event.is_dec
            = q.log.countP Event.is_dec)
    ∧ (∀ (ht : Handler D) (k : Nat) (tr tr' : Option (Option TaskPtr)) (q q' : Sched D),
        dart__tasking__task_wait E ht k tr q = Except.ok (DART_OK, tr', q') →
        ∃ t q1, task_wait_loop E ht k t q = Except.ok q1
          ∧ (∀ x, (q'.tasks x).num_children = (q1.tasks x).num_children)
          ∧ q'.log = q1.log ++ [Event.destroy t])
    ∧ (∀ (ht : Handler D) (tr tr' : Option (Option TaskPtr)) (fl fl' : Option Int)
        (r : dart_ret_t) (q q' : Sched D),
        dart__tasking__task_test E ht tr fl q = Except.ok (r, tr', fl', q') →
        ∃ q1, (q1 = q ∨ ht (next_task (dart_tasking_remote_progress E q)).1
                  (next_task (dart_tasking_remote_progress E q)).2 = Except.ok q1)
          ∧ (∀ x, (q'.tasks x).num_children = (q1.tasks x).num_children)
          ∧ q'.log.countP Event.is_dec = q1.log.countP Event.is_dec) := by
  have hdestroy : ∀ (t x : TaskPtr) (q : Sched D),
      ((dart__tasking__destroy_task E t q).tasks x).num_children = (q.tasks x).num_children
      ∧ (dart__tasking__destroy_task E t q).log = q.log ++ [Event.destroy t] := by
    intro t x q
    refine ⟨?_, rfl⟩
    by_cases hx : x = t
    · subst hx
      simp [dart__tasking__destroy_task, DART_STACK_PUSH, Function.update]
    · simp [dart__tasking__destroy_task, DART_STACK_PUSH, Function.update, hx]
  refine ⟨?_, ?_, hdestroy, ?_, ?_, ?_⟩
  · obtain ⟨s1, p, hrun, hpar, hs'⟩ := handle_task_ok_inv E F n task s s' h
    obtain ⟨L, hL, hLk⟩ := handle_task_release_log E s1
    have hnlog : (notified p (handle_task_release E s1).2).log
        = (handle_task_release E s1).2.log ++ [Event.dec_children p] := by
      simp [notified, Sched.emit, Sched.store]
    have hcnt : ∀ tail : List Event, (tail = [] ∨ tail = [Event.destroy s1.current_task]) →
        (Event.release_local s1.current_task :: L
          ++ [Event.dec_children p, Event.context_release s1.current_task,
              Event.set_state s1.current_task DART_TASK_FINISHED] ++ tail).countP Event.is_dec
          = 1 := by
      intro tail ht
      have hL0 : L.countP Event.is_dec = 0 := by
        rw [List.countP_eq_zero]
        intro e he
        have := hLk e he
        cases e <;> simp_all [Event.is_release_effect, Event.is_dec]
      rcases ht with ht | ht <;>
        simp [ht, List.countP_cons, List.countP_append, hL0, Event.is_dec]
    have hkids : ∀ x, (s'.tasks x).num_children
        = ((notified p (handle_task_release E s1).2).tasks x).num_children := by
      intro x
      rw [hs', retire_children]
    by_cases href : ((notified p (handle_task_release E s1).2).tasks s1.current_task).has_ref
        = true
    · obtain ⟨hlog, -⟩ := retire_referenced E s.current_task s1.current_task _ href
      have hlog' : s'.log = s1.log ++ (Event.release_local s1.current_task :: L
          ++ [Event.dec_children p, Event.context_release s1.current_task,
              Event.set_state s1.current_task DART_TASK_FINISHED] ++ []) := by
        rw [hs', hlog, hnlog, hL]; simp
      refine ⟨s1, p, L, [], hrun, hpar, hLk, hlog', Or.inl rfl, ?_, ?_, ?_⟩
      · rw [hlog', List.drop_left]
        exact hcnt [] (Or.inl rfl)
      · rw [hkids, notified_task]; simp
      · intro x hx
        rw [hkids, notified_task, if_neg hx]
    · simp only [Bool.not_eq_true] at href
      obtain ⟨hlog, -⟩ := retire_unreferenced E s.current_task s1.current_task _ href
      have hlog' : s'.log = s1.log ++ (Event.release_local s1.current_task :: L
          ++ [Event.dec_children p, Event.context_release s1.current_task,
              Event.set_state s1.current_task DART_TASK_FINISHED]
          ++ [Event.destroy s1.current_task]) := by
        rw [hs', hlog, hnlog, hL]; simp
      refine ⟨s1, p, L, [Event.destroy s1.current_task], hrun, hpar, hLk, hlog', Or.inr rfl,
        ?_, ?_, ?_⟩
      · rw [hlog', List.drop_left]
        exact hcnt _ (Or.inr rfl)
      · rw [hkids, notified_task]; simp
      · intro x hx
        rw [hkids, notified_task, if_neg hx]
  · intro s2 hinv hc
    rw [handle_task_run_eq, hinv]
    simp [bind, Except.bind, dart__tasking__cancellation_requested, hc, pure, Except.pure]
  · intro tr x q
    cases tr with
    | none => exact ⟨rfl, rfl⟩
    | some hd =>
      cases hd with
      | none => exact ⟨rfl, rfl⟩
      | some t =>
        by_cases hf : (q.tasks t).state = DART_TASK_FINISHED ∧ (q.tasks t).has_ref = true
        · have he : dart__tasking__taskref_free E (some (some t)) q
              = (DART_OK, some none, dart__tasking__destroy_task E t q) := by
            simp [dart__tasking__taskref_free, hf]
          rw [he]
          refine ⟨(hdestroy t x q).1, ?_⟩
          show (dart__tasking__destroy_task E t q).log.countP Event.is_dec = _
          rw [(hdestroy t x q).2]
          simp [List.countP_append, Event.is_dec]
        · have he : dart__tasking__taskref_free E (some (some t)) q
              = (DART_OK, some (some t), q.store t { q.tasks t with has_ref := false }) := by
            unfold dart__tasking__taskref_free
            simp only []
            rw [if_neg hf]
          rw [he]
          refine ⟨?_, rfl⟩
          by_cases hx : x = t
          · subst hx
            simp [Sched.store, Function.update]
          · simp [Sched.store, Function.update, hx]
  · intro ht k tr tr' q q' hw
    obtain ⟨t, q1, -, -, hloop, -, hq'⟩ := task_wait_ok E ht k tr tr' q q' hw
    refine ⟨t, q1, hloop, ?_, ?_⟩
    · intro x
      rw [hq', (hdestroy t x _).1]
      by_cases hx : x = t
      · subst hx
        simp [Sched.store, Function.update]
      · simp [Sched.store, Function.update, hx]
    · rw [hq', (hdestroy t t _).2]
      rfl
  · intro ht tr tr' fl fl' r q q' htest
    obtain ⟨q1, hq1, hq'⟩ := task_test_ok E ht tr tr' fl fl' r q q' htest
    refine ⟨q1, hq1, ?_⟩
    rcases hq' with ⟨hq', -⟩ | ⟨t, -, -, hq', -, -⟩
    · rw [hq']
      exact ⟨fun _ => rfl, rfl⟩
    · rw [hq']
      refine ⟨fun x => (hdestroy t x q1).1, ?_⟩
      rw [(hdestroy t t q1).2]
      simp [List.countP_append, Event.is_dec]


/-- C28 on the demo scheduler: the worker handles task 1, a child of the root
task; the root's counter drops from 1 to 0 and one decrement is logged. -/
theorem C28_one_decrement_per_handled_task_witness :
    (∃ s', handle_task demoCollab demoFns (2 + 1) (some 1) (demo_popped 0 false) = Except.ok s'
      ∧ ((demo_popped 0 false).tasks 0).num_children = 1
      ∧ (s'.tasks 0).num_children = 0
      ∧ (s'.log.drop (demo_ran 0 false).log.length).countP Event.is_dec = 1) := by
  have hrun : handle_task demoCollab demoFns (2 + 1) (some 1) (demo_popped 0 false)
      = Except.ok (Res.state (handle_task demoCollab demoFns (2 + 1) (some 1)
          (demo_popped 0 false)) (demo_popped 0 false)) := rfl
  obtain ⟨s1, p, L, tail, h1, h2, -, -, -, h6, h7, -⟩ :=
    (C28_one_decrement_per_handled_task demoCollab demoFns 2 1 (demo_popped 0 false) _ hrun).1
  have hs1 : s1 = demo_ran 0 false := by
    have h0 : handle_task_run demoCollab demoFns (handle_task demoCollab demoFns 2) 2 1
        (demo_popped 0 false) = Except.ok (demo_ran 0 false) := rfl
    rw [h0] at h1
    exact (Except.ok.inj h1).symm
  subst hs1
  have hp : p = 0 := by
    have h0 : ((handle_task_release demoCollab (demo_ran 0 false)).2.tasks
        (demo_ran 0 false).current_task).parent = some 0 := by decide
    rw [h0] at h2
    exact (Option.some.inj h2).symm
  subst hp
  refine ⟨_, hrun, by decide, ?_, h6⟩
  rw [h7]
  decide

/-- A returning `invoke_taskfn` called the function of the task, on the state
with the invocation logged, and marked the task CANCELLED if the function was
left through `longjmp`. -/
theorem invoke_taskfn_ok_inv (F : FnTable D) (ht : Handler D) (task : TaskPtr) (q q2 : Sched D)
    (h : invoke_taskfn F ht task q = Except.ok q2) :
    ∃ f sb j, (q.tasks task).fn = some f
      ∧ F f ht (q.tasks task).data (q.emit (Event.invoke task)) = Except.ok (sb, j)
      ∧ q2 = if j = true then sb.set_state task DART_TASK_CANCELLED else sb := by
  unfold invoke_taskfn at h
  cases hfn : (q.tasks task).fn with
  | none => simp [hfn, throw, throwThe, MonadExceptOf.throw] at h
  | some f =>
    simp only [hfn, bind, Except.bind] at h
    cases hb : F f ht (q.tasks task).data (q.emit (Event.invoke task)) with
    | error e => simp [hb] at h
    | ok r =>
      simp only [hb] at h
      obtain ⟨sb, j⟩ := r
      refine ⟨f, sb, j, rfl, hb, ?_⟩
      cases j with
      | true =>
        simp only [if_true, pure, Except.pure, Except.ok.injEq] at h
        simp [h]
      | false =>
        simp only [Bool.false_eq_true, if_false, pure, Except.pure, Except.ok.injEq] at h
        simp [h]

/-- A returning run phase of `handle_task` invoked the task in the entry state
and then waited for its children unless cancellation was requested. -/
theorem handle_task_run_ok_inv (E : Collab D) (F : FnTable D) (ht : Handler D) (n : Nat)
    (task : TaskPtr) (s s1 : Sched D) (h : handle_task_run E F ht n task s = Except.ok s1) :
    ∃ s2, invoke_taskfn F ht task (running_entry task s) = Except.ok s2
      ∧ ((s2.cancel_requested = true ∧ s1 = s2)
          ∨ (s2.cancel_requested = false
              ∧ ∃ r, dart__tasking__task_complete E ht n s2 = Except.ok r ∧ s1 = r.2)) := by
  rw [handle_task_run_eq] at h
  cases hi : invoke_taskfn F ht task (running_entry task s) with
  | error e => simp [hi, bind, Except.bind] at h
  | ok s2 =>
    simp only [hi, bind, Except.bind] at h
    refine ⟨s2, rfl, ?_⟩
    by_cases hc : s2.cancel_requested = true
    · simp only [dart__tasking__cancellation_requested, hc, not_true_eq_false, if_false, pure,
        Except.pure, Except.ok.injEq] at h
      exact Or.inl ⟨hc, h.symm⟩
    · have hc2 : s2.cancel_requested = false := by simpa using hc
      simp only [dart__tasking__cancellation_requested, hc2, Bool.false_eq_true,
        not_false_eq_true, if_true] at h
      cases htc : dart__tasking__task_complete E ht n s2 with
      | error e => simp [htc] at h
      | ok r =>
        simp only [htc, pure, Except.pure, Except.ok.injEq] at h
        exact Or.inr ⟨hc2, r, rfl, h.symm⟩

/-- A returning `dart__tasking__task_complete` ran the wait loop on the current
task, after the matching round when that task is the root task, and ended with
the clean-up. -/
theorem task_complete_ok_inv (E : Collab D) (ht : Handler D) (n : Nat) (s : Sched D)
    (r : dart_ret_t × Sched D) (h : dart__tasking__task_complete E ht n s = Except.ok r) :
    (s.current_task ≠ root_task ∨ s.thread_id = 0)
    ∧ ∃ s2, task_complete_wait E ht n (task_complete_entry E s).current_task
              (task_complete_entry E s) = Except.ok s2
        ∧ r = (DART_OK, task_complete_cleanup E (dart__tasking__check_cancellation E s2)) := by
  unfold dart__tasking__task_complete at h
  by_cases ha : s.current_task ≠ root_task ∨ s.thread_id = 0
  · refine ⟨ha, ?_⟩
    simp only [ha, not_true_eq_false, if_false, bind, Except.bind] at h
    cases hw : task_complete_wait E ht n (task_complete_entry E s).current_task
        (task_complete_entry E s) with
    | error e =>
      simp only [task_complete_entry] at hw
      simp [hw] at h
    | ok s2 =>
      have hw2 := hw
      simp only [task_complete_entry] at hw2
      simp only [hw2, pure, Except.pure, Except.ok.injEq] at h
      exact ⟨s2, rfl, h.symm⟩
  · simp [ha, throw, throwThe, MonadExceptOf.throw] at h

/-- A step of the wait loop of `dart__tasking__task_complete`. -/
theorem task_complete_wait_step (E : Collab D) (ht : Handler D) (k : Nat) (t : TaskPtr)
    (s s' : Sched D) (h : task_complete_wait E ht (k + 1) t s = Except.ok s') :
    (¬ 0 < (s.tasks t).num_children ∧ s' = s)
    ∨ (0 < (s.tasks t).num_children
        ∧ ∃ s3, ht (next_task (dart__tasking__check_cancellation E
                    (dart_tasking_remote_progress E s))).1
                  (next_task (dart__tasking__check_cancellation E
                    (dart_tasking_remote_progress E s))).2 = Except.ok s3
          ∧ task_complete_wait E ht k t s3 = Except.ok s') := by
  unfold task_complete_wait at h
  by_cases hk : 0 < (s.tasks t).num_children
  · simp only [hk, if_true, bind, Except.bind] at h
    right
    refine ⟨hk, ?_⟩
    cases hh : ht (next_task (dart__tasking__check_cancellation E
        (dart_tasking_remote_progress E s))).1
      (next_task (dart__tasking__check_cancellation E (dart_tasking_remote_progress E s))).2 with
    | error e => simp [hh] at h
    | ok s3 =>
      simp only [hh] at h
      exact ⟨s3, rfl, h⟩
  · simp only [hk, if_false, pure, Except.pure, Except.ok.injEq] at h
    exact Or.inl ⟨hk, h.symm⟩

/-! ## The executed-task counter -/

/-- Releasing tasks leaves the executed-task counter alone when the
cancellation module does. -/
theorem enqueue_all_taskcntr (E : Collab D)
    (hEc : ∀ t (q : Sched D), (E.cancel_task t q).taskcntr = q.taskcntr)
    (ts : List TaskPtr) (s : Sched D) :
    (enqueue_all E ts s).taskcntr = s.taskcntr := by
  induction ts generalizing s with
  | nil => rfl
  | cons t ts ih =>
    simp only [enqueue_all, List.foldl_cons] at ih ⊢
    rw [ih]
    unfold dart__tasking__enqueue_runnable
    by_cases hc : dart__tasking__cancellation_requested s = true
    · simp [hc, dart__tasking__cancel_task, hEc]
    · by_cases hr : E.phase_is_runnable s.runnable_phase (s.tasks t).phase = true <;>
        simp [hc, hr]

/-- The wait loop of `dart__tasking__task_complete` does not lower the
executed-task counter when the handler it runs does not. -/
theorem task_complete_wait_taskcntr (E : Collab D) (ht : Handler D)
    (hEc : ∀ t (q : Sched D), (E.cancel_task t q).taskcntr = q.taskcntr)
    (hEk : ∀ q : Sched D, (E.check_cancellation q).taskcntr = q.taskcntr)
    (hht : ∀ t (q q' : Sched D), ht t q = Except.ok q' → q.taskcntr ≤ q'.taskcntr)
    (k : Nat) (t0 : TaskPtr) (s s' : Sched D)
    (h : task_complete_wait E ht k t0 s = Except.ok s') :
    s.taskcntr ≤ s'.taskcntr := by
  induction k generalizing s with
  | zero =>
    unfold task_complete_wait at h
    by_cases hk : 0 < (s.tasks t0).num_children
    · simp [hk, throw, throwThe, MonadExceptOf.throw] at h
    · simp only [hk, if_false, pure, Except.pure, Except.ok.injEq] at h
      rw [h]
  | succ k ih =>
    rcases task_complete_wait_step E ht k t0 s s' h with ⟨-, hs⟩ | ⟨-, s3, h3, hrest⟩
    · rw [hs]
    · have h1 := hht _ _ _ h3
      have h2 := ih s3 hrest
      have h0 : (next_task (dart__tasking__check_cancellation E
          (dart_tasking_remote_progress E s))).2.taskcntr = s.taskcntr := by
        have hn : ∀ q : Sched D, (next_task q).2.taskcntr = q.taskcntr := by
          intro q
          unfold next_task
          by_cases hc : dart__tasking__cancellation_requested q = true
          · simp [hc]
          · cases hq : q.global_queue <;> simp [hc, hq, dart_tasking_taskqueue_pop]
        rw [hn]
        show (E.check_cancellation (dart_tasking_remote_progress E s)).taskcntr = _
        rw [hEk]
        exact enqueue_all_taskcntr E hEc _ _
      omega

/-- The matching round and the clean-up leave the executed-task counter alone. -/
theorem task_complete_frame_taskcntr (E : Collab D)
    (hEc : ∀ t (q : Sched D), (E.cancel_task t q).taskcntr = q.taskcntr) (s : Sched D) :
    (task_complete_entry E s).taskcntr = s.taskcntr
    ∧ (task_complete_cleanup E s).taskcntr = s.taskcntr := by
  constructor
  · unfold task_complete_entry
    by_cases hr : s.current_task = root_task
    · rw [if_pos hr]
      show (dart_tasking_datadeps_handle_defered_remote E
        (dart_tasking_remote_progress_blocking E s)).taskcntr = _
      unfold dart_tasking_datadeps_handle_defered_remote dart_tasking_remote_progress_blocking
      rw [enqueue_all_taskcntr E hEc, enqueue_all_taskcntr E hEc]
    · rw [if_neg hr]
  · unfold task_complete_cleanup
    by_cases hr : s.current_task = root_task
    · cases hf : s.task_free_list <;>
        simp [hr, hf, dart__tasking__phase_set_runnable, Sched.store]
    · simp [hr]

/-- No call of `handle_task` lowers the executed-task counter, provided the
task functions and the cancellation module do not. -/
theorem handle_task_taskcntr (E : Collab D) (F : FnTable D)
    (hEc : ∀ t (q : Sched D), (E.cancel_task t q).taskcntr = q.taskcntr)
    (hEk : ∀ q : Sched D, (E.check_cancellation q).taskcntr = q.taskcntr)
    (hF : ∀ f (ht : Handler D) data (q qb : Sched D) (j : Bool),
      (∀ t (x x' : Sched D), ht t x = Except.ok x' → x.taskcntr ≤ x'.taskcntr) →
      F f ht data q = Except.ok (qb, j) → q.taskcntr ≤ qb.taskcntr)
    (n : Nat) (task : Option TaskPtr) (s s' : Sched D)
    (h : handle_task E F n task s = Except.ok s') :
    s.taskcntr ≤ s'.taskcntr
    ∧ (∀ t, task = some t → s.taskcntr < s'.taskcntr) := by
  induction n generalizing task s s' with
  | zero =>
    cases task with
    | none =>
      simp only [handle_task, pure, Except.pure, Except.ok.injEq] at h
      rw [h]
      exact ⟨le_refl _, fun t ht => by cases ht⟩
    | some t => simp [handle_task, throw, throwThe, MonadExceptOf.throw] at h
  | succ n ih =>
    cases task with
    | none =>
      simp only [handle_task, pure, Except.pure, Except.ok.injEq] at h
      rw [h]
      exact ⟨le_refl _, fun t ht => by cases ht⟩
    | some t =>
      have hht : ∀ t (x x' : Sched D), handle_task E F n t x = Except.ok x' →
          x.taskcntr ≤ x'.taskcntr := fun t x x' hx => (ih t x x' hx).1
      obtain ⟨s1, p, hrun, -, hs'⟩ := handle_task_ok_inv E F n t s s' h
      obtain ⟨s2, hinv, hrest⟩ := handle_task_run_ok_inv E F _ n t s s1 hrun
      obtain ⟨f, sb, j, -, hbody, hs2⟩ := invoke_taskfn_ok_inv F _ t _ s2 hinv
      have hb := hF f _ _ _ sb j hht hbody
      have h2 : s.taskcntr ≤ s2.taskcntr := by
        have : s2.taskcntr = sb.taskcntr := by
          rw [hs2]; split <;> rfl
        rw [this]; exact hb
      have h1 : s2.taskcntr ≤ s1.taskcntr := by
        rcases hrest with ⟨-, he⟩ | ⟨-, r, htc, he⟩
        · rw [he]
        · obtain ⟨-, s3, hw, hr⟩ := task_complete_ok_inv E _ n s2 r htc
          have hm := task_complete_wait_taskcntr E _ hEc hEk hht n _ _ s3 hw
          rw [(task_complete_frame_taskcntr E hEc s2).1] at hm
          rw [he, hr]
          show s2.taskcntr ≤ (task_complete_cleanup E (dart__tasking__check_cancellation E s3)).taskcntr
          rw [(task_complete_frame_taskcntr E hEc _).2]
          show s2.taskcntr ≤ (E.check_cancellation s3).taskcntr
          rw [hEk]; exact hm
      have hfin : s'.taskcntr = s1.taskcntr + 1 := by
        rw [hs']
        have hr : ∀ (cur x : TaskPtr) (q : Sched D),
            (handle_task_retire E cur x q).taskcntr = q.taskcntr + 1 := by
          intro cur x q
          by_cases href : (q.tasks x).has_ref = true
          · exact (retire_referenced E cur x q href).2.2.2.2.2
          · simp only [Bool.not_eq_true] at href
            exact (retire_unreferenced E cur x q href).2.2.2.2.2.2
        rw [hr]
        show (dart_tasking_datadeps_release_local_task E s1.current_task s1).taskcntr + 1 = _
        unfold dart_tasking_datadeps_release_local_task
        rw [enqueue_all_taskcntr E hEc]
        rfl
      constructor
      · omega
      · intro _ _
        omega

/-- C25: a returning call of `handle_task` on a non-null task invoked the
function of the task in a state in which the task is RUNNING and is the
worker's current task.  When the call returns the current task is again the
one that was current before the call, and the executed-task counter is one
more than the run phase (body and implicit wait) left it: it has increased
whenever task functions and the cancellation module do not lower it, and by
exactly one when the run phase left it unchanged. -/
theorem C25_handle_task_brackets_body (E : Collab D) (F : FnTable D) (n : Nat)
    (task : TaskPtr) (s s' : Sched D)
    (h : handle_task E F (n + 1) (some task) s = Except.ok s') :
    (∃ f sb j, (s.tasks task).fn = some f
      ∧ F f (handle_task E F n) (s.tasks task).data
          ((running_entry task s).emit (Event.invoke task)) = Except.ok (sb, j)
      ∧ (((running_entry task s).emit (Event.invoke task)).tasks task).state = DART_TASK_RUNNING
      ∧ ((running_entry task s).emit (Event.invoke task)).current_task = task
      ∧ ((running_entry task s).emit (Event.invoke task)).log
          = s.log ++ [Event.set_state task DART_TASK_RUNNING, Event.invoke task])
    ∧ s'.current_task = s.current_task
    ∧ (∃ s1, handle_task_run E F (handle_task E F n) n task s = Except.ok s1
        ∧ s'.taskcntr = (handle_task_release E s1).2.taskcntr + 1
        ∧ ((∀ t (q : Sched D), (E.cancel_task t q).taskcntr = q.taskcntr) →
            s'.taskcntr = s1.taskcntr + 1
            ∧ (s1.taskcntr = s.taskcntr → s'.taskcntr = s.taskcntr + 1)))
    ∧ ((∀ t (q : Sched D), (E.cancel_task t q).taskcntr = q.taskcntr) →
        (∀ q : Sched D, (E.check_cancellation q).taskcntr = q.taskcntr) →
        (∀ f (ht : Handler D) data (q qb : Sched D) (j : Bool),
          (∀ t (x x' : Sched D), ht t x = Except.ok x' → x.taskcntr ≤ x'.taskcntr) →
          F f ht data q = Except.ok (qb, j) → q.taskcntr ≤ qb.taskcntr) →
        s.taskcntr < s'.taskcntr) := by
  obtain ⟨s1, p, hrun, -, hs'⟩ := handle_task_ok_inv E F n task s s' h
  obtain ⟨s2, hinv, -⟩ := handle_task_run_ok_inv E F _ n task s s1 hrun
  obtain ⟨f, sb, j, hfn, hbody, -⟩ := invoke_taskfn_ok_inv F _ task _ s2 hinv
  have hrt : (running_entry task s).tasks task
      = { s.tasks task with state := DART_TASK_RUNNING } := running_entry_task task s
  have hfin : s'.taskcntr = (handle_task_release E s1).2.taskcntr + 1 := by
    rw [hs']
    have hr : ∀ (cur x : TaskPtr) (q : Sched D),
        (handle_task_retire E cur x q).taskcntr = q.taskcntr + 1 := by
      intro cur x q
      by_cases href : (q.tasks x).has_ref = true
      · exact (retire_referenced E cur x q href).2.2.2.2.2
      · simp only [Bool.not_eq_true] at href
        exact (retire_unreferenced E cur x q href).2.2.2.2.2.2
    rw [hr]
    rfl
  have hrel : (∀ t (q : Sched D), (E.cancel_task t q).taskcntr = q.taskcntr) →
      (handle_task_release E s1).2.taskcntr = s1.taskcntr := by
    intro hEc
    show (dart_tasking_datadeps_release_local_task E s1.current_task s1).taskcntr = _
    unfold dart_tasking_datadeps_release_local_task
    rw [enqueue_all_taskcntr E hEc]
    rfl
  refine ⟨⟨f, sb, j, ?_, ?_, ?_, rfl, ?_⟩, handle_task_restores_current E F _ _ s s' h,
    ⟨s1, hrun, hfin, fun hEc => ⟨by rw [hfin, hrel hEc],
      fun h0 => by rw [hfin, hrel hEc, h0]⟩⟩, ?_⟩
  · rw [hrt] at hfn; exact hfn
  · rw [hrt] at hbody; exact hbody
  · show ((running_entry task s).tasks task).state = DART_TASK_RUNNING
    rw [hrt]
  · simp [running_entry, Sched.set_state, Sched.emit, Sched.store]
  · intro hEc hEk hF
    exact (handle_task_taskcntr E F hEc hEk hF (n + 1) (some task) s s' h).2 task rfl

/-- C25 on the demo scheduler: the worker, on the root task, handles the leaf
task 1; afterwards the root task is current again and the counter went from 0
to 1. -/
theorem C25_handle_task_brackets_body_witness :
    ∃ s', handle_task demoCollab demoFns (2 + 1) (some 1) (demo_popped 0 false) = Except.ok s'
      ∧ (demo_popped 0 false).current_task = 0
      ∧ s'.current_task = 0
      ∧ (demo_popped 0 false).taskcntr = 0
      ∧ s'.taskcntr = 1 := by
  have hrun : handle_task demoCollab demoFns (2 + 1) (some 1) (demo_popped 0 false)
      = Except.ok (Res.state (handle_task demoCollab demoFns (2 + 1) (some 1)
          (demo_popped 0 false)) (demo_popped 0 false)) := rfl
  obtain ⟨-, h2, ⟨s1, h3, -, h5⟩, -⟩ :=
    C25_handle_task_brackets_body demoCollab demoFns 2 1 (demo_popped 0 false) _ hrun
  have hs1 : s1 = demo_ran 0 false := by
    have h0 : handle_task_run demoCollab demoFns (handle_task demoCollab demoFns 2) 2 1
        (demo_popped 0 false) = Except.ok (demo_ran 0 false) := rfl
    rw [h0] at h3
    exact (Except.ok.inj h3).symm
  subst hs1
  refine ⟨_, hrun, by decide, ?_, by decide, ?_⟩
  · rw [h2]; decide
  · rw [((h5 (fun _ _ => rfl)).2 (by decide))]; decide

/-! ## The barrier: runnable phase and remote polling -/

/-- The invariant survives every change that leaves the pool lists and the
allocation mark alone, writes freely only to records that hold a live task
other than the root task, keeps `next`, `state`, `fn` and `parent` of all other
records, and logs no destruction of the root task. -/
theorem sched_inv_update (s s' : Sched D) (hinv : sched_inv s)
    (htasks : ∀ x, (¬ (s.tasks x).is_dead ∧ x ≠ root_task)
      ∨ ((s'.tasks x).next = (s.tasks x).next ∧ (s'.tasks x).state = (s.tasks x).state
          ∧ (s'.tasks x).fn = (s.tasks x).fn ∧ (s'.tasks x).parent = (s.tasks x).parent))
    (hbrk : s'.brk = s.brk) (hrec : s'.task_recycle_list = s.task_recycle_list)
    (hfree : s'.task_free_list = s.task_free_list)
    (hlog : Event.destroy root_task ∉ s'.log) : sched_inv s' := by
  obtain ⟨R, Fl, hR, hF, hnd, hlt, hdead, hr1, hr2, hr3, -⟩ := hinv
  have hsame : ∀ x, (s.tasks x).is_dead ∨ x = root_task →
      (s'.tasks x).next = (s.tasks x).next ∧ (s'.tasks x).state = (s.tasks x).state
        ∧ (s'.tasks x).fn = (s.tasks x).fn ∧ (s'.tasks x).parent = (s.tasks x).parent := by
    intro x hx
    rcases htasks x with ⟨h1, h2⟩ | h
    · rcases hx with hx | hx
      · exact absurd hx h1
      · exact absurd hx h2
    · exact h
  refine ⟨R, Fl, ?_, ?_, hnd, ?_, ?_, ?_, ?_, ?_, hlog⟩
  · rw [hrec]
    refine is_stack_congr s.tasks s'.tasks R _ ?_ hR
    intro x hx
    exact (hsame x (Or.inl (hdead x (Or.inl (List.mem_append_left _ hx))))).1
  · rw [hfree]
    refine is_stack_congr s.tasks s'.tasks Fl _ ?_ hF
    intro x hx
    exact (hsame x (Or.inl (hdead x (Or.inl (List.mem_append_right _ hx))))).1
  · intro x hx
    rw [hbrk]; exact hlt x hx
  · intro x hx
    rw [hbrk] at hx
    have hd := hdead x hx
    obtain ⟨-, h2, h3, h4⟩ := hsame x (Or.inl hd)
    exact ⟨h2.trans hd.1, h3.trans hd.2.1, h4.trans hd.2.2⟩
  · rw [(hsame root_task (Or.inr rfl)).2.1]; exact hr1
  · rw [(hsame root_task (Or.inr rfl)).2.2.1]; exact hr2
  · rw [(hsame root_task (Or.inr rfl)).2.2.2]; exact hr3

/-- Under the invariant the root task is no dead record. -/
theorem sched_inv_root (s : Sched D) (hinv : sched_inv s) : ¬ (s.tasks root_task).is_dead := by
  obtain ⟨R, Fl, -, -, -, -, -, hr1, -⟩ := hinv
  intro hd
  rw [hd.1] at hr1
  cases hr1

/-- Destroying a record that holds a live task other than the root task keeps
the invariant. -/
theorem sched_inv_destroy (E : Collab D) (t : TaskPtr) (s : Sched D) (hinv : sched_inv s)
    (hlive : ¬ (s.tasks t).is_dead) (hroot : t ≠ root_task) :
    sched_inv (dart__tasking__destroy_task E t s) := by
  obtain ⟨R, Fl, hR, hF, hnd, hlt, hdead, hr1, hr2, hr3, hlog⟩ := hinv
  have hnot : t ∉ R ++ Fl := fun h => hlive (hdead t (Or.inl h))
  have hbrk : t < s.brk := by
    by_contra h
    exact hlive (hdead t (Or.inr (not_lt.mp h)))
  have hother : ∀ x, x ≠ t → (dart__tasking__destroy_task E t s).tasks x = s.tasks x := by
    intro x hx
    simp [dart__tasking__destroy_task, DART_STACK_PUSH, Function.update, hx]
  have hnew : ((dart__tasking__destroy_task E t s).tasks t).is_dead
      ∧ ((dart__tasking__destroy_task E t s).tasks t).next = s.task_recycle_list := by
    simp [dart__tasking__destroy_task, DART_STACK_PUSH, Function.update, dart_task_t.is_dead]
  have hst : ∀ (head : Option TaskPtr) (l : List TaskPtr), t ∉ l →
      is_stack s.tasks head l → is_stack (dart__tasking__destroy_task E t s).tasks head l := by
    intro head l hl hs
    refine is_stack_congr s.tasks _ l head ?_ hs
    intro x hx
    rw [hother x (fun h => hl (h ▸ hx))]
  refine ⟨t :: R, Fl, ?_, ?_, ?_, ?_, ?_, ?_, ?_, ?_, ?_⟩
  · show is_stack (dart__tasking__destroy_task E t s).tasks (some t) (t :: R)
    refine ⟨rfl, ?_⟩
    rw [hnew.2]
    exact hst _ R (fun h => hnot (List.mem_append_left _ h)) hR
  · exact hst _ Fl (fun h => hnot (List.mem_append_right _ h)) hF
  · rw [List.cons_append]
    exact List.nodup_cons.mpr ⟨hnot, hnd⟩
  · intro x hx
    rw [List.cons_append] at hx
    rcases List.mem_cons.mp hx with h | h
    · rw [h]; exact hbrk
    · exact hlt x h
  · intro x hx
    by_cases hxt : x = t
    · rw [hxt]; exact hnew.1
    · rw [hother x hxt]
      apply hdead
      rcases hx with h | h
      · rw [List.cons_append] at h
        rcases List.mem_cons.mp h with h | h
        · exact absurd h hxt
        · exact Or.inl h
      · exact Or.inr h
  · rw [hother _ (Ne.symm hroot)]; exact hr1
  · rw [hother _ (Ne.symm hroot)]; exact hr2
  · rw [hother _ (Ne.symm hroot)]; exact hr3
  · show Event.destroy root_task ∉ s.log ++ [Event.destroy t]
    intro h
    rcases List.mem_append.mp h with h | h
    · exact hlog h
    · simp at h
      exact hroot h.symm

/-- With an empty free-list `create_task` allocates: it hands out the address
at the allocation mark and moves the mark. -/
theorem create_task_fresh (E : Collab D) (fn : Option FnPtr) (data : Option Nat)
    (data_size : Nat) (prio : Int) (q : Sched D) (h : q.task_free_list = none) :
    (create_task E fn data data_size prio q).1 = q.brk
    ∧ (create_task E fn data data_size prio q).2.brk = q.brk + 1
    ∧ (create_task E fn data data_size prio q).2.log = q.log ++ [Event.alloc q.brk]
    ∧ (create_task E fn data data_size prio q).2.task_free_list = none := by
  unfold create_task DART_STACK_POP allocate_task
  simp [h]

/-- The private `create_task` keeps the invariant, and the record it hands out
holds a live task and is not the root task. -/
theorem sched_inv_create (E : Collab D) (fn : Option FnPtr) (data : Option Nat)
    (data_size : Nat) (prio : Int) (s : Sched D) (hinv : sched_inv s) :
    sched_inv (create_task E fn data data_size prio s).2
    ∧ ¬ ((create_task E fn data data_size prio s).2.tasks
          (create_task E fn data data_size prio s).1).is_dead
    ∧ (create_task E fn data data_size prio s).1 ≠ root_task := by
  have hroot := sched_inv_root s hinv
  obtain ⟨R, Fl, hR, hF, hnd, hlt, hdead, hr1, hr2, hr3, hlog⟩ := hinv
  have hother := create_task_other E fn data data_size prio s
  obtain ⟨-, -, hnst, -⟩ := create_task_new E fn data data_size prio s
  obtain ⟨-, -, -, -, hrl, -⟩ := create_task_frame E fn data data_size prio s
  have hlive : ¬ ((create_task E fn data data_size prio s).2.tasks
      (create_task E fn data data_size prio s).1).is_dead := by
    intro hd
    rw [hd.1] at hnst
    cases hnst
  have hst : ∀ (head : Option TaskPtr) (l : List TaskPtr),
      (create_task E fn data data_size prio s).1 ∉ l →
      is_stack s.tasks head l →
      is_stack (create_task E fn data data_size prio s).2.tasks head l := by
    intro head l hl hs
    refine is_stack_congr s.tasks _ l head ?_ hs
    intro x hx
    rw [hother x (fun h => hl (h ▸ hx))]
  cases hq : s.task_free_list with
  | none =>
    obtain ⟨c1, c2, c3, c4⟩ := create_task_fresh E fn data data_size prio s hq
    have hnot : (create_task E fn data data_size prio s).1 ∉ R ++ Fl := by
      intro h
      have := hlt _ h
      rw [c1] at this
      exact lt_irrefl _ this
    have hne : (create_task E fn data data_size prio s).1 ≠ root_task := by
      intro h
      rw [c1] at h
      exact hroot (hdead root_task (Or.inr (by rw [h])))
    refine ⟨⟨R, Fl, ?_, ?_, hnd, ?_, ?_, ?_, ?_, ?_, ?_⟩, hlive, hne⟩
    · rw [hrl]
      exact hst _ R (fun h => hnot (List.mem_append_left _ h)) hR
    · rw [c4, ← hq]
      exact hst _ Fl (fun h => hnot (List.mem_append_right _ h)) hF
    · intro x hx
      rw [c2]
      exact Nat.lt_succ_of_lt (hlt x hx)
    · intro x hx
      have hxn : x ≠ (create_task E fn data data_size prio s).1 := by
        rcases hx with h | h
        · exact fun he => hnot (he ▸ h)
        · rw [c2] at h
          intro he
          rw [he, c1] at h
          exact Nat.not_succ_le_self _ h
      rw [hother x hxn]
      apply hdead
      rcases hx with h | h
      · exact Or.inl h
      · rw [c2] at h
        exact Or.inr (Nat.le_of_succ_le h)
    · rw [hother _ (Ne.symm hne)]; exact hr1
    · rw [hother _ (Ne.symm hne)]; exact hr2
    · rw [hother _ (Ne.symm hne)]; exact hr3
    · rw [c3]
      intro h
      rcases List.mem_append.mp h with h | h
      · exact hlog h
      · simp at h
  | some e =>
    obtain ⟨c1, c2, c3, c4, -⟩ := create_task_reuse E fn data data_size prio s e hq
    rw [hq] at hF
    cases Fl with
    | nil => exact absurd hF (by simp [is_stack])
    | cons a Fl' =>
      obtain ⟨hea, hF'⟩ := hF
      subst hea
      have hnd' : (R ++ Fl').Nodup := by
        have := hnd
        rw [List.nodup_append] at this ⊢
        obtain ⟨h1, h2, h3⟩ := this
        refine ⟨h1, (List.nodup_cons.mp h2).2, ?_⟩
        intro x hx hy
        exact h3 hx (List.mem_cons_of_mem _ hy)
      have hnot : e ∉ R ++ Fl' := by
        intro h
        rcases List.mem_append.mp h with h | h
        · rw [List.nodup_append] at hnd
          exact hnd.2.2 h (List.mem_cons_self _ _)
        · rw [List.nodup_append] at hnd
          exact (List.nodup_cons.mp hnd.2.1).1 h
      have hedead : (s.tasks e).is_dead :=
        hdead e (Or.inl (List.mem_append_right _ (List.mem_cons_self _ _)))
      have hne : (create_task E fn data data_size prio s).1 ≠ root_task := by
        rw [c1]
        intro h
        rw [h] at hedead
        exact hroot hedead
      rw [← c1] at hnot
      refine ⟨⟨R, Fl', ?_, ?_, hnd', ?_, ?_, ?_, ?_, ?_, ?_⟩, hlive, hne⟩
      · rw [hrl]
        exact hst _ R (fun h => hnot (List.mem_append_left _ h)) hR
      · rw [c4]
        exact hst _ Fl' (fun h => hnot (List.mem_append_right _ h)) hF'
      · intro x hx
        rw [c2]
        apply hlt
        rcases List.mem_append.mp hx with h | h
        · exact List.mem_append_left _ h
        · exact List.mem_append_right _ (List.mem_cons_of_mem _ h)
      · intro x hx
        have hxn : x ≠ (create_task E fn data data_size prio s).1 := by
          rcases hx with h | h
          · exact fun he => hnot (he ▸ h)
          · rw [c2] at h
            intro he
            rw [he, c1] at h
            exact absurd (hlt e (List.mem_append_right _ (List.mem_cons_self _ _)))
              (not_lt.mpr h)
        rw [hother x hxn]
        apply hdead
        rcases hx with h | h
        · left
          rcases List.mem_append.mp h with h | h
          · exact List.mem_append_left _ h
          · exact List.mem_append_right _ (List.mem_cons_of_mem _ h)
        · rw [c2] at h
          exact Or.inr h
      · rw [hother _ (Ne.symm hne)]; exact hr1
      · rw [hother _ (Ne.symm hne)]; exact hr2
      · rw [hother _ (Ne.symm hne)]; exact hr3
      · rw [c3]
        intro h
        rcases List.mem_append.mp h with h | h
        · exact hlog h
        · simp at h

/-- A change of queues, cursors, counters, dependency state or log alone keeps
the invariant. -/
theorem sched_inv_pool_eq (s s' : Sched D) (hinv : sched_inv s)
    (htasks : s'.tasks = s.tasks) (hbrk : s'.brk = s.brk)
    (hrec : s'.task_recycle_list = s.task_recycle_list)
    (hfree : s'.task_free_list = s.task_free_list)
    (hlog : Event.destroy root_task ∉ s'.log) : sched_inv s' :=
  sched_inv_update s s' hinv (fun x => Or.inr (by rw [htasks]; exact ⟨rfl, rfl, rfl, rfl⟩))
    hbrk hrec hfree hlog

/-- The log of a state that meets the invariant, extended by events other
than a destruction of the root task, has no such destruction. -/
theorem log_append_ok (s : Sched D) (hinv : sched_inv s) (L : List Event)
    (hL : Event.destroy root_task ∉ L) : Event.destroy root_task ∉ s.log ++ L := by
  obtain ⟨R, Fl, -, -, -, -, -, -, -, -, hlog⟩ := hinv
  intro h
  rcases List.mem_append.mp h with h | h
  · exact hlog h
  · exact hL h

/-- The clean-up of `dart__tasking__task_complete` keeps the invariant, on the
root task as on any other. -/
theorem sched_inv_cleanup (E : Collab D) (s : Sched D) (hinv : sched_inv s) :
    sched_inv (task_complete_cleanup E s) := by
  by_cases hcur : s.current_task = root_task
  · obtain ⟨R, Fl, hR, hF, hnd, hlt, hdead, hr1, hr2, hr3, hlog⟩ := hinv
    have hndR : R.Nodup := (List.nodup_append.mp hnd).1
    cases hf : s.task_free_list with
    | none =>
      have he : task_complete_cleanup E s
          = { s with task_free_list := s.task_recycle_list, task_recycle_list := none,
                     runnable_phase := E.DART_PHASE_FIRST, worker_poll_remote := false,
                     deps := E.datadeps_reset s.current_task s.deps,
                     log := s.log ++ [Event.set_runnable_phase E.DART_PHASE_FIRST] } := by
        simp [task_complete_cleanup, hcur, hf, dart__tasking__phase_set_runnable]
      rw [he]
      have hlog2 : Event.destroy root_task
          ∉ s.log ++ [Event.set_runnable_phase E.DART_PHASE_FIRST] := by
        simpa using hlog
      refine ⟨[], R, trivial, hR, by simpa using hndR, ?_, ?_, hr1, hr2, hr3, hlog2⟩
      · intro x hx
        exact hlt x (List.mem_append_left _ (by simpa using hx))
      · intro x hx
        apply hdead
        rcases hx with h | h
        · exact Or.inl (List.mem_append_left _ (by simpa using h))
        · exact Or.inr h
    | some h0 =>
      rw [hf] at hF
      cases Fl with
      | nil => exact absurd hF (by simp [is_stack])
      | cons a Fl' =>
        obtain ⟨hea, -⟩ := hF
        subst hea
        have hnotR : h0 ∉ R := by
          intro h
          exact (List.nodup_append.mp hnd).2.2 h (List.mem_cons_self _ _)
        have he : task_complete_cleanup E s
            = { s with tasks := Function.update s.tasks h0
                          { s.tasks h0 with next := s.task_recycle_list },
                       task_recycle_list := none,
                       runnable_phase := E.DART_PHASE_FIRST, worker_poll_remote := false,
                       deps := E.datadeps_reset s.current_task s.deps,
                       log := s.log ++ [Event.set_runnable_phase E.DART_PHASE_FIRST] } := by
          simp [task_complete_cleanup, hcur, hf, dart__tasking__phase_set_runnable, Sched.store]
        rw [he]
        have hlog2 : Event.destroy root_task
            ∉ s.log ++ [Event.set_runnable_phase E.DART_PHASE_FIRST] := by
          simpa using hlog
        have hd0 : (s.tasks h0).is_dead :=
          hdead h0 (Or.inl (List.mem_append_right _ (List.mem_cons_self _ _)))
        have hne : root_task ≠ h0 := by
          intro h
          rw [← h] at hd0
          rw [hd0.1] at hr1
          cases hr1
        refine ⟨[], h0 :: R, trivial, ?_, ?_, ?_, ?_, ?_, ?_, ?_, hlog2⟩
        · have hs : is_stack (Function.update s.tasks h0
              { s.tasks h0 with next := s.task_recycle_list }) (some h0) (h0 :: R) := by
            refine ⟨rfl, ?_⟩
            simp only [Function.update_same]
            refine is_stack_congr s.tasks _ R _ ?_ hR
            intro x hx
            have : x ≠ h0 := fun h => hnotR (h ▸ hx)
            simp [Function.update, this]
          rw [← hf] at hs
          exact hs
        · simp only [List.nil_append]
          exact List.nodup_cons.mpr ⟨hnotR, hndR⟩
        · intro x hx
          simp only [List.nil_append] at hx
          rcases List.mem_cons.mp hx with h | h
          · rw [h]
            exact hlt h0 (List.mem_append_right _ (List.mem_cons_self _ _))
          · exact hlt x (List.mem_append_left _ h)
        · intro x hx
          have hxd : (s.tasks x).is_dead := by
            apply hdead
            rcases hx with h | h
            · simp only [List.nil_append] at h
              rcases List.mem_cons.mp h with h | h
              · rw [h]
                exact Or.inl (List.mem_append_right _ (List.mem_cons_self _ _))
              · exact Or.inl (List.mem_append_left _ h)
            · exact Or.inr h
          by_cases hx0 : x = h0
          · subst hx0
            simpa [Function.update, dart_task_t.is_dead] using hxd
          · simpa [Function.update, hx0] using hxd
        · simpa [Function.update, hne] using hr1
        · simpa [Function.update, hne] using hr2
        · simpa [Function.update, hne] using hr3
  · obtain ⟨h1, h2, h3, h4⟩ := cleanup_nonroot E s hcur
    refine sched_inv_pool_eq s _ hinv h1 h4 h3 h2 ?_
    have hl : (task_complete_cleanup E s).log = s.log := by
      simp [task_complete_cleanup, hcur]
    rw [hl]
    obtain ⟨R, Fl, -, -, -, -, -, -, -, -, hlog⟩ := hinv
    exact hlog

/-- The two entry points of the cancellation module, as the scheduler calls
them, keep the invariant. -/
theorem sched_inv_cancellation (E : Collab D) (hE : collab_ok E) (s : Sched D)
    (hinv : sched_inv s) :
    (∀ t, sched_inv (dart__tasking__cancel_task E t s))
    ∧ sched_inv (dart__tasking__check_cancellation E s) := by
  constructor
  · intro t
    refine sched_inv_pool_eq _ _ (hE.1 t s hinv) rfl rfl rfl rfl ?_
    exact log_append_ok s hinv _ (by simp)
  · refine sched_inv_pool_eq _ _ (hE.2 s hinv) rfl rfl rfl rfl ?_
    obtain ⟨R, Fl, -, -, -, -, -, -, -, -, hlog⟩ := hinv
    exact hlog

/-- Enqueueing a task keeps the invariant. -/
theorem sched_inv_enqueue (E : Collab D) (hE : collab_ok E) (t : TaskPtr) (s : Sched D)
    (hinv : sched_inv s) : sched_inv (dart__tasking__enqueue_runnable E t s) := by
  unfold dart__tasking__enqueue_runnable
  by_cases hc : dart__tasking__cancellation_requested s = true
  · simp only [hc, if_true]
    exact (sched_inv_cancellation E hE s hinv).1 t
  · by_cases hr : E.phase_is_runnable s.runnable_phase (s.tasks t).phase = true
    · simp only [hc, hr, if_false, not_true_eq_false, not_false_eq_true, if_true]
      exact sched_inv_pool_eq s _ hinv rfl rfl rfl rfl (log_append_ok s hinv _ (by simp))
    · simp only [hc, hr, if_false, not_false_eq_true, if_true, not_true_eq_false]
      exact sched_inv_pool_eq s _ hinv rfl rfl rfl rfl (log_append_ok s hinv _ (by simp))

/-- Releasing a list of tasks keeps the invariant. -/
theorem sched_inv_enqueue_all (E : Collab D) (hE : collab_ok E) (ts : List TaskPtr)
    (s : Sched D) (hinv : sched_inv s) : sched_inv (enqueue_all E ts s) := by
  induction ts generalizing s with
  | nil => exact hinv
  | cons t ts ih =>
    simp only [enqueue_all, List.foldl_cons] at ih ⊢
    exact ih _ (sched_inv_enqueue E hE t s hinv)

/-- The services that release tasks, the matching round and `next_task` keep
the invariant. -/
theorem sched_inv_services (E : Collab D) (hE : collab_ok E) (s : Sched D)
    (hinv : sched_inv s) :
    sched_inv (dart_tasking_remote_progress E s)
    ∧ sched_inv (dart_tasking_remote_progress_blocking E s)
    ∧ sched_inv (dart_tasking_datadeps_handle_defered_remote E s)
    ∧ (∀ t, sched_inv (dart_tasking_datadeps_release_local_task E t s))
    ∧ sched_inv (next_task s).2 := by
  have hd : ∀ d : D, sched_inv { s with deps := d } := fun d =>
    sched_inv_pool_eq s _ hinv rfl rfl rfl rfl (by
      obtain ⟨R, Fl, -, -, -, -, -, -, -, -, hlog⟩ := hinv
      exact hlog)
  refine ⟨sched_inv_enqueue_all E hE _ _ (hd _), sched_inv_enqueue_all E hE _ _ (hd _),
    sched_inv_enqueue_all E hE _ _ (hd _), ?_, ?_⟩
  · intro t
    refine sched_inv_enqueue_all E hE _ _ ?_
    exact sched_inv_pool_eq s _ hinv rfl rfl rfl rfl (log_append_ok s hinv _ (by simp))
  · unfold next_task
    by_cases hc : dart__tasking__cancellation_requested s = true
    · simp only [hc, if_true]; exact hinv
    · cases hq : s.global_queue with
      | nil => simp only [hc, hq, dart_tasking_taskqueue_pop]; exact hinv
      | cons a l =>
        simp only [hc, hq, dart_tasking_taskqueue_pop, if_false]
        exact sched_inv_pool_eq s _ hinv rfl rfl rfl rfl (log_append_ok s hinv _ (by simp))

/-- The matching round keeps the invariant. -/
theorem sched_inv_matching (E : Collab D) (hE : collab_ok E) (p : dart_taskphase_t)
    (s : Sched D) (hinv : sched_inv s) : sched_inv (dart__tasking__perform_matching E p s) := by
  have h1 := (sched_inv_services E hE s hinv).2.1
  have h2 := (sched_inv_services E hE _ h1).2.2.1
  refine sched_inv_pool_eq _ _ h2 rfl rfl rfl rfl ?_
  obtain ⟨R, Fl, -, -, -, -, -, -, -, -, hlog⟩ := h2
  show Event.destroy root_task
    ∉ (dart_tasking_datadeps_handle_defered_remote E
        (dart_tasking_remote_progress_blocking E s)).log
      ++ [Event.set_runnable_phase p] ++ [Event.release_deferred]
  simpa using hlog

/-- Both creation entry points keep the invariant. -/
theorem sched_inv_create_public (E : Collab D) (fn : Option FnPtr) (data : Option Nat)
    (data_size : Nat) (deps : List dart_task_dep_t) (prio : Int) (ref ref' : Option TaskPtr)
    (r : dart_ret_t) (s s' : Sched D) (hinv : sched_inv s)
    (h : dart__tasking__create_task E fn data data_size deps prio s = Except.ok (r, s')
      ∨ dart__tasking__create_task_handle E fn data data_size deps prio ref s
          = Except.ok (r, ref', s')) :
    sched_inv s' := by
  by_cases hc : s.cancel_requested = true
  · obtain ⟨h1, h2⟩ := create_cancelled E s hc fn data data_size deps prio ref
    rcases h with h | h
    · rw [h1] at h
      have := (Prod.mk.inj (Except.ok.inj h)).2
      rw [← this]; exact hinv
    · rw [h2] at h
      have := (Prod.mk.inj (Prod.mk.inj (Except.ok.inj h)).2).2
      rw [← this]; exact hinv
  · have hc0 : s.cancel_requested = false := by simpa using hc
    obtain ⟨hci, hlive, hne⟩ := sched_inv_create E fn data data_size prio s hinv
    obtain ⟨hcur, hcanc, -⟩ := create_task_frame E fn data data_size prio s
    obtain ⟨hpar, -⟩ := create_task_new E fn data data_size prio s
    have hreg : ∀ c : Sched D, sched_inv c → c.cancel_requested = false →
        ¬ (c.tasks (create_task E fn data data_size prio s).1).is_dead →
        (c.tasks (create_task E fn data data_size prio s).1).parent = some s.current_task →
        ∀ s1, register_created_task E (create_task E fn data data_size prio s).1 deps c
          = Except.ok s1 → sched_inv s1 := by
      intro c hcinv hcc hcl hcp s1 hs1
      rw [register_created_task_eq E _ s.current_task deps c hcp] at hs1
      have hm : sched_inv (created_entry E (create_task E fn data data_size prio s).1
          s.current_task deps c) := by
        refine sched_inv_update c _ hcinv ?_ rfl rfl rfl ?_
        · intro x
          by_cases hx : x = (create_task E fn data data_size prio s).1
          · left
            rw [hx]
            exact ⟨hcl, hne⟩
          · right
            by_cases hp : x = s.current_task
            · subst hp
              simp [created_entry, Sched.set_state, Sched.emit, Sched.store, Function.update, hx]
            · simp [created_entry, Sched.set_state, Sched.emit, Sched.store, Function.update, hx,
                hp]
        · rw [(created_entry_fields E _ s.current_task deps c).2.2.2.1]
          exact log_append_ok c hcinv _ (by simp)
      have hs := Except.ok.inj hs1
      rw [← hs]
      split
      · have hcm : (created_entry E (create_task E fn data data_size prio s).1
            s.current_task deps c).cancel_requested = false := hcc
        obtain ⟨g1, -, ⟨e, g3, g4⟩, -⟩ := enqueue_runnable_push E
          (create_task E fn data data_size prio s).1 _ hcm
        have hG := enqueue_all_eq E [(create_task E fn data data_size prio s).1] _ hcm
        obtain ⟨G, Q, L, hGq⟩ := hG
        have he : enqueue_all E [(create_task E fn data data_size prio s).1]
            (created_entry E (create_task E fn data data_size prio s).1 s.current_task deps c)
            = dart__tasking__enqueue_runnable E (create_task E fn data data_size prio s).1
                (created_entry E (create_task E fn data data_size prio s).1
                  s.current_task deps c) := by
          simp [enqueue_all]
        rw [he] at hGq
        refine sched_inv_pool_eq _ _ hm (by rw [hGq]) (by rw [hGq]) (by rw [hGq]) (by rw [hGq]) ?_
        rw [g3]
        refine log_append_ok _ hm _ ?_
        rcases g4 with h | h <;> simp [h]
      · exact hm
    rcases h with h | h
    · simp only [dart__tasking__create_task, dart__tasking__cancellation_requested, hc0,
        Bool.false_eq_true, if_false, bind, Except.bind] at h
      cases hr : register_created_task E (create_task E fn data data_size prio s).1 deps
          (create_task E fn data data_size prio s).2 with
      | error e => simp [hr] at h
      | ok s1 =>
        simp only [hr, pure, Except.pure, Except.ok.injEq, Prod.mk.injEq] at h
        rw [← h.2]
        exact hreg _ hci (hcanc.trans hc0) hlive hpar s1 hr
    · simp only [dart__tasking__create_task_handle, dart__tasking__cancellation_requested, hc0,
        Bool.false_eq_true, if_false, bind, Except.bind] at h
      cases hr : register_created_task E (create_task E fn data data_size prio s).1 deps
          ((create_task E fn data data_size prio s).2.store
            (create_task E fn data data_size prio s).1
            { (create_task E fn data data_size prio s).2.tasks
                (create_task E fn data data_size prio s).1 with has_ref := true }) with
      | error e => simp [hr] at h
      | ok s1 =>
        simp only [hr, pure, Except.pure, Except.ok.injEq, Prod.mk.injEq] at h
        rw [← h.2.2]
        refine hreg ((create_task E fn data data_size prio s).2.store
            (create_task E fn data data_size prio s).1
            { (create_task E fn data data_size prio s).2.tasks
                (create_task E fn data data_size prio s).1 with has_ref := true })
          ?_ (hcanc.trans hc0) ?_ ?_ s1 hr
        · refine sched_inv_update _ _ hci ?_ rfl rfl rfl ?_
          · intro x
            by_cases hx : x = (create_task E fn data data_size prio s).1
            · left
              rw [hx]
              exact ⟨hlive, hne⟩
            · right
              simp [Sched.store, Function.update, hx]
          · obtain ⟨R, Fl, -, -, -, -, -, -, -, -, hlog⟩ := hci
            exact hlog
        · intro hd
          apply hlive
          simpa [Sched.store, dart_task_t.is_dead] using hd
        · simpa [Sched.store] using hpar

/-- The wait loop of `dart__tasking__task_complete` keeps the invariant when
the handler it runs does. -/
theorem sched_inv_complete_wait (E : Collab D) (hE : collab_ok E) (ht : Handler D)
    (hht : handler_ok ht) (k : Nat) (t0 : TaskPtr) (s s' : Sched D) (hinv : sched_inv s)
    (h : task_complete_wait E ht k t0 s = Except.ok s') : sched_inv s' := by
  induction k generalizing s with
  | zero =>
    unfold task_complete_wait at h
    by_cases hk : 0 < (s.tasks t0).num_children
    · simp [hk, throw, throwThe, MonadExceptOf.throw] at h
    · simp only [hk, if_false, pure, Except.pure, Except.ok.injEq] at h
      rw [← h]; exact hinv
  | succ k ih =>
    rcases task_complete_wait_step E ht k t0 s s' h with ⟨-, hs⟩ | ⟨-, s3, h3, hrest⟩
    · rw [hs]; exact hinv
    · have h1 := (sched_inv_services E hE s hinv).1
      have h2 := (sched_inv_cancellation E hE _ h1).2
      have h4 := (sched_inv_services E hE _ h2).2.2.2.2
      exact ih s3 (hht _ _ _ h4 h3) hrest

/-- `dart__tasking__task_complete` keeps the invariant when the handler it
runs does. -/
theorem sched_inv_complete (E : Collab D) (hE : collab_ok E) (ht : Handler D)
    (hht : handler_ok ht) (n : Nat) (s : Sched D) (r : dart_ret_t × Sched D)
    (hinv : sched_inv s) (h : dart__tasking__task_complete E ht n s = Except.ok r) :
    sched_inv r.2 := by
  obtain ⟨-, s2, hw, hr⟩ := task_complete_ok_inv E ht n s r h
  have he : sched_inv (task_complete_entry E s) := by
    unfold task_complete_entry
    split
    · exact sched_inv_matching E hE _ s hinv
    · exact hinv
  have h2 := sched_inv_complete_wait E hE ht hht n _ _ s2 he hw
  rw [hr]
  exact sched_inv_cleanup E _ (sched_inv_cancellation E hE _ h2).2

/-- The retire step of `handle_task` keeps the invariant when the task it
finishes is a live task other than the root task. -/
theorem sched_inv_retire (E : Collab D) (cur task : TaskPtr) (q : Sched D) (hinv : sched_inv q)
    (hlive : ¬ (q.tasks task).is_dead) (hroot : task ≠ root_task) :
    sched_inv (handle_task_retire E cur task q) := by
  have h2 : sched_inv (((q.store task { q.tasks task with taskctx := none }).emit
      (Event.context_release task)).set_state task DART_TASK_FINISHED) := by
    refine sched_inv_update q _ hinv ?_ rfl rfl rfl ?_
    · intro x
      by_cases hx : x = task
      · left; rw [hx]; exact ⟨hlive, hroot⟩
      · right
        simp [Sched.set_state, Sched.emit, Sched.store, Function.update, hx]
    · show Event.destroy root_task ∉ q.log ++ [Event.context_release task]
        ++ [Event.set_state task DART_TASK_FINISHED]
      rw [List.append_assoc]
      exact log_append_ok q hinv _ (by simp)
  have hfin : ((((q.store task { q.tasks task with taskctx := none }).emit
      (Event.context_release task)).set_state task DART_TASK_FINISHED).tasks task).state
      = DART_TASK_FINISHED := by
    simp [Sched.set_state, Sched.emit, Sched.store]
  unfold handle_task_retire
  simp only []
  split
  · refine sched_inv_pool_eq _ _ (sched_inv_destroy E task _ h2 ?_ hroot) rfl rfl rfl rfl ?_
    · intro hd
      rw [hd.1] at hfin
      cases hfin
    · obtain ⟨R, Fl, -, -, -, -, -, -, -, -, hlog⟩ := sched_inv_destroy E task _ h2 (by
        intro hd
        rw [hd.1] at hfin
        cases hfin) hroot
      exact hlog
  · refine sched_inv_pool_eq _ _ h2 rfl rfl rfl rfl ?_
    obtain ⟨R, Fl, -, -, -, -, -, -, -, -, hlog⟩ := h2
    exact hlog

/-- `handle_task` keeps the invariant, for every task and every bound: a call
on a dead record or on the root task stops at the assertion of
`invoke_taskfn` (the function is null) and returns nothing. -/
theorem sched_inv_handle_task (E : Collab D) (F : FnTable D) (hE : collab_ok E) (hF : fn_ok F)
    (n : Nat) : handler_ok (handle_task E F n) := by
  induction n with
  | zero =>
    intro t q q' hinv h
    cases t with
    | none =>
      simp only [handle_task, pure, Except.pure, Except.ok.injEq] at h
      rw [← h]; exact hinv
    | some t => simp [handle_task, throw, throwThe, MonadExceptOf.throw] at h
  | succ n ih =>
    intro t s s' hinv h
    cases t with
    | none =>
      simp only [handle_task, pure, Except.pure, Except.ok.injEq] at h
      rw [← h]; exact hinv
    | some t =>
      obtain ⟨s1, p, hrun, hpar, hs'⟩ := handle_task_ok_inv E F n t s s' h
      obtain ⟨s2, hinvk, hrest⟩ := handle_task_run_ok_inv E F _ n t s s1 hrun
      obtain ⟨f, sb, j, hfn, hbody, hs2⟩ := invoke_taskfn_ok_inv F _ t _ s2 hinvk
      have hrt : (running_entry t s).tasks t = { s.tasks t with state := DART_TASK_RUNNING } :=
        running_entry_task t s
      have hfn0 : (s.tasks t).fn = some f := by
        rw [hrt] at hfn; exact hfn
      have hlive : ¬ (s.tasks t).is_dead := by
        intro hd
        rw [hd.2.1] at hfn0
        cases hfn0
      have hroot : t ≠ root_task := by
        intro he
        obtain ⟨R, Fl, -, -, -, -, -, -, hr2, -⟩ := hinv
        rw [he, hr2] at hfn0
        cases hfn0
      -- the state in which the function is entered
      have h0 : sched_inv ((running_entry t s).emit (Event.invoke t)) := by
        refine sched_inv_update s _ hinv ?_ rfl rfl rfl ?_
        · intro x
          by_cases hx : x = t
          · left; rw [hx]; exact ⟨hlive, hroot⟩
          · right
            simp [running_entry, Sched.set_state, Sched.emit, Sched.store, Function.update, hx]
        · show Event.destroy root_task ∉ s.log ++ [Event.set_state t DART_TASK_RUNNING]
            ++ [Event.invoke t]
          rw [List.append_assoc]
          exact log_append_ok s hinv _ (by simp)
      obtain ⟨hsb, hkeep⟩ := hF f _ _ _ sb j ih h0 hbody
      have hcur0 : ((running_entry t s).emit (Event.invoke t)).current_task = t := rfl
      have hlive0 : ¬ (((running_entry t s).emit (Event.invoke t)).tasks
          ((running_entry t s).emit (Event.invoke t)).current_task).is_dead := by
        rw [hcur0]
        show ¬ ((running_entry t s).tasks t).is_dead
        rw [hrt]
        intro hd
        have := hd.1
        simp at this
      have h2 : sched_inv s2 := by
        rw [hs2]
        by_cases hj : j = true
        · rw [if_pos hj]
          have hl := hkeep hj hlive0
          rw [hcur0] at hl
          refine sched_inv_update sb _ hsb ?_ rfl rfl rfl ?_
          · intro x
            by_cases hx : x = t
            · left; rw [hx]; exact ⟨hl, hroot⟩
            · right
              simp [Sched.set_state, Sched.emit, Sched.store, Function.update, hx]
          · exact log_append_ok sb hsb _ (by simp)
        · rw [if_neg hj]; exact hsb
      have h1 : sched_inv s1 := by
        rcases hrest with ⟨-, he⟩ | ⟨-, r, htc, he⟩
        · rw [he]; exact h2
        · rw [he]
          exact sched_inv_complete E hE _ ih n s2 r h2 htc
      have h3 : sched_inv (handle_task_release E s1).2 :=
        (sched_inv_services E hE s1 h1).2.2.2.1 s1.current_task
      have h4 : sched_inv (notified p (handle_task_release E s1).2) := by
        refine sched_inv_update _ _ h3 ?_ rfl rfl rfl ?_
        · intro x
          right
          rw [notified_task]
          by_cases hx : x = p
          · subst hx; simp
          · simp [hx]
        · exact log_append_ok _ h3 _ (by simp)
      have hpar2 : ((notified p (handle_task_release E s1).2).tasks s1.current_task).parent
          = some p := by
        rw [notified_task]
        by_cases hx : s1.current_task = p
        · rw [if_pos hx]
          rw [hx] at hpar
          exact hpar
        · rw [if_neg hx]; exact hpar
      have hlive2 : ¬ ((notified p (handle_task_release E s1).2).tasks s1.current_task).is_dead := by
        intro hd
        rw [hd.2.2] at hpar2
        cases hpar2
      have hroot2 : s1.current_task ≠ root_task := by
        intro he
        obtain ⟨R, Fl, -, -, -, -, -, -, -, hr3, -⟩ := h4
        rw [he, hr3] at hpar2
        cases hpar2
      rw [hs']
      exact sched_inv_retire E _ _ _ h4 hlive2 hroot2

/-- The loop of `dart__tasking__task_wait` keeps the invariant when the handler
it runs does. -/
theorem sched_inv_wait_loop (E : Collab D) (hE : collab_ok E) (ht : Handler D)
    (hht : handler_ok ht) (k : Nat) (t0 : TaskPtr) (s s' : Sched D) (hinv : sched_inv s)
    (h : task_wait_loop E ht k t0 s = Except.ok s') : sched_inv s' := by
  induction k generalizing s with
  | zero =>
    unfold task_wait_loop at h
    by_cases hk : (s.tasks t0).state = DART_TASK_FINISHED
    · simp only [hk, ne_eq, not_true_eq_false, if_false, pure, Except.pure,
        Except.ok.injEq] at h
      rw [← h]; exact hinv
    · simp [hk, throw, throwThe, MonadExceptOf.throw] at h
  | succ k ih =>
    unfold task_wait_loop at h
    by_cases hk : (s.tasks t0).state = DART_TASK_FINISHED
    · simp only [hk, ne_eq, not_true_eq_false, if_false, pure, Except.pure,
        Except.ok.injEq] at h
      rw [← h]; exact hinv
    · simp only [ne_eq, hk, not_false_eq_true, if_true, bind, Except.bind] at h
      cases hh : ht (next_task (dart_tasking_remote_progress E s)).1
          (next_task (dart_tasking_remote_progress E s)).2 with
      | error e => simp [hh] at h
      | ok s3 =>
        simp only [hh] at h
        have h1 := (sched_inv_services E hE s hinv).1
        have h2 := (sched_inv_services E hE _ h1).2.2.2.2
        exact ih s3 (hht _ _ _ h2 hh) h

/-- A FINISHED record holds a live task other than the root task. -/
theorem finished_is_live (s : Sched D) (hinv : sched_inv s) (t : TaskPtr)
    (hfin : (s.tasks t).state = DART_TASK_FINISHED) :
    ¬ (s.tasks t).is_dead ∧ t ≠ root_task := by
  constructor
  · intro hd
    rw [hd.1] at hfin
    cases hfin
  · intro he
    obtain ⟨R, Fl, -, -, -, -, -, hr1, -⟩ := hinv
    rw [he, hr1] at hfin
    cases hfin

/-- A result of `dart__tasking__task_wait` is DART_OK, or DART_ERR_INVAL with
nothing changed. -/
theorem task_wait_result (E : Collab D) (ht : Handler D) (k : Nat)
    (tr tr' : Option (Option TaskPtr)) (r : dart_ret_t) (s s' : Sched D)
    (h : dart__tasking__task_wait E ht k tr s = Except.ok (r, tr', s')) :
    r = DART_OK ∨ (r = DART_ERR_INVAL ∧ tr' = tr ∧ s' = s) := by
  unfold dart__tasking__task_wait at h
  cases tr with
  | none =>
    simp only [pure, Except.pure, Except.ok.injEq, Prod.mk.injEq] at h
    exact Or.inr ⟨h.1.symm, h.2.1.symm, h.2.2.symm⟩
  | some hd =>
    cases hd with
    | none =>
      simp only [pure, Except.pure, Except.ok.injEq, Prod.mk.injEq] at h
      exact Or.inr ⟨h.1.symm, h.2.1.symm, h.2.2.symm⟩
    | some t =>
      by_cases hdst : (s.tasks t).state = DART_TASK_DESTROYED
      · simp only [hdst, if_true, pure, Except.pure, Except.ok.injEq, Prod.mk.injEq] at h
        exact Or.inr ⟨h.1.symm, h.2.1.symm, h.2.2.symm⟩
      · simp only [hdst, if_false, bind, Except.bind] at h
        cases hl : task_wait_loop E ht k t s with
        | error e => simp [hl] at h
        | ok s1 =>
          simp only [hl, pure, Except.pure, Except.ok.injEq, Prod.mk.injEq] at h
          exact Or.inl h.1.symm

/-- Every public operation and every worker step keeps the invariant. -/
theorem sched_inv_step (E : Collab D) (F : FnTable D) (hE : collab_ok E) (hF : fn_ok F)
    (s s' : Sched D) (hinv : sched_inv s) (hstep : public_step E F s s') : sched_inv s' := by
  cases hstep with
  | create fn data data_size deps prio r _ _ h =>
    exact sched_inv_create_public E fn data data_size deps prio none none r s s' hinv (Or.inl h)
  | create_handle fn data data_size deps prio ref ref' r _ _ h =>
    exact sched_inv_create_public E fn data data_size deps prio ref ref' r s s' hinv (Or.inr h)
  | complete n k r _ _ h =>
    exact sched_inv_complete E hE _ (sched_inv_handle_task E F hE hF n) k s (r, s') hinv h
  | wait n k tr tr' r _ _ h =>
    rcases task_wait_result E _ k tr tr' r s s' h with hr | ⟨-, -, hs⟩
    · subst hr
      obtain ⟨t, s1, -, -, hloop, -, hs'⟩ := task_wait_ok E _ k tr tr' s s' h
      have h1 := sched_inv_wait_loop E hE _ (sched_inv_handle_task E F hE hF n) k t s s1 hinv hloop
      have hfin := task_wait_loop_exit E _ k t s s1 hloop
      obtain ⟨hl, hr⟩ := finished_is_live s1 h1 t hfin
      rw [hs']
      refine sched_inv_destroy E t _ ?_ ?_ hr
      · refine sched_inv_update s1 _ h1 ?_ rfl rfl rfl ?_
        · intro x
          right
          by_cases hx : x = t
          · subst hx; simp [Sched.store]
          · simp [Sched.store, Function.update, hx]
        · obtain ⟨R, Fl, -, -, -, -, -, -, -, -, hlog⟩ := h1
          exact hlog
      · intro hd
        have := hd.1
        simp [Sched.store, hfin] at this
    · rw [hs]; exact hinv
  | test n tr tr' fl fl' r _ _ h =>
    obtain ⟨q1, hq1, hq'⟩ := task_test_ok E _ tr tr' fl fl' r s s' h
    have h1 : sched_inv q1 := by
      rcases hq1 with hq1 | hq1
      · rw [hq1]; exact hinv
      · have a1 := (sched_inv_services E hE s hinv).1
        have a2 := (sched_inv_services E hE _ a1).2.2.2.2
        exact sched_inv_handle_task E F hE hF n _ _ _ a2 hq1
    rcases hq' with ⟨hq', -⟩ | ⟨t, -, hfin, hq', -, -⟩
    · rw [hq']; exact h1
    · obtain ⟨hl, hr⟩ := finished_is_live q1 h1 t hfin
      rw [hq']
      exact sched_inv_destroy E t _ h1 hl hr
  | free tr _ =>
    cases tr with
    | none => exact hinv
    | some hd =>
      cases hd with
      | none => exact hinv
      | some t =>
        by_cases hf : (s.tasks t).state = DART_TASK_FINISHED ∧ (s.tasks t).has_ref = true
        · have he : dart__tasking__taskref_free E (some (some t)) s
              = (DART_OK, some none, dart__tasking__destroy_task E t s) := by
            simp [dart__tasking__taskref_free, hf]
          rw [he]
          obtain ⟨hl, hr⟩ := finished_is_live s hinv t hf.1
          exact sched_inv_destroy E t _ hinv hl hr
        · have he : dart__tasking__taskref_free E (some (some t)) s
              = (DART_OK, some (some t), s.store t { s.tasks t with has_ref := false }) := by
            unfold dart__tasking__taskref_free
            simp only []
            rw [if_neg hf]
          rw [he]
          refine sched_inv_update s _ hinv ?_ rfl rfl rfl ?_
          · intro x
            right
            by_cases hx : x = t
            · subst hx; simp [Sched.store]
            · simp [Sched.store, Function.update, hx]
          · obtain ⟨R, Fl, -, -, -, -, -, -, -, -, hlog⟩ := hinv
            exact hlog
  | yield delay _ =>
    have h1 := (sched_inv_services E hE s hinv).1
    unfold dart__tasking__yield
    simp only []
    split <;> exact h1
  | work n _ _ h =>
    have h1 : sched_inv (thread_main_poll E s) := by
      unfold thread_main_poll
      simp only []
      have a1 := (sched_inv_cancellation E hE s hinv).2
      split
      · exact (sched_inv_services E hE _ a1).1
      · exact a1
    have h2 := (sched_inv_services E hE _ h1).2.2.2.2
    exact sched_inv_handle_task E F hE hF n _ _ _ h2 h
  | handle n t _ _ h =>
    exact sched_inv_handle_task E F hE hF n t s s' hinv h

/-- The invariant holds in every state reached through public operations and
worker steps from a state in which it holds. -/
theorem sched_inv_reach (E : Collab D) (F : FnTable D) (hE : collab_ok E) (hF : fn_ok F)
    (s s' : Sched D) (hinv : sched_inv s)
    (hreach : Relation.ReflTransGen (public_step E F) s s') : sched_inv s' := by
  induction hreach with
  | refl => exact hinv
  | tail _ hstep ih => exact sched_inv_step E F hE hF _ _ ih hstep

/-- The first `k` records of an intrusive stack. -/
theorem stack_members_take (tasks : TaskPtr → dart_task_t) (l : List TaskPtr)
    (head : Option TaskPtr) (hs : is_stack tasks head l) (k : Nat) :
    stack_members tasks k head = l.take k := by
  induction l generalizing head k with
  | nil =>
    cases head with
    | none => cases k <;> rfl
    | some e => exact absurd hs (by simp [is_stack])
  | cons a l ih =>
    cases head with
    | none => exact absurd hs (by simp [is_stack])
    | some e =>
      obtain ⟨hea, hrest⟩ := hs
      subst hea
      cases k with
      | zero => rfl
      | succ k =>
        simp only [stack_members, List.take_succ_cons]
        rw [ih _ hrest k]

/-! ## The demo configuration meets the contracts -/

/-- The initial demo scheduler meets the invariant. -/
theorem initial_sched_inv (n : Int) : sched_inv (initial_sched n) := by
  refine ⟨[], [], trivial, trivial, by simp, by simp, ?_, rfl, rfl, rfl, by simp [initial_sched]⟩
  intro x hx
  rcases hx with h | h
  · simp at h
  · have hx : x ≠ root_task := by
      intro he
      rw [he] at h
      exact absurd h (Nat.not_succ_le_zero 0)
    simp [initial_sched, hx, blank_task, root_task_init, dart_task_t.is_dead]

/-- The quiet cancellation module keeps the invariant. -/
theorem quietCollab_ok : collab_ok quietCollab :=
  ⟨fun _ _ h => h, fun _ h => h⟩

/-- The task functions of the demo application keep the invariant. -/
theorem demoFns_ok : fn_ok demoFns := by
  intro f ht data q qb j _ hinv h
  match f with
  | 0 =>
    simp only [demoFns, pure, Except.pure, Except.ok.injEq, Prod.mk.injEq] at h
    rw [← h.1, ← h.2]
    exact ⟨hinv, fun hj => by cases hj⟩
  | 1 =>
    simp only [demoFns, pure, Except.pure, Except.ok.injEq, Prod.mk.injEq] at h
    rw [← h.1]
    refine ⟨sched_inv_pool_eq q _ hinv rfl rfl rfl rfl ?_, fun _ hl => hl⟩
    obtain ⟨R, Fl, -, -, -, -, -, -, -, -, hlog⟩ := hinv
    exact hlog
  | k + 2 =>
    simp only [demoFns] at h
    cases hc : dart__tasking__create_task demoCollab (some 0) none 0 [] 0 q with
    | error e => simp [hc] at h
    | ok r =>
      simp only [hc, pure, Except.pure, Except.ok.injEq, Prod.mk.injEq] at h
      rw [← h.1, ← h.2]
      refine ⟨?_, fun hj => by cases hj⟩
      exact sched_inv_create_public demoCollab (some 0) none 0 [] 0 none none r.1 q r.2 hinv
        (Or.inl hc)

/-- A run of the demo application: the root task creates task 1 with a handle,
a worker iteration executes it, the root task waits on the handle. -/
theorem demo_reach :
    Relation.ReflTransGen (public_step quietCollab demoFns) (initial_sched 2)
      demo_worked_waited := by
  have h1 : public_step quietCollab demoFns (initial_sched 2) (demo_handle 2 0).2 :=
    public_step.create_handle (some 0) none 0 [] 0 none (some 1) DART_OK _ _ rfl
  have h2 : public_step quietCollab demoFns (demo_handle 2 0).2 demo_worked :=
    public_step.work 3 _ _ rfl
  have h3 : public_step quietCollab demoFns demo_worked demo_worked_waited :=
    public_step.wait 3 3 (some (some 1)) (some none) DART_OK _ _ rfl
  exact Relation.ReflTransGen.tail (Relation.ReflTransGen.tail
    (Relation.ReflTransGen.single h1) h2) h3

/-! ## The root task -/

/-- In the build without USE_UCONTEXT the root task never transitions: in every
state reached through public operations and worker steps, from a state that
meets the pool invariant and with collaborators and task functions that keep
it, the root task is in state ROOT, was never passed to
`dart__tasking__destroy_task`, and is on neither the recycle list nor the
free-list.  This holds also for calls on a handle that
`dart__tasking__current_task` returned for the root task: freeing it only
clears `has_ref`, a test on it never reports completion, and a wait on it never
returns. -/
theorem root_task_stable (E : Collab D) (F : FnTable D) (hE : collab_ok E)
    (hF : fn_ok F) (s s' : Sched D) (hinv : sched_inv s)
    (hreach : Relation.ReflTransGen (public_step E F) s s') :
    (s'.tasks root_task).state = DART_TASK_ROOT
    ∧ Event.destroy root_task ∉ s'.log
    ∧ (∀ k, root_task ∉ stack_members s'.tasks k s'.task_recycle_list)
    ∧ (∀ k, root_task ∉ stack_members s'.tasks k s'.task_free_list)
    ∧ (dart__tasking__current_task s' = root_task →
        dart__tasking__taskref_free E (some (some (dart__tasking__current_task s'))) s'
          = (DART_OK, some (some root_task),
              s'.store root_task { s'.tasks root_task with has_ref := false })
        ∧ (∀ n fl r tr' fl' q,
            dart__tasking__task_test E (handle_task E F n)
                (some (some (dart__tasking__current_task s'))) fl s'
              = Except.ok (r, tr', fl', q) →
            tr' = some (some root_task) ∧ (q.tasks root_task).state = DART_TASK_ROOT
            ∧ Event.destroy root_task ∉ q.log)
        ∧ (∀ n k r tr' q,
            dart__tasking__task_wait E (handle_task E F n) k
                (some (some (dart__tasking__current_task s'))) s'
              ≠ Except.ok (r, tr', q))) := by
  have hinv' := sched_inv_reach E F hE hF s s' hinv hreach
  have hroot : ∀ q : Sched D, sched_inv q →
      (q.tasks root_task).state = DART_TASK_ROOT ∧ Event.destroy root_task ∉ q.log := by
    intro q hq
    obtain ⟨R, Fl, -, -, -, -, -, hr1, -, -, hlog⟩ := hq
    exact ⟨hr1, hlog⟩
  obtain ⟨R, Fl, hR, hFl, -, -, hdead, hr1, -, -, hlog⟩ := hinv'
  have hnot : root_task ∉ R ++ Fl := by
    intro h
    have := (hdead root_task (Or.inl h)).1
    rw [hr1] at this
    cases this
  refine ⟨hr1, hlog, ?_, ?_, ?_⟩
  · intro k h
    rw [stack_members_take s'.tasks R _ hR k] at h
    exact hnot (List.mem_append_left _ (List.mem_of_mem_take h))
  · intro k h
    rw [stack_members_take s'.tasks Fl _ hFl k] at h
    exact hnot (List.mem_append_right _ (List.mem_of_mem_take h))
  · intro hcur
    rw [hcur]
    have hinv2 := sched_inv_reach E F hE hF s s' hinv hreach
    refine ⟨?_, ?_, ?_⟩
    · unfold dart__tasking__taskref_free
      simp [hr1]
    · intro n fl r tr' fl' q h
      have hq := sched_inv_step E F hE hF s' q hinv2
        (public_step.test n _ tr' fl fl' r s' q h)
      obtain ⟨q1, hq1, hq'⟩ := task_test_ok E _ _ tr' fl fl' r s' q h
      have h1 : sched_inv q1 := by
        rcases hq1 with hq1 | hq1
        · rw [hq1]; exact hinv2
        · have a1 := (sched_inv_services E hE s' hinv2).1
          have a2 := (sched_inv_services E hE _ a1).2.2.2.2
          exact sched_inv_handle_task E F hE hF n _ _ _ a2 hq1
      rcases hq' with ⟨-, htr⟩ | ⟨t, ht, hfin, -⟩
      · exact ⟨htr, (hroot q hq).1, (hroot q hq).2⟩
      · have hte : root_task = t := Option.some.inj (Option.some.inj ht)
        rw [← hte, (hroot q1 h1).1] at hfin
        cases hfin
    · intro n k r tr' q h
      unfold dart__tasking__task_wait at h
      have hnd : ¬ (s'.tasks root_task).state = DART_TASK_DESTROYED := by
        rw [hr1]; decide
      simp only [hnd, if_false, bind, Except.bind] at h
      cases hl : task_wait_loop E (handle_task E F n) k root_task s' with
      | error e => simp [hl] at h
      | ok s1 =>
        have h1 := sched_inv_wait_loop E hE _ (sched_inv_handle_task E F hE hF n) k root_task
          s' s1 hinv2 hl
        have hfin := task_wait_loop_exit E _ k root_task s' s1 hl
        rw [(hroot s1 h1).1] at hfin
        cases hfin

/-- The demo application without USE_UCONTEXT: after the root task has created
task 1, a worker has executed it and the root task has waited on its handle,
the root task is in state ROOT and on no pool list. -/
theorem root_task_stable_demo :
    collab_ok quietCollab ∧ fn_ok demoFns ∧ sched_inv (initial_sched 2)
    ∧ Relation.ReflTransGen (public_step quietCollab demoFns) (initial_sched 2)
        demo_worked_waited
    ∧ (demo_worked_waited.tasks 1).state = DART_TASK_DESTROYED
    ∧ (demo_worked_waited.tasks root_task).state = DART_TASK_ROOT
    ∧ Event.destroy root_task ∉ demo_worked_waited.log
    ∧ root_task ∉ stack_members demo_worked_waited.tasks 4 demo_worked_waited.task_recycle_list :=
  ⟨quietCollab_ok, demoFns_ok, initial_sched_inv 2, demo_reach, by decide,
    (root_task_stable quietCollab demoFns quietCollab_ok demoFns_ok
      (initial_sched 2) demo_worked_waited (initial_sched_inv 2) demo_reach).1,
    (root_task_stable quietCollab demoFns quietCollab_ok demoFns_ok
      (initial_sched 2) demo_worked_waited (initial_sched_inv 2) demo_reach).2.1,
    (root_task_stable quietCollab demoFns quietCollab_ok demoFns_ok
      (initial_sched 2) demo_worked_waited (initial_sched_inv 2) demo_reach).2.2.1 4⟩

/-! ## The pool lists hold destroyed records only -/

/-- What a result of `dart__tasking__task_test` on a valid reference was
computed from: the state `q1` in which the task state is read last is the
entry state, or on a single-thread pool with the task not FINISHED the result
of the one handler call, and the task is destroyed in `q1` exactly when it is
FINISHED there. -/
theorem task_test_valid (E : Collab D) (ht : Handler D) (t : TaskPtr) (f : Int)
    (tr' : Option (Option TaskPtr)) (fl' : Option Int) (r : dart_ret_t) (q q' : Sched D)
    (hd : (q.tasks t).state ≠ DART_TASK_DESTROYED)
    (h : dart__tasking__task_test E ht (some (some t)) (some f) q = Except.ok (r, tr', fl', q')) :
    ∃ q1, ((¬ (q.num_threads = 1 ∧ (q.tasks t).state ≠ DART_TASK_FINISHED) ∧ q1 = q)
          ∨ (q.num_threads = 1 ∧ (q.tasks t).state ≠ DART_TASK_FINISHED
              ∧ ht (next_task (dart_tasking_remote_progress E q)).1
                  (next_task (dart_tasking_remote_progress E q)).2 = Except.ok q1))
      ∧ r = DART_OK
      ∧ ((q1.tasks t).state = DART_TASK_FINISHED →
          q' = dart__tasking__destroy_task E t q1 ∧ tr' = some none ∧ fl' = some 1)
      ∧ ((q1.tasks t).state ≠ DART_TASK_FINISHED →
          q' = q1 ∧ tr' = some (some t) ∧ fl' = some 0) := by
  unfold dart__tasking__task_test at h
  simp only [hd, if_false] at h
  by_cases hs : q.num_threads = 1 ∧ (q.tasks t).state ≠ DART_TASK_FINISHED
  · simp only [hs, ne_eq, not_false_eq_true, and_self, if_true, bind, Except.bind] at h
    cases hht : ht (next_task (dart_tasking_remote_progress E q)).1
        (next_task (dart_tasking_remote_progress E q)).2 with
    | error e => simp [hht] at h
    | ok q1 =>
      simp only [hht, pure, Except.pure] at h
      refine ⟨q1, Or.inr ⟨hs.1, hs.2, rfl⟩, ?_⟩
      by_cases hf : (q1.tasks t).state = DART_TASK_FINISHED
      · simp only [hf, if_true, Except.ok.injEq, Prod.mk.injEq] at h
        exact ⟨h.1.symm, fun _ => ⟨h.2.2.2.symm, h.2.1.symm, h.2.2.1.symm⟩,
          fun hn => absurd hf hn⟩
      · simp only [hf, if_false, Except.ok.injEq, Prod.mk.injEq] at h
        exact ⟨h.1.symm, fun hy => absurd hy hf,
          fun _ => ⟨h.2.2.2.symm, h.2.1.symm, h.2.2.1.symm⟩⟩
  · simp only [hs, if_false, bind, Except.bind, pure, Except.pure] at h
    refine ⟨q, Or.inl ⟨hs, rfl⟩, ?_⟩
    by_cases hf : (q.tasks t).state = DART_TASK_FINISHED
    · simp only [hf, if_true, Except.ok.injEq, Prod.mk.injEq] at h
      exact ⟨h.1.symm, fun _ => ⟨h.2.2.2.symm, h.2.1.symm, h.2.2.1.symm⟩,
        fun hn => absurd hf hn⟩
    · simp only [hf, if_false, Except.ok.injEq, Prod.mk.injEq] at h
      exact ⟨h.1.symm, fun hy => absurd hy hf,
        fun _ => ⟨h.2.2.2.symm, h.2.1.symm, h.2.2.1.symm⟩⟩

/-- A call of `dart__tasking__task_test` with an invalid argument changes
nothing. -/
theorem task_test_invalid (E : Collab D) (ht : Handler D) (tr tr' : Option (Option TaskPtr))
    (fl fl' : Option Int) (r : dart_ret_t) (q q' : Sched D)
    (hv : ∀ t f, tr = some (some t) → fl = some f → (q.tasks t).state = DART_TASK_DESTROYED)
    (h : dart__tasking__task_test E ht tr fl q = Except.ok (r, tr', fl', q')) :
    r = DART_ERR_INVAL ∧ q' = q ∧ tr' = tr := by
  unfold dart__tasking__task_test at h
  cases fl with
  | none =>
    simp only [pure, Except.pure, Except.ok.injEq, Prod.mk.injEq] at h
    exact ⟨h.1.symm, h.2.2.2.symm, h.2.1.symm⟩
  | some f =>
    cases tr with
    | none =>
      simp only [pure, Except.pure, Except.ok.injEq, Prod.mk.injEq] at h
      exact ⟨h.1.symm, h.2.2.2.symm, h.2.1.symm⟩
    | some hd =>
      cases hd with
      | none =>
        simp only [pure, Except.pure, Except.ok.injEq, Prod.mk.injEq] at h
        exact ⟨h.1.symm, h.2.2.2.symm, h.2.1.symm⟩
      | some t =>
        have hdes := hv t f rfl rfl
        simp only [hdes, if_true, pure, Except.pure, Except.ok.injEq, Prod.mk.injEq] at h
        exact ⟨h.1.symm, h.2.2.2.symm, h.2.1.symm⟩

/-- C29: in every state reached through public operations and worker steps,
from a state that meets the pool invariant and with collaborators and task
functions that keep it, the recycle list and the free-list are stacks of
records in state DESTROYED and no record occurs twice across the two lists.
Each of the four callers calls `dart__tasking__destroy_task` on a task that is
FINISHED in the very state it passes to the call.  A returning `handle_task`
ends with the retire step on the result of its run, release and notify steps;
the retire step marks the task FINISHED (`finished_entry`), logs that
assignment, and destroys the task in that state exactly when `has_ref` is
clear.  `dart__tasking__task_wait` returns DART_ERR_INVAL with nothing changed,
or destroys the task in the result of its wait loop, where the task is
FINISHED.  `dart__tasking__task_test` destroys the task exactly when it is
FINISHED in the state where its state was read last (the entry state or the
result of the single handler call), and otherwise adds nothing to that state.
`dart__tasking__taskref_free` destroys the task exactly when it is FINISHED and
referenced in the entry state.  A destroyed task is DESTROYED, hence not
FINISHED, and a FINISHED task is on neither list, so a destroyed record enters
the recycle list once. -/
theorem C29_pool_lists_hold_destroyed_records (E : Collab D) (F : FnTable D)
    (hE : collab_ok E) (hF : fn_ok F) (s s' : Sched D) (hinv : sched_inv s)
    (hreach : Relation.ReflTransGen (public_step E F) s s') :
    (∃ R Fl : List TaskPtr,
      is_stack s'.tasks s'.task_recycle_list R
      ∧ is_stack s'.tasks s'.task_free_list Fl
      ∧ (∀ k, stack_members s'.tasks k s'.task_recycle_list = R.take k)
      ∧ (∀ k, stack_members s'.tasks k s'.task_free_list = Fl.take k)
      ∧ (R ++ Fl).Nodup
      ∧ (∀ x ∈ R ++ Fl, (s'.tasks x).state = DART_TASK_DESTROYED)
      ∧ (∀ t, (s'.tasks t).state = DART_TASK_FINISHED →
          t ∉ R ++ Fl
          ∧ is_stack (dart__tasking__destroy_task E t s').tasks
              (dart__tasking__destroy_task E t s').task_recycle_list (t :: R)
          ∧ is_stack (dart__tasking__destroy_task E t s').tasks
              (dart__tasking__destroy_task E t s').task_free_list Fl
          ∧ (t :: R ++ Fl).Nodup))
    ∧ (∀ (n : Nat) (task : TaskPtr) (q q' : Sched D),
        handle_task E F (n + 1) (some task) q = Except.ok q' →
        ∃ s1 p, handle_task_run E F (handle_task E F n) n task q = Except.ok s1
          ∧ ((handle_task_release E s1).2.tasks s1.current_task).parent = some p
          ∧ q' = handle_task_retire E q.current_task s1.current_task
              (notified p (handle_task_release E s1).2))
    ∧ (∀ (cur task : TaskPtr) (q : Sched D),
        ((finished_entry task q).tasks task).state = DART_TASK_FINISHED
        ∧ ((finished_entry task q).tasks task).has_ref = (q.tasks task).has_ref
        ∧ (finished_entry task q).log
            = q.log ++ [Event.context_release task, Event.set_state task DART_TASK_FINISHED]
        ∧ ((q.tasks task).has_ref = false →
            handle_task_retire E cur task q
              = { dart__tasking__destroy_task E task (finished_entry task q) with
                  current_task := cur,
                  taskcntr := (finished_entry task q).taskcntr + 1 }
            ∧ (handle_task_retire E cur task q).log
                = q.log ++ [Event.context_release task,
                    Event.set_state task DART_TASK_FINISHED, Event.destroy task])
        ∧ ((q.tasks task).has_ref = true →
            handle_task_retire E cur task q
              = { finished_entry task q with
                  current_task := cur,
                  taskcntr := (finished_entry task q).taskcntr + 1 }
            ∧ (handle_task_retire E cur task q).log
                = q.log ++ [Event.context_release task,
                    Event.set_state task DART_TASK_FINISHED]))
    ∧ (∀ (ht : Handler D) (k : Nat) (tr tr' : Option (Option TaskPtr)) (r : dart_ret_t)
        (q q' : Sched D),
        dart__tasking__task_wait E ht k tr q = Except.ok (r, tr', q') →
        (r = DART_ERR_INVAL ∧ tr' = tr ∧ q' = q)
        ∨ ∃ t q1, tr = some (some t) ∧ r = DART_OK
            ∧ task_wait_loop E ht k t q = Except.ok q1
            ∧ (q1.tasks t).state = DART_TASK_FINISHED
            ∧ ((q1.store t { q1.tasks t with has_ref := false }).tasks t).state
                = DART_TASK_FINISHED
            ∧ q' = dart__tasking__destroy_task E t
                (q1.store t { q1.tasks t with has_ref := false }))
    ∧ (∀ (ht : Handler D) (tr tr' : Option (Option TaskPtr)) (fl fl' : Option Int)
        (r : dart_ret_t) (q q' : Sched D),
        dart__tasking__task_test E ht tr fl q = Except.ok (r, tr', fl', q') →
        (r = DART_ERR_INVAL ∧ tr' = tr ∧ q' = q)
        ∨ ∃ t q1, tr = some (some t) ∧ r = DART_OK
            ∧ ((¬ (q.num_threads = 1 ∧ (q.tasks t).state ≠ DART_TASK_FINISHED) ∧ q1 = q)
                ∨ (q.num_threads = 1 ∧ (q.tasks t).state ≠ DART_TASK_FINISHED
                    ∧ ht (next_task (dart_tasking_remote_progress E q)).1
                        (next_task (dart_tasking_remote_progress E q)).2 = Except.ok q1))
            ∧ ((q1.tasks t).state = DART_TASK_FINISHED →
                q' = dart__tasking__destroy_task E t q1 ∧ tr' = some none)
            ∧ ((q1.tasks t).state ≠ DART_TASK_FINISHED → q' = q1 ∧ tr' = tr))
    ∧ (∀ (tr : Option (Option TaskPtr)) (q : Sched D),
        (dart__tasking__taskref_free E tr q).2.2.log = q.log
        ∨ ∃ t, (q.tasks t).state = DART_TASK_FINISHED
            ∧ (dart__tasking__taskref_free E tr q).2.2 = dart__tasking__destroy_task E t q)
    ∧ (∀ (t : TaskPtr) (q : Sched D),
        ((dart__tasking__destroy_task E t q).tasks t).state = DART_TASK_DESTROYED
        ∧ ((dart__tasking__destroy_task E t q).tasks t).state ≠ DART_TASK_FINISHED
        ∧ (dart__tasking__destroy_task E t q).log = q.log ++ [Event.destroy t]) := by
  have hinv' := sched_inv_reach E F hE hF s s' hinv hreach
  refine ⟨?_, ?_, ?_, ?_, ?_, ?_, ?_⟩
  · obtain ⟨R, Fl, hR, hFl, hnd, hlt, hdead, hr1, hr2, hr3, hlog⟩ := hinv'
    refine ⟨R, Fl, hR, hFl, stack_members_take _ R _ hR, stack_members_take _ Fl _ hFl, hnd,
      fun x hx => (hdead x (Or.inl hx)).1, ?_⟩
    intro t hfin
    have hnot : t ∉ R ++ Fl := by
      intro h
      have := (hdead t (Or.inl h)).1
      rw [hfin] at this
      cases this
    have hother : ∀ x, x ≠ t → (dart__tasking__destroy_task E t s').tasks x = s'.tasks x := by
      intro x hx
      simp [dart__tasking__destroy_task, DART_STACK_PUSH, Function.update, hx]
    have hst : ∀ (head : Option TaskPtr) (l : List TaskPtr), t ∉ l →
        is_stack s'.tasks head l → is_stack (dart__tasking__destroy_task E t s').tasks head l := by
      intro head l hl hs
      refine is_stack_congr s'.tasks _ l head ?_ hs
      intro x hx
      rw [hother x (fun h => hl (h ▸ hx))]
    refine ⟨hnot, ?_, hst _ Fl (fun h => hnot (List.mem_append_right _ h)) hFl, ?_⟩
    · show is_stack (dart__tasking__destroy_task E t s').tasks (some t) (t :: R)
      refine ⟨rfl, ?_⟩
      have hn : ((dart__tasking__destroy_task E t s').tasks t).next = s'.task_recycle_list := by
        simp [dart__tasking__destroy_task, DART_STACK_PUSH, Function.update]
      rw [hn]
      exact hst _ R (fun h => hnot (List.mem_append_left _ h)) hR
    · rw [List.cons_append]
      exact List.nodup_cons.mpr ⟨hnot, hnd⟩
  · intro n task q q' h
    exact handle_task_ok_inv E F n task q q' h
  · intro cur task q
    refine ⟨?_, ?_, ?_, ?_, ?_⟩
    · simp [finished_entry, Sched.set_state, Sched.emit, Sched.store]
    · simp [finished_entry, Sched.set_state, Sched.emit, Sched.store]
    · simp [finished_entry, Sched.set_state, Sched.emit, Sched.store]
    · intro href
      constructor
      · unfold handle_task_retire finished_entry
        simp [Sched.emit, Sched.store, href]
        rfl
      · exact (retire_unreferenced E cur task q href).1
    · intro href
      constructor
      · unfold handle_task_retire finished_entry
        simp [Sched.emit, Sched.store, href]
      · exact (retire_referenced E cur task q href).1
  · intro ht k tr tr' r q q' h
    rcases task_wait_result E ht k tr tr' r q q' h with hok | hinval
    · subst hok
      obtain ⟨t, q1, htr, -, hloop, -, hq'⟩ := task_wait_ok E ht k tr tr' q q' h
      have hfin := task_wait_loop_exit E ht k t q q1 hloop
      refine Or.inr ⟨t, q1, htr, rfl, hloop, hfin, ?_, hq'⟩
      simp [Sched.store, hfin]
    · exact Or.inl hinval
  · intro ht tr tr' fl fl' r q q' h
    by_cases hv : ∀ t f, tr = some (some t) → fl = some f →
        (q.tasks t).state = DART_TASK_DESTROYED
    · obtain ⟨h1, h2, h3⟩ := task_test_invalid E ht tr tr' fl fl' r q q' hv h
      exact Or.inl ⟨h1, h3, h2⟩
    · simp only [not_forall] at hv
      obtain ⟨t, f, htr, hfl, hd⟩ := hv
      subst htr
      subst hfl
      obtain ⟨q1, hq1, hr, hyes, hno⟩ := task_test_valid E ht t f tr' fl' r q q' hd h
      refine Or.inr ⟨t, q1, rfl, hr, hq1, ?_, ?_⟩
      · intro hf
        exact ⟨(hyes hf).1, (hyes hf).2.1⟩
      · intro hf
        exact ⟨(hno hf).1, (hno hf).2.1⟩
  · intro tr q
    cases tr with
    | none => exact Or.inl rfl
    | some hd =>
      cases hd with
      | none => exact Or.inl rfl
      | some t =>
        by_cases hf : (q.tasks t).state = DART_TASK_FINISHED ∧ (q.tasks t).has_ref = true
        · right
          refine ⟨t, hf.1, ?_⟩
          simp [dart__tasking__taskref_free, hf]
        · left
          have he : dart__tasking__taskref_free E (some (some t)) q
              = (DART_OK, some (some t), q.store t { q.tasks t with has_ref := false }) := by
            unfold dart__tasking__taskref_free
            simp only []
            rw [if_neg hf]
          rw [he]
          rfl
  · intro t q
    have h1 : ((dart__tasking__destroy_task E t q).tasks t).state = DART_TASK_DESTROYED := by
      simp [dart__tasking__destroy_task, DART_STACK_PUSH, Function.update]
    refine ⟨h1, ?_, rfl⟩
    rw [h1]
    decide

/-- C29 on the demo application: after task 1 was created, executed and waited
for, the recycle list is the single DESTROYED record 1 and the free-list is
empty; the wait found task 1 FINISHED in the state the worker had left and
destroyed it in that state. -/
theorem C29_pool_lists_hold_destroyed_records_witness :
    collab_ok quietCollab ∧ fn_ok demoFns ∧ sched_inv (initial_sched 2)
    ∧ Relation.ReflTransGen (public_step quietCollab demoFns) (initial_sched 2)
        demo_worked_waited
    ∧ stack_members demo_worked_waited.tasks 4 demo_worked_waited.task_recycle_list = [1]
    ∧ stack_members demo_worked_waited.tasks 4 demo_worked_waited.task_free_list = []
    ∧ (∃ R Fl : List TaskPtr,
        is_stack demo_worked_waited.tasks demo_worked_waited.task_recycle_list R
        ∧ is_stack demo_worked_waited.tasks demo_worked_waited.task_free_list Fl
        ∧ (R ++ Fl).Nodup
        ∧ ∀ x ∈ R ++ Fl, (demo_worked_waited.tasks x).state = DART_TASK_DESTROYED)
    ∧ dart__tasking__task_wait quietCollab (handle_task quietCollab demoFns 3) 3
        (some (some 1)) demo_worked = Except.ok (DART_OK, some none, demo_worked_waited)
    ∧ (demo_worked.tasks 1).state = DART_TASK_FINISHED
    ∧ demo_worked_waited = dart__tasking__destroy_task quietCollab 1
        (demo_worked.store 1 { demo_worked.tasks 1 with has_ref := false }) := by
  have hall := C29_pool_lists_hold_destroyed_records quietCollab demoFns quietCollab_ok demoFns_ok
      (initial_sched 2) demo_worked_waited (initial_sched_inv 2) demo_reach
  obtain ⟨R, Fl, h1, h2, -, -, h5, h6, -⟩ := hall.1
  have hwait : dart__tasking__task_wait quietCollab (handle_task quietCollab demoFns 3) 3
      (some (some 1)) demo_worked = Except.ok (DART_OK, some none, demo_worked_waited) := rfl
  have hloop0 : task_wait_loop quietCollab (handle_task quietCollab demoFns 3) 3 1 demo_worked
      = Except.ok demo_worked := rfl
  refine ⟨quietCollab_ok, demoFns_ok, initial_sched_inv 2, demo_reach, by decide, by decide,
    ⟨R, Fl, h1, h2, h5, h6⟩, hwait, ?_, ?_⟩
  · rcases hall.2.2.2.1 _ 3 _ _ _ _ _ hwait with ⟨hr, -, -⟩ | ⟨t, q1, htr, -, hloop, hfin, -, -⟩
    · cases hr
    · have ht : t = 1 := (Option.some.inj (Option.some.inj htr)).symm
      subst ht
      rw [hloop0] at hloop
      rw [Except.ok.inj hloop]
      exact hfin
  · rcases hall.2.2.2.1 _ 3 _ _ _ _ _ hwait with ⟨hr, -, -⟩ | ⟨t, q1, htr, -, hloop, -, -, hq⟩
    · cases hr
    · have ht : t = 1 := (Option.some.inj (Option.some.inj htr)).symm
      subst ht
      rw [hloop0] at hloop
      rw [Except.ok.inj hloop]
      exact hq

/-! ## The root task and the cooperative yield -/

/-- C22 (the code at the failing input): in the build with USE_UCONTEXT a call
of `dart__tasking__yield` made while the root task is the current task, no
cancellation is requested and the Ready Queue holds a task `next` stores the
delay in the root task and marks the root task SUSPENDED before it switches to
`next` (RUNNING if `next` is the root task itself), and marks it RUNNING when
control is back: whenever the call returns, the state of the root task is
RUNNING and not ROOT. -/
theorem C22_ucontext_yield_overwrites_root_state (E : Collab D)
    (invoke : TaskPtr → Sched D → Res (Sched D)) (delay : Int) (s : Sched D)
    (next : TaskPtr) (rest : List TaskPtr)
    (hcur : dart__tasking__current_task s = root_task)
    (hc : s.cancel_requested = false)
    (hq : (dart_tasking_remote_progress E s).global_queue = next :: rest) :
    dart__tasking__yield_ucontext E invoke delay s
      = (invoke next (yield_switch_state next delay
            (next_task (dart_tasking_remote_progress E s)).2) >>= fun s5 =>
          pure (some DART_OK, yield_resume root_task s5))
    ∧ (next_task (dart_tasking_remote_progress E s)).2.current_task = root_task
    ∧ (next ≠ root_task →
        ((yield_switch_state next delay
          (next_task (dart_tasking_remote_progress E s)).2).tasks root_task).state
          = DART_TASK_SUSPENDED)
    ∧ ((yield_switch_state next delay
          (next_task (dart_tasking_remote_progress E s)).2).tasks root_task).state
        ≠ DART_TASK_ROOT
    ∧ (∀ r s', dart__tasking__yield_ucontext E invoke delay s = Except.ok (r, s') →
        r = some DART_OK
        ∧ (s'.tasks root_task).state = DART_TASK_RUNNING
        ∧ (s'.tasks root_task).state ≠ DART_TASK_ROOT) := by
  obtain ⟨-, f2, f3, -, -, -, -⟩ := enqueue_all_frame E (E.remote_progress s.deps).2
    { s with deps := (E.remote_progress s.deps).1 } hc
  have hrc : (dart_tasking_remote_progress E s).cancel_requested = false := f3
  have hrcur : (dart_tasking_remote_progress E s).current_task = root_task := f2.trans hcur
  have hnt := next_task_pop (dart_tasking_remote_progress E s) next rest hrc hq
  have hntc : (next_task (dart_tasking_remote_progress E s)).2.current_task = root_task := by
    rw [hnt]; exact hrcur
  have heq : dart__tasking__yield_ucontext E invoke delay s
      = (invoke next (yield_switch_state next delay
            (next_task (dart_tasking_remote_progress E s)).2) >>= fun s5 =>
          pure (some DART_OK, yield_resume root_task s5)) := by
    unfold dart__tasking__yield_ucontext
    simp only [dart__tasking__cancellation_requested, hrc, Bool.false_eq_true, if_false]
    rw [hntc]
    have h1 : (next_task (dart_tasking_remote_progress E s)).1 = some next := by rw [hnt]
    simp only [h1]
  have hsw : ∀ q : Sched D, q.current_task = root_task →
      (next ≠ root_task →
        ((yield_switch_state next delay q).tasks root_task).state = DART_TASK_SUSPENDED)
      ∧ ((yield_switch_state next delay q).tasks root_task).state ≠ DART_TASK_ROOT := by
    intro q hqc
    by_cases hn : next = root_task
    · refine ⟨fun h => absurd hn h, ?_⟩
      rw [hn]
      simp [yield_switch_state, Sched.set_state, Sched.emit, Sched.store]
    · have hn2 : root_task ≠ next := Ne.symm hn
      have : ((yield_switch_state next delay q).tasks root_task).state = DART_TASK_SUSPENDED := by
        simp [yield_switch_state, Sched.set_state, Sched.emit, Sched.store, Function.update,
          hqc, hn2]
      exact ⟨fun _ => this, by rw [this]; decide⟩
  refine ⟨heq, hntc, (hsw _ hntc).1, (hsw _ hntc).2, ?_⟩
  intro r s' h
  rw [heq] at h
  cases hi : invoke next (yield_switch_state next delay
      (next_task (dart_tasking_remote_progress E s)).2) with
  | error e => simp [hi, bind, Except.bind] at h
  | ok s5 =>
    simp only [hi, bind, Except.bind, pure, Except.pure, Except.ok.injEq, Prod.mk.injEq] at h
    have hst : ((yield_resume root_task s5).tasks root_task).state = DART_TASK_RUNNING := by
      simp [yield_resume, Sched.set_state, Sched.emit, Sched.store]
    rw [← h.2]
    exact ⟨h.1.symm, hst, by rw [hst]; decide⟩

/-- C22 on the demo scheduler: the root task has created task 1 and yields with
delay 0; the context engine is taken to return at once. -/
theorem C22_ucontext_yield_overwrites_root_state_witness :
    dart__tasking__current_task (demo_handle 2 0).2 = root_task
    ∧ ((demo_handle 2 0).2.tasks root_task).state = DART_TASK_ROOT
    ∧ (demo_handle 2 0).2.cancel_requested = false
    ∧ (dart_tasking_remote_progress demoCollab (demo_handle 2 0).2).global_queue = [1]
    ∧ ((yield_switch_state 1 0
          (next_task (dart_tasking_remote_progress demoCollab (demo_handle 2 0).2)).2).tasks
            root_task).state = DART_TASK_SUSPENDED
    ∧ (∃ s', dart__tasking__yield_ucontext demoCollab (fun _ q => pure q) 0 (demo_handle 2 0).2
          = Except.ok (some DART_OK, s')
        ∧ (s'.tasks root_task).state = DART_TASK_RUNNING) := by
  have h := C22_ucontext_yield_overwrites_root_state demoCollab (fun _ q => pure q) 0
    (demo_handle 2 0).2 1 [] rfl rfl rfl
  refine ⟨rfl, by decide, rfl, rfl, h.2.2.1 (by decide), ?_⟩
  have hr : dart__tasking__yield_ucontext demoCollab (fun _ q => pure q) 0 (demo_handle 2 0).2
      = Except.ok (some DART_OK,
          yield_resume root_task (yield_switch_state 1 0
            (next_task (dart_tasking_remote_progress demoCollab (demo_handle 2 0).2)).2)) := by
    rw [h.1]; rfl
  exact ⟨_, hr, (h.2.2.2.2 _ _ hr).2.1⟩

end Dart
